import Mathlib

/-!
# OpenLandMesh: data textures, GPU parameters, cache keys and the LOD orchestrator

A shallow embedding of
* `Private/Compute/Types/DataTexture.cpp` (`FDataTexture`),
* `Public/API/OpenLandMeshActor.h` and `Private/API/OpenLandMeshActor.cpp`
  (`FLODInfo`, `AOpenLandMeshActor`),
* `Public/Core/OpenLandPolygonMesh.h` (build options, build results, modify status).

Conventions.
* `int32` values are `Int`; where a product can leave the `int32` range it is wrapped
  with `wrapInt32`.
* `uint8` values are `Nat`, reduced modulo 256 when stored.
* A `float` that is only stored and reinterpreted (`FDataTexture::SetFloatValue`) is its
  32-bit pattern, a `Nat`. A `float` that takes part in arithmetic is a `Float32`, an
  IEEE 754 binary32 value: every operation rounds its exact result to nearest, ties to
  even, and a product and a difference are rounded one after the other, not fused. The
  viewer distance and `LODStepPower`, floats the actor is handed, are finite and are
  given by their rational value.
* Shared pointers are indices into explicit stores; `none` is `nullptr`.
* An operation that would dereference `nullptr` or index outside an array yields `none`.
-/

namespace OpenLandMesh

/-! ## Machine integers -/

/-- The value an `int32` holds after two's-complement wrap-around of the exact result `x`. -/
def wrapInt32 (x : Int) : Int := (x + 2147483648) % 4294967296 - 2147483648

/-! ## FDataTexture -/

/-- The CPU side of `FDataTexture`: the width and the `uint8` buffer `SourceData`.
The transient `UTexture2D` and its update region are GPU resources and carry no
information about the buffer, so they are left out. -/
structure FDataTexture where
  TextureWidth : Int
  SourceData : List Nat
deriving DecidableEq, Repr

/-- Byte `k` of the object representation of a `float` with bit pattern `Value`, as
`reinterpret_cast<uint8*>(&Value)[k]` reads it on a little-endian host (every platform
the plugin builds for): byte 0 is the least significant one. -/
def ValueBytes (Value : Nat) (k : Nat) : Nat := Value / 256 ^ k % 256

namespace FDataTexture

/-- `FDataTexture::SetPixelValue`: the four channel bytes go to `SourceData + Index * 4`
in the order B, G, R, A. A write outside the buffer is undefined behaviour: `none`. -/
def SetPixelValue (t : FDataTexture) (Index : Int) (R G B A : Nat) : Option FDataTexture :=
  if 0 ≤ Index ∧ (Index * 4).toNat + 3 < t.SourceData.length then
    let p := (Index * 4).toNat
    let d0 := t.SourceData.set p (B % 256)
    let d1 := d0.set (p + 1) (G % 256)
    let d2 := d1.set (p + 2) (R % 256)
    some { t with SourceData := d2.set (p + 3) (A % 256) }
  else none

/-- `FDataTexture::SetFloatValue`: the four bytes of the float are passed as R, G, B, A. -/
def SetFloatValue (t : FDataTexture) (Index : Int) (Value : Nat) : Option FDataTexture :=
  t.SetPixelValue Index (ValueBytes Value 0) (ValueBytes Value 1) (ValueBytes Value 2)
    (ValueBytes Value 3)

/-- The body of the loop of `FDataTexture::Reset`, run for the `n` remaining iterations
starting at `Index`. -/
def ResetLoop : Nat → Int → FDataTexture → Option FDataTexture
  | 0, _, t => some t
  | n + 1, Index, t => (t.SetPixelValue Index 0 0 0 0).bind (ResetLoop n (Index + 1))

/-- `FDataTexture::Reset`: `for (Index = 0; Index < TextureWidth * TextureWidth; Index++)`
clears texel `Index`. `UpdateTexture` uploads the buffer and does not change it. -/
def Reset (t : FDataTexture) : Option FDataTexture :=
  ResetLoop (wrapInt32 (t.TextureWidth * t.TextureWidth)).toNat 0 t

/-- `FDataTexture::FDataTexture(int Width)`. `new uint8[BufferSize]` returns
uninitialised memory: byte `i` of it is `raw i % 256` for an arbitrary `raw`.
A negative `BufferSize` makes the allocation fail: `none`. -/
def create (Width : Int) (raw : Nat → Nat) : Option FDataTexture :=
  let BufferSize := wrapInt32 (wrapInt32 (Width * Width) * 4)
  if BufferSize < 0 then none
  else Reset
    { TextureWidth := Width
      SourceData := (List.range BufferSize.toNat).map (fun i => raw i % 256) }

/-- A run of `SetFloatValue` calls, one per `(Index, Value)` pair, in order. -/
def SetFloatValues : List (Int × Nat) → FDataTexture → Option FDataTexture
  | [], t => some t
  | (Index, Value) :: rest, t => (t.SetFloatValue Index Value).bind (SetFloatValues rest)

/-- The 32-bit pattern obtained by reading buffer offsets `4 * Index .. 4 * Index + 3`
as a little-endian word (offset `4 * Index` least significant), as the specification
describes the decoding. -/
def decodeLittleEndian (t : FDataTexture) (Index : Nat) : Nat :=
  t.SourceData.getD (4 * Index) 0 + 256 * t.SourceData.getD (4 * Index + 1) 0
    + 65536 * t.SourceData.getD (4 * Index + 2) 0
    + 16777216 * t.SourceData.getD (4 * Index + 3) 0

/-- The 32-bit pattern obtained from the channels of texel `Index` taken in the order
R, G, B, A, where (as `SetPixelValue` lays them out) B is at offset `4 * Index`, G at
`+1`, R at `+2` and A at `+3`. -/
def decodeChannels (t : FDataTexture) (Index : Nat) : Nat :=
  t.SourceData.getD (4 * Index + 2) 0 + 256 * t.SourceData.getD (4 * Index + 1) 0
    + 65536 * t.SourceData.getD (4 * Index) 0
    + 16777216 * t.SourceData.getD (4 * Index + 3) 0

/-- The buffer after `SetPixelValue` on an in-range texel. -/
def pixelWritten (d : List Nat) (i R G B A : Nat) : List Nat :=
  (((d.set (4 * i) (B % 256)).set (4 * i + 1) (G % 256)).set (4 * i + 2) (R % 256)).set
    (4 * i + 3) (A % 256)

end FDataTexture

/-! ## GPU parameter list (Compute/Types/ComputeMaterial.h) -/

/-- An `FName`: names are interned, and two names are equal exactly when their
comparison indices are. -/
structure FName where
  ComparisonIndex : Nat
deriving DecidableEq, Repr

/-- An `FVector` with idealised components. -/
structure FVector where
  X : ℚ
  Y : ℚ
  Z : ℚ
deriving DecidableEq, Repr

/-- `FVector::ZeroVector`. -/
def FVector.ZeroVector : FVector := ⟨0, 0, 0⟩

/-- Modelled from the spec: the enumeration `EComputeMaterialParameterType` of
`Compute/Types/ComputeMaterial.h`, which is not among the sources; a parameter is of
scalar, vector or texture kind. -/
inductive EComputeMaterialParameterType where
  | CMPT_SCALAR
  | CMPT_VECTOR
  | CMPT_TEXTURE
deriving DecidableEq, Repr

/-- Modelled from the spec: the struct `FComputeMaterialParameter` of
`Compute/Types/ComputeMaterial.h`, which is not among the sources. The member order
(name, kind, scalar, vector, texture) is the one the aggregate initialisers of
`SetGPUScalarParameter`, `SetGPUVectorParameter` and `SetGPUTextureParameter` rely on;
members an initialiser leaves out are zero. A texture is a pointer, `none` for
`nullptr`. -/
structure FComputeMaterialParameter where
  Name : FName
  ValueType : EComputeMaterialParameterType
  ScalarValue : ℚ := 0
  VectorValue : FVector := FVector.ZeroVector
  TextureValue : Option Nat := none
deriving DecidableEq, Repr

/-- Modelled from the spec: the struct `FComputeMaterial` of
`Compute/Types/ComputeMaterial.h`: a GPU program reference and the ordered parameter
list. The value-initialised `{}` is `FComputeMaterial.empty`. -/
structure FComputeMaterial where
  Material : Option Nat := none
  Parameters : List FComputeMaterialParameter := []
deriving DecidableEq, Repr

/-- The value-initialised `FComputeMaterial`, written `{}` in the source. -/
def FComputeMaterial.empty : FComputeMaterial := {}

/-- The range-`for` loop shared by the three setters: the first entry whose name equals
`Name` is updated by `assign` and the function returns (`some` of the new list); `none`
when the loop runs to its end without finding the name. -/
def assignFirst (assign : FComputeMaterialParameter → FComputeMaterialParameter)
    (Name : FName) : List FComputeMaterialParameter → Option (List FComputeMaterialParameter)
  | [] => none
  | Param :: rest =>
    if Param.Name = Name then some (assign Param :: rest)
    else (assignFirst assign Name rest).map (fun rest' => Param :: rest')

/-- The range-`for` loop shared by the three getters: the first entry whose name equals
`Name`, if there is one. -/
def firstNamed (Name : FName) : List FComputeMaterialParameter → Option FComputeMaterialParameter
  | [] => none
  | Param :: rest => if Param.Name = Name then some Param else firstNamed Name rest

namespace FComputeMaterial

/-- The body of `AOpenLandMeshActor::SetGPUScalarParameter` on `GpuVertexModifier`. -/
def SetGPUScalarParameter (m : FComputeMaterial) (Name : FName) (Value : ℚ) : FComputeMaterial :=
  match assignFirst (fun Param => { Param with ScalarValue := Value }) Name m.Parameters with
  | some updated => { m with Parameters := updated }
  | none => { m with Parameters := m.Parameters ++
      [{ Name := Name, ValueType := .CMPT_SCALAR, ScalarValue := Value }] }

/-- The body of `AOpenLandMeshActor::GetGPUScalarParameter` on `GpuVertexModifier`. -/
def GetGPUScalarParameter (m : FComputeMaterial) (Name : FName) : ℚ :=
  match firstNamed Name m.Parameters with
  | some Param => Param.ScalarValue
  | none => 0

/-- The body of `AOpenLandMeshActor::SetGPUVectorParameter` on `GpuVertexModifier`. -/
def SetGPUVectorParameter (m : FComputeMaterial) (Name : FName) (Value : FVector) :
    FComputeMaterial :=
  match assignFirst (fun Param => { Param with VectorValue := Value }) Name m.Parameters with
  | some updated => { m with Parameters := updated }
  | none => { m with Parameters := m.Parameters ++
      [{ Name := Name, ValueType := .CMPT_VECTOR, ScalarValue := 0, VectorValue := Value }] }

/-- The body of `AOpenLandMeshActor::GetGPUVectorParameter` on `GpuVertexModifier`. -/
def GetGPUVectorParameter (m : FComputeMaterial) (Name : FName) : FVector :=
  match firstNamed Name m.Parameters with
  | some Param => Param.VectorValue
  | none => FVector.ZeroVector

/-- The body of `AOpenLandMeshActor::SetGPUTextureParameter` on `GpuVertexModifier`.
The pushed entry carries the kind `CMPT_VECTOR`, as in the source. -/
def SetGPUTextureParameter (m : FComputeMaterial) (Name : FName) (Value : Option Nat) :
    FComputeMaterial :=
  match assignFirst (fun Param => { Param with TextureValue := Value }) Name m.Parameters with
  | some updated => { m with Parameters := updated }
  | none => { m with Parameters := m.Parameters ++
      [{ Name := Name, ValueType := .CMPT_VECTOR, ScalarValue := 0,
         VectorValue := FVector.ZeroVector, TextureValue := Value }] }

/-- The body of `AOpenLandMeshActor::GetGPUTextureParameter` on `GpuVertexModifier`. -/
def GetGPUTextureParameter (m : FComputeMaterial) (Name : FName) : Option Nat :=
  match firstNamed Name m.Parameters with
  | some Param => Param.TextureValue
  | none => none

end FComputeMaterial

/-! ## Cache keys -/

/-- `FString::FromInt`: the decimal digits, with a leading minus sign for a negative
number. -/
def FromInt (n : Int) : String :=
  if n < 0 then "-" ++ Nat.repr n.natAbs else Nat.repr n.toNat

/-- `AOpenLandMeshActor::MakeCacheKey`, with the result of the overridable hook
`GetCacheKey()` as `SourceCacheKey`. -/
def MakeCacheKey (SourceCacheKey : String) (SubDivisions : Int) (CurrentSubdivisions : Int) :
    String :=
  if SourceCacheKey.isEmpty then ""
  else SourceCacheKey ++ "::" ++ FromInt SubDivisions ++ "::" ++ FromInt CurrentSubdivisions

/-! ## Floats (IEEE 754 binary32) -/

/-- The number of binary digits of `n` less one, that is the floor of its binary
logarithm (0 for `n = 0`); `fuel` bounds the number of halvings. -/
def bitLogLoop : Nat → Nat → Nat
  | 0, _ => 0
  | fuel + 1, n => if n < 2 then 0 else bitLogLoop fuel (n / 2) + 1

/-- The floor of the binary logarithm of `n` (0 for `n = 0`). -/
def bitLog (n : Nat) : Nat := bitLogLoop n n

/-- The power `2 ^ e` for an integer exponent. -/
def pow2 (e : Int) : ℚ :=
  if 0 ≤ e then ((2 ^ e.toNat : Nat) : ℚ) else (((2 ^ (-e).toNat : Nat) : ℚ))⁻¹

/-- The floor of the binary logarithm of a positive rational `a`. -/
def ratLog (a : ℚ) : Int :=
  let k : Int := (bitLog a.num.natAbs : Int) - (bitLog a.den : Int)
  if pow2 k ≤ a then k else k - 1

/-- The integer nearest to `x`, the even one of the two when `x` lies halfway. -/
def roundHalfEven (x : ℚ) : Int :=
  if x - ⌊x⌋ < 1 / 2 then ⌊x⌋
  else if 1 / 2 < x - ⌊x⌋ then ⌊x⌋ + 1
  else if ⌊x⌋ % 2 = 0 then ⌊x⌋ else ⌊x⌋ + 1

/-- A positive rational `a` rounded to 24 significant binary digits with exponent at least
that of the subnormal numbers, to nearest, ties to even; the exponent is not bounded from
above. -/
def roundMagnitude (a : ℚ) : ℚ :=
  (roundHalfEven (a / pow2 (max (ratLog a - 23) (-149))) : ℚ) * pow2 (max (ratLog a - 23) (-149))

/-- A value of the type `float` (IEEE 754 binary32): a finite number, an infinity or a
NaN. The sign of a zero and the payload of a NaN are not kept; none of the operations the
actor uses tells them apart. A finite float is given by its value: every operation below
returns a value of the format, and a float that comes from outside (a viewer distance,
`LODStepPower`) may be any rational, of which the values of the format are a part. -/
inductive Float32 where
  | finite (value : ℚ)
  | infinite (positive : Bool)
  | nan
deriving DecidableEq, Repr

namespace Float32

/-- The `float` nearest to the rational `q` (round to nearest, ties to even, the rounding
of every `float` operation): an infinity when the rounded magnitude reaches `2 ^ 128`. -/
def round (q : ℚ) : Float32 :=
  if q = 0 then finite 0
  else if pow2 128 ≤ roundMagnitude |q| then infinite (decide (0 < q))
  else finite (if q < 0 then -roundMagnitude |q| else roundMagnitude |q|)

/-- The conversion of an `int32` to `float`. -/
def ofInt (n : Int) : Float32 := round n

/-- The product of two floats. -/
def mul : Float32 → Float32 → Float32
  | finite a, finite b => round (a * b)
  | finite a, infinite p => if a = 0 then nan else infinite (p == decide (0 < a))
  | infinite p, finite b => if b = 0 then nan else infinite (p == decide (0 < b))
  | infinite p, infinite q => infinite (p == q)
  | _, _ => nan

/-- The difference of two floats. -/
def sub : Float32 → Float32 → Float32
  | finite a, finite b => round (a - b)
  | finite _, infinite p => infinite (!p)
  | infinite p, finite _ => infinite p
  | infinite p, infinite q => if p = q then nan else infinite p
  | _, _ => nan

/-- The comparison `x <= 0`, which is false for a NaN. -/
def leZero : Float32 → Bool
  | finite a => decide (a ≤ 0)
  | infinite p => !p
  | nan => false

/-- The comparison `x <= y` of two floats, false when one of them is a NaN. -/
def le : Float32 → Float32 → Prop
  | finite a, finite b => a ≤ b
  | finite _, infinite p => p = true
  | infinite p, finite _ => p = false
  | infinite p, infinite q => p = false ∨ q = true
  | _, _ => False

/-- The integer square root of `M`, digit by digit: `r` is the root found so far and
`bits` binary digits remain to be tried. -/
def isqrtLoop : Nat → Nat → Nat → Nat
  | 0, _, r => r
  | bits + 1, M, r =>
    if (r + 2 ^ bits) * (r + 2 ^ bits) ≤ M then isqrtLoop bits M (r + 2 ^ bits)
    else isqrtLoop bits M r

/-- The square root of a float, correctly rounded (IEEE 754 `sqrt`): the argument is
scaled by a power of 4 into `[2 ^ 46, 2 ^ 48)`, whose root has 24 binary digits before
the point. -/
def sqrt : Float32 → Float32
  | finite q =>
    if q < 0 then nan
    else if q = 0 then finite 0
    else
      let k : Int := 23 - ratLog q / 2
      let M : ℚ := q * pow2 (2 * k)
      let s : Nat := isqrtLoop 24 ⌊M⌋.toNat 0
      let up : Bool := decide (((s : ℚ) + 1 / 2) * ((s : ℚ) + 1 / 2) < M)
        || (decide (((s : ℚ) + 1 / 2) * ((s : ℚ) + 1 / 2) = M) && decide (s % 2 = 1))
      finite (((if up then s + 1 else s : Nat) : ℚ) * pow2 (-k))
  | infinite true => infinite true
  | _ => nan

/-- `FMath::CeilToInt`: the least integer not below the float, as an `int32`; for a NaN,
an infinity or a value outside the `int32` range the conversion is not defined by the
language and yields what the platform does, `Invalid`. -/
def ceilToInt (Invalid : Int) : Float32 → Int
  | finite q => if -2147483648 ≤ ⌈q⌉ ∧ ⌈q⌉ ≤ 2147483647 then ⌈q⌉ else Invalid
  | _ => Invalid

/-- The power function `powf` of the C library, which `FMath::Pow` calls, at a finite
base and an exponent that is a non-negative whole number (the actor passes a tier
index): the correctly rounded power, which is the exact power whenever that is a float.
At other arguments, which no definition here passes, a NaN stands for the result. -/
def pow : Float32 → Float32 → Float32
  | finite x, finite y => if y.den = 1 ∧ 0 ≤ y.num then round (x ^ y.num.toNat) else nan
  | _, _ => nan

/-- The float `r1` is at most the float `r2`, or `r2` is a NaN. -/
def Below (r1 r2 : Float32) : Prop := r2 = nan ∨ r1.le r2

end Float32

/-! ## The distance walk of SwitchLODs -/

/-- The float `LODStepUnits * FMath::Pow(LODStepPower, LODIndex)`: the `int32` operands
are converted to `float`, `Pow` is the power function of the platform and the product is
rounded. -/
def stepSize (Pow : Float32 → Float32 → Float32) (LODStepUnits : Int) (LODStepPower : ℚ)
    (LODIndex : Nat) : Float32 :=
  (Float32.ofInt LODStepUnits).mul (Pow (.finite LODStepPower) (Float32.ofInt LODIndex))

/-- The `for` loop of `AOpenLandMeshActor::SwitchLODs` with `n` iterations left, about to
run the iteration for `LODIndex`: that iteration sets `DesiredLOD = LODIndex`, subtracts
`LODStepUnits * Pow(LODStepPower, LODIndex)` from `RemainingDistance` in `float`
arithmetic and breaks when the remainder is `<= 0`. The value is `DesiredLOD` after the
loop. -/
def distanceWalk (Pow : Float32 → Float32 → Float32) (LODStepUnits : Int) (LODStepPower : ℚ) :
    Nat → Nat → Int → Float32 → Int
  | 0, _, DesiredLOD, _ => DesiredLOD
  | n + 1, LODIndex, _, RemainingDistance =>
    if (RemainingDistance.sub (stepSize Pow LODStepUnits LODStepPower LODIndex)).leZero then
      (LODIndex : Int)
    else distanceWalk Pow LODStepUnits LODStepPower n (LODIndex + 1) (LODIndex : Int)
      (RemainingDistance.sub (stepSize Pow LODStepUnits LODStepPower LODIndex))

/-- The tier the distance walk of `SwitchLODs` selects for the viewer distance
`Distance`: `DesiredLOD` starts at 0 and the loop runs for
`LODIndex = 0 .. MaximumLODCount - 1`. -/
def distanceLOD (Pow : Float32 → Float32 → Float32) (MaximumLODCount LODStepUnits : Int)
    (LODStepPower Distance : ℚ) : Int :=
  distanceWalk Pow LODStepUnits LODStepPower MaximumLODCount.toNat 0 0 (.finite Distance)

/-- The value of `RemainingDistance` in the walk for the distance `d` once the steps of
the tiers below `i` have been subtracted, if the walk gets that far. -/
def remainingDistance (Pow : Float32 → Float32 → Float32) (u : Int) (p d : ℚ) :
    Nat → Float32
  | 0 => .finite d
  | i + 1 => (remainingDistance Pow u p d i).sub (stepSize Pow u p i)

/-- The cumulative threshold of tier `k` in the words of the specification: the sum over
`i <= k` of `LODStepUnits * LODStepPower ^ i`. -/
def cumulativeThreshold (LODStepUnits : Int) (LODStepPower : ℚ) (k : Nat) : ℚ :=
  ∑ i in Finset.range (k + 1), (LODStepUnits : ℚ) * LODStepPower ^ i

/-! ## Types of Core/OpenLandPolygonMesh.h -/

/-- `FOpenLandPolygonMeshBuildOptions`. -/
structure FOpenLandPolygonMeshBuildOptions where
  SubDivisions : Int := 0
  CuspAngle : ℚ := 0
  ForcedTextureWidth : Int := 0
deriving DecidableEq, Repr

/-- `FOpenLandPolygonMeshModifyOptions`. -/
structure FOpenLandPolygonMeshModifyOptions where
  RealTimeSeconds : ℚ := 0
  CuspAngle : ℚ := 0
  DesiredFrameRate : ℚ := 110
  LastFrameTime : ℚ := 0
deriving DecidableEq, Repr

/-- `FOpenLandPolygonMeshModifyStatus`; the value-initialised `{}` is the default. -/
structure FOpenLandPolygonMeshModifyStatus where
  bStarted : Bool := false
  bGpuTasksCompleted : Bool := false
  bCompleted : Bool := false
  bAborted : Bool := false
deriving DecidableEq, Repr

/-- `FOpenLandPolygonMeshModifyStatus::IsRunning`. -/
def FOpenLandPolygonMeshModifyStatus.IsRunning (s : FOpenLandPolygonMeshModifyStatus) : Bool :=
  if s.bCompleted || s.bAborted || !s.bStarted then false else true

/-- Modelled from the spec: `FSimpleMeshInfo` of `Types/OpenLandMeshInfo.h`, which is not
among the sources. Only what the actor reads or writes is kept: the two section flags,
the lock that `IsLocked()` reports, and `Geometry`, which stands for the vertex and
triangle arrays. -/
structure FSimpleMeshInfo where
  bSectionVisible : Bool := true
  bEnableCollision : Bool := false
  bLocked : Bool := false
  Geometry : Nat := 0
deriving DecidableEq, Repr

/-- `FOpenLandPolygonMeshBuildResult`. `Original` and `Target` are shared pointers into
the mesh store. -/
structure FOpenLandPolygonMeshBuildResult where
  Original : Option Nat := none
  Target : Option Nat := none
  SubDivisions : Int := 0
  TextureWidth : Int := 0
  DataTextures : List Nat := []
  CacheKey : String := ""
deriving DecidableEq, Repr

/-! ## Types of API/OpenLandMeshActor.h -/

/-- `EOpenLandMeshVisibility`. -/
inductive EOpenLandMeshVisibility where
  | MV_SHOW_ALWAYS
  | MV_HIDE_ALWAYS
  | MV_HIDE_IN_GAME
  | MV_HIDE_IN_EDITOR
deriving DecidableEq, Repr

/-- `FLODInfo`. `MeshBuildResult` is a shared pointer into the result store. -/
structure FLODInfo where
  MeshBuildResult : Option Nat := none
  MeshSectionIndex : Int := 0
  LODIndex : Int := 0
  bIsModifyReady : Bool := false
deriving DecidableEq, Repr

/-- `FSwitchLODsStatus`. -/
structure FSwitchLODsStatus where
  bNeedLODVisibilityChange : Bool := false
  bAsyncBuildStarted : Bool := false
deriving DecidableEq, Repr

/-- The values of `EWorldType` the actor tells apart; `Game` stands for every other
world type. -/
inductive EWorldType where
  | Editor
  | EditorPreview
  | Game
deriving DecidableEq, Repr

/-- What the actor reads from `UWorld`. `ViewDistances` holds, for each entry of
`ViewLocationsRenderedLastFrame`, its `FVector::Distance` to `GetActorLocation()`. -/
structure UWorld where
  WorldType : EWorldType := .Game
  ViewDistances : List ℚ := []
  RealTimeSeconds : ℚ := 0
deriving DecidableEq, Repr

/-- What a build of the polygon-mesh proxy hands back: a result that is already in the
store (`Shared`, for instance the entry of the build cache) or a newly made one
(`Fresh`): its original mesh, its target mesh if it has one, and the other members of
the result (the two pointer members of `Result` are replaced by the new meshes). -/
inductive FBuildAnswer where
  | Shared (Result : Nat)
  | Fresh (Original : FSimpleMeshInfo) (Target : Option FSimpleMeshInfo)
      (Result : FOpenLandPolygonMeshBuildResult)
deriving DecidableEq, Repr

/-- A call the actor makes on one of its collaborators (the polygon-mesh proxy, the mesh
component, the instancing controller) or on one of its own overridable hooks, with the
arguments that matter. -/
inductive Event where
  | UpdateTransforms
  | RegisterVertexModifier (bCallback : Bool)
  | RegisterGpuVertexModifier (ComputeMaterial : FComputeMaterial)
  | BuildMesh (Options : FOpenLandPolygonMeshBuildOptions) (CacheKey : String)
  | BuildMeshAsync (LODIndex : Int) (Options : FOpenLandPolygonMeshBuildOptions)
      (CacheKey : String)
  | ModifyVertices (MeshBuildResult : Option Nat) (Options : FOpenLandPolygonMeshModifyOptions)
  | StartModifyVertices (MeshBuildResult : Option Nat)
      (Options : FOpenLandPolygonMeshModifyOptions)
      (Returned : FOpenLandPolygonMeshModifyStatus)
  | CheckModifyVerticesStatus (MeshBuildResult : Option Nat) (LastFrameTime : ℚ)
      (Returned : FOpenLandPolygonMeshModifyStatus)
  | ClearCache
  | CreateMeshSection (SectionIndex : Int) (Target : Option Nat)
  | ReplaceMeshSection (SectionIndex : Int) (Target : Option Nat)
  | UpdateMeshSection (SectionIndex : Int)
  | UpdateMeshSectionVisibility (SectionIndex : Int)
  | RemoveAllSections
  | InvalidateRendering
  | SetupCollisions (bUseAsyncCooking : Bool)
  | SetSectionMaterial (SectionIndex : Int)
  | OnAfterAnimations
  | CreateInstances
  | UnregisterInstances
deriving DecidableEq, Repr

/-- What a call receives from outside the actor. -/
structure Env where
  /-- The result of `GetWorld()`. -/
  World : Option UWorld := some {}
  /-- The result of the hook `GetPolygonMesh()`. -/
  GetPolygonMesh : Option Nat := none
  /-- The object `NewObject<UOpenLandMeshPolygonMeshProxy>()` creates. -/
  NewPolygonMesh : Nat := 0
  /-- The result of the hook `GetCacheKey()`. -/
  GetCacheKey : String := ""
  /-- The function `CalculateVerticesForSubdivision` of the proxy. -/
  CalculateVerticesForSubdivision : Int → Int := fun _ => 0
  /-- What `PolygonMesh->BuildMesh` returns for the tier being built. -/
  BuildMeshAnswer : Int → FBuildAnswer := fun _ => .Fresh {} (some {}) {}
  /-- What a `StartModifyVertices` call made during this call returns. -/
  StartStatus : FOpenLandPolygonMeshModifyStatus := {}
  /-- What a `CheckModifyVerticesStatus` call made during this call returns. -/
  CheckStatus : FOpenLandPolygonMeshModifyStatus := {}
  /-- The target mesh a modify pass installs on a build result that has none
  (`none`: it installs nothing). -/
  ModifiedTarget : Option FSimpleMeshInfo := none
  /-- The result of `HasAnyFlags(RF_Transient)`. -/
  bTransient : Bool := false
  /-- The function `FMath::Pow` on floats, `powf` of the platform. -/
  Pow : Float32 → Float32 → Float32 := Float32.pow
  /-- The value of `FMath::CeilToInt` at a NaN, which the platform fixes: the language
  leaves the conversion of a NaN to `int32` undefined. -/
  CeilToIntOfNaN : Int := -2147483648

/-- The actor `AOpenLandMeshActor` together with the objects it points to (the three
stores) and the mesh component it owns. `LODList` and `CurrentLOD` point into `LODs`,
an `FLODInfo::MeshBuildResult` into `Results`, `Original` and `Target` into `Meshes`;
`Sections` holds, for each section of the mesh component, the mesh it renders; `Calls`
is the sequence of calls made so far, oldest first. -/
structure AOpenLandMeshActor where
  bMeshGenerated : Bool := false
  bNeedToAsyncModifyMesh : Bool := false
  ModifyStatus : FOpenLandPolygonMeshModifyStatus := {}
  LODList : List (Option Nat) := []
  CurrentLOD : Option Nat := none
  bNeedLODVisibilityChange : Bool := false
  AsyncBuildingLODIndex : Int := -1
  PolygonMesh : Option Nat := none
  SubDivisions : Int := 0
  SmoothNormalAngle : ℚ := 0
  bRunCpuVertexModifiers : Bool := false
  GpuVertexModifier : FComputeMaterial := {}
  bRunGpuVertexModifiers : Bool := false
  bAnimate : Bool := false
  bDisableGPUVertexModifiersOnAnimate : Bool := false
  bUseAsyncBuildMeshOnGame : Bool := false
  bEnableCollision : Bool := true
  bUseAsyncCollisionCooking : Bool := true
  bUseAsyncAnimations : Bool := true
  DesiredFrameRateOnModify : Int := 60
  MeshVisibility : EOpenLandMeshVisibility := .MV_SHOW_ALWAYS
  CurrentLODIndex : Int := 0
  MaximumLODCount : Int := 1
  LODStepUnits : Int := 3000
  LODStepPower : ℚ := 3 / 2
  LODIndexForCollisions : Int := -1
  InstancingGroups : List Int := []
  bRunInstancingAfterBuildMesh : Bool := true
  LODs : List FLODInfo := []
  Results : List FOpenLandPolygonMeshBuildResult := []
  Meshes : List FSimpleMeshInfo := []
  Sections : List (Option Nat) := []
  Calls : List Event := []
deriving DecidableEq, Repr

/-- The result of running a piece of the actor's code: it ran to its end with a value
and a new state, or it stopped at a null dereference or an out-of-range array access,
in the state reached by then. -/
inductive Outcome (α : Type) where
  | ok (value : α) (next : AOpenLandMeshActor)
  | crash (last : AOpenLandMeshActor)

/-- The state an outcome ends in. -/
def Outcome.state {α : Type} : Outcome α → AOpenLandMeshActor
  | .ok _ s => s
  | .crash s => s

/-- Whether the code ran to its end. -/
def Outcome.isOk {α : Type} : Outcome α → Bool
  | .ok _ _ => true
  | .crash _ => false

/-- A piece of the actor's code: a function from the state before to the outcome. -/
def Op (α : Type) : Type := AOpenLandMeshActor → Outcome α

namespace Op

/-- Run the code from state `s`. -/
def run {α : Type} (m : Op α) (s : AOpenLandMeshActor) : Outcome α := m s

/-- Code that does nothing and has the value `x`. -/
def ret {α : Type} (x : α) : Op α := fun s => .ok x s

/-- Sequencing: a crash of the first part ends the whole. -/
def andThen {α β : Type} (m : Op α) (f : α → Op β) : Op β := fun s =>
  match m s with
  | .ok x s' => f x s'
  | .crash s' => .crash s'

instance : Monad Op where
  pure := ret
  bind := andThen

/-- The current state. -/
def read : Op AOpenLandMeshActor := fun s => .ok s s

/-- A state change that cannot fail. -/
def update (f : AOpenLandMeshActor → AOpenLandMeshActor) : Op Unit := fun s => .ok () (f s)

/-- The program stops here. -/
def stop {α : Type} : Op α := fun s => .crash s

/-- The value of an optional, stopping the program when there is none. -/
def need {α : Type} : Option α → Op α
  | some x => ret x
  | none => stop

/-- Record a call in `Calls`. -/
def call (e : Event) : Op Unit := update fun s => { s with Calls := s.Calls ++ [e] }

end Op

/-- `TArray::operator[]` with an `int32` index; `none` outside the array. -/
def elemAt {α : Type} (l : List α) (i : Int) : Option α :=
  if 0 ≤ i then l[i.toNat]? else none

/-! ## The stores -/

/-- Dereference a pointer to an `FLODInfo`. -/
def derefLOD (p : Option Nat) : Op FLODInfo := do
  let s ← Op.read
  Op.need (p.bind fun i => s.LODs[i]?)

/-- Dereference a pointer to a build result. -/
def derefResult (p : Option Nat) : Op FOpenLandPolygonMeshBuildResult := do
  let s ← Op.read
  Op.need (p.bind fun i => s.Results[i]?)

/-- Dereference a pointer to a mesh. -/
def derefMesh (p : Option Nat) : Op FSimpleMeshInfo := do
  let s ← Op.read
  Op.need (p.bind fun i => s.Meshes[i]?)

/-- Write through a pointer to an `FLODInfo`. -/
def storeLOD (p : Option Nat) (f : FLODInfo → FLODInfo) : Op Unit := do
  let v ← derefLOD p
  Op.update fun s => { s with LODs := s.LODs.set (p.getD 0) (f v) }

/-- Write through a pointer to a build result. -/
def storeResult (p : Option Nat)
    (f : FOpenLandPolygonMeshBuildResult → FOpenLandPolygonMeshBuildResult) : Op Unit := do
  let v ← derefResult p
  Op.update fun s => { s with Results := s.Results.set (p.getD 0) (f v) }

/-- Write through a pointer to a mesh. -/
def storeMesh (p : Option Nat) (f : FSimpleMeshInfo → FSimpleMeshInfo) : Op Unit := do
  let v ← derefMesh p
  Op.update fun s => { s with Meshes := s.Meshes.set (p.getD 0) (f v) }

/-- `MakeShared<FLODInfo>()` followed by member assignments: a new object in the store. -/
def newLOD (v : FLODInfo) : Op (Option Nat) := fun s =>
  .ok (some s.LODs.length) { s with LODs := s.LODs ++ [v] }

/-- A new build result in the store. -/
def newResult (v : FOpenLandPolygonMeshBuildResult) : Op (Option Nat) := fun s =>
  .ok (some s.Results.length) { s with Results := s.Results ++ [v] }

/-- A new mesh in the store. -/
def newMesh (v : FSimpleMeshInfo) : Op (Option Nat) := fun s =>
  .ok (some s.Meshes.length) { s with Meshes := s.Meshes ++ [v] }

/-- The pointer a build of the proxy returns: the shared result, or a new result with
new meshes. -/
def takeAnswer : FBuildAnswer → Op (Option Nat)
  | .Shared Result => pure (some Result)
  | .Fresh Original Target Result => do
    let o ← newMesh Original
    let t ← (match Target with
      | some m => newMesh m
      | none => pure none)
    newResult { Result with Original := o, Target := t }

/-- `FOpenLandPolygonMeshBuildResult::ShallowClone`: a new result with the same members,
the two meshes shared. -/
def ShallowClone (p : Option Nat) : Op (Option Nat) := do
  let r ← derefResult p
  newResult
    { Original := r.Original, Target := r.Target, SubDivisions := r.SubDivisions,
      TextureWidth := r.TextureWidth, DataTextures := r.DataTextures, CacheKey := r.CacheKey }

/-- Modelled from the spec: `FSimpleMeshInfo::Clone` of `Types/OpenLandMeshInfo.h`, which
is not among the sources: a deep clone, a new mesh with the same content. -/
def Clone (p : Option Nat) : Op (Option Nat) := do
  let m ← derefMesh p
  newMesh m

/-- `FLODInfo::MakeModifyReady` on the `FLODInfo` that `p` points to. -/
def FLODInfo.MakeModifyReady (p : Option Nat) : Op Bool := do
  let lod ← derefLOD p
  if lod.bIsModifyReady then
    pure false
  else do
    let r ← derefResult lod.MeshBuildResult
    if r.CacheKey.isEmpty then
      pure false
    else do
      storeLOD p fun l => { l with bIsModifyReady := true }
      let c ← ShallowClone lod.MeshBuildResult
      storeLOD p fun l => { l with MeshBuildResult := c }
      let r' ← derefResult c
      if r'.Target.isSome then do
        let t ← Clone r'.Target
        storeResult c fun x => { x with Target := t }
        pure true
      else
        pure true

/-! ## The collaborators -/

/-- `PolygonMesh->...`: a call through the proxy pointer, which must not be null. -/
def viaPolygonMesh (e : Event) : Op Unit := do
  let s ← Op.read
  let _ ← Op.need s.PolygonMesh
  Op.call e

/-- `PolygonMesh = GetPolygonMesh(); if (!PolygonMesh) PolygonMesh = NewObject<...>();` -/
def obtainPolygonMesh (env : Env) : Op Unit :=
  Op.update fun s =>
    { s with PolygonMesh := some (env.GetPolygonMesh.getD env.NewPolygonMesh) }

/-- The effect of a modify pass on the build result it is given: when the result has no
target mesh and the pass makes one, the result gets it. -/
def installTarget (env : Env) (MeshBuildResult : Option Nat) : Op Unit := do
  let s ← Op.read
  match MeshBuildResult.bind (fun i => s.Results[i]?), env.ModifiedTarget with
  | some r, some m =>
    if r.Target.isSome then pure ()
    else do
      let t ← newMesh m
      storeResult MeshBuildResult fun x => { x with Target := t }
  | _, _ => pure ()

/-- `PolygonMesh->StartModifyVertices(this, MeshBuildResult, Options)`. -/
def StartModifyVertices (env : Env) (MeshBuildResult : Option Nat)
    (Options : FOpenLandPolygonMeshModifyOptions) : Op FOpenLandPolygonMeshModifyStatus := do
  viaPolygonMesh (.StartModifyVertices MeshBuildResult Options env.StartStatus)
  installTarget env MeshBuildResult
  pure env.StartStatus

/-- `PolygonMesh->CheckModifyVerticesStatus(MeshBuildResult, LastFrameTime)`. -/
def CheckModifyVerticesStatus (env : Env) (MeshBuildResult : Option Nat) (LastFrameTime : ℚ) :
    Op FOpenLandPolygonMeshModifyStatus := do
  viaPolygonMesh (.CheckModifyVerticesStatus MeshBuildResult LastFrameTime env.CheckStatus)
  pure env.CheckStatus

/-- `PolygonMesh->ModifyVertices(this, MeshBuildResult, Options)`. -/
def ModifyVertices (env : Env) (MeshBuildResult : Option Nat)
    (Options : FOpenLandPolygonMeshModifyOptions) : Op Unit := do
  viaPolygonMesh (.ModifyVertices MeshBuildResult Options)
  installTarget env MeshBuildResult

/-- `PolygonMesh->RegisterGpuVertexModifier(GpuVertexModifier)` when the GPU modifiers
are switched on, `PolygonMesh->RegisterGpuVertexModifier({})` otherwise. -/
def registerGpuIfEnabled : Op Unit := do
  let s ← Op.read
  if s.bRunGpuVertexModifiers then
    viaPolygonMesh (.RegisterGpuVertexModifier s.GpuVertexModifier)
  else
    viaPolygonMesh (.RegisterGpuVertexModifier FComputeMaterial.empty)

/-- `MeshComponent->NumMeshSections()`. -/
def NumMeshSections (s : AOpenLandMeshActor) : Int := s.Sections.length

/-- Modelled from the spec: `UOpenLandMeshComponent::CreateMeshSection` (the component is
not among the sources) adds one section, which renders the given mesh. -/
def CreateMeshSection (SectionIndex : Int) (Target : Option Nat) : Op Unit := do
  Op.call (.CreateMeshSection SectionIndex Target)
  Op.update fun s => { s with Sections := s.Sections ++ [Target] }

/-- Modelled from the spec: `UOpenLandMeshComponent::ReplaceMeshSection` makes an
existing section render the given mesh. -/
def ReplaceMeshSection (SectionIndex : Int) (Target : Option Nat) : Op Unit := do
  Op.call (.ReplaceMeshSection SectionIndex Target)
  Op.update fun s =>
    { s with Sections := if 0 ≤ SectionIndex then s.Sections.set SectionIndex.toNat Target
                         else s.Sections }

/-- Modelled from the spec: `UOpenLandMeshComponent::RemoveAllSections` leaves the
component without sections. -/
def RemoveAllSections : Op Unit := do
  Op.call .RemoveAllSections
  Op.update fun s => { s with Sections := [] }

/-! ## AOpenLandMeshActor -/

/-- `FMath::CeilToInt(FMath::Sqrt(n))` for the `int32` vertex count `n`: the count is
converted to `float`, the square root is taken in `float` and the result is rounded up
to an `int32`. -/
def CeilSqrt (env : Env) (n : Int) : Int :=
  Float32.ceilToInt env.CeilToIntOfNaN (Float32.sqrt (Float32.ofInt n))

/-- The ceiling of the square root of `n` in the words of the specification: the least
integer whose square is at least `n` (0 for `n <= 0`). -/
def ceilSqrtExact (n : Int) : Int :=
  if n ≤ 0 then 0 else (Nat.sqrt (n.toNat - 1) : Int) + 1

/-- `LODList.Num() > Index && LODList[Index] != nullptr`, for `Index >= 0` (both uses in
`SwitchLODs` have a non-negative index). -/
def hasLOD (s : AOpenLandMeshActor) (Index : Int) : Bool :=
  decide ((s.LODList.length : Int) > Index) && ((elemAt s.LODList Index).bind id).isSome

/-- The value of `DesiredLOD` in `SwitchLODs` after the distance walk and the block that
handles `LODIndexForCollisions`, for the viewer distance `Distance`. -/
def desiredLOD (env : Env) (s : AOpenLandMeshActor) (Distance : ℚ) : Int :=
  let DesiredLOD :=
    distanceLOD env.Pow s.MaximumLODCount s.LODStepUnits s.LODStepPower Distance
  let CorrectedLODIndexForCollisions := min s.LODIndexForCollisions (max (s.MaximumLODCount - 1) 0)
  if CorrectedLODIndexForCollisions ≥ 0 then
    let bHasCollisionLOD := hasLOD s CorrectedLODIndexForCollisions
    if DesiredLOD ≠ CorrectedLODIndexForCollisions ∧ !bHasCollisionLOD then
      CorrectedLODIndexForCollisions
    else DesiredLOD
  else DesiredLOD

/-- `AOpenLandMeshActor::CanRenderMesh`. -/
def CanRenderMesh (env : Env) (s : AOpenLandMeshActor) : Bool :=
  if s.MeshVisibility = .MV_SHOW_ALWAYS then true
  else if s.MeshVisibility = .MV_HIDE_ALWAYS then false
  else match env.World with
    | none => false
    | some World =>
      if World.WorldType = .Editor ∧ s.MeshVisibility = .MV_HIDE_IN_EDITOR then false
      else if World.WorldType ≠ .Editor ∧ s.MeshVisibility = .MV_HIDE_IN_GAME then false
      else true

/-- The loop of `AOpenLandMeshActor::SetMaterial` over the section indices from
`SectionIndex` on, `n` of them. -/
def SetMaterialLoop : Nat → Int → Op Unit
  | 0, _ => pure ()
  | n + 1, SectionIndex => do
    Op.call (.SetSectionMaterial SectionIndex)
    SetMaterialLoop n (SectionIndex + 1)

/-- `AOpenLandMeshActor::SetMaterial(Material)`; the material itself is not tracked. -/
def SetMaterial : Op Unit := do
  let s ← Op.read
  SetMaterialLoop s.Sections.length 0

/-- The body of the loop of `AOpenLandMeshActor::EnsureLODVisibility` over the LOD
pointers in `list`. -/
def EnsureLODVisibilityLoop : List (Option Nat) → Op Unit
  | [] => pure ()
  | LOD :: rest => do
    match LOD with
    | none => EnsureLODVisibilityLoop rest
    | some _ => do
      let lod ← derefLOD LOD
      let r ← derefResult lod.MeshBuildResult
      let s ← Op.read
      storeMesh r.Target fun m =>
        { m with bSectionVisible := decide (lod.LODIndex = s.CurrentLODIndex) }
      Op.call (.UpdateMeshSectionVisibility lod.MeshSectionIndex)
      EnsureLODVisibilityLoop rest

/-- `AOpenLandMeshActor::EnsureLODVisibility`. -/
def EnsureLODVisibility : Op Unit := do
  let s ← Op.read
  EnsureLODVisibilityLoop s.LODList

/-- The loop of `AOpenLandMeshActor::ApplyInstances` over the `DesiredLODIndex` of each
instancing group: the selected LOD, its build result and its target are dereferenced
(`Target->Clone()`); the sampled points are not tracked. -/
def ApplyInstancesLoop : List Int → Op Unit
  | [] => pure ()
  | DesiredLODIndex :: rest => do
    let s ← Op.read
    let SelectedLOD :=
      if DesiredLODIndex ≥ 0 ∧ (s.LODList.length : Int) > DesiredLODIndex then
        match (elemAt s.LODList DesiredLODIndex).bind id with
        | some DesiredLOD => some DesiredLOD
        | none => s.CurrentLOD
      else s.CurrentLOD
    let lod ← derefLOD SelectedLOD
    let r ← derefResult lod.MeshBuildResult
    let _ ← derefMesh r.Target
    ApplyInstancesLoop rest

/-- `AOpenLandMeshActor::ApplyInstances`. -/
def ApplyInstances (env : Env) : Op Unit := do
  let World ← Op.need env.World
  if World.WorldType = .EditorPreview then
    pure ()
  else if env.bTransient then
    pure ()
  else do
    let s ← Op.read
    ApplyInstancesLoop s.InstancingGroups
    Op.call .CreateInstances

/-- `AOpenLandMeshActor::MakeModifyReady`. -/
def MakeModifyReady : Op Unit := do
  let s ← Op.read
  let bNeedMeshChange ← FLODInfo.MakeModifyReady s.CurrentLOD
  let lod ← derefLOD s.CurrentLOD
  if bNeedMeshChange ∧ lod.MeshSectionIndex ≥ 0 then do
    let r ← derefResult lod.MeshBuildResult
    ReplaceMeshSection lod.MeshSectionIndex r.Target
  else
    pure ()

/-- `AOpenLandMeshActor::FinishBuildMeshAsync`. -/
def FinishBuildMeshAsync (env : Env) : Op Unit := do
  let s ← Op.read
  (if CanRenderMesh env s then do
    storeLOD s.CurrentLOD fun l => { l with MeshSectionIndex := NumMeshSections s }
    let lod ← derefLOD s.CurrentLOD
    let r ← derefResult lod.MeshBuildResult
    CreateMeshSection lod.MeshSectionIndex r.Target
    Op.call .InvalidateRendering
    storeMesh r.Target fun m => { m with bSectionVisible := true }
    storeMesh r.Target fun m => { m with bEnableCollision := s.bEnableCollision }
    (if s.LODIndexForCollisions ≥ 0 ∧ s.bEnableCollision then
      storeMesh r.Target fun m =>
        { m with bEnableCollision := decide (lod.LODIndex = s.LODIndexForCollisions) }
    else
      pure ())
    let t ← derefMesh r.Target
    (if t.bEnableCollision then
      Op.call (.SetupCollisions true)
    else
      pure ())
    Op.update fun x => { x with AsyncBuildingLODIndex := -1 }
    SetMaterial
    EnsureLODVisibility
  else do
    RemoveAllSections
    Op.call .InvalidateRendering)
  if s.bRunInstancingAfterBuildMesh then
    ApplyInstances env
  else
    pure ()

/-- `AOpenLandMeshActor::ModifyMesh`. -/
def ModifyMesh (env : Env) : Op Unit := do
  let s ← Op.read
  if s.ModifyStatus.bStarted then
    Op.update fun x => { x with bNeedToAsyncModifyMesh := true }
  else do
    registerGpuIfEnabled
    MakeModifyReady
    let lod ← derefLOD s.CurrentLOD
    let World ← Op.need env.World
    ModifyVertices env lod.MeshBuildResult
      { RealTimeSeconds := World.RealTimeSeconds, CuspAngle := s.SmoothNormalAngle }
    Op.call (.UpdateMeshSection s.CurrentLODIndex)

/-- `AOpenLandMeshActor::ModifyMeshAsync`. -/
def ModifyMeshAsync (env : Env) : Op Unit := do
  let s ← Op.read
  let World ← Op.need env.World
  if World.WorldType = .Editor ∧ s.bRunCpuVertexModifiers then
    ModifyMesh env
  else
    Op.update fun x => { x with bNeedToAsyncModifyMesh := true }

/-- `AOpenLandMeshActor::BuildMeshAsync(LODIndex)`, up to and including the call of
`PolygonMesh->BuildMeshAsync`; the callback passed there is `OnBuildMeshAsyncResult`. -/
def BuildMeshAsync (env : Env) (LODIndex : Int) : Op Unit := do
  obtainPolygonMesh env
  let s ← Op.read
  viaPolygonMesh (.RegisterVertexModifier s.bRunCpuVertexModifiers)
  registerGpuIfEnabled
  let NumVerticesForLOD0 := env.CalculateVerticesForSubdivision s.SubDivisions
  let BuildMeshOptions : FOpenLandPolygonMeshBuildOptions :=
    { SubDivisions := max 0 (s.SubDivisions - LODIndex)
      CuspAngle := s.SmoothNormalAngle
      ForcedTextureWidth := CeilSqrt env NumVerticesForLOD0 }
  let LOD ← newLOD { MeshSectionIndex := -1, LODIndex := LODIndex }
  let _ ← Op.need (elemAt s.LODList LODIndex)
  Op.update fun x =>
    { x with LODList := x.LODList.set LODIndex.toNat LOD, CurrentLOD := LOD }
  let CacheKey := MakeCacheKey env.GetCacheKey s.SubDivisions BuildMeshOptions.SubDivisions
  viaPolygonMesh (.BuildMeshAsync LODIndex BuildMeshOptions CacheKey)

/-- The callback that `BuildMeshAsync` hands to the proxy, run when the proxy delivers
`Result`. -/
def OnBuildMeshAsyncResult (env : Env) (Result : FBuildAnswer) : Op Unit := do
  let p ← takeAnswer Result
  let s ← Op.read
  storeLOD s.CurrentLOD fun l => { l with MeshBuildResult := p }
  let r ← derefResult p
  if r.Target.isSome then
    FinishBuildMeshAsync env
  else
    ModifyMeshAsync env

/-- `AOpenLandMeshActor::SwitchLODs`. -/
def SwitchLODs (env : Env) : Op FSwitchLODsStatus := do
  let s ← Op.read
  let Status : FSwitchLODsStatus := {}
  if s.AsyncBuildingLODIndex ≥ 0 then
    pure Status
  else match env.World with
    | none => pure Status
    | some World =>
      match World.ViewDistances with
      | [] => pure Status
      | Distance :: _ =>
        let DesiredLOD := desiredLOD env s Distance
        let bHasLOD := hasLOD s DesiredLOD
        if !bHasLOD then
          if World.WorldType = .Editor then
            pure Status
          else do
            Op.update fun x => { x with AsyncBuildingLODIndex := DesiredLOD }
            (if (s.LODList.length : Int) ≤ DesiredLOD then
              Op.update fun x =>
                { x with LODList := x.LODList ++
                    List.replicate ((DesiredLOD + 1).toNat - x.LODList.length) none }
            else
              pure ())
            BuildMeshAsync env DesiredLOD
            pure { Status with bAsyncBuildStarted := true }
        else if DesiredLOD = s.CurrentLODIndex then
          pure Status
        else do
          let LOD ← Op.need (elemAt s.LODList DesiredLOD)
          Op.update fun x => { x with CurrentLODIndex := DesiredLOD, CurrentLOD := LOD }
          pure { Status with bNeedLODVisibilityChange := true }

/-- The `FOpenLandPolygonMeshModifyOptions` that `RunAsyncModifyMeshProcess` builds, at
both places, from the real time, the cusp angle, the last frame time and the desired
frame rate. -/
def asyncModifyOptions (World : UWorld) (s : AOpenLandMeshActor) (LastFrameTime : ℚ) :
    FOpenLandPolygonMeshModifyOptions :=
  { RealTimeSeconds := World.RealTimeSeconds
    CuspAngle := s.SmoothNormalAngle
    LastFrameTime := LastFrameTime
    DesiredFrameRate := (s.DesiredFrameRateOnModify : ℚ) }

/-- `AOpenLandMeshActor::RunAsyncModifyMeshProcess(LastFrameTime)`. -/
def RunAsyncModifyMeshProcess (env : Env) (LastFrameTime : ℚ) : Op Unit := do
  let s ← Op.read
  let ModifyingLOD ←
    (if s.AsyncBuildingLODIndex ≥ 0 then Op.need (elemAt s.LODList s.AsyncBuildingLODIndex)
    else pure s.CurrentLOD)
  if !s.ModifyStatus.bStarted then do
    let World ← Op.need env.World
    let ModifyOptions := asyncModifyOptions World s LastFrameTime
    MakeModifyReady
    let lod ← derefLOD ModifyingLOD
    let Returned ← StartModifyVertices env lod.MeshBuildResult ModifyOptions
    Op.update fun x => { x with ModifyStatus := Returned }
  else do
    let lod ← derefLOD ModifyingLOD
    let Polled ← CheckModifyVerticesStatus env lod.MeshBuildResult LastFrameTime
    Op.update fun x => { x with ModifyStatus := Polled }
    if Polled.bAborted then do
      let World ← Op.need env.World
      let ModifyOptions := asyncModifyOptions World s LastFrameTime
      let lod' ← derefLOD ModifyingLOD
      let Returned ← StartModifyVertices env lod'.MeshBuildResult ModifyOptions
      Op.update fun x => { x with ModifyStatus := Returned }
    else if Polled.bCompleted then do
      Op.call .OnAfterAnimations
      viaPolygonMesh (.RegisterGpuVertexModifier s.GpuVertexModifier)
      Op.update fun x => { x with ModifyStatus := {} }
      if s.AsyncBuildingLODIndex ≥ 0 then
        FinishBuildMeshAsync env
      else do
        let cur ← derefLOD s.CurrentLOD
        Op.call (.UpdateMeshSection cur.MeshSectionIndex)
        (if s.bNeedLODVisibilityChange then
          EnsureLODVisibility
        else
          pure ())
        let Status ← SwitchLODs env
        if Status.bNeedLODVisibilityChange then
          Op.update fun x => { x with bNeedLODVisibilityChange := true }
        else
          pure ()
    else
      pure ()

/-- `AOpenLandMeshActor::RunSyncModifyMeshProcess`. -/
def RunSyncModifyMeshProcess (env : Env) : Op Unit := do
  let Status ← SwitchLODs env
  (if Status.bNeedLODVisibilityChange then
    EnsureLODVisibility
  else
    pure ())
  MakeModifyReady
  let s ← Op.read
  let lod ← derefLOD s.CurrentLOD
  let World ← Op.need env.World
  ModifyVertices env lod.MeshBuildResult
    { RealTimeSeconds := World.RealTimeSeconds, CuspAngle := s.SmoothNormalAngle }
  Op.call (.UpdateMeshSection s.CurrentLODIndex)
  Op.call .OnAfterAnimations
  viaPolygonMesh (.RegisterGpuVertexModifier s.GpuVertexModifier)

/-- Whether `CurrentLOD->MeshBuildResult && CurrentLOD->MeshBuildResult->Target &&
CurrentLOD->MeshBuildResult->Target->IsLocked()` holds; `CurrentLOD` is not null. -/
def targetLocked : Op Bool := do
  let s ← Op.read
  let cur ← derefLOD s.CurrentLOD
  match cur.MeshBuildResult with
  | none => pure false
  | some _ => do
    let r ← derefResult cur.MeshBuildResult
    match r.Target with
    | none => pure false
    | some _ => do
      let t ← derefMesh r.Target
      pure t.bLocked

/-- The part of `AOpenLandMeshActor::Tick` after the first `if` statement. -/
def TickRest (env : Env) (DeltaTime : ℚ) (bIsEditor : Bool) : Op Unit := do
  let s ← Op.read
  if s.CurrentLOD.isNone then
    if s.bAnimate then do
      let _ ← SwitchLODs env
      pure ()
    else
      pure ()
  else do
    let bLocked ← targetLocked
    if bLocked then
      pure ()
    else if !s.ModifyStatus.bStarted ∧ s.bNeedToAsyncModifyMesh then do
      Op.update fun x => { x with bNeedToAsyncModifyMesh := false }
      Op.call .OnAfterAnimations
      viaPolygonMesh (.RegisterGpuVertexModifier s.GpuVertexModifier)
      RunAsyncModifyMeshProcess env DeltaTime
    else if s.ModifyStatus.bStarted then
      RunAsyncModifyMeshProcess env DeltaTime
    else if s.AsyncBuildingLODIndex ≥ 0 then
      pure ()
    else if bIsEditor then
      pure ()
    else if !s.bAnimate then
      pure ()
    else if s.bUseAsyncAnimations then
      RunAsyncModifyMeshProcess env DeltaTime
    else
      RunSyncModifyMeshProcess env

/-- `AOpenLandMeshActor::Tick(DeltaTime)`. -/
def Tick (env : Env) (DeltaTime : ℚ) : Op Unit := do
  Op.call .UpdateTransforms
  let World ← Op.need env.World
  let bIsEditor := decide (World.WorldType = .Editor)
  let s ← Op.read
  if bIsEditor ∨ !s.bAnimate then do
    let Status ← SwitchLODs env
    (if Status.bNeedLODVisibilityChange then
      EnsureLODVisibility
    else
      pure ())
    if Status.bAsyncBuildStarted then
      pure ()
    else
      TickRest env DeltaTime bIsEditor
  else
    TickRest env DeltaTime bIsEditor

/-- The first loop of `AOpenLandMeshActor::BuildMesh` with `n` iterations left, about to
build tier `LODIndex`; `NewLODList` is the list built so far. -/
def BuildMeshLoop (env : Env) (ForcedTextureWidth : Int) :
    Nat → Int → List (Option Nat) → Op (List (Option Nat))
  | 0, _, NewLODList => pure NewLODList
  | n + 1, LODIndex, NewLODList => do
    let s ← Op.read
    let BuildMeshOptions : FOpenLandPolygonMeshBuildOptions :=
      { SubDivisions := max (s.SubDivisions - LODIndex) 0
        CuspAngle := s.SmoothNormalAngle
        ForcedTextureWidth := ForcedTextureWidth }
    let CacheKey := MakeCacheKey env.GetCacheKey s.SubDivisions BuildMeshOptions.SubDivisions
    viaPolygonMesh (.BuildMesh BuildMeshOptions CacheKey)
    let NewMeshBuildResult ← takeAnswer (env.BuildMeshAnswer LODIndex)
    let r ← derefResult NewMeshBuildResult
    storeMesh r.Target fun m => { m with bSectionVisible := false }
    storeMesh r.Target fun m => { m with bEnableCollision := s.bEnableCollision }
    (if s.LODIndexForCollisions ≥ 0 ∧ s.bEnableCollision then
      storeMesh r.Target fun m =>
        { m with bEnableCollision := decide (LODIndex = s.LODIndexForCollisions) }
    else
      pure ())
    let LOD ← newLOD
      { MeshBuildResult := NewMeshBuildResult, MeshSectionIndex := LODIndex,
        LODIndex := LODIndex }
    BuildMeshLoop env ForcedTextureWidth n (LODIndex + 1) (NewLODList ++ [LOD])

/-- The second loop of `AOpenLandMeshActor::BuildMesh`, over the new LODs: the
visibility flag is set and the section is replaced or created. -/
def RegisterSectionsLoop : List (Option Nat) → Op Unit
  | [] => pure ()
  | LOD :: rest => do
    let lod ← derefLOD LOD
    let r ← derefResult lod.MeshBuildResult
    let s ← Op.read
    storeMesh r.Target fun m =>
      { m with bSectionVisible := decide (lod.LODIndex = s.CurrentLODIndex) }
    let bHasSection := decide (NumMeshSections s > lod.MeshSectionIndex)
    (if bHasSection then
      ReplaceMeshSection lod.MeshSectionIndex r.Target
    else
      CreateMeshSection lod.MeshSectionIndex r.Target)
    RegisterSectionsLoop rest

/-- `AOpenLandMeshActor::BuildMesh`. -/
def BuildMesh (env : Env) : Op Unit := do
  let World ← Op.need env.World
  let s ← Op.read
  (if World.WorldType = .Editor ∧ s.PolygonMesh.isSome then do
    Op.call (.RegisterGpuVertexModifier FComputeMaterial.empty)
    Op.call (.RegisterVertexModifier false)
  else
    pure ())
  obtainPolygonMesh env
  viaPolygonMesh (.RegisterVertexModifier s.bRunCpuVertexModifiers)
  registerGpuIfEnabled
  let NumVerticesForLOD0 := env.CalculateVerticesForSubdivision s.SubDivisions
  let ForcedTextureWidth := CeilSqrt env NumVerticesForLOD0
  let NewLODList ← BuildMeshLoop env ForcedTextureWidth s.MaximumLODCount.toNat 0 []
  (if CanRenderMesh env s then do
    RegisterSectionsLoop NewLODList
    Op.call (.SetupCollisions s.bUseAsyncCollisionCooking)
    Op.call .InvalidateRendering
  else do
    RemoveAllSections
    Op.call .InvalidateRendering)
  Op.update fun x => { x with LODList := NewLODList }
  (if s.CurrentLODIndex ≥ (NewLODList.length : Int) then
    Op.update fun x => { x with CurrentLODIndex := 0 }
  else
    pure ())
  let s' ← Op.read
  let LOD ← Op.need (elemAt s'.LODList s'.CurrentLODIndex)
  Op.update fun x => { x with CurrentLOD := LOD }
  SetMaterial
  Op.update fun x => { x with bMeshGenerated := true }
  if s.bRunInstancingAfterBuildMesh then
    ApplyInstances env
  else
    pure ()

/-- `AOpenLandMeshActor::RebuildLODs`. -/
def RebuildLODs (env : Env) : Op Unit := BuildMesh env

/-- `AOpenLandMeshActor::ResetCache`. -/
def ResetCache : Op Unit := viaPolygonMesh .ClearCache

/-- `AOpenLandMeshActor::RemoveInstances`. -/
def RemoveInstances : Op Unit := Op.call .UnregisterInstances

/-- `AOpenLandMeshActor::OnConstruction`. -/
def OnConstruction (env : Env) : Op Unit := do
  let s ← Op.read
  if !s.bMeshGenerated then BuildMesh env else pure ()

/-- `AOpenLandMeshActor::BeginPlay`. -/
def BeginPlay (env : Env) : Op Unit := do
  let s ← Op.read
  if s.bUseAsyncBuildMeshOnGame then
    Op.update fun x => { x with bMeshGenerated := true }
  else do
    BuildMesh env
    if s.bDisableGPUVertexModifiersOnAnimate then
      viaPolygonMesh (.RegisterGpuVertexModifier FComputeMaterial.empty)
    else
      pure ()

/-- The operations by which the actor is driven from outside, with their arguments. -/
inductive Command where
  | Tick (DeltaTime : ℚ)
  | BuildMesh
  | RebuildLODs
  | ModifyMesh
  | ModifyMeshAsync
  | OnBuildMeshAsyncResult (Result : FBuildAnswer)
  | ResetCache
  | ApplyInstances
  | RemoveInstances
  | OnConstruction
  | BeginPlay
  | SetGPUScalarParameter (Name : FName) (Value : ℚ)
  | SetGPUVectorParameter (Name : FName) (Value : FVector)
  | SetGPUTextureParameter (Name : FName) (Value : Option Nat)

/-- The code a command runs. -/
def Command.code (env : Env) : Command → Op Unit
  | .Tick DeltaTime => OpenLandMesh.Tick env DeltaTime
  | .BuildMesh => OpenLandMesh.BuildMesh env
  | .RebuildLODs => OpenLandMesh.RebuildLODs env
  | .ModifyMesh => OpenLandMesh.ModifyMesh env
  | .ModifyMeshAsync => OpenLandMesh.ModifyMeshAsync env
  | .OnBuildMeshAsyncResult Result => OpenLandMesh.OnBuildMeshAsyncResult env Result
  | .ResetCache => OpenLandMesh.ResetCache
  | .ApplyInstances => OpenLandMesh.ApplyInstances env
  | .RemoveInstances => OpenLandMesh.RemoveInstances
  | .OnConstruction => OpenLandMesh.OnConstruction env
  | .BeginPlay => OpenLandMesh.BeginPlay env
  | .SetGPUScalarParameter Name Value => Op.update fun s =>
      { s with GpuVertexModifier := s.GpuVertexModifier.SetGPUScalarParameter Name Value }
  | .SetGPUVectorParameter Name Value => Op.update fun s =>
      { s with GpuVertexModifier := s.GpuVertexModifier.SetGPUVectorParameter Name Value }
  | .SetGPUTextureParameter Name Value => Op.update fun s =>
      { s with GpuVertexModifier := s.GpuVertexModifier.SetGPUTextureParameter Name Value }

/-- Run a sequence of commands, each in its own environment; a crash ends the run. -/
def runAll : List (Env × Command) → Op Unit
  | [] => pure ()
  | (env, c) :: rest => do
    c.code env
    runAll rest

/-! ## Section visibility -/

/-- The flag `LOD->MeshBuildResult->Target->bSectionVisible` of the `FLODInfo` at `p`,
when all three pointers are valid. -/
def sectionVisible (s : AOpenLandMeshActor) (p : Nat) : Option Bool := do
  let lod ← s.LODs[p]?
  let r ← lod.MeshBuildResult.bind fun i => s.Results[i]?
  let m ← r.Target.bind fun i => s.Meshes[i]?
  pure m.bSectionVisible

/-- The tiers (`LODIndex`) of the built LODs of `LODList` whose section is flagged
visible, in list order. -/
def visibleLODs (s : AOpenLandMeshActor) : List Int :=
  s.LODList.filterMap fun slot =>
    slot.bind fun p =>
      if sectionVisible s p = some true then (s.LODs[p]?).map (fun lod => lod.LODIndex)
      else none

/-- The number of built (non-null) slots of `LODList`. -/
def builtLODs (s : AOpenLandMeshActor) : Nat :=
  (s.LODList.filter fun slot => slot.isSome).length

/-! ## Example states -/

/-- An actor with `MaximumLODCount = 3`, `LODStepUnits = 1000`, `LODStepPower = 2` and a
built slot for each of the three tiers (tier `i` renders section `i`), tier 0 current. -/
def threeTiers : AOpenLandMeshActor :=
  { MaximumLODCount := 3, LODStepUnits := 1000, LODStepPower := 2
    PolygonMesh := some 0
    LODList := [some 0, some 1, some 2]
    CurrentLOD := some 0
    CurrentLODIndex := 0
    LODs := [{ MeshBuildResult := some 0, MeshSectionIndex := 0, LODIndex := 0 },
             { MeshBuildResult := some 1, MeshSectionIndex := 1, LODIndex := 1 },
             { MeshBuildResult := some 2, MeshSectionIndex := 2, LODIndex := 2 }]
    Results := [{ Original := some 0, Target := some 1 },
                { Original := some 2, Target := some 3 },
                { Original := some 4, Target := some 5 }]
    Meshes := [{}, { bSectionVisible := true }, {}, { bSectionVisible := false }, {},
               { bSectionVisible := false }]
    Sections := [some 1, some 3, some 5] }

/-- The actor `threeTiers` with `LODStepPower = 1.3f`, the float nearest to 1.3, which
is 10905190 / 2 ^ 23. -/
def threeTiersPower13 : AOpenLandMeshActor :=
  { threeTiers with LODStepPower := 10905190 / 8388608 }

/-- The actor `threeTiers` with `LODStepUnits = 16777219`, an `int32` that is not a
`float`. -/
def threeTiersWideSteps : AOpenLandMeshActor :=
  { threeTiers with LODStepUnits := 16777219 }

/-- The actor `threeTiers` with the collision tier 5 designated: a tier beyond
`MaximumLODCount - 1`, whose slot lies beyond the LOD list. -/
def threeTiersCollision5 : AOpenLandMeshActor :=
  { threeTiers with LODIndexForCollisions := 5 }

/-- The build options `BuildMeshAsync(LODIndex)` passes to the proxy. -/
def asyncBuildOptions (env : Env) (s : AOpenLandMeshActor) (LODIndex : Int) :
    FOpenLandPolygonMeshBuildOptions :=
  { SubDivisions := max 0 (s.SubDivisions - LODIndex)
    CuspAngle := s.SmoothNormalAngle
    ForcedTextureWidth := CeilSqrt env (env.CalculateVerticesForSubdivision s.SubDivisions) }

/-- The calls `BuildMeshAsync(LODIndex)` makes on the proxy, in order. -/
def asyncBuildCalls (env : Env) (s : AOpenLandMeshActor) (LODIndex : Int) : List Event :=
  [.RegisterVertexModifier s.bRunCpuVertexModifiers,
   .RegisterGpuVertexModifier
      (if s.bRunGpuVertexModifiers then s.GpuVertexModifier else FComputeMaterial.empty),
   .BuildMeshAsync LODIndex (asyncBuildOptions env s LODIndex)
      (MakeCacheKey env.GetCacheKey s.SubDivisions (asyncBuildOptions env s LODIndex).SubDivisions)]

/-- The state `BuildMeshAsync(LODIndex)` leaves when `LODIndex` is within `LODList`: a
new `FLODInfo` without build result in slot `LODIndex`, which is also `CurrentLOD`. -/
def afterBuildMeshAsync (env : Env) (s : AOpenLandMeshActor) (LODIndex : Int) :
    AOpenLandMeshActor :=
  { s with
    PolygonMesh := some (env.GetPolygonMesh.getD env.NewPolygonMesh)
    LODs := s.LODs ++ [{ MeshSectionIndex := -1, LODIndex := LODIndex }]
    LODList := s.LODList.set LODIndex.toNat (some s.LODs.length)
    CurrentLOD := some s.LODs.length
    Calls := s.Calls ++ asyncBuildCalls env s LODIndex }

/-- The state in which `SwitchLODs` calls `BuildMeshAsync(DesiredLOD)`: the async build
is marked and the LOD list reaches to `DesiredLOD`. -/
def markedForAsyncBuild (s : AOpenLandMeshActor) (DesiredLOD : Int) : AOpenLandMeshActor :=
  { s with
    AsyncBuildingLODIndex := DesiredLOD
    LODList := if (s.LODList.length : Int) ≤ DesiredLOD then
        s.LODList ++ List.replicate ((DesiredLOD + 1).toNat - s.LODList.length) none
      else s.LODList }

/-- An actor on which nothing has been built yet, with three tiers and the collision
tier 1 designated. -/
def unbuiltCollision1 : AOpenLandMeshActor :=
  { MaximumLODCount := 3, LODStepUnits := 1000, LODStepPower := 2, LODIndexForCollisions := 1 }

/-- An actor on which nothing has been built yet, with three tiers. -/
def unbuiltThreeTiers : AOpenLandMeshActor :=
  { MaximumLODCount := 3, LODStepUnits := 1000, LODStepPower := 2 }

/-- A game world in which the one view location is at distance `d` from the actor. -/
def viewerAt (d : ℚ) : Env :=
  { World := some { WorldType := .Game, ViewDistances := [d] } }

/-- An editor world in which the one view location is at distance `d` from the actor. -/
def editorViewerAt (d : ℚ) : Env :=
  { World := some { WorldType := .Editor, ViewDistances := [d] } }

/-! ## Calls of the vertex-modifier pipeline -/

/-- Whether a call is a call of the vertex-modifier pipeline. -/
def Event.isModifyCall : Event → Bool
  | .StartModifyVertices _ _ _ => true
  | .CheckModifyVerticesStatus _ _ _ => true
  | .ModifyVertices _ _ => true
  | _ => false

/-- Replays the calls in order against the status the pipeline returned last (`last`):
a `StartModifyVertices` or `ModifyVertices` call made while that status `IsRunning()`
is a violation (`none`); a `StartModifyVertices` or `CheckModifyVerticesStatus` call
makes the status it returns the last one. The value is the last status at the end. -/
def passesInOrder : FOpenLandPolygonMeshModifyStatus → List Event →
    Option FOpenLandPolygonMeshModifyStatus
  | last, [] => some last
  | last, .StartModifyVertices _ _ Returned :: rest =>
    if last.IsRunning then none else passesInOrder Returned rest
  | _, .CheckModifyVerticesStatus _ _ Returned :: rest => passesInOrder Returned rest
  | last, .ModifyVertices _ _ :: rest =>
    if last.IsRunning then none else passesInOrder last rest
  | last, _ :: rest => passesInOrder last rest

/-- The state `s'` differs from `s` by calls that are not pipeline calls, with the
recorded `ModifyStatus` unchanged. -/
def QuietRel (s s' : AOpenLandMeshActor) : Prop :=
  s'.ModifyStatus = s.ModifyStatus
    ∧ ∃ es, s'.Calls = s.Calls ++ es ∧ ∀ e ∈ es, Event.isModifyCall e = false

/-- Code that makes no pipeline call and leaves the recorded `ModifyStatus` alone. -/
structure Quiet {α : Type} (m : Op α) : Prop where
  rel : ∀ s, QuietRel s (m s).state

/-- The calls of the vertex-modifier pipeline among `es`, in order. -/
def modifyCalls (es : List Event) : List Event := es.filter Event.isModifyCall

/-- The sequences of pipeline calls one command may make, given the recorded `bStarted`
at its entry: with a pass started, nothing, or one `CheckModifyVerticesStatus`, or one
`CheckModifyVerticesStatus` that returned `bAborted` followed by one
`StartModifyVertices`; with no pass started, nothing, or one `StartModifyVertices`, or
one `ModifyVertices`. -/
def stepAllowed (bStarted : Bool) : List Event → Bool
  | [] => true
  | [.CheckModifyVerticesStatus _ _ _] => bStarted
  | [.CheckModifyVerticesStatus _ _ Polled, .StartModifyVertices _ _ _] =>
    bStarted && Polled.bAborted
  | [.StartModifyVertices _ _ _] => !bStarted
  | [.ModifyVertices _ _] => !bStarted
  | _ => false

/-- The recorded `ModifyStatus` after a command that ran to its end, from the status at
its entry and the pipeline calls it made: a started pass keeps the polled status,
except that a completed one is reset to `{}`; a start records the returned status. -/
def stepRecorded (Entry : FOpenLandPolygonMeshModifyStatus) :
    List Event → FOpenLandPolygonMeshModifyStatus → Prop
  | [], After => After = Entry
  | [.CheckModifyVerticesStatus _ _ Polled], After =>
    Polled.bAborted = false ∧ After = (if Polled.bCompleted then {} else Polled)
  | [.CheckModifyVerticesStatus _ _ _, .StartModifyVertices _ _ Returned], After =>
    After = Returned
  | [.StartModifyVertices _ _ Returned], After => After = Returned
  | [.ModifyVertices _ _], After => After = Entry
  | _, _ => False

/-- The state `s` was reached from a state with the calls `base`; the pipeline calls
made since then satisfy `C`, and together with the recorded status they satisfy `P`. -/
def Tracked (base : List Event) (C : List Event → Prop)
    (P : List Event → FOpenLandPolygonMeshModifyStatus → Prop) (s : AOpenLandMeshActor) : Prop :=
  ∃ es, s.Calls = base ++ es ∧ C (modifyCalls es) ∧ P (modifyCalls es) s.ModifyStatus

/-- From a state tracked with `P` the code `m` ends in a state tracked with `Q` (of its
value), or stops in a state whose pipeline calls still satisfy `C`. -/
structure Triple {α : Type} (base : List Event) (C : List Event → Prop)
    (P : List Event → FOpenLandPolygonMeshModifyStatus → Prop) (m : Op α)
    (Q : α → List Event → FOpenLandPolygonMeshModifyStatus → Prop) : Prop where
  run : ∀ s, Tracked base C P s →
    match m s with
    | .ok x s' => Tracked base C (Q x) s'
    | .crash s' => Tracked base C (fun _ _ => True) s'

/-! ## Two runs that end with no visible section -/

/-- The actor `unbuiltThreeTiers` after `BuildMesh` with the viewer at the actor: the three
tiers are built and tier 0 is current and visible. -/
def builtThreeTiers : AOpenLandMeshActor := (BuildMesh (viewerAt 0) unbuiltThreeTiers).state

/-- The actor `builtThreeTiers` after a tick with the viewer at distance 5001: tier 2 is
current and visible. -/
def movedAway : AOpenLandMeshActor := (Tick (viewerAt 5001) 0 builtThreeTiers).state

/-- The actor `movedAway` after `MaximumLODCount` was set to 1 in the property panel. -/
def loweredToOne : AOpenLandMeshActor := { movedAway with MaximumLODCount := 1 }

/-- The run of `RebuildLODs` on `loweredToOne`. -/
def rebuilt : Outcome Unit := RebuildLODs (viewerAt 5001) loweredToOne

/-- The tick on `unbuiltThreeTiers` with the viewer at distance 1001, in a game world: it
starts the async build of tier 1. -/
def asyncStarted : Outcome Unit := Tick (viewerAt 1001) 0 unbuiltThreeTiers

/-- The proxy then delivers a result that has a target, so that the callback runs
`FinishBuildMeshAsync`. -/
def asyncFinished : Outcome Unit :=
  OnBuildMeshAsyncResult (viewerAt 1001) (.Fresh {} (some {}) {}) asyncStarted.state

/-- A game world with the viewer at the actor, in which the pipeline answers a start with
`Start` and a poll with `Check`. -/
def pipelineAnswers (Start Check : FOpenLandPolygonMeshModifyStatus) : Env :=
  { World := some { WorldType := .Game, ViewDistances := [0] }
    StartStatus := Start, CheckStatus := Check }

/-- Four ticks of the animated actor: a start, a poll that reports an abort (and the
restart), a poll that reports the pass running, a poll that reports it completed. -/
def animatedRun : Outcome Unit :=
  runAll
    [(pipelineAnswers { bStarted := true } {}, .Tick 0),
     (pipelineAnswers { bStarted := true } { bStarted := true, bAborted := true }, .Tick 0),
     (pipelineAnswers {} { bStarted := true }, .Tick 0),
     (pipelineAnswers {} { bStarted := true, bCompleted := true }, .Tick 0)]
    { builtThreeTiers with bAnimate := true, Calls := [] }

/-- The calls made so far replay without violation, and a pass the pipeline reported
running is recorded as started. -/
def passesTracked (s : AOpenLandMeshActor) : Prop :=
  ∃ last, passesInOrder {} s.Calls = some last
    ∧ (last.IsRunning = true → s.ModifyStatus.bStarted = true)

/-! ## Example states: LODs before the first modify pass -/

/-- An actor whose one LOD holds a build result with the cache key `k` and no target
mesh, as an async build delivers it before the first modify pass. -/
def untargetedLOD : AOpenLandMeshActor :=
  { LODList := [some 0], CurrentLOD := some 0, PolygonMesh := some 0
    LODs := [{ MeshBuildResult := some 0, MeshSectionIndex := -1, LODIndex := 0 }]
    Results := [{ Original := some 0, Target := none, CacheKey := "k" }]
    Meshes := [{}] }

/-- An actor whose one LOD holds a build result with the cache key `k`, an original mesh
and a target mesh. -/
def cachedLOD : AOpenLandMeshActor :=
  { LODList := [some 0], CurrentLOD := some 0, PolygonMesh := some 0
    LODs := [{ MeshBuildResult := some 0, MeshSectionIndex := 0, LODIndex := 0 }]
    Results := [{ Original := some 0, Target := some 1, SubDivisions := 2, TextureWidth := 5,
                  DataTextures := [7], CacheKey := "k" }]
    Meshes := [{ Geometry := 3 }, { Geometry := 4 }]
    Sections := [some 1] }

/-! ## The modifying LOD and repeated runs -/

/-- The pointer `ModifyingLOD` of `RunAsyncModifyMeshProcess`:
`AsyncBuildingLODIndex >= 0 ? LODList[AsyncBuildingLODIndex] : CurrentLOD`; `none` when
the index is outside the list. -/
def modifyingLOD (s : AOpenLandMeshActor) : Option (Option Nat) :=
  if s.AsyncBuildingLODIndex ≥ 0 then elemAt s.LODList s.AsyncBuildingLODIndex
  else some s.CurrentLOD

/-- The actor `threeTiers` with a modify pass started. -/
def threeTiersStarted : AOpenLandMeshActor :=
  { threeTiers with ModifyStatus := { bStarted := true } }

/-! ## A pipeline that completes -/

/-- A game world with the viewer at the actor in which every poll of the pipeline reports
the pass completed. -/
def completingPipeline : Env :=
  { World := some { WorldType := .Game, ViewDistances := [0] }
    CheckStatus := { bStarted := true, bGpuTasksCompleted := true, bCompleted := true } }

/-! ## Watched calls, calm code and the ends of runs -/

/-- Whether a call is one of those by which a tick acts on a modify pass, on an async LOD
build or on the content of a rendered section: the three calls of the vertex-modifier
pipeline, `BuildMeshAsync` and `UpdateMeshSection`. -/
def Event.isWatched : Event → Bool
  | .StartModifyVertices _ _ _ => true
  | .CheckModifyVerticesStatus _ _ _ => true
  | .ModifyVertices _ _ => true
  | .BuildMeshAsync _ _ _ => true
  | .UpdateMeshSection _ => true
  | _ => false

/-- The calls an outcome added to those of the state `s` it started from. -/
def newCalls {α : Type} (s : AOpenLandMeshActor) (o : Outcome α) : List Event :=
  o.state.Calls.drop s.Calls.length

/-- The watched calls an outcome added to those of the state `s` it started from. -/
def watchedCalls {α : Type} (s : AOpenLandMeshActor) (o : Outcome α) : List Event :=
  (newCalls s o).filter Event.isWatched

/-- The properties of the actor that its own code only reads: the state with everything
the code writes (the flags, the recorded status, the LOD pointers, the stores, the
sections and the calls) blanked. -/
def config (s : AOpenLandMeshActor) : AOpenLandMeshActor :=
  { s with
    bMeshGenerated := false
    bNeedToAsyncModifyMesh := false
    ModifyStatus := {}
    LODList := []
    CurrentLOD := none
    bNeedLODVisibilityChange := false
    AsyncBuildingLODIndex := -1
    PolygonMesh := none
    CurrentLODIndex := 0
    LODs := []
    Results := []
    Meshes := []
    Sections := []
    Calls := [] }

/-- The state `s'` is reached from `s` by code that makes no watched call and leaves the
recorded `ModifyStatus` and the deferred flag `bNeedToAsyncModifyMesh` alone. -/
def CalmRel (s s' : AOpenLandMeshActor) : Prop :=
  config s' = config s ∧ s'.ModifyStatus = s.ModifyStatus
    ∧ s'.bNeedToAsyncModifyMesh = s.bNeedToAsyncModifyMesh
    ∧ ∃ es, s'.Calls = s.Calls ++ es ∧ ∀ e ∈ es, Event.isWatched e = false

/-- Code that makes no watched call and leaves the recorded `ModifyStatus` and the
deferred flag alone. -/
structure Calm {α : Type} (m : Op α) : Prop where
  rel : ∀ s, CalmRel s (m s).state

/-- The outcome `o` is a normal end with a value and a state that satisfy `Q`, or a stop in
a state that satisfies `X`. -/
def Ends {α : Type} (o : Outcome α) (Q : α → AOpenLandMeshActor → Prop)
    (X : AOpenLandMeshActor → Prop) : Prop :=
  match o with
  | .ok x s => Q x s
  | .crash s => X s

/-- From `s` to `s'` calls were added of which the watched ones are `mc`, in order. -/
def Trace (s : AOpenLandMeshActor) (mc : List Event) (s' : AOpenLandMeshActor) : Prop :=
  ∃ es, s'.Calls = s.Calls ++ es ∧ es.filter Event.isWatched = mc

/-- Whether the world of the environment is the editor world (false without a world). -/
def Env.bIsEditor (env : Env) : Bool :=
  match env.World with
  | some World => decide (World.WorldType = .Editor)
  | none => false

/-- The sequences of watched calls one run of `RunAsyncModifyMeshProcess` may make, given
`bStarted` at its entry: with no pass started, one `StartModifyVertices`; with a pass
started, one poll, then a restart if the poll reported an abort, or
`UpdateMeshSection`, possibly followed (outside the editor) by `BuildMeshAsync`, if it
reported the pass completed and not aborted. A run that stops early makes a prefix. -/
def asyncShape (bIsEditor bStarted : Bool) : List Event → Bool
  | [] => true
  | [.StartModifyVertices _ _ _] => !bStarted
  | [.CheckModifyVerticesStatus _ _ _] => bStarted
  | [.CheckModifyVerticesStatus _ _ Polled, .StartModifyVertices _ _ _] =>
    bStarted && Polled.bAborted
  | [.CheckModifyVerticesStatus _ _ Polled, .UpdateMeshSection _] =>
    bStarted && Polled.bCompleted && !Polled.bAborted
  | [.CheckModifyVerticesStatus _ _ Polled, .UpdateMeshSection _, .BuildMeshAsync _ _ _] =>
    bStarted && Polled.bCompleted && !Polled.bAborted && !bIsEditor
  | _ => false

/-- The sequences of watched calls one run of `RunSyncModifyMeshProcess` may make. -/
def syncShape (bIsEditor : Bool) : List Event → Bool
  | [] => true
  | [.BuildMeshAsync _ _ _] => !bIsEditor
  | [.ModifyVertices _ _] => true
  | [.ModifyVertices _ _, .UpdateMeshSection _] => true
  | _ => false

/-- The sequences of watched calls one `Tick` may make, given at its entry whether the
world is the editor, `bAnimate`, `ModifyStatus.bStarted`, the deferred flag
`bNeedToAsyncModifyMesh` and whether `CurrentLOD` is set. -/
def tickShape (bIsEditor bAnimate bStarted bDeferred bHasCurrentLOD : Bool) :
    List Event → Bool
  | [] => true
  | [.BuildMeshAsync _ _ _] =>
    !bIsEditor && (!bAnimate || !bHasCurrentLOD || (!bStarted && !bDeferred))
  | [.StartModifyVertices _ _ _] => !bStarted && (bDeferred || (bAnimate && !bIsEditor))
  | [.ModifyVertices _ _] => !bStarted && !bDeferred && bAnimate && !bIsEditor
  | [.ModifyVertices _ _, .UpdateMeshSection _] =>
    !bStarted && !bDeferred && bAnimate && !bIsEditor
  | [.CheckModifyVerticesStatus _ _ _] => bStarted
  | [.CheckModifyVerticesStatus _ _ Polled, .StartModifyVertices _ _ _] =>
    bStarted && Polled.bAborted
  | [.CheckModifyVerticesStatus _ _ Polled, .UpdateMeshSection _] =>
    bStarted && Polled.bCompleted && !Polled.bAborted
  | [.CheckModifyVerticesStatus _ _ Polled, .UpdateMeshSection _, .BuildMeshAsync _ _ _] =>
    bStarted && Polled.bCompleted && !Polled.bAborted && !bIsEditor
  | _ => false

/-! ## Runs with a pass in flight -/

/-- An actor of a game that builds its LODs on demand (`bUseAsyncBuildMeshOnGame`), with
three tiers, not animated, nothing built yet. -/
def asyncGameActor : AOpenLandMeshActor :=
  { MaximumLODCount := 3, LODStepUnits := 1000, LODStepPower := 2,
    bUseAsyncBuildMeshOnGame := true }

/-- The actor `asyncGameActor` after `BeginPlay`, a tick with the viewer at the actor (it
starts the async build of tier 0), the delivery of the build result, a call of
`ModifyMeshAsync` and one more tick, in which the deferred modify starts a pass that the
pipeline reports started. -/
def passInFlight : Outcome Unit :=
  runAll
    [(viewerAt 0, .BeginPlay), (viewerAt 0, .Tick 0),
     (viewerAt 0, .OnBuildMeshAsyncResult (.Fresh {} (some {}) {})),
     (viewerAt 0, .ModifyMeshAsync),
     (pipelineAnswers { bStarted := true } {}, .Tick 0)]
    asyncGameActor

/-- The next tick, with the viewer now at distance 1001, where tier 1 is desired. -/
def buildDuringPass : Outcome Unit := Tick (viewerAt 1001) 0 passInFlight.state

/-- The tick after that one; the pipeline reports the pass still running. -/
def pollDuringBuild : Outcome Unit :=
  Tick { World := some { WorldType := .Game, ViewDistances := [1001] }
         CheckStatus := { bStarted := true } } 0 buildDuringPass.state

/-- The state of `passInFlight` with the actor animated. -/
def animatedPassInFlight : AOpenLandMeshActor :=
  { passInFlight.state with bAnimate := true }

/-- A game world with the viewer at distance 1001 in which the pipeline reports the pass
completed. -/
def completingAt1001 : Env :=
  { World := some { WorldType := .Game, ViewDistances := [1001] }
    CheckStatus := { bStarted := true, bCompleted := true } }

/-- The actor `unbuiltThreeTiers` in the editor after `OnConstruction` (which builds the
mesh) and a call of `ModifyMeshAsync`. -/
def editorDeferred : Outcome Unit :=
  runAll [(editorViewerAt 0, .OnConstruction), (editorViewerAt 0, .ModifyMeshAsync)]
    unbuiltThreeTiers

/-- The next tick in the editor. -/
def editorTick : Outcome Unit := Tick (editorViewerAt 0) 0 editorDeferred.state

/-! ## Scenario: a modify deferred while a pass is started -/

/-- The actor `threeTiersStarted` after a call of `ModifyMesh`, which the started pass
absorbs, and a tick in which the poll reports the pass completed. -/
def absorbedRun : Outcome Unit :=
  runAll [(pipelineAnswers {} {}, .ModifyMesh), (completingPipeline, .Tick 0)]
    threeTiersStarted

/-- The next tick; the pipeline accepts a start. -/
def reissueTick : Outcome Unit :=
  Tick (pipelineAnswers { bStarted := true } {}) (1 / 60) absorbedRun.state

/-! ## Collision flags of the built tiers -/

/-- Whether the target mesh of the build result of the `FLODInfo` that `LOD` points to
carries collision (`LOD->MeshBuildResult->Target->bEnableCollision`); `none` when one of
the three pointers is null or dangling. -/
def carriesCollision (s : AOpenLandMeshActor) (LOD : Option Nat) : Option Bool :=
  (LOD.bind fun p => s.LODs[p]?).bind fun lod =>
    (lod.MeshBuildResult.bind fun i => s.Results[i]?).bind fun r =>
      (r.Target.bind fun t => s.Meshes[t]?).map fun m => m.bEnableCollision

/-- The stores of `s'` hold every object the stores of `s` hold, the LODs and the build
results as they were, the meshes with the collision flag they had. -/
def StoresKept (s s' : AOpenLandMeshActor) : Prop :=
  (∀ (p : Nat) (v : FLODInfo), s.LODs[p]? = some v → s'.LODs[p]? = some v)
  ∧ (∀ (i : Nat) (v : FOpenLandPolygonMeshBuildResult),
      s.Results[i]? = some v → s'.Results[i]? = some v)
  ∧ (∀ (t : Nat) (m : FSimpleMeshInfo), s.Meshes[t]? = some m →
      ∃ m' : FSimpleMeshInfo,
        s'.Meshes[t]? = some m' ∧ m'.bEnableCollision = m.bEnableCollision)

/-- The unbuilt three-tier actor with collision enabled and `LODIndexForCollisions` set
to `c`. -/
def collisionTier (c : Int) : AOpenLandMeshActor :=
  { unbuiltThreeTiers with bEnableCollision := true, LODIndexForCollisions := c }

/-- For each tier of the LOD list of the state an outcome ends in, whether its target
carries collision. -/
def tierCollisions (o : Outcome Unit) : List (Option Bool) :=
  o.state.LODList.map (carriesCollision o.state)

/-! ## Names, values and kinds in the GPU parameter list -/

/-- The names of the entries of the parameter list, in order. -/
def FComputeMaterial.names (m : FComputeMaterial) : List FName :=
  m.Parameters.map fun Param => Param.Name

/-- Whether the parameter list has an entry with the name `Name`. -/
def FComputeMaterial.hasName (m : FComputeMaterial) (Name : FName) : Bool :=
  (firstNamed Name m.Parameters).isSome

/-- What the three getters return for the name `Name`. -/
def FComputeMaterial.valuesAt (m : FComputeMaterial) (Name : FName) :
    ℚ × FVector × Option Nat :=
  (m.GetGPUScalarParameter Name, m.GetGPUVectorParameter Name, m.GetGPUTextureParameter Name)

/-- The kind recorded in the first entry with the name `Name`, if there is one. -/
def FComputeMaterial.kindAt (m : FComputeMaterial) (Name : FName) :
    Option EComputeMaterialParameterType :=
  (firstNamed Name m.Parameters).map fun Param => Param.ValueType

/-! ## Decimal digits -/

/-- The number a list of decimal digit characters stands for, read from the left,
starting from `a`. -/
def decimalValue (a : Nat) (l : List Char) : Nat :=
  l.foldl (fun acc c => acc * 10 + (c.toNat - 48)) a

/-! ## Relations kept by the rendering code -/

/-- Whether a call is `PolygonMesh->BuildMesh`. -/
def Event.isBuildMesh : Event → Bool
  | .BuildMesh _ _ => true
  | _ => false

/-- A relation between the state before and the state after. -/
abbrev StateRel : Type := AOpenLandMeshActor → AOpenLandMeshActor → Prop

/-- Code keeps the relation `R` between the state it starts in and the state it ends in,
whether it runs to its end or stops. -/
structure Keeps (R : StateRel) {α : Type}
    (m : Op α) : Prop where
  rel : ∀ s, R s (m s).state

/-- A relation kept by the code that registers meshes with the mesh component: it holds
between a state and itself, it composes, and it holds across a call other than
`PolygonMesh->BuildMesh`, a change of the sections and a write of `bSectionVisible`. -/
structure RenderFrame (R : StateRel) : Prop where
  same : ∀ s, R s s
  chain : ∀ a b c, R a b → R b c → R a c
  called : ∀ (e : Event) (s : AOpenLandMeshActor), e.isBuildMesh = false →
    R s { s with Calls := s.Calls ++ [e] }
  sections : ∀ (x : List (Option Nat)) (s : AOpenLandMeshActor), R s { s with Sections := x }
  visible : ∀ (t : Nat) (v : FSimpleMeshInfo) (b : Bool) (s : AOpenLandMeshActor),
    s.Meshes[t]? = some v →
    R s { s with Meshes := s.Meshes.set t { v with bSectionVisible := b } }

/-- The mark of the async build in progress is the same in both states. -/
def MarkKept : StateRel := fun s s' =>
  s'.AsyncBuildingLODIndex = s.AsyncBuildingLODIndex

/-- The unbuilt three-tier actor with the mesh always hidden. -/
def hiddenActor : AOpenLandMeshActor :=
  { unbuiltThreeTiers with MeshVisibility := .MV_HIDE_ALWAYS }

/-- The actor `hiddenActor` in a game after a tick with the viewer at distance 1001, which
starts the async build of tier 1, and the delivery of the build result (with a target),
on which `FinishBuildMeshAsync` runs. -/
def hiddenBuilt : Outcome Unit :=
  runAll [(viewerAt 1001, .Tick 0),
          (viewerAt 1001, .OnBuildMeshAsyncResult (.Fresh {} (some {}) {}))] hiddenActor

/-! ## The synchronous build of all tiers -/

/-- The build options `BuildMesh` passes to the proxy for tier `LODIndex`. -/
def syncBuildOptions (env : Env) (s : AOpenLandMeshActor) (LODIndex : Int) :
    FOpenLandPolygonMeshBuildOptions :=
  { SubDivisions := max (s.SubDivisions - LODIndex) 0
    CuspAngle := s.SmoothNormalAngle
    ForcedTextureWidth := CeilSqrt env (env.CalculateVerticesForSubdivision s.SubDivisions) }

/-- The call `PolygonMesh->BuildMesh(this, BuildMeshOptions, CacheKey)` that `BuildMesh`
makes for tier `LODIndex`. -/
def syncBuildCall (env : Env) (s : AOpenLandMeshActor) (LODIndex : Int) : Event :=
  .BuildMesh (syncBuildOptions env s LODIndex)
    (MakeCacheKey env.GetCacheKey s.SubDivisions (syncBuildOptions env s LODIndex).SubDivisions)

/-- The state after the iteration of the first loop of `BuildMesh` for tier `LODIndex`,
when the proxy hands back a new result with the meshes `Original` and `Target`: the call
is recorded, the two meshes, the result and the new `FLODInfo` are in the stores, and the
target carries the visibility and collision flags the iteration writes. -/
def afterBuildTier (env : Env) (s0 : AOpenLandMeshActor) (LODIndex : Int)
    (Original Target : FSimpleMeshInfo) (Result : FOpenLandPolygonMeshBuildResult)
    (S : AOpenLandMeshActor) : AOpenLandMeshActor :=
  { S with
    Calls := S.Calls ++ [syncBuildCall env s0 LODIndex]
    Meshes := S.Meshes ++ [Original, { Target with
      bSectionVisible := false
      bEnableCollision := S.bEnableCollision
        && decide (S.LODIndexForCollisions < 0 ∨ LODIndex = S.LODIndexForCollisions) }]
    Results := S.Results ++ [{ Result with
      Original := some S.Meshes.length
      Target := some (S.Meshes.length + 1) }]
    LODs := S.LODs ++ [FLODInfo.mk (some S.Results.length) LODIndex LODIndex false] }

/-- The calls `PolygonMesh->BuildMesh` for `n` tiers from tier `K` on. -/
def tierCalls (env : Env) (s : AOpenLandMeshActor) (K : Int) (n : Nat) : List Event :=
  (List.range n).map fun j : Nat => syncBuildCall env s (K + (j : Int))

/-- The pointers to `n` new `FLODInfo` objects, when the store had `L` entries. -/
def tierPointers (L : Nat) (n : Nat) : List (Option Nat) :=
  (List.range n).map fun j : Nat => some (L + j)

/-- Only the meshes, the sections and the calls may differ between the two states, and no
`PolygonMesh->BuildMesh` call was added. -/
def Rendered : StateRel := fun s s' =>
  { s' with Meshes := s.Meshes, Sections := s.Sections, Calls := s.Calls } = s
  ∧ ∃ es, s'.Calls = s.Calls ++ es ∧ es.filter Event.isBuildMesh = []

/-- Whether the build result `r` is in the store and its target mesh is too. -/
def hasTarget (s : AOpenLandMeshActor) (r : Nat) : Bool :=
  match s.Results[r]? with
  | some v =>
    match v.Target with
    | some t => decide (t < s.Meshes.length)
    | none => false
  | none => false

/-- A build answer `BuildMesh` can use in state `s`: a new result with a target mesh, or
a result of the store whose target mesh is in the store. -/
def usableAnswer (s : AOpenLandMeshActor) : FBuildAnswer → Bool
  | .Fresh _ Target _ => Target.isSome
  | .Shared Result => hasTarget s Result

/-- The `FLODInfo` objects the first loop of `BuildMesh` makes from tier `K` on, when the
builds hand back the results `rs`. -/
def slotsOf : Int → List Nat → List FLODInfo
  | _, [] => []
  | K, r :: rest => FLODInfo.mk (some r) K K false :: slotsOf (K + 1) rest

/-- The stores of `s'` hold every `FLODInfo` and every build result of `s` as they were,
and at least as many meshes. -/
def Grown : StateRel := fun s s' =>
  (∀ (p : Nat) (v : FLODInfo), s.LODs[p]? = some v → s'.LODs[p]? = some v)
  ∧ (∀ (i : Nat) (v : FOpenLandPolygonMeshBuildResult),
      s.Results[i]? = some v → s'.Results[i]? = some v)
  ∧ s.Meshes.length ≤ s'.Meshes.length

/-- As `Rendered`, and the mesh store has the same size. -/
def Settled : StateRel := fun s s' => Rendered s s' ∧ s'.Meshes.length = s.Meshes.length

/-- Every answer of the builds of the `n` tiers from tier `K` on is usable when it is
handed back: the answer for tier `K` in state `s`, the next one once the answer for tier
`K` is in the stores, and so on. -/
def answersUsable (env : Env) : Nat → Int → AOpenLandMeshActor → Bool
  | 0, _, _ => true
  | n + 1, K, s => usableAnswer s (env.BuildMeshAnswer K)
      && answersUsable env n (K + 1) (takeAnswer (env.BuildMeshAnswer K) s).state

/-- A game world with the cache key `terrain` in which the build of tier 0 makes a new
result and the builds of the other tiers hand back that result, as the build cache does
for tiers of one subdivision depth. -/
def cachedWorld : Env :=
  { World := some { WorldType := .Game, ViewDistances := [0] }
    GetCacheKey := "terrain"
    BuildMeshAnswer := fun k => if k = 0 then .Fresh {} (some {}) {} else .Shared 0 }

/-! ## Runs with a tier built on demand -/

/-- A game world with the viewer at distance 1001 from the actor, in which the pipeline
answers a start with `Start` and a poll with `Check`. -/
def farPipeline (Start Check : FOpenLandPolygonMeshModifyStatus) : Env :=
  { World := some { WorldType := .Game, ViewDistances := [1001] }
    StartStatus := Start, CheckStatus := Check }

/-- The actor `asyncGameActor` after `BeginPlay`, a tick with the viewer at distance 1001
(it starts the async build of tier 1), the delivery of the build result (the tier gets the
first free section, section 0) and one more tick, in which `SwitchLODs` makes tier 1 the
current tier. -/
def tierOneCurrent : Outcome Unit :=
  runAll [(viewerAt 1001, .BeginPlay), (viewerAt 1001, .Tick 0),
          (viewerAt 1001, .OnBuildMeshAsyncResult (.Fresh {} (some {}) {})),
          (viewerAt 1001, .Tick 0)] asyncGameActor

/-- The async path from the state of `tierOneCurrent`: `ModifyMeshAsync`, a tick that
starts the pass and a tick whose poll reports the pass completed. -/
def tierOneAsyncModify : Outcome Unit :=
  runAll [(viewerAt 1001, .ModifyMeshAsync),
          (farPipeline { bStarted := true } {}, .Tick 0),
          (farPipeline {} { bStarted := true, bCompleted := true }, .Tick 0)]
    tierOneCurrent.state

/-- An animated actor of a game that builds its LODs on demand and animates with the
synchronous modify (`bUseAsyncAnimations` off), with three tiers, nothing built yet. -/
def animatedSyncActor : AOpenLandMeshActor :=
  { unbuiltThreeTiers with
    bUseAsyncBuildMeshOnGame := true, bAnimate := true, bUseAsyncAnimations := false }

/-- The actor `animatedSyncActor` after `BeginPlay`, a tick with the viewer at distance
1001 (it starts the async build of tier 1) and the delivery of the build result. -/
def animatedTierOneBuilt : Outcome Unit :=
  runAll [(viewerAt 1001, .BeginPlay), (viewerAt 1001, .Tick 0),
          (viewerAt 1001, .OnBuildMeshAsyncResult (.Fresh {} (some {}) {}))] animatedSyncActor

/-- The `MeshSectionIndex` of the `FLODInfo` that `CurrentLOD` points to. -/
def currentSection (s : AOpenLandMeshActor) : Option Int :=
  (s.CurrentLOD.bind fun p => s.LODs[p]?).map FLODInfo.MeshSectionIndex

/-- The build result of the `FLODInfo` that `CurrentLOD` points to (`some none`: the LOD
is there and its `MeshBuildResult` is null). -/
def currentResult (s : AOpenLandMeshActor) : Option (Option Nat) :=
  (s.CurrentLOD.bind fun p => s.LODs[p]?).map FLODInfo.MeshBuildResult

/-! ## Writes that touch only the flags of a mesh -/

/-- The mesh `m'` is the mesh `m` but for the flags `bSectionVisible` and
`bEnableCollision`. -/
def sameButFlags (m m' : FSimpleMeshInfo) : Prop :=
  { m' with bSectionVisible := m.bSectionVisible, bEnableCollision := m.bEnableCollision } = m

/-- Every build result of the store of `s` is in the store of `s'` as it was, and every
mesh of the store of `s` is there as it was but for its two flags. -/
def FlagsOnly : StateRel := fun s s' =>
  (∀ (i : Nat) (v : FOpenLandPolygonMeshBuildResult),
    s.Results[i]? = some v → s'.Results[i]? = some v)
  ∧ (∀ (t : Nat) (m : FSimpleMeshInfo), s.Meshes[t]? = some m →
      ∃ m' : FSimpleMeshInfo, s'.Meshes[t]? = some m' ∧ sameButFlags m m')

/-- A game world with the cache key `k` in which every build is a cache hit that hands
back the build result 0 of the store. -/
def cacheHitWorld : Env :=
  { World := some { WorldType := .Game, ViewDistances := [0] }
    GetCacheKey := "k"
    BuildMeshAnswer := fun _ => .Shared 0 }

/-- The actor `asyncGameActor` with a build result in the store that was built with the
cache key `k::0::0` (the entry of the build cache) and its two meshes. -/
def cacheHolder : AOpenLandMeshActor :=
  { asyncGameActor with
    Results := [{ Original := some 0, Target := some 1, CacheKey := "k::0::0" }]
    Meshes := [{}, {}] }

/-- The actor `cacheHolder` after `BeginPlay`, a tick with the viewer at the actor (it
starts the async build of tier 0 with the key `k::0::0`) and the delivery of the cached
result, on which `FinishBuildMeshAsync` runs. -/
def hitDelivered : Outcome Unit :=
  runAll [(cacheHitWorld, .BeginPlay), (cacheHitWorld, .Tick 0),
          (cacheHitWorld, .OnBuildMeshAsyncResult (.Shared 0))] cacheHolder

/-! ## Runs that show the defects of the builds and of the tick -/

/-- A game world in which the mesh has 16777217 vertices at the configured depth. -/
def manyVerticesWorld : Env :=
  { World := some { WorldType := .Game, ViewDistances := [0] }
    CalculateVerticesForSubdivision := fun _ => 16777217 }

/-- A game world with the cache key `terrain` in which the proxy builds a result for the
first request and hands that same result, the entry of its cache, back for the next ones:
what it does for tiers of one subdivision depth, whose keys are equal. -/
def sharedDepthWorld : Env :=
  { World := some { WorldType := .Game, ViewDistances := [0] }
    GetCacheKey := "terrain"
    BuildMeshAnswer := fun k =>
      if k = 0 then .Fresh {} (some {}) { CacheKey := "terrain::0::0" } else .Shared 0 }

/-- For each tier of the LOD list of the state an outcome ends in, whether its target is
flagged visible. -/
def tierVisibilities (o : Outcome Unit) : List (Option Bool) :=
  o.state.LODList.map fun LOD => LOD.bind (sectionVisible o.state)

/-- The tick after `buildDuringPass`, in which the pipeline reports the pass completed. -/
def completeDuringBuild : Outcome Unit := Tick completingAt1001 0 buildDuringPass.state

/-- The run `passInFlight` followed by a call of `ModifyMesh`, which the pass in flight
absorbs, and a tick in which the poll reports the pass completed. -/
def deferredAfterPass : Outcome Unit :=
  runAll [(pipelineAnswers {} {}, .ModifyMesh), (completingPipeline, .Tick 0)]
    passInFlight.state

/-- The next tick, with the viewer now at distance 1001, where tier 1 is desired. -/
def deferredBuildTick : Outcome Unit := Tick (viewerAt 1001) 0 deferredAfterPass.state

/-- The tick after that one. -/
def deferredLostTick : Outcome Unit := Tick (viewerAt 1001) 0 deferredBuildTick.state

/-- The actor `hiddenBuilt` leaves, with the mesh then set to be always shown. -/
def shownAgain : AOpenLandMeshActor :=
  { hiddenBuilt.state with MeshVisibility := .MV_SHOW_ALWAYS }

/-! ## Theorems: FDataTexture -/

namespace FDataTexture

theorem SetPixelValue_inRange (t : FDataTexture) (i R G B A : Nat)
    (h : 4 * i + 3 < t.SourceData.length) :
    t.SetPixelValue (i : Int) R G B A
      = some ⟨t.TextureWidth, pixelWritten t.SourceData i R G B A⟩ := by
  have h1 : ((i : Int) * 4).toNat = 4 * i := by omega
  have h2 : (0 : Int) ≤ (i : Int) ∧ 4 * i + 3 < t.SourceData.length := ⟨by omega, h⟩
  simp only [SetPixelValue, h1, if_pos h2, pixelWritten]

theorem pixelWritten_length (d : List Nat) (i R G B A : Nat) :
    (pixelWritten d i R G B A).length = d.length := by
  simp [pixelWritten]

theorem pixelWritten_outside (d : List Nat) (i R G B A j : Nat)
    (hj : j < 4 * i ∨ 4 * i + 4 ≤ j) :
    (pixelWritten d i R G B A)[j]? = d[j]? := by
  have a0 : 4 * i ≠ j := by omega
  have a1 : 4 * i + 1 ≠ j := by omega
  have a2 : 4 * i + 2 ≠ j := by omega
  have a3 : 4 * i + 3 ≠ j := by omega
  simp [pixelWritten, List.getElem?_set_ne, a0, a1, a2, a3]

theorem pixelWritten_inside (d : List Nat) (i R G B A : Nat) (h : 4 * i + 3 < d.length) :
    (pixelWritten d i R G B A)[4 * i]? = some (B % 256)
    ∧ (pixelWritten d i R G B A)[4 * i + 1]? = some (G % 256)
    ∧ (pixelWritten d i R G B A)[4 * i + 2]? = some (R % 256)
    ∧ (pixelWritten d i R G B A)[4 * i + 3]? = some (A % 256) := by
  have l0 : 4 * i < d.length := by omega
  have l1 : 4 * i + 1 < d.length := by omega
  have l2 : 4 * i + 2 < d.length := by omega
  simp [pixelWritten, List.getElem?_set, l0, l1, l2, h]

theorem ResetLoop_clears (n : Nat) : ∀ (k : Nat) (t : FDataTexture),
    4 * (k + n) ≤ t.SourceData.length →
    ∃ t', ResetLoop n (k : Int) t = some t' ∧ t'.TextureWidth = t.TextureWidth
      ∧ t'.SourceData.length = t.SourceData.length
      ∧ ∀ j, t'.SourceData[j]? =
          if 4 * k ≤ j ∧ j < 4 * (k + n) then some 0 else t.SourceData[j]? := by
  induction n with
  | zero =>
    intro k t _
    refine ⟨t, rfl, rfl, rfl, fun j => ?_⟩
    have : ¬ (4 * k ≤ j ∧ j < 4 * (k + 0)) := by omega
    rw [if_neg this]
  | succ n ih =>
    intro k t h
    have hk : 4 * k + 3 < t.SourceData.length := by omega
    have hcast : ((k : Int) + 1) = ((k + 1 : Nat) : Int) := by push_cast; rfl
    obtain ⟨t', e, hw, hl, hj⟩ := ih (k + 1)
      ⟨t.TextureWidth, pixelWritten t.SourceData k 0 0 0 0⟩
      (by simp only [pixelWritten_length]; omega)
    refine ⟨t', ?_, hw, ?_, fun j => ?_⟩
    · simp only [ResetLoop, SetPixelValue_inRange t k 0 0 0 0 hk, Option.bind, hcast, e]
    · rw [hl, pixelWritten_length]
    · rw [hj j]
      by_cases c1 : 4 * (k + 1) ≤ j ∧ j < 4 * (k + 1 + n)
      · have c2 : 4 * k ≤ j ∧ j < 4 * (k + (n + 1)) := by omega
        rw [if_pos c1, if_pos c2]
      · rw [if_neg c1]
        by_cases c3 : 4 * k ≤ j ∧ j < 4 * (k + (n + 1))
        · rw [if_pos c3]
          have c4 : 4 * k ≤ j ∧ j < 4 * k + 4 := by omega
          obtain ⟨p0, p1, p2, p3⟩ := pixelWritten_inside t.SourceData k 0 0 0 0 hk
          have c5 : j = 4 * k ∨ j = 4 * k + 1 ∨ j = 4 * k + 2 ∨ j = 4 * k + 3 := by omega
          rcases c5 with r | r | r | r <;> subst r <;> simp_all
        · rw [if_neg c3]
          exact pixelWritten_outside t.SourceData k 0 0 0 0 j (by omega)

theorem wrapInt32_inRange (x : Int) (h0 : -2147483648 ≤ x) (h1 : x < 2147483648) :
    wrapInt32 x = x := by
  unfold wrapInt32; omega

theorem create_zero_filled (Width : Int) (raw : Nat → Nat)
    (h : Width * Width * 4 < 2147483648) :
    ∃ t, create Width raw = some t ∧ t.TextureWidth = Width
      ∧ t.SourceData.length = (Width * Width * 4).toNat
      ∧ ∀ j, j < t.SourceData.length → t.SourceData[j]? = some 0 := by
  have hsq : 0 ≤ Width * Width := mul_self_nonneg Width
  have w1 : wrapInt32 (Width * Width) = Width * Width :=
    wrapInt32_inRange _ (by omega) (by omega)
  have w2 : wrapInt32 (Width * Width * 4) = Width * Width * 4 :=
    wrapInt32_inRange _ (by omega) (by omega)
  have hlen : 4 * (0 + (Width * Width).toNat) ≤
      (FDataTexture.mk Width ((List.range (Width * Width * 4).toNat).map
        (fun i => raw i % 256))).SourceData.length := by
    simp only [List.length_map, List.length_range]; omega
  obtain ⟨t', e, hw, hl, hj⟩ := ResetLoop_clears (Width * Width).toNat 0 _ hlen
  refine ⟨t', ?_, hw, ?_, fun j hjl => ?_⟩
  · have hneg : ¬ (Width * Width * 4 < 0) := by omega
    simp only [create, w1, w2, if_neg hneg, Reset]
    exact e
  · rw [hl]; simp
  · rw [hj j]
    rw [hl] at hjl
    simp only [List.length_map, List.length_range] at hjl
    have : 4 * 0 ≤ j ∧ j < 4 * (0 + (Width * Width).toNat) := by omega
    rw [if_pos this]

theorem SetFloatValues_frame : ∀ (writes : List (Int × Nat)) (t : FDataTexture) (n : Nat),
    (∀ w ∈ writes, 0 ≤ w.1 ∧ w.1 < (n : Int)) → 4 * n ≤ t.SourceData.length →
    ∃ t', SetFloatValues writes t = some t' ∧ t'.TextureWidth = t.TextureWidth
      ∧ t'.SourceData.length = t.SourceData.length
      ∧ ∀ j, 4 * n ≤ j → t'.SourceData[j]? = t.SourceData[j]? := by
  intro writes
  induction writes with
  | nil => intro t n _ _; exact ⟨t, rfl, rfl, rfl, fun _ _ => rfl⟩
  | cons w rest ih =>
    intro t n hw hn
    obtain ⟨Index, Value⟩ := w
    have hI := hw (Index, Value) (List.mem_cons_self _ _)
    obtain ⟨i, rfl⟩ : ∃ i : Nat, Index = (i : Int) := ⟨Index.toNat, by omega⟩
    have hi : 4 * i + 3 < t.SourceData.length := by
      have : (i : Int) < (n : Int) := hI.2
      omega
    obtain ⟨t', e, hw', hl, hj⟩ := ih
      ⟨t.TextureWidth, pixelWritten t.SourceData i (ValueBytes Value 0) (ValueBytes Value 1)
        (ValueBytes Value 2) (ValueBytes Value 3)⟩ n
      (fun w hmem => hw w (List.mem_cons_of_mem _ hmem))
      (by simp only [pixelWritten_length]; exact hn)
    refine ⟨t', ?_, hw', ?_, fun j hjn => ?_⟩
    · simp only [SetFloatValues, SetFloatValue, SetPixelValue_inRange t i _ _ _ _ hi,
        Option.bind, e]
    · rw [hl, pixelWritten_length]
    · rw [hj j hjn]
      have : (i : Int) < (n : Int) := hI.2
      exact pixelWritten_outside _ _ _ _ _ _ j (by omega)

theorem ValueBytes_lt (v k : Nat) : ValueBytes v k % 256 = ValueBytes v k := by
  unfold ValueBytes; exact Nat.mod_mod _ _

/-- C3, as stated, fails: on a one-texel texture, `SetFloatValue(0, 1.0f)` (bit pattern
`0x3F800000`, little-endian bytes `00 00 80 3F`) does not leave the little-endian bytes
of the value at offsets 0, 1, 2, 3; the buffer is `80 00 00 3F`. -/
theorem SetFloatValue_not_little_endian :
    (FDataTexture.mk 1 [0, 0, 0, 0]).SetFloatValue 0 1065353216
        = some ⟨1, [128, 0, 0, 63]⟩
    ∧ ¬ ∃ t', (FDataTexture.mk 1 [0, 0, 0, 0]).SetFloatValue 0 1065353216 = some t'
        ∧ t'.SourceData[0]? = some (ValueBytes 1065353216 0)
        ∧ t'.SourceData[1]? = some (ValueBytes 1065353216 1)
        ∧ t'.SourceData[2]? = some (ValueBytes 1065353216 2)
        ∧ t'.SourceData[3]? = some (ValueBytes 1065353216 3) := by
  have e : (FDataTexture.mk 1 [0, 0, 0, 0]).SetFloatValue 0 1065353216
      = some ⟨1, [128, 0, 0, 63]⟩ := by decide
  refine ⟨e, ?_⟩
  rintro ⟨t', h, h0, -⟩
  rw [e] at h
  cases h
  revert h0
  decide

theorem SetFloatValue_buffer (t : FDataTexture) (i v : Nat)
    (h : 4 * i + 3 < t.SourceData.length) :
    ∃ t', t.SetFloatValue (i : Int) v = some t'
      ∧ t'.SourceData.length = t.SourceData.length
      ∧ t'.SourceData[4 * i]? = some (ValueBytes v 2)
      ∧ t'.SourceData[4 * i + 1]? = some (ValueBytes v 1)
      ∧ t'.SourceData[4 * i + 2]? = some (ValueBytes v 0)
      ∧ t'.SourceData[4 * i + 3]? = some (ValueBytes v 3) := by
  obtain ⟨p0, p1, p2, p3⟩ := pixelWritten_inside t.SourceData i (ValueBytes v 0)
    (ValueBytes v 1) (ValueBytes v 2) (ValueBytes v 3) h
  simp only [ValueBytes_lt] at p0 p1 p2 p3
  exact ⟨_, SetPixelValue_inRange t i _ _ _ _ h, pixelWritten_length _ _ _ _ _ _,
    p0, p1, p2, p3⟩

/-- C3 (amended): for every texel index `i` inside the buffer and every float bit pattern
`v`, `SetFloatValue(i, v)` succeeds and stores the bytes of `v` in channel order
B, G, R, A: offset `4i` holds byte 2 of the little-endian representation, `4i+1` byte 1,
`4i+2` byte 0 (the least significant) and `4i+3` byte 3 (the most significant). -/
theorem SetFloatValue_stores_BGRA (t : FDataTexture) (i v : Nat)
    (h : 4 * i + 3 < t.SourceData.length) :
    ∃ t', t.SetFloatValue (i : Int) v = some t'
      ∧ t'.SourceData.length = t.SourceData.length
      ∧ t'.SourceData[4 * i]? = some (ValueBytes v 2)
      ∧ t'.SourceData[4 * i + 1]? = some (ValueBytes v 1)
      ∧ t'.SourceData[4 * i + 2]? = some (ValueBytes v 0)
      ∧ t'.SourceData[4 * i + 3]? = some (ValueBytes v 3) :=
  SetFloatValue_buffer t i v h

/-- Witness for C3 (amended): texel 1 of a two-texel texture, value `3.14159f`
(`0x40490FD0`). -/
theorem SetFloatValue_stores_BGRA_witness :
    4 * 1 + 3 < (FDataTexture.mk 2 [9, 9, 9, 9, 9, 9, 9, 9]).SourceData.length
    ∧ ∃ t', (FDataTexture.mk 2 [9, 9, 9, 9, 9, 9, 9, 9]).SetFloatValue ((1 : Nat) : Int)
          1078530000 = some t'
      ∧ t'.SourceData.length = (FDataTexture.mk 2 [9, 9, 9, 9, 9, 9, 9, 9]).SourceData.length
      ∧ t'.SourceData[4 * 1]? = some (ValueBytes 1078530000 2)
      ∧ t'.SourceData[4 * 1 + 1]? = some (ValueBytes 1078530000 1)
      ∧ t'.SourceData[4 * 1 + 2]? = some (ValueBytes 1078530000 0)
      ∧ t'.SourceData[4 * 1 + 3]? = some (ValueBytes 1078530000 3) :=
  ⟨by decide, SetFloatValue_stores_BGRA _ 1 1078530000 (by decide)⟩

/-- C4, as stated, fails: after `SetFloatValue(0, -1.0f)` (bit pattern `0xBF800000`)
reading offsets 0..3 as a little-endian word gives `0xBF000080`, not the value. -/
theorem decodeLittleEndian_not_roundtrip :
    ¬ ∃ t', (FDataTexture.mk 1 [0, 0, 0, 0]).SetFloatValue 0 3212836864 = some t'
        ∧ decodeLittleEndian t' 0 = 3212836864 := by
  have e : (FDataTexture.mk 1 [0, 0, 0, 0]).SetFloatValue 0 3212836864
      = some ⟨1, [128, 0, 0, 191]⟩ := by decide
  rintro ⟨t', h, h0⟩
  rw [e] at h
  cases h
  revert h0
  decide

/-- C4 (amended): for every float bit pattern `v` (below `2^32`) and every in-range texel
index `i`, after `SetFloatValue(i, v)` the channels of texel `i` taken in the order
R, G, B, A (buffer offsets `4i+2`, `4i+1`, `4i`, `4i+3`) are the little-endian bytes of
`v`: decoding them recovers exactly `v`. -/
theorem decodeChannels_roundtrip (t : FDataTexture) (i v : Nat)
    (h : 4 * i + 3 < t.SourceData.length) (hv : v < 4294967296) :
    ∃ t', t.SetFloatValue (i : Int) v = some t' ∧ decodeChannels t' i = v := by
  obtain ⟨t', e, -, p0, p1, p2, p3⟩ := SetFloatValue_buffer t i v h
  refine ⟨t', e, ?_⟩
  simp only [decodeChannels, List.getD_eq_getElem?_getD, p0, p1, p2, p3, Option.getD_some,
    ValueBytes]
  omega

/-- Witness for C4 (amended): `-1.0f` (`0xBF800000`) written to texel 0. The other values
the claim names are the bit patterns 0 (`0.0f`), 1078530000 (`3.14159f`), 1232348160
(`1e6f`) and 8388608 (the least normal number), all below `2^32`. -/
theorem decodeChannels_roundtrip_witness :
    (4 * 0 + 3 < (FDataTexture.mk 1 [0, 0, 0, 0]).SourceData.length
      ∧ (3212836864 : Nat) < 4294967296)
    ∧ ∃ t', (FDataTexture.mk 1 [0, 0, 0, 0]).SetFloatValue ((0 : Nat) : Int) 3212836864
          = some t' ∧ decodeChannels t' 0 = 3212836864 :=
  ⟨by decide, decodeChannels_roundtrip _ 0 3212836864 (by decide) (by decide)⟩

/-- C5, as stated, fails: for the width 23171 the byte count `23171 * 23171 * 4` does not
fit the `int32` `BufferSize`; the wrapped size is negative and no buffer of
`23171 * 23171 * 4` bytes is made. -/
theorem create_overflow :
    wrapInt32 (wrapInt32 (23171 * 23171) * 4) = -2147386332
    ∧ ∀ raw, ¬ ∃ t, create 23171 raw = some t
        ∧ t.SourceData.length = (23171 * 23171 * 4 : Int).toNat := by
  refine ⟨by decide, fun raw => ?_⟩
  rintro ⟨t, h, -⟩
  have hneg : wrapInt32 (wrapInt32 (23171 * 23171) * 4) < 0 := by decide
  simp only [create, if_pos hneg] at h
  cases h

/-- C5 (amended): for every width `w` whose byte count `w * w * 4` fits an `int32`, and
whatever the allocated memory held, the constructed texture has a buffer of exactly
`w * w * 4` bytes, all zero; and any run of `SetFloatValue` calls on texels below `n`
(with `n <= w * w`) succeeds, keeps the buffer length and leaves every byte from offset
`4n` on as it was, so every byte of the texels `n .. w*w-1` is still zero. -/
theorem create_zero_and_writes_frame (Width : Int) (raw : Nat → Nat)
    (h : Width * Width * 4 < 2147483648) :
    ∃ t, create Width raw = some t
      ∧ t.SourceData.length = (Width * Width * 4).toNat
      ∧ (∀ b ∈ t.SourceData, b = 0)
      ∧ ∀ (writes : List (Int × Nat)) (n : Nat), (n : Int) ≤ Width * Width →
          (∀ w ∈ writes, 0 ≤ w.1 ∧ w.1 < (n : Int)) →
          ∃ t', SetFloatValues writes t = some t'
            ∧ t'.SourceData.length = t.SourceData.length
            ∧ (∀ j, 4 * n ≤ j → t'.SourceData[j]? = t.SourceData[j]?)
            ∧ ∀ j, 4 * n ≤ j → j < t'.SourceData.length → t'.SourceData[j]? = some 0 := by
  obtain ⟨t, e, -, hl, hz⟩ := create_zero_filled Width raw h
  refine ⟨t, e, hl, fun b hb => ?_, fun writes n hn hw => ?_⟩
  · obtain ⟨j, hj, rfl⟩ := List.getElem_of_mem hb
    have := hz j hj
    rw [List.getElem?_eq_getElem hj] at this
    exact Option.some.inj this
  · have hcap : 4 * n ≤ t.SourceData.length := by rw [hl]; omega
    obtain ⟨t', e', -, hl', hj'⟩ := SetFloatValues_frame writes t n hw hcap
    refine ⟨t', e', hl', hj', fun j hjn hjl => ?_⟩
    rw [hj' j hjn]
    exact hz j (hl' ▸ hjl)

/-- Witness for C5 (amended): 17 vertices give the width `CeilToInt(Sqrt(17)) = 5`; the
buffer has 100 bytes, all zero, and after one write to each of the texels 0..16 the
bytes of the texels 17..24 (offsets 68..99) are still zero. -/
theorem create_zero_and_writes_frame_witness :
    (∀ env : Env, CeilSqrt env 17 = 5) ∧ ((5 : Int) * 5 * 4 < 2147483648)
    ∧ ∃ t, create 5 (fun i => i + 1) = some t
      ∧ t.SourceData.length = 100
      ∧ (∀ b ∈ t.SourceData, b = 0)
      ∧ ∃ t', SetFloatValues ((List.range 17).map fun (i : Nat) => ((i : Int), 1078530000 + i)) t
            = some t'
          ∧ t'.SourceData.length = 100
          ∧ ∀ j, 68 ≤ j → j < 100 → t'.SourceData[j]? = some 0 := by
  have hsqrt : Float32.sqrt (Float32.ofInt 17) = Float32.finite (8646779 / 2097152) := by
    decide!
  have hceil : ⌈(8646779 / 2097152 : ℚ)⌉ = 5 := by
    rw [Int.ceil_eq_iff]; norm_num
  refine ⟨fun env => by simp [CeilSqrt, hsqrt, Float32.ceilToInt, hceil], by decide, ?_⟩
  obtain ⟨t, e, hl, hz, hw⟩ := create_zero_and_writes_frame 5 (fun i => i + 1) (by decide)
  have hl100 : t.SourceData.length = 100 := by rw [hl]; decide
  obtain ⟨t', e', hl', -, hz'⟩ :=
    hw ((List.range 17).map fun (i : Nat) => ((i : Int), 1078530000 + i)) 17 (by decide)
      (by
        intro w hmem
        obtain ⟨i, hi, rfl⟩ := List.mem_map.mp hmem
        have := List.mem_range.mp hi
        constructor <;> simp only <;> omega)
  exact ⟨t, e, hl100, hz, t', e', hl'.trans hl100,
    fun j h1 h2 => hz' j (by omega) (by rw [hl', hl100]; exact h2)⟩

end FDataTexture

/-! ## Theorems: cache keys -/

theorem MakeCacheKey_nonempty (SourceCacheKey : String) (SubDivisions CurrentSubdivisions : Int)
    (h : SourceCacheKey ≠ "") :
    MakeCacheKey SourceCacheKey SubDivisions CurrentSubdivisions
      = SourceCacheKey ++ "::" ++ FromInt SubDivisions ++ "::" ++ FromInt CurrentSubdivisions := by
  have : SourceCacheKey.isEmpty = false := by
    cases e : SourceCacheKey.isEmpty
    · rfl
    · exact absurd ((String.isEmpty_iff _).mp e) h
  simp [MakeCacheKey, this]

/-- C8: `MakeCacheKey` returns the empty string exactly when the source key supplied by
`GetCacheKey()` is empty; for a non-empty source key it returns the source key, `"::"`,
the configured `SubDivisions` in decimal, `"::"` and the per-LOD subdivision depth in
decimal. -/
theorem MakeCacheKey_spec (SourceCacheKey : String) (SubDivisions CurrentSubdivisions : Int) :
    (MakeCacheKey SourceCacheKey SubDivisions CurrentSubdivisions = "" ↔ SourceCacheKey = "")
    ∧ (SourceCacheKey ≠ "" →
        MakeCacheKey SourceCacheKey SubDivisions CurrentSubdivisions
          = SourceCacheKey ++ "::" ++ FromInt SubDivisions ++ "::"
              ++ FromInt CurrentSubdivisions) := by
  refine ⟨⟨fun h => ?_, fun h => ?_⟩, MakeCacheKey_nonempty _ _ _⟩
  · by_contra hne
    rw [MakeCacheKey_nonempty _ _ _ hne] at h
    have hl := congrArg String.length h
    simp only [String.length_append] at hl
    have h2 : ("::" : String).length = 2 := by decide
    have h0 : ("" : String).length = 0 := by decide
    omega
  · subst h
    rfl

/-- Witness for C8: a source key `"rock"` with `SubDivisions = 3` at depth 1 gives
`"rock::3::1"`, a negative number is written with its sign, and an empty source key
gives the empty key. -/
theorem MakeCacheKey_spec_witness :
    ("rock" : String) ≠ ""
    ∧ MakeCacheKey "rock" 3 1 = "rock::3::1"
    ∧ MakeCacheKey "rock" (-2) 0 = "rock::-2::0"
    ∧ MakeCacheKey "" 3 1 = "" := by
  refine ⟨by decide, ?_, by decide, by decide⟩
  rw [(MakeCacheKey_spec "rock" 3 1).2 (by decide)]
  decide

/-! ## Theorems: GPU parameter list -/

theorem firstNamed_assignFirst
    (assign : FComputeMaterialParameter → FComputeMaterialParameter)
    (hname : ∀ p, (assign p).Name = p.Name) (Name : FName) :
    ∀ (l l' : List FComputeMaterialParameter), assignFirst assign Name l = some l' →
      ∃ p, firstNamed Name l = some p ∧ firstNamed Name l' = some (assign p) := by
  intro l
  induction l with
  | nil => intro l' h; simp [assignFirst] at h
  | cons q rest ih =>
    intro l' h
    by_cases hq : q.Name = Name
    · simp only [assignFirst, if_pos hq, Option.some.injEq] at h
      subst h
      refine ⟨q, by simp [firstNamed, hq], ?_⟩
      simp [firstNamed, hname, hq]
    · simp only [assignFirst, if_neg hq, Option.map_eq_some'] at h
      obtain ⟨rest', hr, rfl⟩ := h
      obtain ⟨p, h1, h2⟩ := ih rest' hr
      exact ⟨p, by simp [firstNamed, hq, h1], by simp [firstNamed, hq, h2]⟩

theorem firstNamed_append_of_none
    (assign : FComputeMaterialParameter → FComputeMaterialParameter) (Name : FName) :
    ∀ (l : List FComputeMaterialParameter), assignFirst assign Name l = none →
      ∀ q : FComputeMaterialParameter, q.Name = Name → firstNamed Name (l ++ [q]) = some q := by
  intro l
  induction l with
  | nil => intro _ q hq; simp [firstNamed, hq]
  | cons r rest ih =>
    intro h q hq
    by_cases hr : r.Name = Name
    · simp [assignFirst, hr] at h
    · simp only [assignFirst, if_neg hr, Option.map_eq_none'] at h
      simp [firstNamed, hr, ih h q hq]

namespace FComputeMaterial

theorem GetGPUScalarParameter_Set (m : FComputeMaterial) (Name : FName) (Value : ℚ) :
    (m.SetGPUScalarParameter Name Value).GetGPUScalarParameter Name = Value := by
  unfold SetGPUScalarParameter GetGPUScalarParameter
  cases h : assignFirst (fun Param => { Param with ScalarValue := Value }) Name m.Parameters with
  | some updated =>
    obtain ⟨p, -, h2⟩ := firstNamed_assignFirst
      (fun Param => { Param with ScalarValue := Value }) (fun _ => rfl) Name _ _ h
    simp [h2]
  | none =>
    have h3 := firstNamed_append_of_none _ Name _ h
      { Name := Name, ValueType := .CMPT_SCALAR, ScalarValue := Value } rfl
    simp [h3]

theorem GetGPUVectorParameter_Set (m : FComputeMaterial) (Name : FName) (Value : FVector) :
    (m.SetGPUVectorParameter Name Value).GetGPUVectorParameter Name = Value := by
  unfold SetGPUVectorParameter GetGPUVectorParameter
  cases h : assignFirst (fun Param => { Param with VectorValue := Value }) Name m.Parameters with
  | some updated =>
    obtain ⟨p, -, h2⟩ := firstNamed_assignFirst
      (fun Param => { Param with VectorValue := Value }) (fun _ => rfl) Name _ _ h
    simp [h2]
  | none =>
    have h3 := firstNamed_append_of_none _ Name _ h
      { Name := Name, ValueType := .CMPT_VECTOR, ScalarValue := 0, VectorValue := Value } rfl
    simp [h3]

theorem GetGPUTextureParameter_Set (m : FComputeMaterial) (Name : FName) (Value : Option Nat) :
    (m.SetGPUTextureParameter Name Value).GetGPUTextureParameter Name = Value := by
  unfold SetGPUTextureParameter GetGPUTextureParameter
  cases h : assignFirst (fun Param => { Param with TextureValue := Value }) Name m.Parameters with
  | some updated =>
    obtain ⟨p, -, h2⟩ := firstNamed_assignFirst
      (fun Param => { Param with TextureValue := Value }) (fun _ => rfl) Name _ _ h
    simp [h2]
  | none =>
    have h3 := firstNamed_append_of_none _ Name _ h
      { Name := Name, ValueType := .CMPT_VECTOR, ScalarValue := 0,
        VectorValue := FVector.ZeroVector, TextureValue := Value } rfl
    simp [h3]

/-- C9: for every parameter list (duplicates of a name included), every name and all
values, each getter called right after the setter of its kind on the same name returns
the value just set, and after two sets on the same name it returns the second value;
this holds for the scalar, the vector and the texture pair. -/
theorem getter_after_setter (m : FComputeMaterial) (Name : FName) :
    (∀ v : ℚ, (m.SetGPUScalarParameter Name v).GetGPUScalarParameter Name = v)
    ∧ (∀ v1 v2 : ℚ, ((m.SetGPUScalarParameter Name v1).SetGPUScalarParameter Name v2
          ).GetGPUScalarParameter Name = v2)
    ∧ (∀ v : FVector, (m.SetGPUVectorParameter Name v).GetGPUVectorParameter Name = v)
    ∧ (∀ v1 v2 : FVector, ((m.SetGPUVectorParameter Name v1).SetGPUVectorParameter Name v2
          ).GetGPUVectorParameter Name = v2)
    ∧ (∀ v : Option Nat, (m.SetGPUTextureParameter Name v).GetGPUTextureParameter Name = v)
    ∧ (∀ v1 v2 : Option Nat, ((m.SetGPUTextureParameter Name v1).SetGPUTextureParameter Name v2
          ).GetGPUTextureParameter Name = v2) :=
  ⟨fun v => GetGPUScalarParameter_Set m Name v,
   fun _ v2 => GetGPUScalarParameter_Set _ Name v2,
   fun v => GetGPUVectorParameter_Set m Name v,
   fun _ v2 => GetGPUVectorParameter_Set _ Name v2,
   fun v => GetGPUTextureParameter_Set m Name v,
   fun _ v2 => GetGPUTextureParameter_Set _ Name v2⟩

end FComputeMaterial

/-! ## Theorems: binary32 arithmetic -/

theorem bitLogLoop_spec : ∀ (fuel n : Nat), n ≠ 0 → n < 2 ^ fuel →
    2 ^ bitLogLoop fuel n ≤ n ∧ n < 2 ^ (bitLogLoop fuel n + 1) := by
  intro fuel
  induction fuel with
  | zero => intro n h0 h; simp at h; omega
  | succ f ih =>
    intro n h0 h
    unfold bitLogLoop
    by_cases h2 : n < 2
    · rw [if_pos h2]
      have : n = 1 := by omega
      subst this
      simp
    · rw [if_neg h2]
      have hh : n / 2 ≠ 0 := by omega
      have hlt : n / 2 < 2 ^ f := by
        rw [pow_succ] at h
        omega
      obtain ⟨a, b⟩ := ih (n / 2) hh hlt
      constructor
      · rw [pow_succ]; omega
      · rw [pow_succ]; omega

theorem bitLog_spec (n : Nat) (h : n ≠ 0) : 2 ^ bitLog n ≤ n ∧ n < 2 ^ (bitLog n + 1) :=
  bitLogLoop_spec n n h (Nat.lt_two_pow n)

theorem pow2_eq (e : Int) : pow2 e = (2 : ℚ) ^ e := by
  unfold pow2
  split
  · rename_i h
    obtain ⟨n, rfl⟩ := Int.eq_ofNat_of_zero_le h
    simp
  · rename_i h
    obtain ⟨n, hn⟩ : ∃ n : Nat, -e = (n : Int) := Int.eq_ofNat_of_zero_le (by omega)
    have : e = -(n : Int) := by omega
    subst this
    simp

theorem pow2_pos (e : Int) : 0 < pow2 e := by
  rw [pow2_eq]; positivity

theorem pow2_le_pow2 {a b : Int} (h : a ≤ b) : pow2 a ≤ pow2 b := by
  rw [pow2_eq, pow2_eq]
  exact zpow_le_zpow_right₀ (by norm_num) h

theorem pow2_lt_pow2 {a b : Int} (h : a < b) : pow2 a < pow2 b := by
  rw [pow2_eq, pow2_eq]
  exact zpow_lt_zpow_right₀ (by norm_num) h

theorem pow2_add (a b : Int) : pow2 (a + b) = pow2 a * pow2 b := by
  rw [pow2_eq, pow2_eq, pow2_eq, zpow_add₀ (by norm_num)]

theorem ratLog_spec (a : ℚ) (h : 0 < a) : pow2 (ratLog a) ≤ a ∧ a < pow2 (ratLog a + 1) := by
  have hn : a.num.natAbs ≠ 0 := by
    have : 0 < a.num := Rat.num_pos.2 h
    omega
  obtain ⟨n1, n2⟩ := bitLog_spec a.num.natAbs hn
  obtain ⟨d1, d2⟩ := bitLog_spec a.den a.den_nz
  have hnum : (a.num.natAbs : ℚ) = a.num := by
    have h0 : 0 < a.num := Rat.num_pos.2 h
    have h1 : ((a.num.natAbs : Int) : ℚ) = (a.num : ℚ) := by
      rw [Int.natAbs_of_nonneg (le_of_lt h0)]
    rw [← h1, Int.cast_natCast]
  have ha : a = (a.num.natAbs : ℚ) / (a.den : ℚ) := by
    rw [hnum]; exact (Rat.num_div_den a).symm
  have hd : (0 : ℚ) < a.den := by exact_mod_cast a.den_pos
  have n1' : ((2 : ℚ) ^ (bitLog a.num.natAbs : Int)) ≤ (a.num.natAbs : ℚ) := by
    rw [zpow_natCast]; exact_mod_cast n1
  have n2' : (a.num.natAbs : ℚ) < (2 : ℚ) ^ ((bitLog a.num.natAbs : Int) + 1) := by
    have : (a.num.natAbs : ℚ) < (2 : ℚ) ^ (bitLog a.num.natAbs + 1) := by exact_mod_cast n2
    rw [← zpow_natCast] at this
    push_cast at this
    exact this
  have d1' : ((2 : ℚ) ^ (bitLog a.den : Int)) ≤ (a.den : ℚ) := by
    rw [zpow_natCast]; exact_mod_cast d1
  have d2' : (a.den : ℚ) < (2 : ℚ) ^ ((bitLog a.den : Int) + 1) := by
    have : (a.den : ℚ) < (2 : ℚ) ^ (bitLog a.den + 1) := by exact_mod_cast d2
    rw [← zpow_natCast] at this
    push_cast at this
    exact this
  unfold ratLog
  simp only []
  generalize (bitLog a.num.natAbs : Int) = i at n1' n2' ⊢
  generalize (bitLog a.den : Int) = j at d1' d2' ⊢
  generalize (a.num.natAbs : ℚ) = p at ha n1' n2'
  generalize (a.den : ℚ) = d at ha hd d1' d2'
  have hi : (0 : ℚ) < 2 ^ i := by positivity
  have hj : (0 : ℚ) < 2 ^ j := by positivity
  split
  · rename_i hk
    refine ⟨hk, ?_⟩
    rw [pow2_eq, ha, div_lt_iff₀ hd]
    have e : (2 : ℚ) ^ (i - j + 1) = 2 ^ (i + 1) / 2 ^ j := by
      rw [← zpow_sub₀ (by norm_num)]; congr 1; ring
    rw [e, div_mul_eq_mul_div, lt_div_iff₀ hj]
    calc p * 2 ^ j < 2 ^ (i + 1) * 2 ^ j := by gcongr
      _ ≤ 2 ^ (i + 1) * d := by gcongr
  · rename_i hk
    rw [not_le] at hk
    refine ⟨?_, by rw [sub_add_cancel]; exact hk⟩
    rw [pow2_eq, ha, le_div_iff₀ hd]
    have e : (2 : ℚ) ^ (i - j - 1) = 2 ^ i / 2 ^ (j + 1) := by
      rw [← zpow_sub₀ (by norm_num)]; congr 1; ring
    rw [e, div_mul_eq_mul_div, div_le_iff₀ (by positivity)]
    calc 2 ^ i * d ≤ p * d := by gcongr
      _ ≤ p * 2 ^ (j + 1) := by
        have hp : 0 ≤ p := le_trans (le_of_lt hi) n1'
        gcongr

theorem ratLog_mono {a b : ℚ} (ha : 0 < a) (hab : a ≤ b) : ratLog a ≤ ratLog b := by
  by_contra h
  rw [not_le] at h
  have h1 := (ratLog_spec a ha).1
  have h2 := (ratLog_spec b (lt_of_lt_of_le ha hab)).2
  have : pow2 (ratLog b + 1) ≤ pow2 (ratLog a) := pow2_le_pow2 (by omega)
  linarith

theorem roundHalfEven_ge (x : ℚ) : ⌊x⌋ ≤ roundHalfEven x := by
  unfold roundHalfEven
  split_ifs <;> omega

theorem roundHalfEven_le (x : ℚ) : roundHalfEven x ≤ ⌊x⌋ + 1 := by
  unfold roundHalfEven
  split_ifs <;> omega

theorem roundHalfEven_intCast (n : Int) : roundHalfEven (n : ℚ) = n := by
  unfold roundHalfEven
  simp

theorem roundHalfEven_mono {x y : ℚ} (h : x ≤ y) : roundHalfEven x ≤ roundHalfEven y := by
  have hf : ⌊x⌋ ≤ ⌊y⌋ := Int.floor_mono h
  rcases lt_or_eq_of_le hf with hlt | heq
  · have := roundHalfEven_le x
    have := roundHalfEven_ge y
    omega
  · unfold roundHalfEven
    rw [← heq]
    have hxy : x - ⌊x⌋ ≤ y - ⌊x⌋ := by linarith
    split_ifs <;> first | omega | (exfalso; linarith)

theorem roundHalfEven_le_int {x : ℚ} {n : Int} (h : x ≤ n) : roundHalfEven x ≤ n := by
  have := roundHalfEven_mono h
  rwa [roundHalfEven_intCast] at this

theorem int_le_roundHalfEven {x : ℚ} {n : Int} (h : (n : ℚ) ≤ x) : n ≤ roundHalfEven x := by
  have := roundHalfEven_mono h
  rwa [roundHalfEven_intCast] at this

theorem roundMagnitude_eq (a : ℚ) :
    roundMagnitude a = (roundHalfEven (a / pow2 (max (ratLog a - 23) (-149))) : ℚ)
      * pow2 (max (ratLog a - 23) (-149)) := rfl

theorem pow2_natCast (n : Nat) : pow2 (n : Int) = ((2 ^ n : Int) : ℚ) := by
  rw [pow2_eq, zpow_natCast]; push_cast; rfl

theorem roundMagnitude_le (a : ℚ) (h : 0 < a) :
    roundMagnitude a ≤ pow2 (max (ratLog a - 23) (-149) + 24) := by
  rw [roundMagnitude_eq]
  generalize he : max (ratLog a - 23) (-149) = e
  have hlt : a < pow2 (e + 24) :=
    lt_of_lt_of_le (ratLog_spec a h).2 (pow2_le_pow2 (by rw [← he]; have := le_max_left (ratLog a - 23) (-149); omega))
  have hx : a / pow2 e ≤ ((2 ^ 24 : Int) : ℚ) := by
    rw [div_le_iff₀ (pow2_pos e)]
    have : pow2 (e + 24) = ((2 ^ 24 : Int) : ℚ) * pow2 e := by
      rw [add_comm, pow2_add]
      congr 1
    linarith
  have := roundHalfEven_le_int hx
  have hc : ((roundHalfEven (a / pow2 e) : Int) : ℚ) ≤ ((2 ^ 24 : Int) : ℚ) := by exact_mod_cast this
  calc (roundHalfEven (a / pow2 e) : ℚ) * pow2 e ≤ ((2 ^ 24 : Int) : ℚ) * pow2 e :=
        mul_le_mul_of_nonneg_right hc (le_of_lt (pow2_pos e))
    _ = pow2 (e + 24) := by
        rw [add_comm, pow2_add]
        congr 1

theorem roundMagnitude_ge (a : ℚ) (h : 0 < a) (hn : -149 < max (ratLog a - 23) (-149)) :
    pow2 (max (ratLog a - 23) (-149) + 23) ≤ roundMagnitude a := by
  rw [roundMagnitude_eq]
  have he' : max (ratLog a - 23) (-149) = ratLog a - 23 := by
    rcases max_cases (ratLog a - 23) (-149) with ⟨h1, -⟩ | ⟨h1, -⟩
    · exact h1
    · omega
  generalize he : max (ratLog a - 23) (-149) = e at he' hn ⊢
  have hle : pow2 (e + 23) ≤ a := by
    have := (ratLog_spec a h).1
    have e2 : e + 23 = ratLog a := by omega
    rw [e2]; exact this
  have hx : ((2 ^ 23 : Int) : ℚ) ≤ a / pow2 e := by
    rw [le_div_iff₀ (pow2_pos e)]
    have : pow2 (e + 23) = ((2 ^ 23 : Int) : ℚ) * pow2 e := by
      rw [add_comm, pow2_add]
      congr 1
    linarith
  have := int_le_roundHalfEven hx
  have hc : ((2 ^ 23 : Int) : ℚ) ≤ ((roundHalfEven (a / pow2 e) : Int) : ℚ) := by exact_mod_cast this
  calc pow2 (e + 23) = ((2 ^ 23 : Int) : ℚ) * pow2 e := by
        rw [add_comm, pow2_add]
        congr 1
    _ ≤ (roundHalfEven (a / pow2 e) : ℚ) * pow2 e :=
        mul_le_mul_of_nonneg_right hc (le_of_lt (pow2_pos e))

theorem roundMagnitude_mono {a b : ℚ} (ha : 0 < a) (hab : a ≤ b) :
    roundMagnitude a ≤ roundMagnitude b := by
  have hb : 0 < b := lt_of_lt_of_le ha hab
  have hl := ratLog_mono ha hab
  have he : max (ratLog a - 23) (-149) ≤ max (ratLog b - 23) (-149) :=
    max_le_max (by omega) le_rfl
  rcases lt_or_eq_of_le he with hlt | heq
  · have h1 := roundMagnitude_le a ha
    have h2 := roundMagnitude_ge b hb (lt_of_le_of_lt (le_max_right _ _) hlt)
    have h3 : pow2 (max (ratLog a - 23) (-149) + 24) ≤ pow2 (max (ratLog b - 23) (-149) + 23) :=
      pow2_le_pow2 (by omega)
    linarith
  · rw [roundMagnitude_eq, roundMagnitude_eq, ← heq]
    have hx : a / pow2 (max (ratLog a - 23) (-149)) ≤ b / pow2 (max (ratLog a - 23) (-149)) :=
      div_le_div_of_nonneg_right hab (le_of_lt (pow2_pos _))
    have := roundHalfEven_mono hx
    have hc : ((roundHalfEven (a / pow2 (max (ratLog a - 23) (-149))) : Int) : ℚ)
        ≤ ((roundHalfEven (b / pow2 (max (ratLog a - 23) (-149))) : Int) : ℚ) := by
      exact_mod_cast this
    exact mul_le_mul_of_nonneg_right hc (le_of_lt (pow2_pos _))

theorem roundMagnitude_nonneg (a : ℚ) (h : 0 < a) : 0 ≤ roundMagnitude a := by
  rw [roundMagnitude_eq]
  apply mul_nonneg _ (le_of_lt (pow2_pos _))
  have hx : ((0 : Int) : ℚ) ≤ a / pow2 (max (ratLog a - 23) (-149)) := by
    simp only [Int.cast_zero]
    exact div_nonneg (le_of_lt h) (le_of_lt (pow2_pos _))
  have := int_le_roundHalfEven hx
  exact_mod_cast this

namespace Float32

theorem round_zero : round 0 = finite 0 := by simp [round]

theorem round_pos (q : ℚ) (h : 0 < q) :
    round q = if pow2 128 ≤ roundMagnitude q then infinite true else finite (roundMagnitude q) := by
  unfold round
  rw [if_neg (ne_of_gt h), abs_of_pos h]
  simp [h, not_lt.2 (le_of_lt h)]

theorem round_neg (q : ℚ) (h : q < 0) :
    round q = if pow2 128 ≤ roundMagnitude (-q) then infinite false
      else finite (-roundMagnitude (-q)) := by
  unfold round
  rw [if_neg (ne_of_lt h), abs_of_neg h]
  simp [h, not_lt.2 (le_of_lt h)]

theorem round_mono {a b : ℚ} (h : a ≤ b) : (round a).le (round b) := by
  rcases lt_trichotomy a 0 with ha | ha | ha
  · rw [round_neg a ha]
    have hma := roundMagnitude_nonneg (-a) (by linarith)
    rcases lt_trichotomy b 0 with hb | hb | hb
    · rw [round_neg b hb]
      have hm := roundMagnitude_mono (a := -b) (b := -a) (by linarith) (by linarith)
      split_ifs <;> simp only [le] <;> first | trivial | linarith
    · rw [hb, round_zero]
      split_ifs <;> simp only [le] <;> first | trivial | linarith
    · rw [round_pos b hb]
      have hmb := roundMagnitude_nonneg b hb
      split_ifs <;> simp only [le] <;> first | trivial | linarith
  · rw [ha, round_zero]
    rcases lt_or_eq_of_le (ha ▸ h) with hb | hb
    · rw [round_pos b hb]
      have hmb := roundMagnitude_nonneg b hb
      split_ifs <;> simp only [le] <;> first | trivial | linarith
    · rw [← hb, round_zero]
      simp [le]
  · have hb : 0 < b := lt_of_lt_of_le ha h
    rw [round_pos a ha, round_pos b hb]
    have hm := roundMagnitude_mono ha h
    split_ifs <;> simp only [le] <;> first | trivial | linarith

theorem round_ne_nan (q : ℚ) : round q ≠ nan := by
  unfold round
  split_ifs <;> simp

theorem isqrtLoop_spec : ∀ (bits M r : Nat), r * r ≤ M → M < (r + 2 ^ bits) * (r + 2 ^ bits) →
    isqrtLoop bits M r * isqrtLoop bits M r ≤ M
      ∧ M < (isqrtLoop bits M r + 1) * (isqrtLoop bits M r + 1) := by
  intro bits
  induction bits with
  | zero => intro M r h1 h2; simpa [isqrtLoop] using ⟨h1, h2⟩
  | succ b ih =>
    intro M r h1 h2
    rw [isqrtLoop]
    split
    · rename_i h
      refine ih M _ h ?_
      have : r + 2 ^ b + 2 ^ b = r + 2 ^ (b + 1) := by rw [pow_succ]; omega
      rw [this]; exact h2
    · rename_i h
      exact ih M r h1 (by omega)

theorem round_of_int_quotient (a : ℚ) (ha : 0 < a) (z : Int)
    (hz : a / pow2 (max (ratLog a - 23) (-149)) = z) (hlt : a < pow2 128) :
    round a = finite a := by
  have hm : roundMagnitude a = a := by
    rw [roundMagnitude_eq, hz, roundHalfEven_intCast, ← hz,
      div_mul_cancel₀ _ (ne_of_gt (pow2_pos _))]
  rw [round_pos a ha, hm, if_neg (not_le.2 hlt)]

theorem ratLog_natCast_bounds (N : Nat) (c : Nat) (h1 : 1 ≤ N) (h2 : N < 2 ^ c) :
    0 ≤ ratLog (N : ℚ) ∧ ratLog (N : ℚ) < c := by
  have hpos : (0 : ℚ) < N := by exact_mod_cast h1
  obtain ⟨a, b⟩ := ratLog_spec (N : ℚ) hpos
  constructor
  · by_contra h
    have : pow2 (ratLog (N : ℚ) + 1) ≤ pow2 0 := pow2_le_pow2 (by omega)
    have h0 : pow2 0 = 1 := by rw [pow2_eq]; simp
    have : (1 : ℚ) ≤ N := by exact_mod_cast h1
    linarith
  · by_contra h
    have : pow2 (c : Int) ≤ pow2 (ratLog (N : ℚ)) := pow2_le_pow2 (by omega)
    rw [pow2_natCast] at this
    have : ((N : Nat) : ℚ) < ((2 ^ c : Int) : ℚ) := by exact_mod_cast h2
    linarith

theorem ofInt_exact (n : Int) (h0 : 0 ≤ n) (h1 : n ≤ 16777216) :
    ofInt n = finite n := by
  unfold ofInt
  rcases eq_or_lt_of_le h0 with h | h
  · rw [← h]; simp [round]
  · rcases eq_or_lt_of_le h1 with h2 | h2
    · rw [h2]; decide!
    · obtain ⟨N, rfl⟩ := Int.eq_ofNat_of_zero_le h0
      have hN1 : 1 ≤ N := by omega
      have hN2 : N < 2 ^ 24 := by norm_num; omega
      obtain ⟨l0, l1⟩ := ratLog_natCast_bounds N 24 hN1 hN2
      have hpos : (0 : ℚ) < N := by exact_mod_cast hN1
      have he : max (ratLog (N : ℚ) - 23) (-149) = ratLog (N : ℚ) - 23 := by
        rw [max_eq_left]; omega
      obtain ⟨j, hj⟩ : ∃ j : Nat, -(ratLog (N : ℚ) - 23) = (j : Int) :=
        Int.eq_ofNat_of_zero_le (by push_cast at l1; omega)
      have hcast : (((N : Nat) : Int) : ℚ) = (N : ℚ) := by push_cast; rfl
      rw [hcast]
      refine round_of_int_quotient (N : ℚ) hpos ((N * 2 ^ j : Nat) : Int) ?_ ?_
      · rw [he]
        have : ratLog (N : ℚ) - 23 = -(j : Int) := by omega
        rw [this, pow2_eq, zpow_neg, zpow_natCast, div_inv_eq_mul]
        push_cast
        rfl
      · have : (N : ℚ) < ((2 ^ 24 : Nat) : ℚ) := by exact_mod_cast hN2
        have h128 : pow2 (24 : Nat) ≤ pow2 128 := pow2_le_pow2 (by norm_num)
        rw [pow2_natCast] at h128
        push_cast at this h128
        linarith

theorem ceilToInt_sqrt_natCast (Invalid : Int) (N : Nat) (h1 : 1 ≤ N) (h2 : N < 16777216) :
    ceilToInt Invalid (sqrt (finite (N : ℚ))) = (Nat.sqrt (N - 1) : Int) + 1 := by
  have hpos : (0 : ℚ) < N := by exact_mod_cast h1
  have hN2 : N < 2 ^ 24 := by norm_num; omega
  obtain ⟨l0, l1⟩ := ratLog_natCast_bounds N 24 h1 hN2
  obtain ⟨a, b⟩ := ratLog_spec (N : ℚ) hpos
  obtain ⟨L, hL⟩ := Int.eq_ofNat_of_zero_le l0
  rw [hL] at a b l1
  have hL23 : L ≤ 23 := by omega
  clear a
  have hNL : N < 2 ^ (L + 1) := by
    have e : ((L : Int) + 1) = ((L + 1 : Nat) : Int) := by push_cast; rfl
    rw [e, pow2_natCast] at b
    exact_mod_cast b
  have hk : (23 : Int) - ratLog (N : ℚ) / 2 = ((23 - L / 2 : Nat) : Int) := by
    rw [hL]; omega
  generalize hkn : 23 - L / 2 = kn at hk
  have hkn12 : 12 ≤ kn := by omega
  have hM48 : N * (2 ^ kn * 2 ^ kn) < 2 ^ 48 := by
    have e1 : (2 : Nat) ^ kn * 2 ^ kn = 2 ^ (2 * kn) := by rw [two_mul, pow_add]
    rw [e1]
    calc N * 2 ^ (2 * kn) < 2 ^ (L + 1) * 2 ^ (2 * kn) :=
          Nat.mul_lt_mul_of_pos_right hNL (by positivity)
      _ = 2 ^ (L + 1 + 2 * kn) := (pow_add 2 (L + 1) (2 * kn)).symm
      _ ≤ 2 ^ 48 := Nat.pow_le_pow_right (by norm_num) (by omega)
  generalize hK : 2 ^ kn = K at hM48
  have hK4096 : 4096 ≤ K := by
    rw [← hK]
    calc 4096 = 2 ^ 12 := by norm_num
      _ ≤ 2 ^ kn := Nat.pow_le_pow_right (by norm_num) hkn12
  have hpw : pow2 (2 * ((kn : Nat) : Int)) = ((K * K : Nat) : ℚ) := by
    have e : (2 * ((kn : Nat) : Int)) = ((2 * kn : Nat) : Int) := by push_cast; rfl
    rw [e, pow2_natCast, ← hK, two_mul, pow_add]
    push_cast
    rfl
  have hpn : pow2 (-((kn : Nat) : Int)) = ((K : Nat) : ℚ)⁻¹ := by
    rw [pow2_eq, zpow_neg, zpow_natCast, ← hK]
    push_cast
    rfl
  have hq0 : ¬ ((N : ℚ) < 0) := not_lt.2 (le_of_lt hpos)
  have hq1 : ¬ ((N : ℚ) = 0) := ne_of_gt hpos
  simp only [sqrt, if_neg hq0, if_neg hq1, hk, hpw, hpn]
  have hfl : ⌊(N : ℚ) * ((K * K : Nat) : ℚ)⌋.toNat = N * (K * K) := by
    have : (N : ℚ) * ((K * K : Nat) : ℚ) = (((N * (K * K) : Nat) : Int) : ℚ) := by
      push_cast; ring
    rw [this, Int.floor_intCast, Int.toNat_ofNat]
  rw [hfl]
  have hcastM : (N : ℚ) * ((K * K : Nat) : ℚ) = ((N * (K * K) : Nat) : ℚ) := by push_cast; ring
  rw [hcastM]
  obtain ⟨s1, s2⟩ := isqrtLoop_spec 24 (N * (K * K)) 0 (by simp) (by
    simp only [zero_add]
    calc N * (K * K) < 2 ^ 48 := hM48
      _ = 2 ^ 24 * 2 ^ 24 := by norm_num)
  generalize isqrtLoop 24 (N * (K * K)) 0 = s at s1 s2
  have m1 : Nat.sqrt (N - 1) * Nat.sqrt (N - 1) ≤ N - 1 := Nat.sqrt_le (N - 1)
  have m2 : N - 1 < (Nat.sqrt (N - 1) + 1) * (Nat.sqrt (N - 1) + 1) := Nat.lt_succ_sqrt (N - 1)
  generalize Nat.sqrt (N - 1) = m at m1 m2
  have hm : m < 4096 := by
    by_contra h
    have : 4096 * 4096 ≤ m * m := Nat.mul_le_mul (by omega) (by omega)
    omega
  have hKpos : 0 < K := by omega
  -- the scaled root lies between `m * K` and `(m + 1) * K`
  have hA : m * K ≤ s := by
    by_contra h
    have h' : s + 1 ≤ m * K := by omega
    have : (s + 1) * (s + 1) ≤ (m * K) * (m * K) := Nat.mul_le_mul h' h'
    have e : (m * K) * (m * K) = (m * m) * (K * K) := by ring
    have : (m * m) * (K * K) ≤ (N - 1) * (K * K) := Nat.mul_le_mul_right _ m1
    have : (N - 1) * (K * K) ≤ N * (K * K) := Nat.mul_le_mul_right _ (by omega)
    omega
  have hB : s ≤ (m + 1) * K := by
    by_contra h
    have h' : (m + 1) * K + 1 ≤ s := by omega
    have : ((m + 1) * K + 1) * ((m + 1) * K + 1) ≤ s * s := Nat.mul_le_mul h' h'
    have e : ((m + 1) * K) * ((m + 1) * K) = ((m + 1) * (m + 1)) * (K * K) := by ring
    have : N * (K * K) ≤ ((m + 1) * (m + 1)) * (K * K) := Nat.mul_le_mul_right _ (by omega)
    have e2 : ((m + 1) * K + 1) * ((m + 1) * K + 1)
        = ((m + 1) * K) * ((m + 1) * K) + 2 * ((m + 1) * K) + 1 := by ring
    omega
  have hsq : ((s : ℚ) + 1 / 2) * ((s : ℚ) + 1 / 2) = ((s * s + s : Nat) : ℚ) + 1 / 4 := by
    push_cast; ring
  rw [hsq]
  have hKinv : (0 : ℚ) < (K : ℚ) := by exact_mod_cast hKpos
  have hfin : ∀ t : Nat, m * K < t → t ≤ (m + 1) * K →
      ceilToInt Invalid (finite ((t : ℚ) * (K : ℚ)⁻¹)) = (m : Int) + 1 := by
    intro t t1 t2
    have hc : ⌈(t : ℚ) * (K : ℚ)⁻¹⌉ = (m : Int) + 1 := by
      rw [Int.ceil_eq_iff]
      constructor
      · rw [← div_eq_mul_inv, lt_div_iff₀ hKinv]
        push_cast
        have : ((m * K : Nat) : ℚ) < (t : ℚ) := by exact_mod_cast t1
        push_cast at this
        linarith
      · rw [← div_eq_mul_inv, div_le_iff₀ hKinv]
        have : ((t : Nat) : ℚ) ≤ (((m + 1) * K : Nat) : ℚ) := by exact_mod_cast t2
        push_cast at this ⊢
        linarith
    simp only [ceilToInt, hc]
    rw [if_pos (by omega)]
  by_cases hup : (((s * s + s : Nat) : ℚ) + 1 / 4 < ((N * (K * K) : Nat) : ℚ))
  · -- rounded up
    have hlt : s * s + s < N * (K * K) := by
      by_contra h
      have : ((N * (K * K) : Nat) : ℚ) ≤ ((s * s + s : Nat) : ℚ) := by exact_mod_cast not_lt.1 h
      linarith
    have hs1 : s < (m + 1) * K := by
      rcases eq_or_lt_of_le hB with h | h
      · exfalso
        have e : ((m + 1) * K) * ((m + 1) * K) = ((m + 1) * (m + 1)) * (K * K) := by ring
        have : N * (K * K) ≤ ((m + 1) * (m + 1)) * (K * K) :=
          Nat.mul_le_mul_right _ (by omega)
        rw [h] at hlt
        omega
      · exact h
    simp only [hup, decide_True, Bool.true_or, if_true]
    exact hfin (s + 1) (by omega) (by omega)
  · have hne : ¬ (((s * s + s : Nat) : ℚ) + 1 / 4 = ((N * (K * K) : Nat) : ℚ)) := by
      intro h
      have h4 : ((4 * (s * s + s) + 1 : Nat) : ℚ) = ((4 * (N * (K * K)) : Nat) : ℚ) := by
        push_cast at h ⊢
        linarith
      have : 4 * (s * s + s) + 1 = 4 * (N * (K * K)) := by exact_mod_cast h4
      omega
    simp only [hup, hne, decide_False, Bool.false_and, Bool.or_false, if_false]
    refine hfin s ?_ hB
    rcases eq_or_lt_of_le hA with h | h
    · exfalso
      apply hup
      have hKm : m + 1 ≤ K := by omega
      have e1 : (m * K) * (m * K) = (m * m) * (K * K) := by ring
      have h3 : (m * m + 1) * (K * K) ≤ N * (K * K) := Nat.mul_le_mul_right _ (by omega)
      have e2 : (m * m + 1) * (K * K) = (m * m) * (K * K) + K * K := by ring
      have h4 : (m + 1) * K ≤ K * K := Nat.mul_le_mul_right _ hKm
      have e3 : (m + 1) * K = m * K + K := by ring
      have hnat : s * s + s + 1 ≤ N * (K * K) := by
        rw [← h]
        omega
      have : ((s * s + s + 1 : Nat) : ℚ) ≤ ((N * (K * K) : Nat) : ℚ) := by exact_mod_cast hnat
      push_cast at this ⊢
      linarith
    · exact h

end Float32

/-- For a vertex count from 0 to `2 ^ 24` the float computation
`FMath::CeilToInt(FMath::Sqrt(n))` gives the exact ceiling of the square root. -/
theorem ceilToInt_sqrt_exact (Invalid n : Int) (h0 : 0 ≤ n) (h1 : n ≤ 16777216) :
    Float32.ceilToInt Invalid (Float32.sqrt (Float32.ofInt n)) = ceilSqrtExact n := by
  rw [Float32.ofInt_exact n h0 h1]
  rcases eq_or_lt_of_le h0 with h | h
  · rw [← h]
    simp [ceilSqrtExact, Float32.sqrt, Float32.ceilToInt]
  · rcases eq_or_lt_of_le h1 with h2 | h2
    · rw [h2]
      have hs : Float32.sqrt (Float32.finite ((16777216 : Int) : ℚ)) = Float32.finite 4096 := by
        decide!
      have hq : Nat.sqrt 16777215 = 4095 := (Nat.eq_sqrt.2 ⟨by norm_num, by norm_num⟩).symm
      rw [hs]
      simp [ceilSqrtExact, Float32.ceilToInt, hq]
    · obtain ⟨N, rfl⟩ := Int.eq_ofNat_of_zero_le h0
      have e : (((N : Nat) : Int) : ℚ) = (N : ℚ) := by push_cast; rfl
      rw [e, Float32.ceilToInt_sqrt_natCast Invalid N (by omega) (by omega)]
      simp only [ceilSqrtExact]
      rw [if_neg (by omega)]
      simp

/-! ## Theorems: the distance walk -/

theorem distanceWalk_first (Pow : Float32 → Float32 → Float32) (u : Int) (p d : ℚ)
    (n : Nat) :
    ∀ (i : Nat) (D : Int),
    ∃ k : Nat, distanceWalk Pow u p (n + 1) i D (remainingDistance Pow u p d i) = (k : Int)
      ∧ i ≤ k ∧ k ≤ i + n
      ∧ (∀ j, i ≤ j → j < k → (remainingDistance Pow u p d (j + 1)).leZero = false)
      ∧ ((remainingDistance Pow u p d (k + 1)).leZero = true ∨ k = i + n) := by
  induction n with
  | zero =>
    intro i D
    refine ⟨i, ?_, le_rfl, le_rfl, fun j h1 h2 => absurd h2 (by omega), Or.inr rfl⟩
    simp only [distanceWalk]
    split <;> rfl
  | succ n ih =>
    intro i D
    by_cases hc : (remainingDistance Pow u p d (i + 1)).leZero = true
    · refine ⟨i, ?_, le_rfl, by omega, fun j h1 h2 => absurd h2 (by omega), Or.inl hc⟩
      rw [distanceWalk]
      rw [remainingDistance] at hc
      simp only [if_pos hc]
    · obtain ⟨k, e, h1, h2, h3, h4⟩ := ih (i + 1) (i : Int)
      refine ⟨k, ?_, by omega, by omega, fun j hj1 hj2 => ?_, ?_⟩
      · rw [distanceWalk]
        have hc' := hc
        rw [remainingDistance] at hc'
        simp only [if_neg hc']
        exact e
      · rcases Nat.eq_or_lt_of_le hj1 with rfl | hlt
        · simpa using hc
        · exact h3 j hlt hj2
      · rcases h4 with h4 | h4
        · exact Or.inl h4
        · exact Or.inr (by omega)

theorem distanceWalk_lower (Pow : Float32 → Float32 → Float32) (u : Int) (p : ℚ) (n : Nat) :
    ∀ (i : Nat) (D : Int) (r : Float32), D ≤ (i : Int) → D ≤ distanceWalk Pow u p n i D r := by
  induction n with
  | zero => intro i D r _; simp [distanceWalk]
  | succ n ih =>
    intro i D r h
    rw [distanceWalk]
    split
    · exact h
    · exact le_trans h (ih (i + 1) (i : Int) _ (by push_cast; omega))

theorem Float32.sub_below {r1 r2 t : Float32} (h : r1.Below r2)
    (h1 : r1 ≠ .infinite false) : (r1.sub t).Below (r2.sub t) := by
  rcases h with rfl | h
  · left
    cases t <;> rfl
  · cases r1 with
    | nan => cases r2 <;> exact absurd h id
    | finite a =>
      cases r2 with
      | nan => exact absurd h id
      | finite b =>
        cases t with
        | nan => left; rfl
        | finite c =>
          right
          exact Float32.round_mono (by simp only [Float32.le] at h; linarith)
        | infinite q => right; cases q <;> simp [Float32.sub, Float32.le]
      | infinite pb =>
        simp only [Float32.le] at h
        subst h
        cases t with
        | nan => left; rfl
        | finite c =>
          right
          simp only [Float32.sub]
          have := Float32.round_ne_nan (a - c)
          cases hr : Float32.round (a - c) with
          | nan => exact absurd hr this
          | finite x => simp [Float32.le]
          | infinite q => simp [Float32.le]
        | infinite q =>
          cases q
          · right; simp [Float32.sub, Float32.le]
          · left; simp [Float32.sub]
    | infinite pa =>
      cases pa with
      | false => exact absurd rfl h1
      | true =>
        cases r2 with
        | nan => exact absurd h id
        | finite b => simp [Float32.le] at h
        | infinite pb =>
          simp only [Float32.le] at h
          have hpb : pb = true := by simpa using h
          subst hpb
          cases t with
          | nan => left; rfl
          | finite c => right; simp [Float32.sub, Float32.le]
          | infinite q =>
            cases q
            · right; simp [Float32.sub, Float32.le]
            · left; simp [Float32.sub]

theorem Float32.leZero_of_below {r1 r2 : Float32} (h : r1.Below r2) (h2 : r2.leZero = true) :
    r1.leZero = true := by
  rcases h with rfl | h
  · cases h2
  · cases r1 <;> cases r2 <;> simp_all [Float32.le, Float32.leZero]
    linarith

theorem distanceWalk_mono (Pow : Float32 → Float32 → Float32) (u : Int) (p : ℚ) (n : Nat) :
    ∀ (i : Nat) (D : Int) (r1 r2 : Float32), r1.Below r2 → r1 ≠ .infinite false →
      distanceWalk Pow u p n i D r1 ≤ distanceWalk Pow u p n i D r2 := by
  induction n with
  | zero => intro i D r1 r2 _ _; simp [distanceWalk]
  | succ n ih =>
    intro i D r1 r2 h h1
    rw [distanceWalk, distanceWalk]
    have hb := Float32.sub_below (t := stepSize Pow u p i) h h1
    by_cases c1 : (r1.sub (stepSize Pow u p i)).leZero = true
    · rw [if_pos c1]
      split
      · exact le_rfl
      · exact distanceWalk_lower Pow u p n (i + 1) (i : Int) _ (by push_cast; omega)
    · have c2 : ¬ (r2.sub (stepSize Pow u p i)).leZero = true :=
        fun c => c1 (Float32.leZero_of_below hb c)
      rw [if_neg c1, if_neg c2]
      refine ih (i + 1) (i : Int) _ _ hb ?_
      intro hinf
      rw [hinf] at c1
      exact c1 rfl

/-- The tier of the distance walk: for `MaximumLODCount >= 1` it is the first tier at
which the float remainder is `<= 0`, or the last tier if there is none. -/
theorem distanceLOD_first (Pow : Float32 → Float32 → Float32)
    (MaximumLODCount LODStepUnits : Int) (LODStepPower d : ℚ)
    (hcount : 1 ≤ MaximumLODCount) :
    ∃ k : Nat, distanceLOD Pow MaximumLODCount LODStepUnits LODStepPower d = (k : Int)
      ∧ (k : Int) < MaximumLODCount
      ∧ (∀ j, j < k →
          (remainingDistance Pow LODStepUnits LODStepPower d (j + 1)).leZero = false)
      ∧ ((remainingDistance Pow LODStepUnits LODStepPower d (k + 1)).leZero = true
          ∨ (k : Int) = MaximumLODCount - 1) := by
  obtain ⟨n, hn⟩ : ∃ n : Nat, MaximumLODCount.toNat = n + 1 :=
    ⟨MaximumLODCount.toNat - 1, by omega⟩
  obtain ⟨k, e, -, h2, h3, h4⟩ := distanceWalk_first Pow LODStepUnits LODStepPower d n 0 0
  refine ⟨k, ?_, by omega, fun j hj => h3 j (Nat.zero_le _) hj, ?_⟩
  · unfold distanceLOD
    rw [hn]
    exact e
  · rcases h4 with h4 | h4
    · exact Or.inl h4
    · exact Or.inr (by omega)

theorem cumulativeThreshold_exact (Pow : Float32 → Float32 → Float32) (u : Int) (p d : ℚ)
    (k : Nat) (Last : Prop)
    (hbefore : ∀ j, j < k → (remainingDistance Pow u p d (j + 1)).leZero = false)
    (hat : (remainingDistance Pow u p d (k + 1)).leZero = true ∨ Last)
    (hexact : ∀ j, j ≤ k →
      remainingDistance Pow u p d (j + 1) = .finite (d - cumulativeThreshold u p j)) :
    (∀ j, j < k → cumulativeThreshold u p j < d)
    ∧ (d ≤ cumulativeThreshold u p k ∨ Last) := by
  refine ⟨fun j hj => ?_, ?_⟩
  · have h := hbefore j hj
    rw [hexact j (le_of_lt hj)] at h
    simp only [Float32.leZero, decide_eq_false_iff_not, not_le] at h
    linarith
  · rcases hat with h | h
    · left
      rw [hexact k le_rfl] at h
      simp only [Float32.leZero, decide_eq_true_eq] at h
      linarith
    · exact Or.inr h

/-- C2: for fixed `MaximumLODCount`, `LODStepUnits` and `LODStepPower` and all viewer
distances `d1 < d2`, the tier the distance walk of `SwitchLODs` chooses for `d1` is at
most the tier it chooses for `d2`, whatever the power function of the platform. -/
theorem distanceLOD_monotone (Pow : Float32 → Float32 → Float32)
    (MaximumLODCount LODStepUnits : Int) (LODStepPower d1 d2 : ℚ) (h : d1 < d2) :
    distanceLOD Pow MaximumLODCount LODStepUnits LODStepPower d1
      ≤ distanceLOD Pow MaximumLODCount LODStepUnits LODStepPower d2 :=
  distanceWalk_mono Pow LODStepUnits LODStepPower _ 0 0 _ _ (Or.inr (le_of_lt h))
    (by simp)

/-- Witness for C2: with three tiers, step 1000 and power 2 the distances 999 < 1001
select the tiers 0 and 1. -/
theorem distanceLOD_monotone_witness :
    ((999 : ℚ) < 1001)
    ∧ distanceLOD Float32.pow 3 1000 2 999 = 0 ∧ distanceLOD Float32.pow 3 1000 2 1001 = 1
    ∧ distanceLOD Float32.pow 3 1000 2 999 ≤ distanceLOD Float32.pow 3 1000 2 1001 :=
  ⟨by norm_num, by decide!, by decide!,
    distanceLOD_monotone Float32.pow 3 1000 2 999 1001 (by norm_num)⟩

/-! ## Theorems: running the actor's code -/

namespace Op

@[simp] theorem pure_apply {α : Type} (x : α) (s : AOpenLandMeshActor) :
    (pure x : Op α) s = .ok x s := rfl

@[simp] theorem bind_apply {α β : Type} (m : Op α) (f : α → Op β) (s : AOpenLandMeshActor) :
    (m >>= f) s = match m s with
      | .ok x s' => f x s'
      | .crash s' => .crash s' := rfl

@[simp] theorem read_apply (s : AOpenLandMeshActor) : read s = .ok s s := rfl

@[simp] theorem update_apply (f : AOpenLandMeshActor → AOpenLandMeshActor)
    (s : AOpenLandMeshActor) : update f s = .ok () (f s) := rfl

@[simp] theorem stop_apply {α : Type} (s : AOpenLandMeshActor) :
    (stop : Op α) s = .crash s := rfl

@[simp] theorem need_some {α : Type} (x : α) (s : AOpenLandMeshActor) :
    need (some x) s = .ok x s := rfl

@[simp] theorem need_none {α : Type} (s : AOpenLandMeshActor) :
    need (none : Option α) s = .crash s := rfl

@[simp] theorem call_apply (e : Event) (s : AOpenLandMeshActor) :
    call e s = .ok () { s with Calls := s.Calls ++ [e] } := rfl

end Op

theorem desiredLOD_no_collision_tier (env : Env) (s : AOpenLandMeshActor) (d : ℚ)
    (hcoll : s.LODIndexForCollisions < 0) :
    desiredLOD env s d
      = distanceLOD env.Pow s.MaximumLODCount s.LODStepUnits s.LODStepPower d := by
  have : ¬ (min s.LODIndexForCollisions (max (s.MaximumLODCount - 1) 0) ≥ 0) := by
    have := min_le_left s.LODIndexForCollisions (max (s.MaximumLODCount - 1) 0)
    omega
  simp only [desiredLOD, if_neg this]

theorem elemAt_of_hasLOD (s : AOpenLandMeshActor) (i : Int) (h : hasLOD s i = true) :
    ∃ p : Nat, elemAt s.LODList i = some (some p) := by
  simp only [hasLOD, Bool.and_eq_true, Option.isSome_iff_exists] at h
  obtain ⟨-, p, hp⟩ := h
  cases e : elemAt s.LODList i with
  | none => rw [e] at hp; simp at hp
  | some q =>
    rw [e] at hp
    simp only [Option.bind] at hp
    have hq : q = some p := hp
    exact ⟨p, by rw [hq]⟩

/-- C1, amended: for `MaximumLODCount >= 1`, any `LODStepUnits` and `LODStepPower` and a
viewer distance `d >= 0`, when no async build is in progress, a view location exists, no
collision tier is designated and every tier below `MaximumLODCount` has a built slot,
`SwitchLODs` runs to its end and leaves `CurrentLODIndex` equal to the first tier `k` at
which the `float` remainder of the walk (`d` less the steps
`LODStepUnits * Pow(LODStepPower, i)` of the tiers `i <= k`, each product and each
difference rounded to `float`) is `<= 0`, or to `MaximumLODCount - 1` if there is no such
tier; `CurrentLOD` is then the slot of that tier. Whenever the remainders up to tier `k`
are computed without rounding error, `k` is the first tier whose cumulative threshold
meets or exceeds `d`, or `MaximumLODCount - 1` if no tier does. -/
theorem SwitchLODs_selects_first_tier (env : Env) (s : AOpenLandMeshActor) (World : UWorld)
    (d : ℚ) (others : List ℚ)
    (hcount : 1 ≤ s.MaximumLODCount) (_hd : 0 ≤ d)
    (hidle : s.AsyncBuildingLODIndex < 0)
    (hworld : env.World = some World) (hview : World.ViewDistances = d :: others)
    (hcoll : s.LODIndexForCollisions < 0)
    (hbuilt : ∀ i : Int, 0 ≤ i → i < s.MaximumLODCount → hasLOD s i = true) :
    ∃ (k : Nat) (Status : FSwitchLODsStatus) (s' : AOpenLandMeshActor),
      SwitchLODs env s = .ok Status s'
      ∧ s'.CurrentLODIndex = (k : Int)
      ∧ (k : Int) < s.MaximumLODCount
      ∧ (∀ j, j < k →
          (remainingDistance env.Pow s.LODStepUnits s.LODStepPower d (j + 1)).leZero = false)
      ∧ ((remainingDistance env.Pow s.LODStepUnits s.LODStepPower d (k + 1)).leZero = true
          ∨ (k : Int) = s.MaximumLODCount - 1)
      ∧ ((∀ j, j ≤ k → remainingDistance env.Pow s.LODStepUnits s.LODStepPower d (j + 1)
              = .finite (d - cumulativeThreshold s.LODStepUnits s.LODStepPower j)) →
          (∀ j, j < k → cumulativeThreshold s.LODStepUnits s.LODStepPower j < d)
          ∧ (d ≤ cumulativeThreshold s.LODStepUnits s.LODStepPower k
              ∨ (k : Int) = s.MaximumLODCount - 1))
      ∧ (Status.bNeedLODVisibilityChange = true → s'.CurrentLOD = (s.LODList.getD k none))
      ∧ Status.bAsyncBuildStarted = false
      ∧ s'.LODList = s.LODList := by
  obtain ⟨k, ek, hk, hfirst, hlast⟩ :=
    distanceLOD_first env.Pow s.MaximumLODCount s.LODStepUnits s.LODStepPower d hcount
  have hexact := cumulativeThreshold_exact env.Pow s.LODStepUnits s.LODStepPower d k
    ((k : Int) = s.MaximumLODCount - 1) hfirst hlast
  have hdes : desiredLOD env s d = (k : Int) := by
    rw [desiredLOD_no_collision_tier env s d hcoll, ek]
  have hhas : hasLOD s (k : Int) = true := hbuilt k (by omega) hk
  obtain ⟨p, hp⟩ := elemAt_of_hasLOD s k hhas
  have hnot : ¬ (s.AsyncBuildingLODIndex ≥ 0) := by omega
  by_cases hcur : (k : Int) = s.CurrentLODIndex
  · refine ⟨k, {}, s, ?_, hcur.symm, hk, hfirst, hlast, hexact, by simp, rfl, rfl⟩
    rw [hcur] at hdes hhas
    simp [SwitchLODs, hnot, hworld, hview, hdes, hhas]
  · refine ⟨k, { bNeedLODVisibilityChange := true },
      { s with CurrentLODIndex := (k : Int), CurrentLOD := some p }, ?_, rfl, hk, hfirst,
      hlast, hexact, ?_, rfl, rfl⟩
    · simp [SwitchLODs, hnot, hworld, hview, hdes, hhas, hcur, hp]
    · intro _
      simp only [elemAt, Int.toNat_ofNat] at hp
      have h0 : (0 : Int) ≤ (k : Int) := by omega
      rw [if_pos h0] at hp
      simp [List.getD_eq_getElem?_getD, hp]

theorem threeTiers_built :
    ∀ i : Int, 0 ≤ i → i < threeTiers.MaximumLODCount → hasLOD threeTiers i = true := by
  intro i h0 h3
  have h3' : i < 3 := h3
  interval_cases i <;> decide

theorem SwitchLODs_index_of_built (env : Env) (s : AOpenLandMeshActor) (World : UWorld)
    (d : ℚ) (others : List ℚ) (hidle : s.AsyncBuildingLODIndex < 0)
    (hworld : env.World = some World) (hview : World.ViewDistances = d :: others)
    (hhas : hasLOD s (desiredLOD env s d) = true) :
    (SwitchLODs env s).state.CurrentLODIndex = desiredLOD env s d := by
  have hnot : ¬ (s.AsyncBuildingLODIndex ≥ 0) := by omega
  obtain ⟨p, hp⟩ := elemAt_of_hasLOD s _ hhas
  generalize hD : desiredLOD env s d = D at hhas hp ⊢
  by_cases hcur : D = s.CurrentLODIndex
  · subst hcur
    simp [SwitchLODs, hnot, hworld, hview, hhas, hD, Outcome.state]
  · simp [SwitchLODs, hnot, hworld, hview, hhas, hcur, hp, hD, Outcome.state]

theorem threeTiers_desired :
    desiredLOD (viewerAt 0) threeTiers 0 = 0 ∧ desiredLOD (viewerAt 999) threeTiers 999 = 0
    ∧ desiredLOD (viewerAt 1001) threeTiers 1001 = 1 ∧ desiredLOD (viewerAt 3000) threeTiers 3000 = 1
    ∧ desiredLOD (viewerAt 5001) threeTiers 5001 = 2 := by
  have hc : threeTiers.LODIndexForCollisions < 0 := by decide
  simp only [desiredLOD_no_collision_tier _ _ _ hc]
  refine ⟨?_, ?_, ?_, ?_, ?_⟩ <;> decide!

/-- Witness for C1 (amended): with `MaximumLODCount = 3`, `LODStepUnits = 1000`,
`LODStepPower = 2` the distances 0, 999, 1001, 3000, 5001 leave `CurrentLODIndex` at
0, 0, 1, 1, 2; at the distance 5001 the remainders 4001, 2001 and -1999 are computed
without rounding error. -/
theorem SwitchLODs_selects_first_tier_witness :
    ((SwitchLODs (viewerAt 0) threeTiers).state.CurrentLODIndex = 0
      ∧ (SwitchLODs (viewerAt 999) threeTiers).state.CurrentLODIndex = 0
      ∧ (SwitchLODs (viewerAt 1001) threeTiers).state.CurrentLODIndex = 1
      ∧ (SwitchLODs (viewerAt 3000) threeTiers).state.CurrentLODIndex = 1
      ∧ (SwitchLODs (viewerAt 5001) threeTiers).state.CurrentLODIndex = 2)
    ∧ (remainingDistance Float32.pow 1000 2 5001 1 = .finite (5001 - cumulativeThreshold 1000 2 0)
      ∧ remainingDistance Float32.pow 1000 2 5001 2
          = .finite (5001 - cumulativeThreshold 1000 2 1)
      ∧ remainingDistance Float32.pow 1000 2 5001 3
          = .finite (5001 - cumulativeThreshold 1000 2 2))
    ∧ ∃ (k : Nat) (Status : FSwitchLODsStatus) (s' : AOpenLandMeshActor),
      SwitchLODs (viewerAt 5001) threeTiers = .ok Status s'
      ∧ s'.CurrentLODIndex = (k : Int)
      ∧ (k : Int) < threeTiers.MaximumLODCount
      ∧ (∀ j, j < k → (remainingDistance (viewerAt 5001).Pow threeTiers.LODStepUnits
          threeTiers.LODStepPower 5001 (j + 1)).leZero = false)
      ∧ ((remainingDistance (viewerAt 5001).Pow threeTiers.LODStepUnits
            threeTiers.LODStepPower 5001 (k + 1)).leZero = true
          ∨ (k : Int) = threeTiers.MaximumLODCount - 1)
      ∧ ((∀ j, j ≤ k → remainingDistance (viewerAt 5001).Pow threeTiers.LODStepUnits
              threeTiers.LODStepPower 5001 (j + 1)
              = .finite (5001 - cumulativeThreshold threeTiers.LODStepUnits
                  threeTiers.LODStepPower j)) →
          (∀ j, j < k →
            cumulativeThreshold threeTiers.LODStepUnits threeTiers.LODStepPower j < 5001)
          ∧ ((5001 : ℚ) ≤ cumulativeThreshold threeTiers.LODStepUnits threeTiers.LODStepPower k
              ∨ (k : Int) = threeTiers.MaximumLODCount - 1))
      ∧ (Status.bNeedLODVisibilityChange = true → s'.CurrentLOD = (threeTiers.LODList.getD k none))
      ∧ Status.bAsyncBuildStarted = false
      ∧ s'.LODList = threeTiers.LODList := by
  obtain ⟨d0, d1, d2, d3, d4⟩ := threeTiers_desired
  have hidle : threeTiers.AsyncBuildingLODIndex < 0 := by decide
  refine ⟨⟨?_, ?_, ?_, ?_, ?_⟩, ⟨by decide!, by decide!, by decide!⟩,
    SwitchLODs_selects_first_tier (viewerAt 5001) threeTiers
    { WorldType := .Game, ViewDistances := [5001] } 5001 [] (by decide) (by norm_num)
    (by decide) rfl rfl (by decide) threeTiers_built⟩
  · rw [SwitchLODs_index_of_built (viewerAt 0) threeTiers _ 0 [] hidle rfl rfl
      (by rw [d0]; decide), d0]
  · rw [SwitchLODs_index_of_built (viewerAt 999) threeTiers _ 999 [] hidle rfl rfl
      (by rw [d1]; decide), d1]
  · rw [SwitchLODs_index_of_built (viewerAt 1001) threeTiers _ 1001 [] hidle rfl rfl
      (by rw [d2]; decide), d2]
  · rw [SwitchLODs_index_of_built (viewerAt 3000) threeTiers _ 3000 [] hidle rfl rfl
      (by rw [d3]; decide), d3]
  · rw [SwitchLODs_index_of_built (viewerAt 5001) threeTiers _ 5001 [] hidle rfl rfl
      (by rw [d4]; decide), d4]

/-- C1, the claim as stated fails. With `MaximumLODCount = 3`, `LODStepUnits = 1000` and
`LODStepPower = 1.3f` (the float nearest to 1.3), all tiers built, no collision tier and
no async build, the viewer distance 2300 leaves `CurrentLODIndex` at 1, although the
cumulative threshold of tier 1 is below 2300 and tier 2 is the first whose threshold
reaches it: the step of tier 1, `1000 * 1.3f`, is rounded up to the float 1300 and the
remainder `1300 - 1300` is 0. With `LODStepUnits = 16777219` and `LODStepPower = 2` the
distance 16777220 leaves `CurrentLODIndex` at 0, although the threshold of tier 0 is
below it: the conversion of 16777219 to `float` gives 16777220. Of the power function
the two runs use only `Pow(x, 0) = 1` and `Pow(x, 1) = x`. -/
theorem SwitchLODs_rounded_step_selects_earlier_tier :
    (Float32.round (13 / 10) = .finite threeTiersPower13.LODStepPower
      ∧ threeTiersPower13.MaximumLODCount = 3
      ∧ threeTiersPower13.AsyncBuildingLODIndex < 0
      ∧ threeTiersPower13.LODIndexForCollisions < 0
      ∧ hasLOD threeTiersPower13 0 = true ∧ hasLOD threeTiersPower13 1 = true
      ∧ hasLOD threeTiersPower13 2 = true
      ∧ (SwitchLODs (viewerAt 2300) threeTiersPower13).isOk = true
      ∧ (SwitchLODs (viewerAt 2300) threeTiersPower13).state.CurrentLODIndex = 1
      ∧ cumulativeThreshold threeTiersPower13.LODStepUnits threeTiersPower13.LODStepPower 1
          < 2300
      ∧ (2300 : ℚ)
          ≤ cumulativeThreshold threeTiersPower13.LODStepUnits threeTiersPower13.LODStepPower 2
      ∧ Float32.pow (.finite threeTiersPower13.LODStepPower) (Float32.ofInt 0) = .finite 1
      ∧ Float32.pow (.finite threeTiersPower13.LODStepPower) (Float32.ofInt 1)
          = .finite threeTiersPower13.LODStepPower
      ∧ stepSize Float32.pow 1000 threeTiersPower13.LODStepPower 1 = .finite 1300)
    ∧ (threeTiersWideSteps.MaximumLODCount = 3
      ∧ threeTiersWideSteps.AsyncBuildingLODIndex < 0
      ∧ threeTiersWideSteps.LODIndexForCollisions < 0
      ∧ hasLOD threeTiersWideSteps 0 = true ∧ hasLOD threeTiersWideSteps 1 = true
      ∧ hasLOD threeTiersWideSteps 2 = true
      ∧ (SwitchLODs (viewerAt 16777220) threeTiersWideSteps).isOk = true
      ∧ (SwitchLODs (viewerAt 16777220) threeTiersWideSteps).state.CurrentLODIndex = 0
      ∧ cumulativeThreshold threeTiersWideSteps.LODStepUnits threeTiersWideSteps.LODStepPower 0
          < 16777220
      ∧ Float32.ofInt 16777219 = .finite 16777220) := by
  refine ⟨⟨?_, ?_, ?_, ?_, ?_, ?_, ?_, ?_, ?_, ?_, ?_, ?_, ?_, ?_⟩,
    ⟨?_, ?_, ?_, ?_, ?_, ?_, ?_, ?_, ?_, ?_⟩⟩ <;> decide!

/-! ## Theorems: async builds and the collision tier -/

theorem BuildMeshAsync_inRange (env : Env) (s : AOpenLandMeshActor) (LODIndex : Int)
    (h0 : 0 ≤ LODIndex) (h1 : LODIndex < (s.LODList.length : Int)) :
    BuildMeshAsync env LODIndex s = .ok () (afterBuildMeshAsync env s LODIndex) := by
  have hlt : LODIndex.toNat < s.LODList.length := by omega
  have he : elemAt s.LODList LODIndex = some (s.LODList[LODIndex.toNat]) := by
    simp [elemAt, h0, List.getElem?_eq_getElem hlt]
  by_cases hg : s.bRunGpuVertexModifiers = true
  · simp [BuildMeshAsync, obtainPolygonMesh, viaPolygonMesh, registerGpuIfEnabled, newLOD, he,
      hg, afterBuildMeshAsync, asyncBuildCalls, asyncBuildOptions]
  · simp [BuildMeshAsync, obtainPolygonMesh, viaPolygonMesh, registerGpuIfEnabled, newLOD, he,
      hg, afterBuildMeshAsync, asyncBuildCalls, asyncBuildOptions]

theorem SwitchLODs_starts_build (env : Env) (s : AOpenLandMeshActor) (World : UWorld)
    (d : ℚ) (others : List ℚ) (hidle : s.AsyncBuildingLODIndex < 0)
    (hworld : env.World = some World) (hview : World.ViewDistances = d :: others)
    (hgame : World.WorldType ≠ .Editor)
    (h0 : 0 ≤ desiredLOD env s d) (hhas : hasLOD s (desiredLOD env s d) = false) :
    SwitchLODs env s = .ok { bAsyncBuildStarted := true }
      (afterBuildMeshAsync env (markedForAsyncBuild s (desiredLOD env s d)) (desiredLOD env s d)) := by
  have hnot : ¬ (s.AsyncBuildingLODIndex ≥ 0) := by omega
  generalize hD : desiredLOD env s d = D at hhas h0 ⊢
  have hin : D < ((markedForAsyncBuild s D).LODList.length : Int) := by
    simp only [markedForAsyncBuild]
    split
    · simp only [List.length_append, List.length_replicate]; omega
    · omega
  have hb := BuildMeshAsync_inRange env (markedForAsyncBuild s D) D h0 hin
  by_cases hle : (s.LODList.length : Int) ≤ D
  · have hm : (markedForAsyncBuild s D) =
        { s with AsyncBuildingLODIndex := D
                 LODList := s.LODList ++ List.replicate ((D + 1).toNat - s.LODList.length) none } := by
      simp [markedForAsyncBuild, hle]
    rw [hm] at hb
    simp [SwitchLODs, hnot, hworld, hview, hD, hhas, hgame, hle, hb, hm]
  · have hm : (markedForAsyncBuild s D) = { s with AsyncBuildingLODIndex := D } := by
      simp [markedForAsyncBuild, hle]
    rw [hm] at hb
    simp [SwitchLODs, hnot, hworld, hview, hD, hhas, hgame, hle, hb, hm]

/-- C10, as stated, fails: with three tiers, all built, and the collision tier 5
designated, the slot of tier 5 is unbuilt (it lies beyond the LOD list) and no async
build is in progress, yet for a viewer at distance 0 the desired LOD is 0, not 5, and
`SwitchLODs` in a game world starts no async build. -/
theorem desiredLOD_not_designated_tier :
    threeTiersCollision5.LODIndexForCollisions = 5
    ∧ hasLOD threeTiersCollision5 5 = false
    ∧ threeTiersCollision5.AsyncBuildingLODIndex = -1
    ∧ desiredLOD (viewerAt 0) threeTiersCollision5 0 = 0
    ∧ desiredLOD (viewerAt 0) threeTiersCollision5 0 ≠ 5
    ∧ SwitchLODs (viewerAt 0) threeTiersCollision5 = .ok {} threeTiersCollision5 := by
  have hmin : min threeTiersCollision5.LODIndexForCollisions
      (max (threeTiersCollision5.MaximumLODCount - 1) 0) = 2 := by decide
  have hh2 : hasLOD threeTiersCollision5 2 = true := by decide
  have hwalk : distanceLOD (viewerAt 0).Pow threeTiersCollision5.MaximumLODCount
      threeTiersCollision5.LODStepUnits threeTiersCollision5.LODStepPower 0 = 0 := by
    decide!
  have hd : desiredLOD (viewerAt 0) threeTiersCollision5 0 = 0 := by
    simp [desiredLOD, hmin, hh2, hwalk]
  have hh : hasLOD threeTiersCollision5 0 = true := by decide
  refine ⟨rfl, by decide, rfl, hd, by rw [hd]; decide, ?_⟩
  have hnot : ¬ (threeTiersCollision5.AsyncBuildingLODIndex ≥ 0) := by decide
  have hcur : threeTiersCollision5.CurrentLODIndex = 0 := rfl
  have hworld : (viewerAt 0).World = some { WorldType := .Game, ViewDistances := [0] } := rfl
  simp [SwitchLODs, hnot, hworld, hd, hh, hcur]

/-- C10 (amended): let `c'` be the designated collision tier clamped to the tiers that
exist, `c' = min(LODIndexForCollisions, max(MaximumLODCount - 1, 0))`, which is the
designated tier itself whenever that is at most `MaximumLODCount - 1`. For every
designated tier `>= 0`, if the slot of `c'` is not yet built (beyond the LOD list or
null) then the desired LOD computed by `SwitchLODs` is `c'` whatever the viewer
distance; and when no async build is in progress, a view location exists and the world
is not the editor, `SwitchLODs` marks `c'` as the async build in progress, starts
`BuildMeshAsync` for exactly `c'` and reports `bAsyncBuildStarted`. -/
theorem SwitchLODs_forces_collision_tier (env : Env) (s : AOpenLandMeshActor) (World : UWorld)
    (d : ℚ) (others : List ℚ)
    (hc : 0 ≤ s.LODIndexForCollisions)
    (hun : hasLOD s (min s.LODIndexForCollisions (max (s.MaximumLODCount - 1) 0)) = false)
    (hidle : s.AsyncBuildingLODIndex < 0)
    (hworld : env.World = some World) (hview : World.ViewDistances = d :: others)
    (hgame : World.WorldType ≠ .Editor) :
    (∀ d' : ℚ, desiredLOD env s d' = min s.LODIndexForCollisions (max (s.MaximumLODCount - 1) 0))
    ∧ (s.LODIndexForCollisions ≤ s.MaximumLODCount - 1 →
        min s.LODIndexForCollisions (max (s.MaximumLODCount - 1) 0) = s.LODIndexForCollisions)
    ∧ ∃ s', SwitchLODs env s = .ok { bAsyncBuildStarted := true } s'
        ∧ s'.AsyncBuildingLODIndex = min s.LODIndexForCollisions (max (s.MaximumLODCount - 1) 0)
        ∧ s'.Calls = s.Calls ++ asyncBuildCalls env s
            (min s.LODIndexForCollisions (max (s.MaximumLODCount - 1) 0))
        ∧ Event.BuildMeshAsync (min s.LODIndexForCollisions (max (s.MaximumLODCount - 1) 0))
            (asyncBuildOptions env s (min s.LODIndexForCollisions (max (s.MaximumLODCount - 1) 0)))
            (MakeCacheKey env.GetCacheKey s.SubDivisions
              (asyncBuildOptions env s
                (min s.LODIndexForCollisions (max (s.MaximumLODCount - 1) 0))).SubDivisions)
            ∈ s'.Calls := by
  have hc' : min s.LODIndexForCollisions (max (s.MaximumLODCount - 1) 0) ≥ 0 :=
    le_min hc (le_max_right _ _)
  have hdes : ∀ d' : ℚ,
      desiredLOD env s d' = min s.LODIndexForCollisions (max (s.MaximumLODCount - 1) 0) := by
    intro d'
    simp only [desiredLOD, if_pos hc', hun]
    split
    · rfl
    · rename_i hne
      simp only [Bool.not_false, and_true, ne_eq, Decidable.not_not] at hne
      exact hne
  refine ⟨hdes, fun hle => ?_, ?_⟩
  · have : s.LODIndexForCollisions ≤ max (s.MaximumLODCount - 1) 0 :=
      le_trans hle (le_max_left _ _)
    exact min_eq_left this
  · have hb := SwitchLODs_starts_build env s World d others hidle hworld hview hgame
      (by rw [hdes d]; exact hc') (by rw [hdes d]; exact hun)
    rw [hdes d] at hb
    refine ⟨_, hb, ?_, ?_, ?_⟩
    · simp [afterBuildMeshAsync, markedForAsyncBuild]
    · simp [afterBuildMeshAsync, markedForAsyncBuild, asyncBuildCalls, asyncBuildOptions]
    · simp [afterBuildMeshAsync, markedForAsyncBuild, asyncBuildCalls, asyncBuildOptions]

/-- Witness for C10 (amended): nothing built, three tiers, collision tier 1 designated.
The desired LOD is 1 for a viewer at distance 0 and at distance 99999 alike, and
`SwitchLODs` in a game world starts the async build of tier 1. -/
theorem SwitchLODs_forces_collision_tier_witness :
    (0 ≤ unbuiltCollision1.LODIndexForCollisions
      ∧ hasLOD unbuiltCollision1 (min unbuiltCollision1.LODIndexForCollisions
          (max (unbuiltCollision1.MaximumLODCount - 1) 0)) = false
      ∧ unbuiltCollision1.AsyncBuildingLODIndex < 0)
    ∧ desiredLOD (viewerAt 0) unbuiltCollision1 0 = 1
    ∧ desiredLOD (viewerAt 0) unbuiltCollision1 99999 = 1
    ∧ (SwitchLODs (viewerAt 0) unbuiltCollision1).state.AsyncBuildingLODIndex = 1
    ∧ (SwitchLODs (viewerAt 0) unbuiltCollision1).isOk = true := by
  obtain ⟨hdes, -, s', hs, ha, -⟩ := SwitchLODs_forces_collision_tier (viewerAt 0)
    unbuiltCollision1 { WorldType := .Game, ViewDistances := [0] } 0 [] (by decide)
    (by decide) (by decide) rfl rfl (by decide)
  have hmin : min unbuiltCollision1.LODIndexForCollisions
      (max (unbuiltCollision1.MaximumLODCount - 1) 0) = 1 := by decide
  refine ⟨⟨by decide, by decide, by decide⟩, (hdes 0).trans hmin, (hdes 99999).trans hmin,
    ?_, ?_⟩
  · rw [hs]; exact ha.trans hmin
  · rw [hs]; rfl

/-- The run `animatedRun` ends well; its pipeline calls are a start, an aborted poll, a
restart, a running poll and a completed poll, the recorded status is then `{}`, and the
replay accepts the calls. -/
theorem animatedRun_calls :
    animatedRun.isOk = true
    ∧ (modifyCalls animatedRun.state.Calls).map (fun e => match e with
        | .StartModifyVertices _ _ r => (0, r)
        | .CheckModifyVerticesStatus _ _ r => (1, r)
        | _ => (2, {}))
      = [(0, { bStarted := true }), (1, { bStarted := true, bAborted := true }),
         (0, { bStarted := true }), (1, { bStarted := true }),
         (1, { bStarted := true, bCompleted := true })]
    ∧ animatedRun.state.ModifyStatus = {}
    ∧ passesInOrder {} animatedRun.state.Calls = some { bStarted := true, bCompleted := true } := by
  decide!

/-! ## Theorems: section visibility -/

/-! ## Theorems: calls of the vertex-modifier pipeline -/

theorem passesInOrder_append (es1 : List Event) : ∀ (last) (es2 : List Event),
    passesInOrder last (es1 ++ es2) = (passesInOrder last es1).bind fun l => passesInOrder l es2 := by
  induction es1 with
  | nil => intro last es2; rfl
  | cons e rest ih =>
    intro last es2
    cases e <;> simp only [List.cons_append, passesInOrder] <;>
      first
        | exact ih _ _
        | (split
           · rfl
           · exact ih _ _)

theorem passesInOrder_quiet (es : List Event) (h : ∀ e ∈ es, e.isModifyCall = false) :
    ∀ last, passesInOrder last es = some last := by
  induction es with
  | nil => intro last; rfl
  | cons e rest ih =>
    intro last
    have he := h e (List.mem_cons_self _ _)
    have hr := ih (fun e' h' => h e' (List.mem_cons_of_mem _ h'))
    cases e <;> simp_all [passesInOrder, Event.isModifyCall]

theorem QuietRel.refl (s : AOpenLandMeshActor) : QuietRel s s :=
  ⟨rfl, [], by simp, by simp⟩

theorem QuietRel.trans {a b c : AOpenLandMeshActor} (h1 : QuietRel a b) (h2 : QuietRel b c) :
    QuietRel a c := by
  obtain ⟨e1, es1, c1, q1⟩ := h1
  obtain ⟨e2, es2, c2, q2⟩ := h2
  refine ⟨e2.trans e1, es1 ++ es2, by rw [c2, c1, List.append_assoc], ?_⟩
  intro e he
  rcases List.mem_append.mp he with h | h
  · exact q1 e h
  · exact q2 e h

theorem quiet_pure {α : Type} (x : α) : Quiet (pure x : Op α) := ⟨fun s => QuietRel.refl s⟩

theorem quiet_bind {α β : Type} {m : Op α} {f : α → Op β} (hm : Quiet m)
    (hf : ∀ x, Quiet (f x)) : Quiet (m >>= f) := by
  constructor
  intro s
  have h1 := hm.rel s
  simp only [Op.bind_apply]
  cases e : m s with
  | ok x s' =>
    rw [e] at h1
    exact QuietRel.trans h1 ((hf x).rel s')
  | crash s' =>
    rw [e] at h1
    exact h1

theorem quiet_read : Quiet Op.read := ⟨fun s => QuietRel.refl s⟩

theorem quiet_stop {α : Type} : Quiet (Op.stop : Op α) := ⟨fun s => QuietRel.refl s⟩

theorem quiet_need {α : Type} (o : Option α) : Quiet (Op.need o) := by
  cases o
  · exact quiet_stop
  · exact quiet_pure _

theorem quiet_update (f : AOpenLandMeshActor → AOpenLandMeshActor)
    (h : ∀ s, (f s).ModifyStatus = s.ModifyStatus ∧ (f s).Calls = s.Calls) :
    Quiet (Op.update f) :=
  ⟨fun s => ⟨(h s).1, [], by simp [Op.update, Outcome.state, (h s).2], by simp⟩⟩

theorem quiet_call (e : Event) (h : e.isModifyCall = false) : Quiet (Op.call e) :=
  ⟨fun _ => ⟨rfl, [e], rfl, by simpa using h⟩⟩

theorem quiet_derefLOD (p : Option Nat) : Quiet (derefLOD p) :=
  quiet_bind quiet_read fun _ => quiet_need _

theorem quiet_derefResult (p : Option Nat) : Quiet (derefResult p) :=
  quiet_bind quiet_read fun _ => quiet_need _

theorem quiet_derefMesh (p : Option Nat) : Quiet (derefMesh p) :=
  quiet_bind quiet_read fun _ => quiet_need _

theorem quiet_storeLOD (p : Option Nat) (f : FLODInfo → FLODInfo) : Quiet (storeLOD p f) :=
  quiet_bind (quiet_derefLOD p) fun _ => quiet_update _ fun _ => ⟨rfl, rfl⟩

theorem quiet_storeResult (p : Option Nat)
    (f : FOpenLandPolygonMeshBuildResult → FOpenLandPolygonMeshBuildResult) :
    Quiet (storeResult p f) :=
  quiet_bind (quiet_derefResult p) fun _ => quiet_update _ fun _ => ⟨rfl, rfl⟩

theorem quiet_storeMesh (p : Option Nat) (f : FSimpleMeshInfo → FSimpleMeshInfo) :
    Quiet (storeMesh p f) :=
  quiet_bind (quiet_derefMesh p) fun _ => quiet_update _ fun _ => ⟨rfl, rfl⟩

theorem quiet_newLOD (v : FLODInfo) : Quiet (newLOD v) :=
  ⟨fun s => ⟨rfl, [], by simp [newLOD, Outcome.state], by simp⟩⟩

theorem quiet_newResult (v : FOpenLandPolygonMeshBuildResult) : Quiet (newResult v) :=
  ⟨fun s => ⟨rfl, [], by simp [newResult, Outcome.state], by simp⟩⟩

theorem quiet_newMesh (v : FSimpleMeshInfo) : Quiet (newMesh v) :=
  ⟨fun s => ⟨rfl, [], by simp [newMesh, Outcome.state], by simp⟩⟩

theorem quiet_viaPolygonMesh (e : Event) (h : e.isModifyCall = false) :
    Quiet (viaPolygonMesh e) :=
  quiet_bind quiet_read fun _ => quiet_bind (quiet_need _) fun _ => quiet_call e h

theorem quiet_obtainPolygonMesh (env : Env) : Quiet (obtainPolygonMesh env) :=
  quiet_update _ fun _ => ⟨rfl, rfl⟩

theorem quiet_takeAnswer (a : FBuildAnswer) : Quiet (takeAnswer a) := by
  cases a with
  | Shared Result => exact quiet_pure _
  | Fresh Original Target Result =>
    unfold takeAnswer
    repeat (first
      | exact quiet_pure _
      | exact quiet_newMesh _
      | exact quiet_newResult _
      | apply quiet_bind
      | intro _
      | dsimp only
      | split)

theorem quiet_ShallowClone (p : Option Nat) : Quiet (ShallowClone p) :=
  quiet_bind (quiet_derefResult p) fun _ => quiet_newResult _

theorem quiet_Clone (p : Option Nat) : Quiet (Clone p) :=
  quiet_bind (quiet_derefMesh p) fun _ => quiet_newMesh _

theorem quiet_FLODInfo_MakeModifyReady (p : Option Nat) : Quiet (FLODInfo.MakeModifyReady p) := by
  unfold FLODInfo.MakeModifyReady
  repeat (first
    | exact quiet_pure _
    | exact quiet_derefLOD _
    | exact quiet_derefResult _
    | exact quiet_storeLOD _ _
    | exact quiet_storeResult _ _
    | exact quiet_ShallowClone _
    | exact quiet_Clone _
    | apply quiet_bind
    | intro _
    | dsimp only
    | split)

theorem quiet_installTarget (env : Env) (p : Option Nat) : Quiet (installTarget env p) := by
  unfold installTarget
  repeat (first
    | exact quiet_pure _
    | exact quiet_read
    | exact quiet_newMesh _
    | exact quiet_storeResult _ _
    | apply quiet_bind
    | intro _
    | dsimp only
    | split)

theorem quiet_registerGpuIfEnabled : Quiet registerGpuIfEnabled := by
  unfold registerGpuIfEnabled
  repeat (first
    | exact quiet_read
    | exact quiet_viaPolygonMesh _ rfl
    | apply quiet_bind
    | intro _
    | dsimp only
    | split)

theorem quiet_CreateMeshSection (i : Int) (t : Option Nat) : Quiet (CreateMeshSection i t) :=
  quiet_bind (quiet_call _ rfl) fun _ => quiet_update _ fun _ => ⟨rfl, rfl⟩

theorem quiet_ReplaceMeshSection (i : Int) (t : Option Nat) : Quiet (ReplaceMeshSection i t) :=
  quiet_bind (quiet_call _ rfl) fun _ => quiet_update _ fun _ => ⟨rfl, rfl⟩

theorem quiet_RemoveAllSections : Quiet RemoveAllSections :=
  quiet_bind (quiet_call _ rfl) fun _ => quiet_update _ fun _ => ⟨rfl, rfl⟩

theorem quiet_SetMaterialLoop (n : Nat) : ∀ i : Int, Quiet (SetMaterialLoop n i) := by
  induction n with
  | zero => intro i; exact quiet_pure _
  | succ n ih =>
    intro i
    exact quiet_bind (quiet_call _ rfl) fun _ => ih _

theorem quiet_SetMaterial : Quiet SetMaterial :=
  quiet_bind quiet_read fun _ => quiet_SetMaterialLoop _ _

theorem quiet_EnsureLODVisibilityLoop (l : List (Option Nat)) :
    Quiet (EnsureLODVisibilityLoop l) := by
  induction l with
  | nil => exact quiet_pure _
  | cons LOD rest ih =>
    unfold EnsureLODVisibilityLoop
    repeat (first
      | exact ih
      | exact quiet_pure _
      | exact quiet_read
      | exact quiet_derefLOD _
      | exact quiet_derefResult _
      | exact quiet_storeMesh _ _
      | exact quiet_call _ rfl
      | apply quiet_bind
      | intro _
      | dsimp only
      | split)

theorem quiet_EnsureLODVisibility : Quiet EnsureLODVisibility :=
  quiet_bind quiet_read fun _ => quiet_EnsureLODVisibilityLoop _

theorem quiet_ApplyInstancesLoop (l : List Int) : Quiet (ApplyInstancesLoop l) := by
  induction l with
  | nil => exact quiet_pure _
  | cons d rest ih =>
    unfold ApplyInstancesLoop
    repeat (first
      | exact ih
      | exact quiet_read
      | exact quiet_derefLOD _
      | exact quiet_derefResult _
      | exact quiet_derefMesh _
      | apply quiet_bind
      | intro _
      | dsimp only)

theorem quiet_ApplyInstances (env : Env) : Quiet (ApplyInstances env) := by
  unfold ApplyInstances
  repeat (first
    | exact quiet_pure _
    | exact quiet_read
    | exact quiet_need _
    | exact quiet_ApplyInstancesLoop _
    | exact quiet_call _ rfl
    | apply quiet_bind
    | intro _
    | dsimp only
    | split)

theorem quiet_MakeModifyReady : Quiet MakeModifyReady := by
  unfold MakeModifyReady
  repeat (first
    | exact quiet_pure _
    | exact quiet_read
    | exact quiet_derefLOD _
    | exact quiet_derefResult _
    | exact quiet_FLODInfo_MakeModifyReady _
    | exact quiet_ReplaceMeshSection _ _
    | apply quiet_bind
    | intro _
    | dsimp only
    | split)

theorem quiet_FinishBuildMeshAsync (env : Env) : Quiet (FinishBuildMeshAsync env) := by
  unfold FinishBuildMeshAsync
  repeat (first
    | exact quiet_pure _
    | exact quiet_read
    | exact quiet_derefLOD _
    | exact quiet_derefResult _
    | exact quiet_derefMesh _
    | exact quiet_storeLOD _ _
    | exact quiet_storeMesh _ _
    | exact quiet_CreateMeshSection _ _
    | exact quiet_RemoveAllSections
    | exact quiet_SetMaterial
    | exact quiet_EnsureLODVisibility
    | exact quiet_ApplyInstances _
    | exact quiet_call _ rfl
    | exact quiet_update _ fun _ => ⟨rfl, rfl⟩
    | apply quiet_bind
    | intro _
    | dsimp only
    | split)

theorem quiet_BuildMeshAsync (env : Env) (i : Int) : Quiet (BuildMeshAsync env i) := by
  unfold BuildMeshAsync
  repeat (first
    | exact quiet_pure _
    | exact quiet_read
    | exact quiet_need _
    | exact quiet_obtainPolygonMesh _
    | exact quiet_registerGpuIfEnabled
    | exact quiet_newLOD _
    | exact quiet_viaPolygonMesh _ rfl
    | exact quiet_update _ fun _ => ⟨rfl, rfl⟩
    | apply quiet_bind
    | intro _
    | dsimp only
    | split)

theorem quiet_SwitchLODs (env : Env) : Quiet (SwitchLODs env) := by
  unfold SwitchLODs
  repeat (first
    | exact quiet_pure _
    | exact quiet_read
    | exact quiet_need _
    | exact quiet_BuildMeshAsync _ _
    | exact quiet_update _ fun _ => ⟨rfl, rfl⟩
    | apply quiet_bind
    | intro _
    | dsimp only
    | split)

theorem quiet_targetLocked : Quiet targetLocked := by
  unfold targetLocked
  repeat (first
    | exact quiet_pure _
    | exact quiet_read
    | exact quiet_derefLOD _
    | exact quiet_derefResult _
    | exact quiet_derefMesh _
    | apply quiet_bind
    | intro _
    | dsimp only
    | split)

theorem quiet_BuildMeshLoop (env : Env) (w : Int) (n : Nat) :
    ∀ (i : Int) (l : List (Option Nat)), Quiet (BuildMeshLoop env w n i l) := by
  induction n with
  | zero => intro i l; exact quiet_pure _
  | succ n ih =>
    intro i l
    unfold BuildMeshLoop
    repeat (first
      | exact ih _ _
      | exact quiet_pure _
      | exact quiet_read
      | exact quiet_derefResult _
      | exact quiet_storeMesh _ _
      | exact quiet_takeAnswer _
      | exact quiet_newLOD _
      | exact quiet_viaPolygonMesh _ rfl
      | apply quiet_bind
      | intro _
      | dsimp only
      | split)

theorem quiet_RegisterSectionsLoop (l : List (Option Nat)) : Quiet (RegisterSectionsLoop l) := by
  induction l with
  | nil => exact quiet_pure _
  | cons LOD rest ih =>
    unfold RegisterSectionsLoop
    repeat (first
      | exact ih
      | exact quiet_read
      | exact quiet_derefLOD _
      | exact quiet_derefResult _
      | exact quiet_storeMesh _ _
      | exact quiet_ReplaceMeshSection _ _
      | exact quiet_CreateMeshSection _ _
      | apply quiet_bind
      | intro _
      | dsimp only
      | split)

set_option maxRecDepth 20000 in
theorem quiet_BuildMesh (env : Env) : Quiet (BuildMesh env) := by
  unfold BuildMesh
  repeat (first
    | exact quiet_pure _
    | exact quiet_read
    | exact quiet_need _
    | exact quiet_obtainPolygonMesh _
    | exact quiet_registerGpuIfEnabled
    | exact quiet_BuildMeshLoop _ _ _ _ _
    | exact quiet_RegisterSectionsLoop _
    | exact quiet_RemoveAllSections
    | exact quiet_SetMaterial
    | exact quiet_ApplyInstances _
    | exact quiet_viaPolygonMesh _ rfl
    | exact quiet_call _ rfl
    | exact quiet_update _ fun _ => ⟨rfl, rfl⟩
    | apply quiet_bind
    | intro _
    | dsimp only
    | split)

theorem quiet_BeginPlay (env : Env) : Quiet (BeginPlay env) := by
  unfold BeginPlay
  repeat (first
    | exact quiet_pure _
    | exact quiet_read
    | exact quiet_BuildMesh _
    | exact quiet_viaPolygonMesh _ rfl
    | exact quiet_update _ fun _ => ⟨rfl, rfl⟩
    | apply quiet_bind
    | intro _
    | dsimp only
    | split)

theorem quiet_OnConstruction (env : Env) : Quiet (OnConstruction env) := by
  unfold OnConstruction
  repeat (first
    | exact quiet_pure _
    | exact quiet_read
    | exact quiet_BuildMesh _
    | apply quiet_bind
    | intro _
    | dsimp only
    | split)

theorem modifyCalls_append (es1 es2 : List Event) :
    modifyCalls (es1 ++ es2) = modifyCalls es1 ++ modifyCalls es2 := by
  simp [modifyCalls]

theorem modifyCalls_quiet (es : List Event) (h : ∀ e ∈ es, Event.isModifyCall e = false) :
    modifyCalls es = [] := by
  simp only [modifyCalls, List.filter_eq_nil_iff]
  intro e he
  simp [h e he]

theorem Tracked.of_quiet {base : List Event} {C : List Event → Prop}
    {P : List Event → FOpenLandPolygonMeshModifyStatus → Prop} {s s' : AOpenLandMeshActor}
    (h : Tracked base C P s) (q : QuietRel s s') : Tracked base C P s' := by
  obtain ⟨es, hc, hC, hP⟩ := h
  obtain ⟨hm, es', hc', hq⟩ := q
  refine ⟨es ++ es', by rw [hc', hc, List.append_assoc], ?_, ?_⟩
  · rw [modifyCalls_append, modifyCalls_quiet es' hq, List.append_nil]; exact hC
  · rw [modifyCalls_append, modifyCalls_quiet es' hq, List.append_nil, hm]; exact hP

theorem Tracked.weaken {base : List Event} {C : List Event → Prop}
    {P P' : List Event → FOpenLandPolygonMeshModifyStatus → Prop} {s : AOpenLandMeshActor}
    (h : Tracked base C P s) (w : ∀ mc r, C mc → P mc r → P' mc r) : Tracked base C P' s := by
  obtain ⟨es, hc, hC, hP⟩ := h
  exact ⟨es, hc, hC, w _ _ hC hP⟩

theorem triple_quiet {α : Type} {base : List Event} {C : List Event → Prop}
    {P : List Event → FOpenLandPolygonMeshModifyStatus → Prop} {m : Op α} (hm : Quiet m) :
    Triple base C P m (fun _ => P) := by
  constructor
  intro s h
  have q := hm.rel s
  cases e : m s with
  | ok x s' => rw [e] at q; exact h.of_quiet q
  | crash s' => rw [e] at q; exact (h.of_quiet q).weaken fun _ _ _ _ => trivial

theorem triple_bind {α β : Type} {base : List Event} {C : List Event → Prop}
    {P : List Event → FOpenLandPolygonMeshModifyStatus → Prop}
    {Q : α → List Event → FOpenLandPolygonMeshModifyStatus → Prop}
    {R : β → List Event → FOpenLandPolygonMeshModifyStatus → Prop}
    {m : Op α} {f : α → Op β}
    (hm : Triple base C P m Q) (hf : ∀ x, Triple base C (Q x) (f x) R) :
    Triple base C P (m >>= f) R := by
  constructor
  intro s h
  have h1 := hm.run s h
  simp only [Op.bind_apply]
  cases e : m s with
  | ok x s' =>
    rw [e] at h1
    exact (hf x).run s' h1
  | crash s' =>
    rw [e] at h1
    exact h1

theorem triple_pre {α : Type} {base : List Event} {C : List Event → Prop}
    {P P' : List Event → FOpenLandPolygonMeshModifyStatus → Prop} {m : Op α}
    {Q : α → List Event → FOpenLandPolygonMeshModifyStatus → Prop}
    (w : ∀ mc r, C mc → P' mc r → P mc r) (h : Triple base C P m Q) :
    Triple base C P' m Q :=
  ⟨fun s hs => h.run s (hs.weaken w)⟩

theorem triple_post {α : Type} {base : List Event} {C : List Event → Prop}
    {P : List Event → FOpenLandPolygonMeshModifyStatus → Prop} {m : Op α}
    {Q Q' : α → List Event → FOpenLandPolygonMeshModifyStatus → Prop}
    (h : Triple base C P m Q) (w : ∀ x mc r, C mc → Q x mc r → Q' x mc r) :
    Triple base C P m Q' := by
  constructor
  intro s hs
  have h1 := h.run s hs
  cases e : m s with
  | ok x s' => rw [e] at h1; exact h1.weaken (w x)
  | crash s' => rw [e] at h1; exact h1

theorem triple_pure {α : Type} {base : List Event} {C : List Event → Prop}
    {Q : α → List Event → FOpenLandPolygonMeshModifyStatus → Prop} (x : α) :
    Triple base C (Q x) (pure x : Op α) Q :=
  ⟨fun _ hs => hs⟩

theorem triple_read {base : List Event} {C : List Event → Prop}
    {P : List Event → FOpenLandPolygonMeshModifyStatus → Prop} :
    Triple base C P Op.read (fun x mc r => P mc r ∧ x.ModifyStatus = r) := by
  constructor
  intro s hs
  obtain ⟨es, hc, hC, hP⟩ := hs
  exact ⟨es, hc, hC, hP, rfl⟩

theorem triple_setStatus {base : List Event} {C : List Event → Prop}
    {P : List Event → FOpenLandPolygonMeshModifyStatus → Prop}
    (v : FOpenLandPolygonMeshModifyStatus) :
    Triple base C (fun mc _ => P mc v)
      (Op.update fun x => { x with ModifyStatus := v }) (fun _ => P) := by
  constructor
  intro s hs
  obtain ⟨es, hc, hC, hP⟩ := hs
  exact ⟨es, hc, hC, hP⟩

theorem triple_viaPolygonMesh {base : List Event} {C : List Event → Prop}
    {P : List Event → FOpenLandPolygonMeshModifyStatus → Prop} (e : Event)
    (he : e.isModifyCall = true) :
    Triple base C (fun mc r => C (mc ++ [e]) ∧ P (mc ++ [e]) r) (viaPolygonMesh e)
      (fun _ => P) := by
  constructor
  intro s hs
  obtain ⟨es, hc, hC, hC', hP⟩ := hs
  have hm : modifyCalls (es ++ [e]) = modifyCalls es ++ [e] := by
    rw [modifyCalls_append]; simp [modifyCalls, he]
  cases hp : s.PolygonMesh with
  | none =>
    simp only [viaPolygonMesh, Op.bind_apply, Op.read_apply, hp, Op.need_none]
    exact ⟨es, hc, hC, trivial⟩
  | some p =>
    simp only [viaPolygonMesh, Op.bind_apply, Op.read_apply, hp, Op.need_some, Op.call_apply]
    exact ⟨es ++ [e], by simp [hc], by rw [hm]; exact hC', by rw [hm]; exact hP⟩

theorem triple_StartModifyVertices {base : List Event} {C : List Event → Prop}
    {P : List Event → FOpenLandPolygonMeshModifyStatus → Prop} (env : Env)
    (p : Option Nat) (o : FOpenLandPolygonMeshModifyOptions) :
    Triple base C
      (fun mc r => C (mc ++ [.StartModifyVertices p o env.StartStatus])
        ∧ P (mc ++ [.StartModifyVertices p o env.StartStatus]) r)
      (StartModifyVertices env p o) (fun x mc r => x = env.StartStatus ∧ P mc r) :=
  triple_bind (triple_viaPolygonMesh _ rfl) fun _ =>
    triple_bind (triple_quiet (quiet_installTarget env p)) fun _ =>
      triple_pre (fun _ _ _ h => ⟨rfl, h⟩) (triple_pure env.StartStatus)

theorem triple_CheckModifyVerticesStatus {base : List Event} {C : List Event → Prop}
    {P : List Event → FOpenLandPolygonMeshModifyStatus → Prop} (env : Env)
    (p : Option Nat) (t : ℚ) :
    Triple base C
      (fun mc r => C (mc ++ [.CheckModifyVerticesStatus p t env.CheckStatus])
        ∧ P (mc ++ [.CheckModifyVerticesStatus p t env.CheckStatus]) r)
      (CheckModifyVerticesStatus env p t) (fun x mc r => x = env.CheckStatus ∧ P mc r) :=
  triple_bind (triple_viaPolygonMesh _ rfl) fun _ =>
    triple_pre (fun _ _ _ h => ⟨rfl, h⟩) (triple_pure env.CheckStatus)

theorem triple_ModifyVertices {base : List Event} {C : List Event → Prop}
    {P : List Event → FOpenLandPolygonMeshModifyStatus → Prop} (env : Env)
    (p : Option Nat) (o : FOpenLandPolygonMeshModifyOptions) :
    Triple base C
      (fun mc r => C (mc ++ [.ModifyVertices p o]) ∧ P (mc ++ [.ModifyVertices p o]) r)
      (ModifyVertices env p o) (fun _ => P) :=
  triple_bind (triple_viaPolygonMesh _ rfl) fun _ => triple_quiet (quiet_installTarget env p)

theorem triple_viaPolygonMesh_after {base : List Event} {C : List Event → Prop}
    {P : List Event → FOpenLandPolygonMeshModifyStatus → Prop} (e : Event)
    (he : e.isModifyCall = true) (hC : ∀ mc r, C mc → P mc r → C (mc ++ [e])) :
    Triple base C P (viaPolygonMesh e) (fun _ mc r => ∃ mc0, mc = mc0 ++ [e] ∧ P mc0 r) :=
  triple_pre (fun mc r c h => ⟨hC mc r c h, mc, rfl, h⟩) (triple_viaPolygonMesh e he)

theorem triple_StartModifyVertices_after {base : List Event} {C : List Event → Prop}
    {P : List Event → FOpenLandPolygonMeshModifyStatus → Prop} (env : Env)
    (p : Option Nat) (o : FOpenLandPolygonMeshModifyOptions)
    (hC : ∀ mc r, C mc → P mc r → C (mc ++ [.StartModifyVertices p o env.StartStatus])) :
    Triple base C P (StartModifyVertices env p o)
      (fun x mc r => x = env.StartStatus
        ∧ ∃ mc0, mc = mc0 ++ [.StartModifyVertices p o env.StartStatus] ∧ P mc0 r) :=
  triple_pre (fun mc r c h => ⟨hC mc r c h, mc, rfl, h⟩)
    (triple_StartModifyVertices env p o)

theorem triple_CheckModifyVerticesStatus_after {base : List Event} {C : List Event → Prop}
    {P : List Event → FOpenLandPolygonMeshModifyStatus → Prop} (env : Env)
    (p : Option Nat) (t : ℚ)
    (hC : ∀ mc r, C mc → P mc r → C (mc ++ [.CheckModifyVerticesStatus p t env.CheckStatus])) :
    Triple base C P (CheckModifyVerticesStatus env p t)
      (fun x mc r => x = env.CheckStatus
        ∧ ∃ mc0, mc = mc0 ++ [.CheckModifyVerticesStatus p t env.CheckStatus] ∧ P mc0 r) :=
  triple_pre (fun mc r c h => ⟨hC mc r c h, mc, rfl, h⟩)
    (triple_CheckModifyVerticesStatus env p t)

theorem triple_ModifyVertices_after {base : List Event} {C : List Event → Prop}
    {P : List Event → FOpenLandPolygonMeshModifyStatus → Prop} (env : Env)
    (p : Option Nat) (o : FOpenLandPolygonMeshModifyOptions)
    (hC : ∀ mc r, C mc → P mc r → C (mc ++ [.ModifyVertices p o])) :
    Triple base C P (ModifyVertices env p o)
      (fun _ mc r => ∃ mc0, mc = mc0 ++ [.ModifyVertices p o] ∧ P mc0 r) :=
  triple_pre (fun mc r c h => ⟨hC mc r c h, mc, rfl, h⟩) (triple_ModifyVertices env p o)

theorem triple_setStatus_after {base : List Event} {C : List Event → Prop}
    {P : List Event → FOpenLandPolygonMeshModifyStatus → Prop}
    (v : FOpenLandPolygonMeshModifyStatus) :
    Triple base C P (Op.update fun x => { x with ModifyStatus := v })
      (fun _ mc r => r = v ∧ ∃ r', P mc r') :=
  triple_pre (fun _ r _ h => ⟨rfl, r, h⟩) (triple_setStatus v)

theorem triple_RunAsyncModifyMeshProcess (env : Env) (t : ℚ) (base : List Event)
    (r0 : FOpenLandPolygonMeshModifyStatus) :
    Triple base (fun mc => stepAllowed r0.bStarted mc = true) (fun mc r => mc = [] ∧ r = r0)
      (RunAsyncModifyMeshProcess env t) (fun _ mc r => stepRecorded r0 mc r) := by
  unfold RunAsyncModifyMeshProcess
  refine triple_bind triple_read fun s => ?_
  refine triple_bind (triple_quiet ?_) fun ModifyingLOD => ?_
  · split
    · exact quiet_need _
    · exact quiet_pure _
  split
  · rename_i hb
    refine triple_bind (triple_quiet (quiet_need _)) fun World => ?_
    dsimp only
    refine triple_bind (triple_quiet quiet_MakeModifyReady) fun _ => ?_
    refine triple_bind (triple_quiet (quiet_derefLOD _)) fun lod => ?_
    refine triple_bind (triple_StartModifyVertices_after env _ _ ?_) fun Returned => ?_
    · rintro mc r - ⟨⟨rfl, rfl⟩, hs⟩
      rw [hs] at hb
      simp only [Bool.not_eq_true', ] at hb
      simp [stepAllowed, hb]
    · refine triple_post (triple_setStatus_after Returned) ?_
      rintro - mc r - ⟨rfl, r', rfl, mc0, rfl, ⟨rfl, rfl⟩, -⟩
      simp [stepRecorded]
  · rename_i hb
    refine triple_bind (triple_quiet (quiet_derefLOD _)) fun lod => ?_
    refine triple_bind (triple_CheckModifyVerticesStatus_after env _ _ ?_) fun Polled => ?_
    · rintro mc r - ⟨⟨rfl, rfl⟩, hs⟩
      rw [hs] at hb
      simp only [Bool.not_eq_true', Bool.not_eq_false] at hb
      simp [stepAllowed, hb]
    refine triple_bind (triple_setStatus_after Polled) fun _ => ?_
    split
    · rename_i ha
      refine triple_bind (triple_quiet (quiet_need _)) fun World => ?_
      dsimp only
      refine triple_bind (triple_quiet (quiet_derefLOD _)) fun lod' => ?_
      refine triple_bind (triple_StartModifyVertices_after env _ _ ?_) fun Returned => ?_
      · rintro mc r - ⟨rfl, r', rfl, mc0, rfl, ⟨rfl, rfl⟩, hs⟩
        rw [hs] at hb
        simp only [Bool.not_eq_true', Bool.not_eq_false] at hb
        simp [stepAllowed, hb, ha]
      · refine triple_post (triple_setStatus_after Returned) ?_
        rintro - mc r - ⟨rfl, r', rfl, mc1, rfl, -, r'', -, mc0, rfl, ⟨rfl, rfl⟩, -⟩
        simp [stepRecorded]
    · rename_i ha
      split
      · rename_i hc
        refine triple_bind (triple_quiet (quiet_call _ rfl)) fun _ => ?_
        refine triple_bind (triple_quiet (quiet_viaPolygonMesh _ rfl)) fun _ => ?_
        refine triple_bind (triple_setStatus_after _) fun _ => ?_
        refine triple_post (triple_quiet ?_) ?_
        · split
          · exact quiet_FinishBuildMeshAsync _
          · repeat (first
              | exact quiet_pure _
              | exact quiet_derefLOD _
              | exact quiet_EnsureLODVisibility
              | exact quiet_SwitchLODs _
              | exact quiet_call _ rfl
              | exact quiet_update _ fun _ => ⟨rfl, rfl⟩
              | apply quiet_bind
              | intro _
              | dsimp only
              | split)
        · rintro - mc r - ⟨rfl, r', -, r'', hP, mc0, rfl, ⟨rfl, rfl⟩, -⟩
          subst hP
          simp [stepRecorded, ha, hc]
      · rename_i hc
        refine triple_post (triple_quiet (quiet_pure _)) ?_
        rintro - mc r - ⟨rfl, r', hP, mc0, rfl, ⟨rfl, rfl⟩, -⟩
        subst hP
        simp [stepRecorded, ha, hc]

theorem triple_ModifyMesh (env : Env) (base : List Event)
    (r0 : FOpenLandPolygonMeshModifyStatus) :
    Triple base (fun mc => stepAllowed r0.bStarted mc = true) (fun mc r => mc = [] ∧ r = r0)
      (ModifyMesh env) (fun _ mc r => stepRecorded r0 mc r) := by
  unfold ModifyMesh
  refine triple_bind triple_read fun s => ?_
  split
  · refine triple_post (triple_quiet (quiet_update _ fun _ => ⟨rfl, rfl⟩)) ?_
    rintro - mc r - ⟨⟨rfl, rfl⟩, -⟩
    simp [stepRecorded]
  · rename_i hb
    refine triple_bind (triple_quiet quiet_registerGpuIfEnabled) fun _ => ?_
    refine triple_bind (triple_quiet quiet_MakeModifyReady) fun _ => ?_
    refine triple_bind (triple_quiet (quiet_derefLOD _)) fun lod => ?_
    refine triple_bind (triple_quiet (quiet_need _)) fun World => ?_
    refine triple_bind (triple_ModifyVertices_after env _ _ ?_) fun _ => ?_
    · rintro mc r - ⟨⟨rfl, rfl⟩, hs⟩
      rw [hs] at hb
      simp only [Bool.not_eq_true] at hb
      simp [stepAllowed, hb]
    · refine triple_post (triple_quiet (quiet_call _ rfl)) ?_
      rintro - mc r - ⟨mc0, rfl, ⟨rfl, rfl⟩, -⟩
      simp [stepRecorded]

theorem triple_ModifyMeshAsync (env : Env) (base : List Event)
    (r0 : FOpenLandPolygonMeshModifyStatus) :
    Triple base (fun mc => stepAllowed r0.bStarted mc = true) (fun mc r => mc = [] ∧ r = r0)
      (ModifyMeshAsync env) (fun _ mc r => stepRecorded r0 mc r) := by
  unfold ModifyMeshAsync
  refine triple_bind (triple_quiet quiet_read) fun s => ?_
  refine triple_bind (triple_quiet (quiet_need _)) fun World => ?_
  split
  · exact triple_ModifyMesh env base r0
  · refine triple_post (triple_quiet (quiet_update _ fun _ => ⟨rfl, rfl⟩)) ?_
    rintro - mc r - ⟨rfl, rfl⟩
    simp [stepRecorded]

theorem triple_RunSyncModifyMeshProcess (env : Env) (base : List Event)
    (r0 : FOpenLandPolygonMeshModifyStatus) (hb : r0.bStarted = false) :
    Triple base (fun mc => stepAllowed r0.bStarted mc = true) (fun mc r => mc = [] ∧ r = r0)
      (RunSyncModifyMeshProcess env) (fun _ mc r => stepRecorded r0 mc r) := by
  unfold RunSyncModifyMeshProcess
  refine triple_bind (triple_quiet (quiet_SwitchLODs env)) fun Status => ?_
  refine triple_bind (triple_quiet ?_) fun _ => ?_
  · split
    · exact quiet_EnsureLODVisibility
    · exact quiet_pure _
  refine triple_bind (triple_quiet quiet_MakeModifyReady) fun _ => ?_
  refine triple_bind (triple_quiet quiet_read) fun s => ?_
  refine triple_bind (triple_quiet (quiet_derefLOD _)) fun lod => ?_
  refine triple_bind (triple_quiet (quiet_need _)) fun World => ?_
  refine triple_bind (triple_ModifyVertices_after env _ _ ?_) fun _ => ?_
  · rintro mc r - ⟨rfl, rfl⟩
    simp [stepAllowed, hb]
  refine triple_bind (triple_quiet (quiet_call _ rfl)) fun _ => ?_
  refine triple_bind (triple_quiet (quiet_call _ rfl)) fun _ => ?_
  refine triple_post (triple_quiet (quiet_viaPolygonMesh _ rfl)) ?_
  rintro - mc r - ⟨mc0, rfl, rfl, rfl⟩
  simp [stepRecorded]

theorem stepRecorded_nil (r0 : FOpenLandPolygonMeshModifyStatus) :
    ∀ (mc : List Event) (r : FOpenLandPolygonMeshModifyStatus),
      stepAllowed r0.bStarted mc = true → mc = [] ∧ r = r0 → stepRecorded r0 mc r := by
  rintro mc r - ⟨rfl, rfl⟩
  simp [stepRecorded]

theorem triple_TickRest (env : Env) (DeltaTime : ℚ) (bIsEditor : Bool) (base : List Event)
    (r0 : FOpenLandPolygonMeshModifyStatus) :
    Triple base (fun mc => stepAllowed r0.bStarted mc = true) (fun mc r => mc = [] ∧ r = r0)
      (TickRest env DeltaTime bIsEditor) (fun _ mc r => stepRecorded r0 mc r) := by
  unfold TickRest
  refine triple_bind triple_read fun s => ?_
  split
  · refine triple_post (triple_quiet ?_) fun _ mc r c h => stepRecorded_nil r0 mc r c h.1
    split
    · exact quiet_bind (quiet_SwitchLODs env) fun _ => quiet_pure _
    · exact quiet_pure _
  · refine triple_bind (triple_quiet quiet_targetLocked) fun bLocked => ?_
    split
    · exact triple_post (triple_quiet (quiet_pure _))
        fun _ mc r c h => stepRecorded_nil r0 mc r c h.1
    · split
      · refine triple_bind (triple_quiet (quiet_update _ fun _ => ⟨rfl, rfl⟩)) fun _ => ?_
        refine triple_bind (triple_quiet (quiet_call _ rfl)) fun _ => ?_
        refine triple_bind (triple_quiet (quiet_viaPolygonMesh _ rfl)) fun _ => ?_
        exact triple_pre (fun _ _ _ h => h.1) (triple_RunAsyncModifyMeshProcess env _ base r0)
      · split
        · exact triple_pre (fun _ _ _ h => h.1) (triple_RunAsyncModifyMeshProcess env _ base r0)
        · rename_i hb
          split
          · exact triple_post (triple_quiet (quiet_pure _))
              fun _ mc r c h => stepRecorded_nil r0 mc r c h.1
          · split
            · exact triple_post (triple_quiet (quiet_pure _))
                fun _ mc r c h => stepRecorded_nil r0 mc r c h.1
            · split
              · exact triple_post (triple_quiet (quiet_pure _))
                  fun _ mc r c h => stepRecorded_nil r0 mc r c h.1
              · split
                · exact triple_pre (fun _ _ _ h => h.1)
                    (triple_RunAsyncModifyMeshProcess env _ base r0)
                · constructor
                  intro x hx
                  have hr : r0.bStarted = false := by
                    obtain ⟨es, -, -, ⟨-, rfl⟩, hs⟩ := hx
                    rw [← hs]
                    simpa using hb
                  exact (triple_pre (fun _ _ _ h => h.1)
                    (triple_RunSyncModifyMeshProcess env base r0 hr)).run x hx

theorem triple_Tick (env : Env) (DeltaTime : ℚ) (base : List Event)
    (r0 : FOpenLandPolygonMeshModifyStatus) :
    Triple base (fun mc => stepAllowed r0.bStarted mc = true) (fun mc r => mc = [] ∧ r = r0)
      (Tick env DeltaTime) (fun _ mc r => stepRecorded r0 mc r) := by
  unfold Tick
  refine triple_bind (triple_quiet (quiet_call _ rfl)) fun _ => ?_
  refine triple_bind (triple_quiet (quiet_need _)) fun World => ?_
  dsimp only
  refine triple_bind (triple_quiet quiet_read) fun s => ?_
  split
  · refine triple_bind (triple_quiet (quiet_SwitchLODs env)) fun Status => ?_
    refine triple_bind (triple_quiet ?_) fun _ => ?_
    · split
      · exact quiet_EnsureLODVisibility
      · exact quiet_pure _
    split
    · exact triple_post (triple_quiet (quiet_pure _)) (fun _ => stepRecorded_nil r0)
    · exact triple_TickRest env _ _ base r0
  · exact triple_TickRest env _ _ base r0

theorem triple_OnBuildMeshAsyncResult (env : Env) (Result : FBuildAnswer) (base : List Event)
    (r0 : FOpenLandPolygonMeshModifyStatus) :
    Triple base (fun mc => stepAllowed r0.bStarted mc = true) (fun mc r => mc = [] ∧ r = r0)
      (OnBuildMeshAsyncResult env Result) (fun _ mc r => stepRecorded r0 mc r) := by
  unfold OnBuildMeshAsyncResult
  refine triple_bind (triple_quiet (quiet_takeAnswer _)) fun p => ?_
  refine triple_bind (triple_quiet quiet_read) fun s => ?_
  refine triple_bind (triple_quiet (quiet_storeLOD _ _)) fun _ => ?_
  refine triple_bind (triple_quiet (quiet_derefResult _)) fun r => ?_
  split
  · exact triple_post (triple_quiet (quiet_FinishBuildMeshAsync env)) (fun _ => stepRecorded_nil r0)
  · exact triple_ModifyMeshAsync env base r0

theorem triple_Command (env : Env) (c : Command) (base : List Event)
    (r0 : FOpenLandPolygonMeshModifyStatus) :
    Triple base (fun mc => stepAllowed r0.bStarted mc = true) (fun mc r => mc = [] ∧ r = r0)
      (c.code env) (fun _ mc r => stepRecorded r0 mc r) := by
  cases c with
  | Tick DeltaTime => exact triple_Tick env DeltaTime base r0
  | ModifyMesh => exact triple_ModifyMesh env base r0
  | ModifyMeshAsync => exact triple_ModifyMeshAsync env base r0
  | OnBuildMeshAsyncResult Result => exact triple_OnBuildMeshAsyncResult env Result base r0
  | BuildMesh => exact triple_post (triple_quiet (quiet_BuildMesh env)) (fun _ => stepRecorded_nil r0)
  | RebuildLODs => exact triple_post (triple_quiet (quiet_BuildMesh env)) (fun _ => stepRecorded_nil r0)
  | ResetCache =>
    exact triple_post (triple_quiet (quiet_viaPolygonMesh _ rfl)) (fun _ => stepRecorded_nil r0)
  | ApplyInstances =>
    exact triple_post (triple_quiet (quiet_ApplyInstances env)) (fun _ => stepRecorded_nil r0)
  | RemoveInstances =>
    exact triple_post (triple_quiet (quiet_call _ rfl)) (fun _ => stepRecorded_nil r0)
  | OnConstruction =>
    exact triple_post (triple_quiet (quiet_OnConstruction env)) (fun _ => stepRecorded_nil r0)
  | BeginPlay => exact triple_post (triple_quiet (quiet_BeginPlay env)) (fun _ => stepRecorded_nil r0)
  | SetGPUScalarParameter Name Value =>
    exact triple_post (triple_quiet (quiet_update _ fun _ => ⟨rfl, rfl⟩)) (fun _ => stepRecorded_nil r0)
  | SetGPUVectorParameter Name Value =>
    exact triple_post (triple_quiet (quiet_update _ fun _ => ⟨rfl, rfl⟩)) (fun _ => stepRecorded_nil r0)
  | SetGPUTextureParameter Name Value =>
    exact triple_post (triple_quiet (quiet_update _ fun _ => ⟨rfl, rfl⟩)) (fun _ => stepRecorded_nil r0)

theorem passesInOrder_modifyCalls (es : List Event) :
    ∀ last, passesInOrder last es = passesInOrder last (modifyCalls es) := by
  induction es with
  | nil => intro last; rfl
  | cons e rest ih =>
    intro last
    cases e <;> simp [passesInOrder, modifyCalls, Event.isModifyCall, List.filter] <;>
      first
        | exact ih _
        | (split
           · rfl
           · exact ih _)

theorem command_calls (env : Env) (c : Command) (s : AOpenLandMeshActor) :
    ∃ es, (c.code env s).state.Calls = s.Calls ++ es
      ∧ stepAllowed s.ModifyStatus.bStarted (modifyCalls es) = true
      ∧ ((c.code env s).isOk = true →
          stepRecorded s.ModifyStatus (modifyCalls es) (c.code env s).state.ModifyStatus) := by
  have h := (triple_Command env c s.Calls s.ModifyStatus).run s
    ⟨[], by simp, by simp [modifyCalls, stepAllowed], by simp [modifyCalls]⟩
  cases e : c.code env s with
  | ok x s' =>
    rw [e] at h
    obtain ⟨es, hc, hC, hQ⟩ := h
    exact ⟨es, hc, hC, fun _ => hQ⟩
  | crash s' =>
    rw [e] at h
    obtain ⟨es, hc, hC, -⟩ := h
    exact ⟨es, hc, hC, fun hok => by simp [Outcome.isOk] at hok⟩

theorem IsRunning_bStarted (l : FOpenLandPolygonMeshModifyStatus) (h : l.IsRunning = true) :
    l.bStarted = true := by
  simp only [FOpenLandPolygonMeshModifyStatus.IsRunning] at h
  split at h
  · simp at h
  · rename_i hn
    simp only [Bool.or_eq_true, Bool.not_eq_true', not_or, Bool.not_eq_false] at hn
    exact hn.2

theorem stepAllowed_passes (l r0 r : FOpenLandPolygonMeshModifyStatus) (mc : List Event)
    (hinv : l.IsRunning = true → r0.bStarted = true)
    (hC : stepAllowed r0.bStarted mc = true) :
    ∃ l', passesInOrder l mc = some l'
      ∧ (stepRecorded r0 mc r → l'.IsRunning = true → r.bStarted = true) := by
  have hidle : r0.bStarted = false → l.IsRunning = false := by
    intro h0
    cases hl : l.IsRunning
    · rfl
    · rw [hinv hl] at h0; cases h0
  unfold stepAllowed at hC
  split at hC
  · exact ⟨l, rfl, fun h hl => by simp only [stepRecorded] at h; rw [h]; exact hinv hl⟩
  · rename_i p t Polled
    refine ⟨Polled, rfl, fun h hl => ?_⟩
    simp only [stepRecorded] at h
    obtain ⟨-, rfl⟩ := h
    split
    · rename_i hc
      simp [FOpenLandPolygonMeshModifyStatus.IsRunning, hc] at hl
    · exact IsRunning_bStarted _ hl
  · rename_i p t Polled p' o Returned
    simp only [Bool.and_eq_true] at hC
    have hna : Polled.IsRunning = false := by
      simp [FOpenLandPolygonMeshModifyStatus.IsRunning, hC.2]
    refine ⟨Returned, by simp [passesInOrder, hna], fun h hl => ?_⟩
    simp only [stepRecorded] at h
    rw [h]; exact IsRunning_bStarted _ hl
  · rename_i p o Returned
    simp only [Bool.not_eq_true'] at hC
    refine ⟨Returned, by simp [passesInOrder, hidle hC], fun h hl => ?_⟩
    simp only [stepRecorded] at h
    rw [h]; exact IsRunning_bStarted _ hl
  · rename_i p o
    simp only [Bool.not_eq_true'] at hC
    refine ⟨l, by simp [passesInOrder, hidle hC], fun h hl => ?_⟩
    simp only [stepRecorded] at h
    rw [h]; exact hinv hl
  · cases hC

theorem command_passesTracked (env : Env) (c : Command) (s : AOpenLandMeshActor)
    (h : passesTracked s) :
    (∃ last, passesInOrder {} (c.code env s).state.Calls = some last)
      ∧ ((c.code env s).isOk = true → passesTracked (c.code env s).state) := by
  obtain ⟨l, hl, hinv⟩ := h
  obtain ⟨es, hc, hC, hQ⟩ := command_calls env c s
  obtain ⟨l', hl', hfin⟩ := stepAllowed_passes l s.ModifyStatus
    (c.code env s).state.ModifyStatus (modifyCalls es) hinv hC
  have hp : passesInOrder {} (c.code env s).state.Calls = some l' := by
    rw [hc, passesInOrder_append, hl, Option.bind, passesInOrder_modifyCalls]
    exact hl'
  exact ⟨⟨l', hp⟩, fun hok => ⟨l', hp, hfin (hQ hok)⟩⟩

theorem runAll_passes (steps : List (Env × Command)) :
    ∀ s, passesTracked s → ∃ last, passesInOrder {} (runAll steps s).state.Calls = some last := by
  induction steps with
  | nil =>
    intro s h
    obtain ⟨l, hl, -⟩ := h
    exact ⟨l, hl⟩
  | cons step rest ih =>
    intro s h
    obtain ⟨env, c⟩ := step
    obtain ⟨h1, h2⟩ := command_passesTracked env c s h
    simp only [runAll, Op.bind_apply]
    cases e : c.code env s with
    | ok x s' =>
      rw [e] at h2
      exact ih s' (h2 rfl)
    | crash s' =>
      rw [e] at h1
      exact h1

/-- C6: the orchestrator never starts a modify pass while one it started earlier is in
flight. First, for every state and every operation (`Tick`, `ModifyMesh`,
`ModifyMeshAsync` and all others), the pipeline calls the operation makes are, when the
recorded `ModifyStatus.bStarted` is set at its entry, none, or one
`CheckModifyVerticesStatus`, or one `CheckModifyVerticesStatus` that returned `bAborted`
followed by one `StartModifyVertices`; and when it is not set, none, or one
`StartModifyVertices`, or one `ModifyVertices` (`stepAllowed`). Second, across any
sequence of operations in any environments, whether it runs to its end or stops, every
`StartModifyVertices` and every `ModifyVertices` is called while the status the pipeline
returned last is not `IsRunning()`, that is, while the pass started before has been
reported completed or aborted or none was started (`passesInOrder`). Third, the replay
does reject a start that follows a start reported running. -/
theorem modify_pass_started_only_when_none_in_flight (s : AOpenLandMeshActor)
    (steps : List (Env × Command)) :
    (∀ (env : Env) (c : Command), ∃ es, (c.code env s).state.Calls = s.Calls ++ es
        ∧ stepAllowed s.ModifyStatus.bStarted (modifyCalls es) = true)
    ∧ (∃ last, passesInOrder {} (runAll steps { s with Calls := [] }).state.Calls = some last)
    ∧ passesInOrder {} [.StartModifyVertices none {} { bStarted := true },
        .StartModifyVertices none {} { bStarted := true }] = none := by
  refine ⟨fun env c => ?_, runAll_passes steps _ ⟨{}, rfl, fun h => by cases h⟩, by decide⟩
  obtain ⟨es, h1, h2, -⟩ := command_calls env c s
  exact ⟨es, h1, h2⟩

/-! ## Theorems: section visibility -/

/-- C7 fails on the code. After three tiers were built, the viewer moved away (tier 2
current and visible) and `MaximumLODCount` was lowered to 1, `RebuildLODs` on a mesh that
can be rendered ends with one built LOD, which is current (`CurrentLODIndex = 0`), and
with no section flagged visible; the following ticks, in a game world or in the editor,
leave it so. And after the async build of tier 1 on an actor with nothing built,
`FinishBuildMeshAsync` ends with the one built LOD hidden, until the next tick. -/
theorem current_LOD_left_hidden :
    (visibleLODs builtThreeTiers = [0] ∧ visibleLODs movedAway = [2]
      ∧ movedAway.CurrentLODIndex = 2)
    ∧ (CanRenderMesh (viewerAt 5001) loweredToOne = true ∧ rebuilt.isOk = true
      ∧ builtLODs rebuilt.state = 1 ∧ rebuilt.state.CurrentLODIndex = 0
      ∧ rebuilt.state.CurrentLOD = rebuilt.state.LODList.getD 0 none
      ∧ rebuilt.state.CurrentLOD.isSome = true
      ∧ visibleLODs rebuilt.state = []
      ∧ visibleLODs (Tick (viewerAt 5001) 0 rebuilt.state).state = []
      ∧ visibleLODs (Tick (editorViewerAt 0) 0 rebuilt.state).state = [])
    ∧ (asyncStarted.isOk = true ∧ asyncStarted.state.AsyncBuildingLODIndex = 1
      ∧ CanRenderMesh (viewerAt 1001) asyncStarted.state = true
      ∧ asyncFinished.isOk = true ∧ asyncFinished.state.AsyncBuildingLODIndex = -1
      ∧ builtLODs asyncFinished.state = 1 ∧ visibleLODs asyncFinished.state = []
      ∧ visibleLODs (Tick (viewerAt 1001) 0 asyncFinished.state).state = [1]) := by
  refine ⟨by decide!, by decide!, by decide!⟩

/-! ## Theorems: SwitchLODs and unbuilt slots -/

theorem desiredLOD_nonneg (env : Env) (s : AOpenLandMeshActor) (d : ℚ) :
    0 ≤ desiredLOD env s d := by
  have hw : 0 ≤ distanceLOD env.Pow s.MaximumLODCount s.LODStepUnits s.LODStepPower d :=
    distanceWalk_lower env.Pow s.LODStepUnits s.LODStepPower _ 0 0 _ (by simp)
  simp only [desiredLOD]
  split
  · split
    · assumption
    · exact hw
  · exact hw

theorem hasLOD_false_of_unbuilt (s : AOpenLandMeshActor) (i : Int)
    (h : (s.LODList.length : Int) ≤ i ∨ elemAt s.LODList i = some none) :
    hasLOD s i = false := by
  rcases h with h | h
  · have : ¬ ((s.LODList.length : Int) > i) := by omega
    simp [hasLOD, this]
  · simp [hasLOD, h]

theorem SwitchLODs_suppressed (env : Env) (s : AOpenLandMeshActor)
    (h : 0 ≤ s.AsyncBuildingLODIndex) : SwitchLODs env s = .ok {} s := by
  simp [SwitchLODs, h]

theorem SwitchLODs_editor_unbuilt (env : Env) (s : AOpenLandMeshActor) (World : UWorld)
    (hworld : env.World = some World) (heditor : World.WorldType = .Editor)
    (hun : ∀ d others, World.ViewDistances = d :: others → hasLOD s (desiredLOD env s d) = false) :
    SwitchLODs env s = .ok {} s := by
  by_cases ha : s.AsyncBuildingLODIndex ≥ 0
  · exact SwitchLODs_suppressed env s ha
  · cases hv : World.ViewDistances with
    | nil => simp [SwitchLODs, ha, hworld, hv]
    | cons d others =>
      have := hun d others hv
      simp [SwitchLODs, ha, hworld, hv, this, heditor]

theorem unbuiltThreeTiers_desired : desiredLOD (viewerAt 1001) unbuiltThreeTiers 1001 = 1 := by
  have hc : unbuiltThreeTiers.LODIndexForCollisions < 0 := by decide
  rw [desiredLOD_no_collision_tier _ _ _ hc]
  decide!

/-- C12: in a world that is not the editor, with no async build in progress and a view
location at distance `d`, if the desired tier lies beyond the end of the LOD list or its
slot is null, `SwitchLODs` runs to its end: the LOD list afterwards has at least
`desired + 1` slots (and none fewer than before), `AsyncBuildingLODIndex` is the desired
tier, the calls made are those of `BuildMeshAsync(desired)`, whose one
`PolygonMesh->BuildMeshAsync` call is for the desired tier, the slot of the desired tier
holds the new `FLODInfo`, and the status returned has `bAsyncBuildStarted` set and
`bNeedLODVisibilityChange` clear. -/
theorem SwitchLODs_unbuilt_starts_async_build (env : Env) (s : AOpenLandMeshActor)
    (World : UWorld) (d : ℚ) (others : List ℚ)
    (hidle : s.AsyncBuildingLODIndex < 0)
    (hworld : env.World = some World) (hview : World.ViewDistances = d :: others)
    (hgame : World.WorldType ≠ .Editor)
    (hun : (s.LODList.length : Int) ≤ desiredLOD env s d
      ∨ elemAt s.LODList (desiredLOD env s d) = some none) :
    0 ≤ desiredLOD env s d
    ∧ ∃ s', SwitchLODs env s
          = .ok { bNeedLODVisibilityChange := false, bAsyncBuildStarted := true } s'
        ∧ desiredLOD env s d + 1 ≤ (s'.LODList.length : Int)
        ∧ s.LODList.length ≤ s'.LODList.length
        ∧ s'.AsyncBuildingLODIndex = desiredLOD env s d
        ∧ s'.Calls = s.Calls ++ asyncBuildCalls env s (desiredLOD env s d)
        ∧ (∀ k o c, Event.BuildMeshAsync k o c ∈ asyncBuildCalls env s (desiredLOD env s d) →
            k = desiredLOD env s d)
        ∧ Event.BuildMeshAsync (desiredLOD env s d) (asyncBuildOptions env s (desiredLOD env s d))
            (MakeCacheKey env.GetCacheKey s.SubDivisions
              (asyncBuildOptions env s (desiredLOD env s d)).SubDivisions) ∈ s'.Calls
        ∧ elemAt s'.LODList (desiredLOD env s d) = some (some s.LODs.length)
        ∧ s'.CurrentLOD = some s.LODs.length := by
  have h0 := desiredLOD_nonneg env s d
  have hhas := hasLOD_false_of_unbuilt s _ hun
  have hb := SwitchLODs_starts_build env s World d others hidle hworld hview hgame h0 hhas
  generalize desiredLOD env s d = D at h0 hhas hb hun ⊢
  refine ⟨h0, _, hb, ?_, ?_, ?_, ?_, ?_, ?_, ?_, ?_⟩
  · simp only [afterBuildMeshAsync, markedForAsyncBuild, List.length_set]
    split
    · simp only [List.length_append, List.length_replicate]; omega
    · omega
  · simp only [afterBuildMeshAsync, markedForAsyncBuild, List.length_set]
    split
    · simp
    · exact le_rfl
  · simp [afterBuildMeshAsync, markedForAsyncBuild]
  · simp [afterBuildMeshAsync, markedForAsyncBuild, asyncBuildCalls, asyncBuildOptions]
  · intro k o c hmem
    simp [asyncBuildCalls] at hmem
    exact hmem.1
  · simp [afterBuildMeshAsync, markedForAsyncBuild, asyncBuildCalls, asyncBuildOptions]
  · have hlen : D.toNat < (markedForAsyncBuild s D).LODList.length := by
      simp only [markedForAsyncBuild]
      split
      · simp only [List.length_append, List.length_replicate]; omega
      · omega
    simp only [afterBuildMeshAsync, elemAt, if_pos h0]
    rw [List.getElem?_set_self hlen]
    rfl
  · simp [afterBuildMeshAsync, markedForAsyncBuild]

/-- Witness for C12: nothing built, three tiers, game world, viewer at distance 1001:
the desired tier is 1, beyond the empty LOD list; `SwitchLODs` starts its async build. -/
theorem SwitchLODs_unbuilt_starts_async_build_witness :
    desiredLOD (viewerAt 1001) unbuiltThreeTiers 1001 = 1
    ∧ unbuiltThreeTiers.AsyncBuildingLODIndex < 0
    ∧ (unbuiltThreeTiers.LODList.length : Int) ≤ desiredLOD (viewerAt 1001) unbuiltThreeTiers 1001
    ∧ ∃ s', SwitchLODs (viewerAt 1001) unbuiltThreeTiers
          = .ok { bNeedLODVisibilityChange := false, bAsyncBuildStarted := true } s'
        ∧ desiredLOD (viewerAt 1001) unbuiltThreeTiers 1001 + 1 ≤ (s'.LODList.length : Int)
        ∧ s'.AsyncBuildingLODIndex = desiredLOD (viewerAt 1001) unbuiltThreeTiers 1001 := by
  have hd := unbuiltThreeTiers_desired
  have hle : (unbuiltThreeTiers.LODList.length : Int) ≤ desiredLOD (viewerAt 1001) unbuiltThreeTiers 1001 := by
    rw [hd]; decide
  obtain ⟨-, s', h1, h2, -, h3, -⟩ := SwitchLODs_unbuilt_starts_async_build (viewerAt 1001)
    unbuiltThreeTiers { WorldType := .Game, ViewDistances := [1001] } 1001 [] (by decide)
    rfl rfl (by decide) (Or.inl hle)
  exact ⟨hd, by decide, hle, s', h1, h2, h3⟩

/-- C15: in the editor world, whenever the slot of the desired tier is unbuilt (for the
distance of the first view location, if there is one), `SwitchLODs` returns a status with
both flags false and leaves the whole actor state as it was: `CurrentLODIndex`,
`CurrentLOD`, the LOD list and `AsyncBuildingLODIndex` are unchanged and no call is made,
so no async build is started. -/
theorem SwitchLODs_editor_does_nothing (env : Env) (s : AOpenLandMeshActor) (World : UWorld)
    (hworld : env.World = some World) (heditor : World.WorldType = .Editor)
    (hun : ∀ d others, World.ViewDistances = d :: others →
      hasLOD s (desiredLOD env s d) = false) :
    ∃ s', SwitchLODs env s
        = .ok { bNeedLODVisibilityChange := false, bAsyncBuildStarted := false } s'
      ∧ s' = s
      ∧ s'.CurrentLODIndex = s.CurrentLODIndex ∧ s'.CurrentLOD = s.CurrentLOD
      ∧ s'.LODList = s.LODList ∧ s'.AsyncBuildingLODIndex = s.AsyncBuildingLODIndex
      ∧ s'.Calls = s.Calls :=
  ⟨s, SwitchLODs_editor_unbuilt env s World hworld heditor hun, rfl, rfl, rfl, rfl, rfl, rfl⟩

/-- Witness for C15: nothing built, three tiers, editor world, viewer at distance 1001. -/
theorem SwitchLODs_editor_does_nothing_witness :
    (∀ d others, (([1001] : List ℚ) = d :: others) →
      hasLOD unbuiltThreeTiers (desiredLOD (editorViewerAt 1001) unbuiltThreeTiers d) = false)
    ∧ ∃ s', SwitchLODs (editorViewerAt 1001) unbuiltThreeTiers
        = .ok { bNeedLODVisibilityChange := false, bAsyncBuildStarted := false } s'
      ∧ s' = unbuiltThreeTiers
      ∧ s'.CurrentLODIndex = unbuiltThreeTiers.CurrentLODIndex
      ∧ s'.CurrentLOD = unbuiltThreeTiers.CurrentLOD
      ∧ s'.LODList = unbuiltThreeTiers.LODList
      ∧ s'.AsyncBuildingLODIndex = unbuiltThreeTiers.AsyncBuildingLODIndex
      ∧ s'.Calls = unbuiltThreeTiers.Calls := by
  have h : ∀ d others, (([1001] : List ℚ) = d :: others) →
      hasLOD unbuiltThreeTiers (desiredLOD (editorViewerAt 1001) unbuiltThreeTiers d) = false := by
    intro d others _
    simp [hasLOD, unbuiltThreeTiers, elemAt]
  exact ⟨h, SwitchLODs_editor_does_nothing (editorViewerAt 1001) unbuiltThreeTiers
    { WorldType := .Editor, ViewDistances := [1001] } rfl rfl h⟩

/-- C16: while an async LOD build is in progress (`AsyncBuildingLODIndex >= 0`),
`SwitchLODs` is suppressed in every environment (every world, every viewer distance): it
returns a status with both flags false and leaves the whole actor state as it was, so
`CurrentLODIndex`, `CurrentLOD`, the LOD list and `AsyncBuildingLODIndex` are unchanged
and no call is made; in particular no `BuildMeshAsync` call. -/
theorem SwitchLODs_suppressed_during_async_build (s : AOpenLandMeshActor)
    (h : 0 ≤ s.AsyncBuildingLODIndex) (env : Env) :
    ∃ s', SwitchLODs env s
        = .ok { bNeedLODVisibilityChange := false, bAsyncBuildStarted := false } s'
      ∧ s' = s
      ∧ s'.CurrentLODIndex = s.CurrentLODIndex ∧ s'.CurrentLOD = s.CurrentLOD
      ∧ s'.LODList = s.LODList ∧ s'.AsyncBuildingLODIndex = s.AsyncBuildingLODIndex
      ∧ s'.Calls = s.Calls :=
  ⟨s, SwitchLODs_suppressed env s h, rfl, rfl, rfl, rfl, rfl, rfl⟩

/-- Witness for C16: the state a game tick leaves after it started the async build of
tier 1 (`asyncStarted`); a further `SwitchLODs` with the viewer at distance 5001, for
which tier 2 would be desired, changes nothing. -/
theorem SwitchLODs_suppressed_during_async_build_witness :
    asyncStarted.state.AsyncBuildingLODIndex = 1
    ∧ ∃ s', SwitchLODs (viewerAt 5001) asyncStarted.state
        = .ok { bNeedLODVisibilityChange := false, bAsyncBuildStarted := false } s'
      ∧ s' = asyncStarted.state
      ∧ s'.CurrentLODIndex = asyncStarted.state.CurrentLODIndex
      ∧ s'.CurrentLOD = asyncStarted.state.CurrentLOD
      ∧ s'.LODList = asyncStarted.state.LODList
      ∧ s'.AsyncBuildingLODIndex = asyncStarted.state.AsyncBuildingLODIndex
      ∧ s'.Calls = asyncStarted.state.Calls := by
  have h1 : asyncStarted.state.AsyncBuildingLODIndex = 1 := by decide!
  exact ⟨h1, SwitchLODs_suppressed_during_async_build asyncStarted.state (by rw [h1]; decide)
    (viewerAt 5001)⟩

/-! ## Theorems: FLODInfo::MakeModifyReady -/

theorem FLODInfo.MakeModifyReady_ready (s : AOpenLandMeshActor) (p : Nat) (lod : FLODInfo)
    (hlod : s.LODs[p]? = some lod) (hready : lod.bIsModifyReady = true) :
    FLODInfo.MakeModifyReady (some p) s = .ok false s := by
  simp [FLODInfo.MakeModifyReady, derefLOD, hlod, hready]

theorem FLODInfo.MakeModifyReady_uncached (s : AOpenLandMeshActor) (p i : Nat) (lod : FLODInfo)
    (r : FOpenLandPolygonMeshBuildResult)
    (hlod : s.LODs[p]? = some lod) (hptr : lod.MeshBuildResult = some i)
    (hres : s.Results[i]? = some r) (hkey : r.CacheKey.isEmpty = true) :
    FLODInfo.MakeModifyReady (some p) s = .ok false s := by
  by_cases hready : lod.bIsModifyReady = true
  · exact FLODInfo.MakeModifyReady_ready s p lod hlod hready
  · simp [FLODInfo.MakeModifyReady, derefLOD, derefResult, hlod, hready, hptr, hres, hkey]

theorem FLODInfo.MakeModifyReady_clones (s : AOpenLandMeshActor) (p i t : Nat) (lod : FLODInfo)
    (r : FOpenLandPolygonMeshBuildResult) (m : FSimpleMeshInfo)
    (hlod : s.LODs[p]? = some lod) (hptr : lod.MeshBuildResult = some i)
    (hres : s.Results[i]? = some r)
    (hready : lod.bIsModifyReady = false) (hkey : r.CacheKey.isEmpty = false)
    (htgt : r.Target = some t) (hmesh : s.Meshes[t]? = some m) :
    FLODInfo.MakeModifyReady (some p) s = .ok true
      { s with
        LODs := s.LODs.set p
          { lod with bIsModifyReady := true, MeshBuildResult := some s.Results.length }
        Results := s.Results ++ [{ r with Target := some s.Meshes.length }]
        Meshes := s.Meshes ++ [m] } := by
  have hp : p < s.LODs.length := by
    rcases Nat.lt_or_ge p s.LODs.length with h | h
    · exact h
    · rw [List.getElem?_eq_none h] at hlod; cases hlod
  simp [FLODInfo.MakeModifyReady, derefLOD, derefResult, derefMesh, storeLOD, storeResult,
    ShallowClone, Clone, newResult, newMesh, hlod, hready, hptr, hres, hkey, htgt, hmesh, hp]

theorem FLODInfo.MakeModifyReady_untargeted (s : AOpenLandMeshActor) (p i : Nat) (lod : FLODInfo)
    (r : FOpenLandPolygonMeshBuildResult)
    (hlod : s.LODs[p]? = some lod) (hptr : lod.MeshBuildResult = some i)
    (hres : s.Results[i]? = some r)
    (hready : lod.bIsModifyReady = false) (hkey : r.CacheKey.isEmpty = false)
    (htgt : r.Target = none) :
    FLODInfo.MakeModifyReady (some p) s = .ok true
      { s with
        LODs := s.LODs.set p
          { lod with bIsModifyReady := true, MeshBuildResult := some s.Results.length }
        Results := s.Results ++ [r] } := by
  have hp : p < s.LODs.length := by
    rcases Nat.lt_or_ge p s.LODs.length with h | h
    · exact h
    · rw [List.getElem?_eq_none h] at hlod; cases hlod
  have hr : FOpenLandPolygonMeshBuildResult.mk r.Original none r.SubDivisions r.TextureWidth
      r.DataTextures r.CacheKey = r := by
    cases r; simp_all
  simp [FLODInfo.MakeModifyReady, derefLOD, derefResult, derefMesh, storeLOD, storeResult,
    ShallowClone, Clone, newResult, newMesh, hlod, hready, hptr, hres, hkey, htgt, hp, hr]

/-- C20, as stated, fails for a build result that has no target mesh (the case the guard
`if (MeshBuildResult->Target)` is there for): the LOD is not modify-ready and the cache
key is `k`, `MakeModifyReady` returns true and the LOD holds a new build result, but the
`Target` of that result is null, not a fresh clone, and no mesh was made. -/
theorem FLODInfo.MakeModifyReady_no_clone_without_target :
    (untargetedLOD.LODs[0]?).map (fun l => l.bIsModifyReady) = some false
    ∧ (untargetedLOD.Results[0]?).map (fun r => (r.CacheKey, r.Target)) = some ("k", none)
    ∧ ∃ s', FLODInfo.MakeModifyReady (some 0) untargetedLOD = .ok true s'
      ∧ (s'.LODs[0]?).map (fun l => l.MeshBuildResult) = some (some 1)
      ∧ (s'.Results[1]?).map (fun r => r.Target) = some none
      ∧ s'.Meshes = untargetedLOD.Meshes :=
  ⟨rfl, rfl, _, FLODInfo.MakeModifyReady_untargeted untargetedLOD 0 0 _ _ rfl rfl rfl rfl
    (by decide) rfl, rfl, rfl, rfl⟩

/-- C20 (amended): let the LOD at `p` hold the build result `r` (at `i`), whose `Target`
is null or points to a mesh. If the LOD is not yet modify-ready and the cache key of `r`
is non-empty, `FLODInfo::MakeModifyReady` returns true; afterwards the LOD is
modify-ready and holds a new build result (at a new place in the store, not `i`) with
the same `Original`, `SubDivisions`, `TextureWidth`, `DataTextures` and `CacheKey`; its
`Target` is a new mesh with the content of the old target when `r` has a target, and
null when `r` has none; the old result at `i` still is `r` (its `Target` reference
included), every result and every mesh that existed keeps its content, no other LOD and
nothing else in the actor changes, and a second call returns false and changes nothing.
Otherwise (modify-ready already, or empty cache key) it returns false and changes
nothing. -/
theorem FLODInfo.MakeModifyReady_keeps_held_result (s : AOpenLandMeshActor) (p i : Nat)
    (lod : FLODInfo) (r : FOpenLandPolygonMeshBuildResult)
    (hlod : s.LODs[p]? = some lod) (hptr : lod.MeshBuildResult = some i)
    (hres : s.Results[i]? = some r)
    (hmesh : ∀ t, r.Target = some t → t < s.Meshes.length) :
    (lod.bIsModifyReady = false → r.CacheKey.isEmpty = false →
      ∃ s' r', FLODInfo.MakeModifyReady (some p) s = .ok true s'
        ∧ s'.LODs[p]? = some
            { lod with bIsModifyReady := true, MeshBuildResult := some s.Results.length }
        ∧ s.Results.length ≠ i
        ∧ s'.Results[s.Results.length]? = some r'
        ∧ r'.Original = r.Original ∧ r'.SubDivisions = r.SubDivisions
        ∧ r'.TextureWidth = r.TextureWidth ∧ r'.DataTextures = r.DataTextures
        ∧ r'.CacheKey = r.CacheKey
        ∧ (∀ t, r.Target = some t →
            r'.Target = some s.Meshes.length ∧ s.Meshes.length ≠ t
            ∧ s'.Meshes[s.Meshes.length]? = s.Meshes[t]?
            ∧ s'.Meshes.length = s.Meshes.length + 1)
        ∧ (r.Target = none → r'.Target = none ∧ s'.Meshes = s.Meshes)
        ∧ s'.Results[i]? = some r
        ∧ (∀ j, j < s.Results.length → s'.Results[j]? = s.Results[j]?)
        ∧ (∀ j, j < s.Meshes.length → s'.Meshes[j]? = s.Meshes[j]?)
        ∧ (∀ q, q ≠ p → s'.LODs[q]? = s.LODs[q]?)
        ∧ { s' with LODs := s.LODs, Results := s.Results, Meshes := s.Meshes } = s
        ∧ FLODInfo.MakeModifyReady (some p) s' = .ok false s')
    ∧ (lod.bIsModifyReady = true ∨ r.CacheKey.isEmpty = true →
        FLODInfo.MakeModifyReady (some p) s = .ok false s) := by
  have hp : p < s.LODs.length := by
    rcases Nat.lt_or_ge p s.LODs.length with h | h
    · exact h
    · rw [List.getElem?_eq_none h] at hlod; cases hlod
  have hi : i < s.Results.length := by
    rcases Nat.lt_or_ge i s.Results.length with h | h
    · exact h
    · rw [List.getElem?_eq_none h] at hres; cases hres
  constructor
  · intro hready hkey
    cases htgt : r.Target with
    | none =>
      refine ⟨_, r, FLODInfo.MakeModifyReady_untargeted s p i lod r hlod hptr hres hready hkey
        htgt, ?_, by omega, ?_, rfl, rfl, rfl, rfl, rfl, ?_, ?_, ?_, ?_, ?_, ?_, rfl, ?_⟩
      · simp [hp]
      · simp
      · intro t ht; cases ht
      · intro _; exact ⟨htgt, rfl⟩
      · simp only [List.getElem?_append_left hi, hres]
      · intro j hj; simp only [List.getElem?_append_left hj]
      · intro j _; rfl
      · intro q hq
        simp only [List.getElem?_set_ne (Ne.symm hq)]
      · exact FLODInfo.MakeModifyReady_ready _ p
          { lod with bIsModifyReady := true, MeshBuildResult := some s.Results.length }
          (by simp [hp]) rfl
    | some t =>
      have ht : t < s.Meshes.length := hmesh t htgt
      have hm : s.Meshes[t]? = some s.Meshes[t] := List.getElem?_eq_getElem ht
      refine ⟨_, { r with Target := some s.Meshes.length },
        FLODInfo.MakeModifyReady_clones s p i t lod r _ hlod hptr hres hready hkey htgt hm,
        ?_, by omega, ?_, rfl, rfl, rfl, rfl, rfl, ?_, ?_, ?_, ?_, ?_, ?_, rfl, ?_⟩
      · simp [hp]
      · simp
      · intro t' ht'
        cases ht'
        refine ⟨rfl, by omega, ?_, by simp⟩
        simp [hm]
      · intro h; cases h
      · simp only [List.getElem?_append_left hi, hres]
      · intro j hj; simp only [List.getElem?_append_left hj]
      · intro j hj; simp only [List.getElem?_append_left hj]
      · intro q hq
        simp only [List.getElem?_set_ne (Ne.symm hq)]
      · exact FLODInfo.MakeModifyReady_ready _ p
          { lod with bIsModifyReady := true, MeshBuildResult := some s.Results.length }
          (by simp [hp]) rfl
  · rintro (hready | hkey)
    · exact FLODInfo.MakeModifyReady_ready s p lod hlod hready
    · exact FLODInfo.MakeModifyReady_uncached s p i lod r hlod hptr hres hkey

/-- Witness for C20 (amended): the LOD of `cachedLOD` holds result 0 (cache key `k`, target
mesh 1). The first call returns true and leaves the LOD with result 1, whose target is
the new mesh 2, a copy of mesh 1; result 0 and meshes 0 and 1 are as before; the second
call returns false. -/
theorem FLODInfo.MakeModifyReady_keeps_held_result_witness :
    ∃ s', FLODInfo.MakeModifyReady (some 0) cachedLOD = .ok true s'
      ∧ (s'.LODs[0]?).map (fun l => (l.MeshBuildResult, l.bIsModifyReady)) = some (some 1, true)
      ∧ (s'.Results[1]?).map (fun r => (r.Original, r.Target, r.CacheKey))
          = some (some 0, some 2, "k")
      ∧ s'.Results[0]? = cachedLOD.Results[0]?
      ∧ s'.Meshes = cachedLOD.Meshes ++ [{ Geometry := 4 }]
      ∧ FLODInfo.MakeModifyReady (some 0) s' = .ok false s' := by
  obtain ⟨s', r', h1, h2, -, h4, h5, -, -, -, h9, h10, -, h12, -, h14, -, -, h17⟩ :=
    (FLODInfo.MakeModifyReady_keeps_held_result cachedLOD 0 0 _ _ rfl rfl rfl
      (by intro t ht; cases ht; decide)).1 rfl (by decide)
  obtain ⟨g1, -, g3, g4⟩ := h10 1 rfl
  refine ⟨s', h1, by rw [h2]; rfl, ?_, ?_, ?_, h17⟩
  · have : cachedLOD.Results.length = 1 := rfl
    rw [this] at h4
    rw [h4]
    simp only [Option.map_some']
    rw [h5, h9, g1]
    rfl
  · rw [h12]; rfl
  · have e0 := h14 0 (by decide)
    have e1 := h14 1 (by decide)
    have e2 : s'.Meshes[2]? = cachedLOD.Meshes[1]? := g3
    have hl : s'.Meshes.length = 3 := g4
    apply List.ext_getElem?
    intro n
    rcases n with _ | _ | _ | n
    · exact e0
    · exact e1
    · exact e2
    · rw [List.getElem?_eq_none (by omega)]
      rfl

/-! ## Theorems: an aborted pass is restarted -/

theorem installTarget_ok (env : Env) (p : Option Nat) (s : AOpenLandMeshActor) :
    ∃ s', installTarget env p s = .ok () s'
      ∧ { s' with Results := s.Results, Meshes := s.Meshes } = s := by
  cases hr : p.bind (fun i => s.Results[i]?) with
  | none => exact ⟨s, by simp [installTarget, hr], rfl⟩
  | some r =>
    cases hm : env.ModifiedTarget with
    | none => exact ⟨s, by simp [installTarget, hr, hm], rfl⟩
    | some m =>
      by_cases ht : r.Target.isSome = true
      · exact ⟨s, by simp [installTarget, hr, hm, ht], rfl⟩
      · simp [installTarget, hr, hm, ht, newMesh, storeResult, derefResult]

/-- The three ways `SwitchLODs` ends; it never stops at a null pointer or outside an
array. Either it changes nothing; or (outside the editor, no async build in progress,
desired slot unbuilt) it starts the async build of the desired tier; or it makes a built
tier the current one. -/
theorem SwitchLODs_cases (env : Env) (s : AOpenLandMeshActor) :
    SwitchLODs env s = .ok {} s
    ∨ (∃ World d others, env.World = some World ∧ World.ViewDistances = d :: others
        ∧ World.WorldType ≠ .Editor ∧ s.AsyncBuildingLODIndex < 0
        ∧ hasLOD s (desiredLOD env s d) = false
        ∧ SwitchLODs env s = .ok { bAsyncBuildStarted := true }
            (afterBuildMeshAsync env (markedForAsyncBuild s (desiredLOD env s d)) (desiredLOD env s d)))
    ∨ (∃ D p, s.AsyncBuildingLODIndex < 0
        ∧ SwitchLODs env s = .ok { bNeedLODVisibilityChange := true }
            { s with CurrentLODIndex := D, CurrentLOD := some p }) := by
  by_cases ha : s.AsyncBuildingLODIndex ≥ 0
  · exact Or.inl (SwitchLODs_suppressed env s ha)
  · cases hw : env.World with
    | none => exact Or.inl (by simp [SwitchLODs, ha, hw])
    | some World =>
      cases hv : World.ViewDistances with
      | nil => exact Or.inl (by simp [SwitchLODs, ha, hw, hv])
      | cons d others =>
        cases hh : hasLOD s (desiredLOD env s d) with
        | false =>
          by_cases he : World.WorldType = .Editor
          · exact Or.inl (by simp [SwitchLODs, ha, hw, hv, hh, he])
          · exact Or.inr (Or.inl ⟨World, d, others, rfl, hv, he, by omega, hh,
              SwitchLODs_starts_build env s World d others (by omega) hw hv he
                (desiredLOD_nonneg env s d) hh⟩)
        | true =>
          obtain ⟨p, hp⟩ := elemAt_of_hasLOD s _ hh
          by_cases hc : desiredLOD env s d = s.CurrentLODIndex
          · refine Or.inl ?_
            rw [hc] at hh
            simp [SwitchLODs, ha, hw, hv, hh, hc]
          · refine Or.inr (Or.inr ⟨desiredLOD env s d, p, by omega, ?_⟩)
            generalize hD : desiredLOD env s d = D at hh hp hc ⊢
            simp [SwitchLODs, ha, hw, hv, hh, hc, hp, hD]

theorem SwitchLODs_isOk (env : Env) (s : AOpenLandMeshActor) :
    (SwitchLODs env s).isOk = true := by
  rcases SwitchLODs_cases env s with h | ⟨_, _, _, _, _, _, _, _, h⟩ | ⟨_, _, _, h⟩ <;>
    rw [h] <;> rfl

theorem CalmRel.calm_refl (s : AOpenLandMeshActor) : CalmRel s s :=
  ⟨rfl, rfl, rfl, [], by simp, by simp⟩

theorem CalmRel.calm_trans {a b c : AOpenLandMeshActor} (h1 : CalmRel a b) (h2 : CalmRel b c) :
    CalmRel a c := by
  obtain ⟨a1, b1, c1, es1, d1, q1⟩ := h1
  obtain ⟨a2, b2, c2, es2, d2, q2⟩ := h2
  refine ⟨a2.trans a1, b2.trans b1, c2.trans c1, es1 ++ es2,
    by rw [d2, d1, List.append_assoc], ?_⟩
  intro e he
  rcases List.mem_append.mp he with h | h
  · exact q1 e h
  · exact q2 e h

theorem calm_pure {α : Type} (x : α) : Calm (pure x : Op α) := ⟨fun s => CalmRel.calm_refl s⟩

theorem calm_bind {α β : Type} {m : Op α} {f : α → Op β} (hm : Calm m)
    (hf : ∀ x, Calm (f x)) : Calm (m >>= f) := by
  constructor
  intro s
  have h1 := hm.rel s
  simp only [Op.bind_apply]
  cases e : m s with
  | ok x s' =>
    rw [e] at h1
    exact CalmRel.calm_trans h1 ((hf x).rel s')
  | crash s' =>
    rw [e] at h1
    exact h1

theorem calm_read : Calm Op.read := ⟨fun s => CalmRel.calm_refl s⟩

theorem calm_stop {α : Type} : Calm (Op.stop : Op α) := ⟨fun s => CalmRel.calm_refl s⟩

theorem calm_need {α : Type} (o : Option α) : Calm (Op.need o) := by
  cases o
  · exact calm_stop
  · exact calm_pure _

theorem calm_update (f : AOpenLandMeshActor → AOpenLandMeshActor)
    (h : ∀ s, config (f s) = config s ∧ (f s).ModifyStatus = s.ModifyStatus
      ∧ (f s).bNeedToAsyncModifyMesh = s.bNeedToAsyncModifyMesh ∧ (f s).Calls = s.Calls) :
    Calm (Op.update f) :=
  ⟨fun s => ⟨(h s).1, (h s).2.1, (h s).2.2.1, [],
    by simp [Op.update, Outcome.state, (h s).2.2.2], by simp⟩⟩

theorem calm_call (e : Event) (h : e.isWatched = false) : Calm (Op.call e) :=
  ⟨fun _ => ⟨rfl, rfl, rfl, [e], rfl, by simpa using h⟩⟩

theorem calm_derefLOD (p : Option Nat) : Calm (derefLOD p) :=
  calm_bind calm_read fun _ => calm_need _

theorem calm_derefResult (p : Option Nat) : Calm (derefResult p) :=
  calm_bind calm_read fun _ => calm_need _

theorem calm_derefMesh (p : Option Nat) : Calm (derefMesh p) :=
  calm_bind calm_read fun _ => calm_need _

theorem calm_storeLOD (p : Option Nat) (f : FLODInfo → FLODInfo) : Calm (storeLOD p f) :=
  calm_bind (calm_derefLOD p) fun _ => calm_update _ fun _ => ⟨rfl, rfl, rfl, rfl⟩

theorem calm_storeResult (p : Option Nat)
    (f : FOpenLandPolygonMeshBuildResult → FOpenLandPolygonMeshBuildResult) :
    Calm (storeResult p f) :=
  calm_bind (calm_derefResult p) fun _ => calm_update _ fun _ => ⟨rfl, rfl, rfl, rfl⟩

theorem calm_storeMesh (p : Option Nat) (f : FSimpleMeshInfo → FSimpleMeshInfo) :
    Calm (storeMesh p f) :=
  calm_bind (calm_derefMesh p) fun _ => calm_update _ fun _ => ⟨rfl, rfl, rfl, rfl⟩

theorem calm_newLOD (v : FLODInfo) : Calm (newLOD v) :=
  ⟨fun s => ⟨rfl, rfl, rfl, [], by simp [newLOD, Outcome.state], by simp⟩⟩

theorem calm_newResult (v : FOpenLandPolygonMeshBuildResult) : Calm (newResult v) :=
  ⟨fun s => ⟨rfl, rfl, rfl, [], by simp [newResult, Outcome.state], by simp⟩⟩

theorem calm_newMesh (v : FSimpleMeshInfo) : Calm (newMesh v) :=
  ⟨fun s => ⟨rfl, rfl, rfl, [], by simp [newMesh, Outcome.state], by simp⟩⟩

theorem calm_viaPolygonMesh (e : Event) (h : e.isWatched = false) :
    Calm (viaPolygonMesh e) :=
  calm_bind calm_read fun _ => calm_bind (calm_need _) fun _ => calm_call e h

theorem calm_obtainPolygonMesh (env : Env) : Calm (obtainPolygonMesh env) :=
  calm_update _ fun _ => ⟨rfl, rfl, rfl, rfl⟩

theorem calm_takeAnswer (a : FBuildAnswer) : Calm (takeAnswer a) := by
  cases a with
  | Shared Result => exact calm_pure _
  | Fresh Original Target Result =>
    unfold takeAnswer
    repeat (first
      | exact calm_pure _
      | exact calm_newMesh _
      | exact calm_newResult _
      | apply calm_bind
      | intro _
      | dsimp only
      | split)

theorem calm_ShallowClone (p : Option Nat) : Calm (ShallowClone p) :=
  calm_bind (calm_derefResult p) fun _ => calm_newResult _

theorem calm_Clone (p : Option Nat) : Calm (Clone p) :=
  calm_bind (calm_derefMesh p) fun _ => calm_newMesh _

theorem calm_FLODInfo_MakeModifyReady (p : Option Nat) : Calm (FLODInfo.MakeModifyReady p) := by
  unfold FLODInfo.MakeModifyReady
  repeat (first
    | exact calm_pure _
    | exact calm_derefLOD _
    | exact calm_derefResult _
    | exact calm_storeLOD _ _
    | exact calm_storeResult _ _
    | exact calm_ShallowClone _
    | exact calm_Clone _
    | apply calm_bind
    | intro _
    | dsimp only
    | split)

theorem calm_installTarget (env : Env) (p : Option Nat) : Calm (installTarget env p) := by
  unfold installTarget
  repeat (first
    | exact calm_pure _
    | exact calm_read
    | exact calm_newMesh _
    | exact calm_storeResult _ _
    | apply calm_bind
    | intro _
    | dsimp only
    | split)

theorem calm_registerGpuIfEnabled : Calm registerGpuIfEnabled := by
  unfold registerGpuIfEnabled
  repeat (first
    | exact calm_read
    | exact calm_viaPolygonMesh _ rfl
    | apply calm_bind
    | intro _
    | dsimp only
    | split)

theorem calm_CreateMeshSection (i : Int) (t : Option Nat) : Calm (CreateMeshSection i t) :=
  calm_bind (calm_call _ rfl) fun _ => calm_update _ fun _ => ⟨rfl, rfl, rfl, rfl⟩

theorem calm_ReplaceMeshSection (i : Int) (t : Option Nat) : Calm (ReplaceMeshSection i t) :=
  calm_bind (calm_call _ rfl) fun _ => calm_update _ fun _ => ⟨rfl, rfl, rfl, rfl⟩

theorem calm_RemoveAllSections : Calm RemoveAllSections :=
  calm_bind (calm_call _ rfl) fun _ => calm_update _ fun _ => ⟨rfl, rfl, rfl, rfl⟩

theorem calm_SetMaterialLoop (n : Nat) : ∀ i : Int, Calm (SetMaterialLoop n i) := by
  induction n with
  | zero => intro i; exact calm_pure _
  | succ n ih =>
    intro i
    exact calm_bind (calm_call _ rfl) fun _ => ih _

theorem calm_SetMaterial : Calm SetMaterial :=
  calm_bind calm_read fun _ => calm_SetMaterialLoop _ _

theorem calm_EnsureLODVisibilityLoop (l : List (Option Nat)) :
    Calm (EnsureLODVisibilityLoop l) := by
  induction l with
  | nil => exact calm_pure _
  | cons LOD rest ih =>
    unfold EnsureLODVisibilityLoop
    repeat (first
      | exact ih
      | exact calm_pure _
      | exact calm_read
      | exact calm_derefLOD _
      | exact calm_derefResult _
      | exact calm_storeMesh _ _
      | exact calm_call _ rfl
      | apply calm_bind
      | intro _
      | dsimp only
      | split)

theorem calm_EnsureLODVisibility : Calm EnsureLODVisibility :=
  calm_bind calm_read fun _ => calm_EnsureLODVisibilityLoop _

theorem calm_ApplyInstancesLoop (l : List Int) : Calm (ApplyInstancesLoop l) := by
  induction l with
  | nil => exact calm_pure _
  | cons d rest ih =>
    unfold ApplyInstancesLoop
    repeat (first
      | exact ih
      | exact calm_read
      | exact calm_derefLOD _
      | exact calm_derefResult _
      | exact calm_derefMesh _
      | apply calm_bind
      | intro _
      | dsimp only)

theorem calm_ApplyInstances (env : Env) : Calm (ApplyInstances env) := by
  unfold ApplyInstances
  repeat (first
    | exact calm_pure _
    | exact calm_read
    | exact calm_need _
    | exact calm_ApplyInstancesLoop _
    | exact calm_call _ rfl
    | apply calm_bind
    | intro _
    | dsimp only
    | split)

theorem calm_MakeModifyReady : Calm MakeModifyReady := by
  unfold MakeModifyReady
  repeat (first
    | exact calm_pure _
    | exact calm_read
    | exact calm_derefLOD _
    | exact calm_derefResult _
    | exact calm_FLODInfo_MakeModifyReady _
    | exact calm_ReplaceMeshSection _ _
    | apply calm_bind
    | intro _
    | dsimp only
    | split)

theorem calm_FinishBuildMeshAsync (env : Env) : Calm (FinishBuildMeshAsync env) := by
  unfold FinishBuildMeshAsync
  repeat (first
    | exact calm_pure _
    | exact calm_read
    | exact calm_derefLOD _
    | exact calm_derefResult _
    | exact calm_derefMesh _
    | exact calm_storeLOD _ _
    | exact calm_storeMesh _ _
    | exact calm_CreateMeshSection _ _
    | exact calm_RemoveAllSections
    | exact calm_SetMaterial
    | exact calm_EnsureLODVisibility
    | exact calm_ApplyInstances _
    | exact calm_call _ rfl
    | exact calm_update _ fun _ => ⟨rfl, rfl, rfl, rfl⟩
    | apply calm_bind
    | intro _
    | dsimp only
    | split)

theorem calm_targetLocked : Calm targetLocked := by
  unfold targetLocked
  repeat (first
    | exact calm_pure _
    | exact calm_read
    | exact calm_derefLOD _
    | exact calm_derefResult _
    | exact calm_derefMesh _
    | apply calm_bind
    | intro _
    | dsimp only
    | split)

theorem Ends.mono {α : Type} {o : Outcome α} {Q Q' : α → AOpenLandMeshActor → Prop}
    {X X' : AOpenLandMeshActor → Prop} (h : Ends o Q X)
    (hQ : ∀ x s, Q x s → Q' x s) (hX : ∀ s, X s → X' s) : Ends o Q' X' := by
  cases o with
  | ok x s => exact hQ x s h
  | crash s => exact hX s h

theorem ends_bind {α β : Type} {m : Op α} {f : α → Op β} {s : AOpenLandMeshActor}
    {Q : β → AOpenLandMeshActor → Prop} {X : AOpenLandMeshActor → Prop}
    (h : Ends (m s) (fun x s' => Ends (f x s') Q X) X) : Ends ((m >>= f) s) Q X := by
  simp only [Op.bind_apply]
  cases e : m s with
  | ok x s' => rw [e] at h; exact h
  | crash s' => rw [e] at h; exact h

theorem ends_calm {α : Type} {m : Op α} (hm : Calm m) (s : AOpenLandMeshActor) :
    Ends (m s) (fun _ s' => CalmRel s s') (fun s' => CalmRel s s') := by
  have h := hm.rel s
  cases e : m s with
  | ok x s' => rw [e] at h; exact h
  | crash s' => rw [e] at h; exact h

theorem ends_calm_bind {α β : Type} {m : Op α} {f : α → Op β} {s : AOpenLandMeshActor}
    {Q : β → AOpenLandMeshActor → Prop} {X : AOpenLandMeshActor → Prop} (hm : Calm m)
    (hX : ∀ s', CalmRel s s' → X s')
    (hf : ∀ x s', CalmRel s s' → Ends (f x s') Q X) : Ends ((m >>= f) s) Q X :=
  ends_bind ((ends_calm hm s).mono hf hX)

theorem read_bind {β : Type} (f : AOpenLandMeshActor → Op β) (s : AOpenLandMeshActor) :
    (Op.read >>= f) s = f s s := rfl

theorem update_bind {β : Type} (g : AOpenLandMeshActor → AOpenLandMeshActor)
    (f : Unit → Op β) (s : AOpenLandMeshActor) : (Op.update g >>= f) s = f () (g s) := rfl

theorem call_bind {β : Type} (e : Event) (f : Unit → Op β) (s : AOpenLandMeshActor) :
    (Op.call e >>= f) s = f () { s with Calls := s.Calls ++ [e] } := rfl

theorem pure_bind_apply {α β : Type} (x : α) (f : α → Op β) (s : AOpenLandMeshActor) :
    ((pure x : Op α) >>= f) s = f x s := rfl

theorem need_some_bind {α β : Type} (x : α) (f : α → Op β) (s : AOpenLandMeshActor) :
    (Op.need (some x) >>= f) s = f x s := rfl

theorem need_none_bind {α β : Type} (f : α → Op β) (s : AOpenLandMeshActor) :
    (Op.need (none : Option α) >>= f) s = .crash s := rfl

theorem ends_ok {α : Type} {x : α} {s : AOpenLandMeshActor}
    {Q : α → AOpenLandMeshActor → Prop} {X : AOpenLandMeshActor → Prop} (h : Q x s) :
    Ends (.ok x s) Q X := h

theorem ends_crash {α : Type} {s : AOpenLandMeshActor}
    {Q : α → AOpenLandMeshActor → Prop} {X : AOpenLandMeshActor → Prop} (h : X s) :
    Ends (.crash s : Outcome α) Q X := h

theorem ends_SwitchLODs (env : Env) (s : AOpenLandMeshActor)
    {Q : FSwitchLODsStatus → AOpenLandMeshActor → Prop} {X : AOpenLandMeshActor → Prop}
    (hA : Q {} s)
    (hB : ∀ World d others, env.World = some World → World.ViewDistances = d :: others →
      World.WorldType ≠ .Editor → s.AsyncBuildingLODIndex < 0 →
      hasLOD s (desiredLOD env s d) = false →
      Q { bAsyncBuildStarted := true }
        (afterBuildMeshAsync env (markedForAsyncBuild s (desiredLOD env s d)) (desiredLOD env s d)))
    (hC : ∀ D p, s.AsyncBuildingLODIndex < 0 →
      Q { bNeedLODVisibilityChange := true }
        { s with CurrentLODIndex := D, CurrentLOD := some p }) :
    Ends (SwitchLODs env s) Q X := by
  rcases SwitchLODs_cases env s with h | ⟨World, d, others, h1, h2, h3, h4, h5, h⟩ |
    ⟨D, p, h1, h⟩
  · rw [h]; exact hA
  · rw [h]; exact hB World d others h1 h2 h3 h4 h5
  · rw [h]; exact hC D p h1

theorem ends_need_call {α : Type} (o : Option α) (e : Event) (s : AOpenLandMeshActor)
    {Q : Unit → AOpenLandMeshActor → Prop} {X : AOpenLandMeshActor → Prop}
    (hX : o = none → X s)
    (hQ : o ≠ none → Q () { s with Calls := s.Calls ++ [e] }) :
    Ends ((Op.need o >>= fun _ => Op.call e) s) Q X := by
  cases o with
  | none => exact hX rfl
  | some v => exact hQ (Option.some_ne_none v)

theorem ends_viaPolygonMesh (e : Event) (s : AOpenLandMeshActor)
    {Q : Unit → AOpenLandMeshActor → Prop} {X : AOpenLandMeshActor → Prop}
    (hX : s.PolygonMesh = none → X s)
    (hQ : s.PolygonMesh ≠ none → Q () { s with Calls := s.Calls ++ [e] }) :
    Ends (viaPolygonMesh e s) Q X :=
  ends_need_call s.PolygonMesh e s hX hQ

theorem ends_StartModifyVertices (env : Env) (p : Option Nat)
    (o : FOpenLandPolygonMeshModifyOptions) (s : AOpenLandMeshActor)
    {Q : FOpenLandPolygonMeshModifyStatus → AOpenLandMeshActor → Prop}
    {X : AOpenLandMeshActor → Prop}
    (hX : s.PolygonMesh = none → X s)
    (hQ : ∀ s', s.PolygonMesh ≠ none →
      { s' with Results := s.Results, Meshes := s.Meshes }
        = { s with Calls := s.Calls ++ [.StartModifyVertices p o env.StartStatus] } →
      Q env.StartStatus s') :
    Ends (StartModifyVertices env p o s) Q X := by
  unfold StartModifyVertices
  refine ends_bind (ends_viaPolygonMesh _ s hX fun hp => ?_)
  obtain ⟨s', h1, h2⟩ := installTarget_ok env p
    { s with Calls := s.Calls ++ [.StartModifyVertices p o env.StartStatus] }
  refine ends_bind ?_
  rw [h1]
  exact hQ s' hp h2

theorem ends_ModifyVertices (env : Env) (p : Option Nat)
    (o : FOpenLandPolygonMeshModifyOptions) (s : AOpenLandMeshActor)
    {Q : Unit → AOpenLandMeshActor → Prop} {X : AOpenLandMeshActor → Prop}
    (hX : s.PolygonMesh = none → X s)
    (hQ : ∀ s', s.PolygonMesh ≠ none →
      { s' with Results := s.Results, Meshes := s.Meshes }
        = { s with Calls := s.Calls ++ [.ModifyVertices p o] } →
      Q () s') :
    Ends (ModifyVertices env p o s) Q X := by
  unfold ModifyVertices
  refine ends_bind (ends_viaPolygonMesh _ s hX fun hp => ?_)
  obtain ⟨s', h1, h2⟩ := installTarget_ok env p
    { s with Calls := s.Calls ++ [.ModifyVertices p o] }
  rw [h1]
  exact hQ s' hp h2

theorem ends_CheckModifyVerticesStatus (env : Env) (p : Option Nat) (t : ℚ)
    (s : AOpenLandMeshActor)
    {Q : FOpenLandPolygonMeshModifyStatus → AOpenLandMeshActor → Prop}
    {X : AOpenLandMeshActor → Prop}
    (hX : s.PolygonMesh = none → X s)
    (hQ : s.PolygonMesh ≠ none → Q env.CheckStatus
      { s with Calls := s.Calls ++ [.CheckModifyVerticesStatus p t env.CheckStatus] }) :
    Ends (CheckModifyVerticesStatus env p t s) Q X := by
  unfold CheckModifyVerticesStatus
  exact ends_bind (ends_viaPolygonMesh _ s hX fun hp => hQ hp)

theorem Trace.trace_refl (s : AOpenLandMeshActor) : Trace s [] s := ⟨[], by simp, rfl⟩

theorem Trace.trace_trans {a b c : AOpenLandMeshActor} {m1 m2 : List Event}
    (h1 : Trace a m1 b) (h2 : Trace b m2 c) : Trace a (m1 ++ m2) c := by
  obtain ⟨e1, c1, f1⟩ := h1
  obtain ⟨e2, c2, f2⟩ := h2
  exact ⟨e1 ++ e2, by rw [c2, c1, List.append_assoc], by rw [List.filter_append, f1, f2]⟩

theorem Trace.of_calm {a b : AOpenLandMeshActor} (h : CalmRel a b) : Trace a [] b := by
  obtain ⟨-, -, -, es, hc, hq⟩ := h
  exact ⟨es, hc, List.filter_eq_nil_iff.mpr fun e he => by simp [hq e he]⟩

theorem Trace.calm {a b c : AOpenLandMeshActor} {mc : List Event}
    (h1 : Trace a mc b) (h2 : CalmRel b c) : Trace a mc c := by
  have := h1.trace_trans (Trace.of_calm h2)
  rwa [List.append_nil] at this

theorem Trace.of_calls {a b c : AOpenLandMeshActor} {mc : List Event}
    (h1 : Trace a mc b) (h2 : c.Calls = b.Calls) : Trace a mc c := by
  obtain ⟨es, hc, hf⟩ := h1
  exact ⟨es, by rw [h2, hc], hf⟩

theorem Trace.call {a b c : AOpenLandMeshActor} {mc : List Event} (e : Event)
    (h1 : Trace a mc b) (h2 : c.Calls = b.Calls ++ [e]) :
    Trace a (mc ++ (if e.isWatched then [e] else [])) c := by
  obtain ⟨es, hc, hf⟩ := h1
  refine ⟨es ++ [e], by rw [h2, hc, List.append_assoc], ?_⟩
  rw [List.filter_append, hf]
  cases he : e.isWatched <;> simp [List.filter, he]

theorem Trace.watchedCalls {α : Type} {s : AOpenLandMeshActor} {mc : List Event}
    {o : Outcome α} (h : Trace s mc o.state) : watchedCalls s o = mc := by
  obtain ⟨es, hc, hf⟩ := h
  simp only [OpenLandMesh.watchedCalls, newCalls, hc, List.drop_left, hf]

theorem Trace.newCalls {α : Type} {s : AOpenLandMeshActor} {mc : List Event}
    {o : Outcome α} (h : Trace s mc o.state) :
    o.state.Calls = s.Calls ++ newCalls s o := by
  obtain ⟨es, hc, hf⟩ := h
  simp only [OpenLandMesh.newCalls, hc, List.drop_left]

/-! ## Theorems: the watched calls of one tick -/

theorem Env.bIsEditor_of_ne (env : Env) (World : UWorld) (h : env.World = some World)
    (hne : World.WorldType ≠ .Editor) : env.bIsEditor = false := by
  simp [Env.bIsEditor, h, hne]

theorem Trace.watched {a b c : AOpenLandMeshActor} {mc : List Event} {e : Event}
    (h : Trace a mc b) (hc : c.Calls = b.Calls ++ [e]) (hw : e.isWatched = true) :
    Trace a (mc ++ [e]) c := by
  have := h.call e hc
  simpa [hw] using this

theorem Trace.unwatched {a b c : AOpenLandMeshActor} {mc : List Event} {e : Event}
    (h : Trace a mc b) (hc : c.Calls = b.Calls ++ [e]) (hw : e.isWatched = false) :
    Trace a mc c := by
  have := h.call e hc
  simpa [hw] using this

theorem Trace.frame {a b c : AOpenLandMeshActor} {mc : List Event} {e : Event}
    (h : Trace a mc b)
    (hf : { c with Results := b.Results, Meshes := b.Meshes }
      = { b with Calls := b.Calls ++ [e] })
    (hw : e.isWatched = true) :
    Trace a (mc ++ [e]) c := by
  have hc : c.Calls = b.Calls ++ [e] := by
    have := congrArg AOpenLandMeshActor.Calls hf
    exact this
  exact h.watched hc hw

theorem Trace.build {a b : AOpenLandMeshActor} {mc : List Event} (env : Env) (D : Int)
    (h : Trace a mc b) :
    Trace a (mc ++ [.BuildMeshAsync D (asyncBuildOptions env b D)
        (MakeCacheKey env.GetCacheKey b.SubDivisions (asyncBuildOptions env b D).SubDivisions)])
      (afterBuildMeshAsync env (markedForAsyncBuild b D) D) := by
  obtain ⟨es, hc, hf⟩ := h
  refine ⟨es ++ asyncBuildCalls env b D, ?_, ?_⟩
  · simp [afterBuildMeshAsync, markedForAsyncBuild, asyncBuildCalls, asyncBuildOptions, hc]
  · rw [List.filter_append, hf]
    simp [asyncBuildCalls, List.filter, Event.isWatched]

theorem ends_update_bind {β : Type} (g : AOpenLandMeshActor → AOpenLandMeshActor)
    (f : Unit → Op β) (s : AOpenLandMeshActor)
    {Q : β → AOpenLandMeshActor → Prop} {X : AOpenLandMeshActor → Prop}
    (h : ∀ s', s' = g s → Ends (f () s') Q X) : Ends ((Op.update g >>= f) s) Q X :=
  h (g s) rfl

theorem ends_update (g : AOpenLandMeshActor → AOpenLandMeshActor) (s : AOpenLandMeshActor)
    {Q : Unit → AOpenLandMeshActor → Prop} {X : AOpenLandMeshActor → Prop}
    (h : ∀ s', s' = g s → Q () s') : Ends (Op.update g s) Q X :=
  h (g s) rfl

theorem ends_call_bind {β : Type} (e : Event) (f : Unit → Op β) (s : AOpenLandMeshActor)
    {Q : β → AOpenLandMeshActor → Prop} {X : AOpenLandMeshActor → Prop}
    (h : ∀ s', s' = { s with Calls := s.Calls ++ [e] } → Ends (f () s') Q X) :
    Ends ((Op.call e >>= f) s) Q X :=
  h _ rfl

theorem ends_call (e : Event) (s : AOpenLandMeshActor)
    {Q : Unit → AOpenLandMeshActor → Prop} {X : AOpenLandMeshActor → Prop}
    (h : ∀ s', s' = { s with Calls := s.Calls ++ [e] } → Q () s') :
    Ends (Op.call e s) Q X :=
  h _ rfl

theorem ends_need_bind {α β : Type} (o : Option α) (f : α → Op β) (s : AOpenLandMeshActor)
    {Q : β → AOpenLandMeshActor → Prop} {X : AOpenLandMeshActor → Prop}
    (hX : o = none → X s) (h : ∀ v, o = some v → Ends (f v s) Q X) :
    Ends ((Op.need o >>= f) s) Q X := by
  cases o with
  | none => exact hX rfl
  | some v => exact h v rfl

theorem ends_pure {α : Type} (x : α) (s : AOpenLandMeshActor)
    {Q : α → AOpenLandMeshActor → Prop} {X : AOpenLandMeshActor → Prop} (h : Q x s) :
    Ends ((pure x : Op α) s) Q X := h

theorem ends_check_bind {β : Type} (env : Env) (p : Option Nat) (t : ℚ)
    (f : FOpenLandPolygonMeshModifyStatus → Op β) (s : AOpenLandMeshActor)
    {Q : β → AOpenLandMeshActor → Prop} {X : AOpenLandMeshActor → Prop}
    (hX : s.PolygonMesh = none → X s)
    (h : ∀ s', s.PolygonMesh ≠ none →
      s' = { s with Calls := s.Calls ++ [.CheckModifyVerticesStatus p t env.CheckStatus] } →
      Ends (f env.CheckStatus s') Q X) :
    Ends ((CheckModifyVerticesStatus env p t >>= f) s) Q X :=
  ends_bind (ends_CheckModifyVerticesStatus env p t s hX fun hp => h _ hp rfl)

theorem ends_start_bind {β : Type} (env : Env) (p : Option Nat)
    (o : FOpenLandPolygonMeshModifyOptions)
    (f : FOpenLandPolygonMeshModifyStatus → Op β) (s : AOpenLandMeshActor)
    {Q : β → AOpenLandMeshActor → Prop} {X : AOpenLandMeshActor → Prop}
    (hX : s.PolygonMesh = none → X s)
    (h : ∀ s', s.PolygonMesh ≠ none →
      { s' with Results := s.Results, Meshes := s.Meshes }
        = { s with Calls := s.Calls ++ [.StartModifyVertices p o env.StartStatus] } →
      Ends (f env.StartStatus s') Q X) :
    Ends ((StartModifyVertices env p o >>= f) s) Q X :=
  ends_bind (ends_StartModifyVertices env p o s hX h)

theorem ends_modify_bind {β : Type} (env : Env) (p : Option Nat)
    (o : FOpenLandPolygonMeshModifyOptions) (f : Unit → Op β) (s : AOpenLandMeshActor)
    {Q : β → AOpenLandMeshActor → Prop} {X : AOpenLandMeshActor → Prop}
    (hX : s.PolygonMesh = none → X s)
    (h : ∀ s', s.PolygonMesh ≠ none →
      { s' with Results := s.Results, Meshes := s.Meshes }
        = { s with Calls := s.Calls ++ [.ModifyVertices p o] } →
      Ends (f () s') Q X) :
    Ends ((ModifyVertices env p o >>= f) s) Q X :=
  ends_bind (ends_ModifyVertices env p o s hX h)

theorem ends_switch_bind {β : Type} (env : Env) (f : FSwitchLODsStatus → Op β)
    (s : AOpenLandMeshActor)
    {Q : β → AOpenLandMeshActor → Prop} {X : AOpenLandMeshActor → Prop}
    (hA : Ends (f {} s) Q X)
    (hB : ∀ World d others s', env.World = some World → World.ViewDistances = d :: others →
      World.WorldType ≠ .Editor → s.AsyncBuildingLODIndex < 0 →
      hasLOD s (desiredLOD env s d) = false →
      s' = afterBuildMeshAsync env (markedForAsyncBuild s (desiredLOD env s d)) (desiredLOD env s d) →
      Ends (f { bAsyncBuildStarted := true } s') Q X)
    (hC : ∀ D p s', s.AsyncBuildingLODIndex < 0 →
      s' = { s with CurrentLODIndex := D, CurrentLOD := some p } →
      Ends (f { bNeedLODVisibilityChange := true } s') Q X) :
    Ends ((SwitchLODs env >>= f) s) Q X :=
  ends_bind (ends_SwitchLODs env s hA
    (fun World d others h1 h2 h3 h4 h5 => hB World d others _ h1 h2 h3 h4 h5 rfl)
    (fun D p h1 => hC D p _ h1 rfl))

theorem RunAsync_shape (env : Env) (t : ℚ) (s : AOpenLandMeshActor) :
    Ends (RunAsyncModifyMeshProcess env t s)
      (fun _ s' => ∃ mc, Trace s mc s'
        ∧ asyncShape env.bIsEditor s.ModifyStatus.bStarted mc = true)
      (fun s' => ∃ mc, Trace s mc s'
        ∧ asyncShape env.bIsEditor s.ModifyStatus.bStarted mc = true) := by
  unfold RunAsyncModifyMeshProcess
  simp only [read_bind]
  refine ends_calm_bind ?_ (fun s' h => ⟨[], Trace.of_calm h, rfl⟩) fun ModifyingLOD s1 h1 => ?_
  · split
    · exact calm_need _
    · exact calm_pure _
  have T1 : Trace s [] s1 := Trace.of_calm h1
  split
  · rename_i hb
    have hS : s.ModifyStatus.bStarted = false := by simpa using hb
    refine ends_calm_bind (calm_need _) (fun s' h => ⟨[], T1.calm h, rfl⟩) fun World s2 h2 => ?_
    have T2 := T1.calm h2
    refine ends_calm_bind calm_MakeModifyReady (fun s' h => ⟨[], T2.calm h, rfl⟩)
      fun _ s3 h3 => ?_
    have T3 := T2.calm h3
    refine ends_calm_bind (calm_derefLOD _) (fun s' h => ⟨[], T3.calm h, rfl⟩)
      fun lod s4 h4 => ?_
    have T4 := T3.calm h4
    refine ends_start_bind env _ _ _ s4 (fun _ => ⟨[], T4, rfl⟩) fun s5 _ hf => ?_
    have T5 := T4.frame hf rfl
    refine ends_update _ s5 fun s6 h6 => ?_
    exact ⟨_, T5.of_calls (by rw [h6]), by simp [asyncShape, hS]⟩
  · rename_i hb
    have hS : s.ModifyStatus.bStarted = true := by simpa using hb
    refine ends_calm_bind (calm_derefLOD _) (fun s' h => ⟨[], T1.calm h, rfl⟩)
      fun lod s2 h2 => ?_
    have T2 := T1.calm h2
    refine ends_check_bind env _ _ _ s2 (fun _ => ⟨[], T2, rfl⟩) fun s3 _ h3 => ?_
    have T3 : Trace s [.CheckModifyVerticesStatus lod.MeshBuildResult t env.CheckStatus] s3 :=
      T2.watched (by rw [h3]) rfl
    have R3 : asyncShape env.bIsEditor s.ModifyStatus.bStarted
        [.CheckModifyVerticesStatus lod.MeshBuildResult t env.CheckStatus] = true := by
      simp [asyncShape, hS]
    refine ends_update_bind _ _ s3 fun s4 h4 => ?_
    have T4 := T3.of_calls (c := s4) (by rw [h4])
    split
    · rename_i hab
      refine ends_calm_bind (calm_need _) (fun s' h => ⟨_, T4.calm h, R3⟩) fun World s5 h5 => ?_
      have T5 := T4.calm h5
      refine ends_calm_bind (calm_derefLOD _) (fun s' h => ⟨_, T5.calm h, R3⟩)
        fun lod' s6 h6 => ?_
      have T6 := T5.calm h6
      refine ends_start_bind env _ _ _ s6 (fun _ => ⟨_, T6, R3⟩) fun s7 _ hf => ?_
      have T7 := T6.frame hf rfl
      refine ends_update _ s7 fun s8 h8 => ?_
      exact ⟨_, T7.of_calls (by rw [h8]), by simp [asyncShape, hS, hab]⟩
    · rename_i hab
      split
      · rename_i hco
        refine ends_call_bind _ _ s4 fun s5 h5 => ?_
        have T5 := T4.unwatched (c := s5) (e := .OnAfterAnimations) (by rw [h5]) rfl
        refine ends_calm_bind (calm_viaPolygonMesh _ rfl) (fun s' h => ⟨_, T5.calm h, R3⟩)
          fun _ s6 h6 => ?_
        have T6 := T5.calm h6
        refine ends_update_bind _ _ s6 fun s7 h7 => ?_
        have T7 := T6.of_calls (c := s7) (by rw [h7])
        split
        · exact (ends_calm (calm_FinishBuildMeshAsync env) s7).mono
            (fun _ s' h => ⟨_, T7.calm h, R3⟩) (fun s' h => ⟨_, T7.calm h, R3⟩)
        · refine ends_calm_bind (calm_derefLOD _) (fun s' h => ⟨_, T7.calm h, R3⟩)
            fun cur s8 h8 => ?_
          have T8 := T7.calm h8
          refine ends_call_bind _ _ s8 fun s9 h9 => ?_
          have T9 := T8.watched (c := s9) (e := .UpdateMeshSection cur.MeshSectionIndex)
            (by rw [h9]) rfl
          have R9 : asyncShape env.bIsEditor s.ModifyStatus.bStarted
              [.CheckModifyVerticesStatus lod.MeshBuildResult t env.CheckStatus,
               .UpdateMeshSection cur.MeshSectionIndex] = true := by
            simp [asyncShape, hS, hab, hco]
          refine ends_calm_bind ?_ (fun s' h => ⟨_, T9.calm h, R9⟩) fun _ s10 h10 => ?_
          · split
            · exact calm_EnsureLODVisibility
            · exact calm_pure _
          have T10 := T9.calm h10
          refine ends_switch_bind env _ s10 ?_ ?_ ?_
          · exact ⟨_, T10, R9⟩
          · intro World d others s11 hw _ hne _ _ h11
            have T11 := T10.build env (desiredLOD env s10 d)
            rw [← h11] at T11
            exact ⟨_, T11, by
              simp [asyncShape, hS, hab, hco, Env.bIsEditor_of_ne env World hw hne]⟩
          · intro D p s11 _ h11
            rw [if_pos rfl]
            refine ends_update _ s11 fun s12 h12 => ?_
            exact ⟨_, T10.of_calls (by rw [h12, h11]), R9⟩
      · exact ⟨_, T4, R3⟩

theorem CalmRel.bAnimate {s s' : AOpenLandMeshActor} (h : CalmRel s s') :
    s'.bAnimate = s.bAnimate := by
  have := congrArg AOpenLandMeshActor.bAnimate h.1
  exact this

theorem CalmRel.of_eq_calls {s s' : AOpenLandMeshActor} (e : Event)
    (h : s' = { s with Calls := s.Calls ++ [e] }) (hw : e.isWatched = false) :
    CalmRel s s' := by
  subst h
  exact ⟨rfl, rfl, rfl, [e], rfl, by simpa using hw⟩

theorem ends_switch_calm_bind {β : Type} (env : Env) (f : FSwitchLODsStatus → Op β)
    (s : AOpenLandMeshActor)
    {Q : β → AOpenLandMeshActor → Prop} {X : AOpenLandMeshActor → Prop}
    (hN : ∀ Status s', Status.bAsyncBuildStarted = false → CalmRel s s' →
      Ends (f Status s') Q X)
    (hB : ∀ World d others s', env.World = some World → World.ViewDistances = d :: others →
      World.WorldType ≠ .Editor → s.AsyncBuildingLODIndex < 0 →
      hasLOD s (desiredLOD env s d) = false →
      s' = afterBuildMeshAsync env (markedForAsyncBuild s (desiredLOD env s d)) (desiredLOD env s d) →
      Ends (f { bAsyncBuildStarted := true } s') Q X) :
    Ends ((SwitchLODs env >>= f) s) Q X :=
  ends_switch_bind env f s (hN _ _ rfl (CalmRel.calm_refl s)) hB
    (fun D p s' _ h => hN _ _ rfl (by
      subst h
      exact ⟨rfl, rfl, rfl, [], by simp, by simp⟩))

theorem MakeModifyReady_afterBuildMeshAsync (env : Env) (s : AOpenLandMeshActor) (D : Int) :
    MakeModifyReady (afterBuildMeshAsync env s D)
      = .crash (afterBuildMeshAsync env s D) := by
  simp [MakeModifyReady, FLODInfo.MakeModifyReady, derefLOD, derefResult, afterBuildMeshAsync]

theorem RunSync_shape (env : Env) (s : AOpenLandMeshActor) :
    Ends (RunSyncModifyMeshProcess env s)
      (fun _ s' => ∃ mc, Trace s mc s' ∧ syncShape env.bIsEditor mc = true)
      (fun s' => ∃ mc, Trace s mc s' ∧ syncShape env.bIsEditor mc = true) := by
  unfold RunSyncModifyMeshProcess
  refine ends_switch_calm_bind env _ s ?_ ?_
  · intro Status s1 _ h1
    have T1 : Trace s [] s1 := Trace.of_calm h1
    refine ends_calm_bind ?_ (fun s' h => ⟨[], T1.calm h, rfl⟩) fun _ s2 h2 => ?_
    · split
      · exact calm_EnsureLODVisibility
      · exact calm_pure _
    have T2 := T1.calm h2
    refine ends_calm_bind calm_MakeModifyReady (fun s' h => ⟨[], T2.calm h, rfl⟩)
      fun _ s3 h3 => ?_
    have T3 := T2.calm h3
    simp only [read_bind]
    refine ends_calm_bind (calm_derefLOD _) (fun s' h => ⟨[], T3.calm h, rfl⟩)
      fun lod s4 h4 => ?_
    have T4 := T3.calm h4
    refine ends_calm_bind (calm_need _) (fun s' h => ⟨[], T4.calm h, rfl⟩) fun World s5 h5 => ?_
    have T5 := T4.calm h5
    refine ends_modify_bind env _ _ _ s5 (fun _ => ⟨[], T5, rfl⟩) fun s6 _ hf => ?_
    have T6 := T5.frame hf rfl
    refine ends_call_bind _ _ s6 fun s7 h7 => ?_
    have T7 := T6.watched (c := s7) (e := .UpdateMeshSection s3.CurrentLODIndex)
      (by rw [h7]) rfl
    refine ends_call_bind _ _ s7 fun s8 h8 => ?_
    have T8 := T7.unwatched (c := s8) (e := .OnAfterAnimations) (by rw [h8]) rfl
    exact (ends_calm (calm_viaPolygonMesh (.RegisterGpuVertexModifier s3.GpuVertexModifier)
      rfl) s8).mono
      (fun _ s' h => ⟨_, T8.calm h, rfl⟩) (fun s' h => ⟨_, T8.calm h, rfl⟩)
  · intro World d others s1 hw _ hne _ _ h1
    have T1 := (Trace.trace_refl s).build env (desiredLOD env s d)
    rw [← h1] at T1
    have hE := Env.bIsEditor_of_ne env World hw hne
    rw [if_neg (by simp)]
    simp only [pure_bind_apply]
    refine ends_bind ?_
    rw [h1, MakeModifyReady_afterBuildMeshAsync, ← h1]
    exact ⟨_, T1, by simp [syncShape, hE]⟩

theorem Trace.trans_nil {a b c : AOpenLandMeshActor} {mc : List Event}
    (h1 : Trace a [] b) (h2 : Trace b mc c) : Trace a mc c := by
  have := h1.trace_trans h2
  rwa [List.nil_append] at this

theorem tickShape_of_async_deferred (E A cl : Bool) (mc : List Event)
    (h : asyncShape E false mc = true) : tickShape E A false true cl mc = true := by
  unfold asyncShape at h
  split at h <;> simp_all [tickShape]

theorem tickShape_of_async_started (E A F cl : Bool) (mc : List Event)
    (h : asyncShape E true mc = true) : tickShape E A true F cl mc = true := by
  unfold asyncShape at h
  split at h <;> simp_all [tickShape]

theorem tickShape_of_async_animated (cl : Bool) (mc : List Event)
    (h : asyncShape false false mc = true) : tickShape false true false false cl mc = true := by
  unfold asyncShape at h
  split at h <;> simp_all [tickShape]

theorem tickShape_of_sync (cl : Bool) (mc : List Event)
    (h : syncShape false mc = true) : tickShape false true false false cl mc = true := by
  unfold syncShape at h
  split at h <;> simp_all [tickShape]

theorem tickShape_cl (E A S F cl cl' : Bool) (mc : List Event) (h : E = true ∨ A = false)
    (hs : tickShape E A S F cl mc = true) : tickShape E A S F cl' mc = true := by
  unfold tickShape at hs ⊢
  split at hs <;> rcases h with h | h <;> simp_all

theorem TickRest_shape (env : Env) (t : ℚ) (s : AOpenLandMeshActor) :
    Ends (TickRest env t env.bIsEditor s)
      (fun _ s' => ∃ mc, Trace s mc s'
        ∧ tickShape env.bIsEditor s.bAnimate s.ModifyStatus.bStarted s.bNeedToAsyncModifyMesh
            s.CurrentLOD.isSome mc = true)
      (fun s' => ∃ mc, Trace s mc s'
        ∧ tickShape env.bIsEditor s.bAnimate s.ModifyStatus.bStarted s.bNeedToAsyncModifyMesh
            s.CurrentLOD.isSome mc = true) := by
  unfold TickRest
  simp only [read_bind]
  split
  · rename_i hnone
    have hcl : s.CurrentLOD.isSome = false := by
      cases hc : s.CurrentLOD with
      | none => rfl
      | some p => rw [hc] at hnone; simp at hnone
    split
    · refine ends_switch_calm_bind env _ s ?_ ?_
      · intro Status s1 _ h1
        exact ⟨[], Trace.of_calm h1, rfl⟩
      · intro World d others s1 hw _ hne _ _ h1
        have T1 := (Trace.trace_refl s).build env (desiredLOD env s d)
        rw [← h1] at T1
        exact ⟨_, T1, by simp [tickShape, Env.bIsEditor_of_ne env World hw hne, hcl]⟩
    · exact ⟨[], Trace.trace_refl s, rfl⟩
  · refine ends_calm_bind calm_targetLocked (fun s' h => ⟨[], Trace.of_calm h, rfl⟩)
      fun bLocked s1 h1 => ?_
    have T1 : Trace s [] s1 := Trace.of_calm h1
    have M1 : s1.ModifyStatus = s.ModifyStatus := h1.2.1
    split
    · exact ⟨[], T1, rfl⟩
    · split
      · rename_i hdef
        have hS : s.ModifyStatus.bStarted = false := by simpa using hdef.1
        have hF : s.bNeedToAsyncModifyMesh = true := hdef.2
        refine ends_update_bind _ _ s1 fun s2 h2 => ?_
        have T2 := T1.of_calls (c := s2) (by rw [h2])
        have M2 : s2.ModifyStatus = s.ModifyStatus := by rw [h2]; exact M1
        refine ends_call_bind _ _ s2 fun s3 h3 => ?_
        have T3 := T2.unwatched (c := s3) (e := .OnAfterAnimations) (by rw [h3]) rfl
        have M3 : s3.ModifyStatus = s.ModifyStatus := by rw [h3]; exact M2
        refine ends_calm_bind
          (calm_viaPolygonMesh (.RegisterGpuVertexModifier s.GpuVertexModifier) rfl)
          (fun s' h => ⟨[], T3.calm h, rfl⟩) fun _ s4 h4 => ?_
        have T4 := T3.calm h4
        have M4 : s4.ModifyStatus = s.ModifyStatus := h4.2.1.trans M3
        refine (RunAsync_shape env t s4).mono ?_ ?_
        · rintro _ s' ⟨mc, T, R⟩
          rw [M4, hS] at R
          exact ⟨mc, T4.trans_nil T, by
            rw [hS, hF]; exact tickShape_of_async_deferred _ _ _ _ R⟩
        · rintro s' ⟨mc, T, R⟩
          rw [M4, hS] at R
          exact ⟨mc, T4.trans_nil T, by
            rw [hS, hF]; exact tickShape_of_async_deferred _ _ _ _ R⟩
      · rename_i hdef
        split
        · rename_i hS
          refine (RunAsync_shape env t s1).mono ?_ ?_
          · rintro _ s' ⟨mc, T, R⟩
            rw [M1, hS] at R
            exact ⟨mc, T1.trans_nil T, by
              rw [hS]; exact tickShape_of_async_started _ _ _ _ _ R⟩
          · rintro s' ⟨mc, T, R⟩
            rw [M1, hS] at R
            exact ⟨mc, T1.trans_nil T, by
              rw [hS]; exact tickShape_of_async_started _ _ _ _ _ R⟩
        · rename_i hS
          have hS' : s.ModifyStatus.bStarted = false := by simpa using hS
          have hF : s.bNeedToAsyncModifyMesh = false := by
            cases hf : s.bNeedToAsyncModifyMesh with
            | false => rfl
            | true => exact absurd ⟨by simp [hS'], hf⟩ hdef
          split
          · exact ⟨[], T1, rfl⟩
          · split
            · exact ⟨[], T1, rfl⟩
            · rename_i hE
              have hE' : env.bIsEditor = false := by simpa using hE
              split
              · exact ⟨[], T1, rfl⟩
              · rename_i hA
                have hA' : s.bAnimate = true := by simpa using hA
                split
                · refine (RunAsync_shape env t s1).mono ?_ ?_
                  · rintro _ s' ⟨mc, T, R⟩
                    rw [M1, hS', hE'] at R
                    exact ⟨mc, T1.trans_nil T, by
                      rw [hS', hF, hE', hA']; exact tickShape_of_async_animated _ _ R⟩
                  · rintro s' ⟨mc, T, R⟩
                    rw [M1, hS', hE'] at R
                    exact ⟨mc, T1.trans_nil T, by
                      rw [hS', hF, hE', hA']; exact tickShape_of_async_animated _ _ R⟩
                · refine (RunSync_shape env s1).mono ?_ ?_
                  · rintro _ s' ⟨mc, T, R⟩
                    rw [hE'] at R
                    exact ⟨mc, T1.trans_nil T, by
                      rw [hS', hF, hE', hA']; exact tickShape_of_sync _ _ R⟩
                  · rintro s' ⟨mc, T, R⟩
                    rw [hE'] at R
                    exact ⟨mc, T1.trans_nil T, by
                      rw [hS', hF, hE', hA']; exact tickShape_of_sync _ _ R⟩

theorem CalmRel.tickShape {s s' : AOpenLandMeshActor} (h : CalmRel s s') (E cl cl' : Bool)
    (mc : List Event) (hE : E = true ∨ s.bAnimate = false)
    (hs : tickShape E s'.bAnimate s'.ModifyStatus.bStarted s'.bNeedToAsyncModifyMesh cl' mc
      = true) :
    tickShape E s.bAnimate s.ModifyStatus.bStarted s.bNeedToAsyncModifyMesh cl mc = true := by
  rw [h.bAnimate, h.2.1, h.2.2.1] at hs
  exact tickShape_cl E _ _ _ cl' cl mc hE hs

/-- The watched calls of one `Tick` have one of the shapes of `tickShape`, whether the
tick runs to its end or stops. -/
theorem Tick_shape (env : Env) (t : ℚ) (s : AOpenLandMeshActor) :
    Ends (Tick env t s)
      (fun _ s' => ∃ mc, Trace s mc s'
        ∧ tickShape env.bIsEditor s.bAnimate s.ModifyStatus.bStarted s.bNeedToAsyncModifyMesh
            s.CurrentLOD.isSome mc = true)
      (fun s' => ∃ mc, Trace s mc s'
        ∧ tickShape env.bIsEditor s.bAnimate s.ModifyStatus.bStarted s.bNeedToAsyncModifyMesh
            s.CurrentLOD.isSome mc = true) := by
  unfold Tick
  refine ends_call_bind _ _ s fun s1 h1 => ?_
  have C1 : CalmRel s s1 := CalmRel.of_eq_calls _ h1 rfl
  have T1 : Trace s [] s1 := Trace.of_calm C1
  refine ends_need_bind _ _ s1 (fun _ => ⟨[], T1, rfl⟩) fun World hw => ?_
  have hE : decide (World.WorldType = .Editor) = env.bIsEditor := by
    simp [Env.bIsEditor, hw]
  simp only [read_bind]
  rw [hE]
  have hrest : ∀ s2, CalmRel s s2 →
      (env.bIsEditor = true ∨ s.bAnimate = false ∨ s2.CurrentLOD = s.CurrentLOD) →
      Ends (TickRest env t env.bIsEditor s2)
        (fun _ s' => ∃ mc, Trace s mc s'
          ∧ tickShape env.bIsEditor s.bAnimate s.ModifyStatus.bStarted
              s.bNeedToAsyncModifyMesh s.CurrentLOD.isSome mc = true)
        (fun s' => ∃ mc, Trace s mc s'
          ∧ tickShape env.bIsEditor s.bAnimate s.ModifyStatus.bStarted
              s.bNeedToAsyncModifyMesh s.CurrentLOD.isSome mc = true) := by
    intro s2 C2 hcl
    have key : ∀ mc, tickShape env.bIsEditor s2.bAnimate s2.ModifyStatus.bStarted
        s2.bNeedToAsyncModifyMesh s2.CurrentLOD.isSome mc = true →
        tickShape env.bIsEditor s.bAnimate s.ModifyStatus.bStarted
          s.bNeedToAsyncModifyMesh s.CurrentLOD.isSome mc = true := by
      intro mc R
      rcases hcl with h | h | h
      · exact C2.tickShape _ _ _ mc (Or.inl h) R
      · exact C2.tickShape _ _ _ mc (Or.inr h) R
      · rw [C2.bAnimate, C2.2.1, C2.2.2.1, h] at R
        exact R
    refine (TickRest_shape env t s2).mono ?_ ?_
    · rintro _ s' ⟨mc, T, R⟩
      exact ⟨mc, (Trace.of_calm C2).trans_nil T, key mc R⟩
    · rintro s' ⟨mc, T, R⟩
      exact ⟨mc, (Trace.of_calm C2).trans_nil T, key mc R⟩
  have hA1 : s1.bAnimate = s.bAnimate := C1.bAnimate
  split
  · rename_i htop
    have htop' : env.bIsEditor = true ∨ s.bAnimate = false := by
      rcases htop with h | h
      · exact Or.inl (by simpa using h)
      · exact Or.inr (by rw [← hA1]; simpa using h)
    refine ends_switch_calm_bind env _ s1 ?_ ?_
    · intro Status s2 hno h2
      have C2 := C1.calm_trans h2
      refine ends_calm_bind ?_ (fun s' h => ⟨[], Trace.of_calm (C2.calm_trans h), rfl⟩)
        fun _ s3 h3 => ?_
      · split
        · exact calm_EnsureLODVisibility
        · exact calm_pure _
      rw [hno]
      rw [if_neg (by simp)]
      refine hrest s3 (C2.calm_trans h3) ?_
      rcases htop' with h | h
      · exact Or.inl h
      · exact Or.inr (Or.inl h)
    · intro World' d others s2 hw' _ hne _ _ h2
      have T2 := T1.build env (desiredLOD env s1 d)
      rw [← h2] at T2
      have hE' := Env.bIsEditor_of_ne env World' hw' hne
      have hAn : s.bAnimate = false := by
        rcases htop' with h | h
        · rw [hE'] at h; cases h
        · exact h
      rw [if_neg (by simp)]
      simp only [pure_bind_apply]
      rw [if_pos (by simp)]
      exact ⟨_, T2, by simp [tickShape, hE', hAn]⟩
  · exact hrest s1 C1 (Or.inr (Or.inr (by rw [h1])))

/-! ## Theorems: async builds, modify passes and the editor -/

theorem Tick_watchedCalls (env : Env) (t : ℚ) (s : AOpenLandMeshActor) :
    (Tick env t s).state.Calls = s.Calls ++ newCalls s (Tick env t s)
    ∧ tickShape env.bIsEditor s.bAnimate s.ModifyStatus.bStarted s.bNeedToAsyncModifyMesh
        s.CurrentLOD.isSome (watchedCalls s (Tick env t s)) = true := by
  have h := Tick_shape env t s
  have key : ∃ mc, Trace s mc (Tick env t s).state
      ∧ tickShape env.bIsEditor s.bAnimate s.ModifyStatus.bStarted s.bNeedToAsyncModifyMesh
          s.CurrentLOD.isSome mc = true := by
    cases e : Tick env t s with
    | ok x s' => rw [e] at h; exact h
    | crash s' => rw [e] at h; exact h
  obtain ⟨mc, T, R⟩ := key
  exact ⟨T.newCalls, by rw [T.watchedCalls]; exact R⟩

theorem mem_watchedCalls {α : Type} {s : AOpenLandMeshActor} {o : Outcome α} {e : Event}
    (hm : e ∈ newCalls s o) (hw : e.isWatched = true) : e ∈ watchedCalls s o := by
  simp [watchedCalls, List.mem_filter, hw, hm]

theorem tickShape_build (E A S F cl : Bool) (wc : List Event)
    (h : tickShape E A S F cl wc = true)
    (hb : ∃ i o k, Event.BuildMeshAsync i o k ∈ wc) :
    (∀ r o x, Event.StartModifyVertices r o x ∉ wc)
    ∧ (∀ r o, Event.ModifyVertices r o ∉ wc)
    ∧ E = false
    ∧ ((∃ i o k, wc = [.BuildMeshAsync i o k]
          ∧ (A = false ∨ cl = false ∨ (S = false ∧ F = false)))
      ∨ (∃ r t Polled j i o k, wc = [.CheckModifyVerticesStatus r t Polled,
            .UpdateMeshSection j, .BuildMeshAsync i o k]
          ∧ S = true ∧ Polled.bCompleted = true ∧ Polled.bAborted = false)) := by
  obtain ⟨i, o, k, hb⟩ := hb
  unfold tickShape at h
  split at h <;> simp_all <;> tauto

theorem tickShape_start (E A S F cl : Bool) (wc : List Event)
    (h : tickShape E A S F cl wc = true) (r : Option Nat)
    (o : FOpenLandPolygonMeshModifyOptions) (x : FOpenLandPolygonMeshModifyStatus)
    (hb : Event.StartModifyVertices r o x ∈ wc) :
    (wc = [.StartModifyVertices r o x] ∧ S = false ∧ (F = true ∨ (A = true ∧ E = false)))
    ∨ (∃ r' t Polled, wc = [.CheckModifyVerticesStatus r' t Polled,
          .StartModifyVertices r o x] ∧ S = true ∧ Polled.bAborted = true) := by
  unfold tickShape at h
  split at h <;> simp_all
  tauto

theorem tickShape_modify (E A S F cl : Bool) (wc : List Event)
    (h : tickShape E A S F cl wc = true) (r : Option Nat)
    (o : FOpenLandPolygonMeshModifyOptions)
    (hb : Event.ModifyVertices r o ∈ wc) :
    S = false ∧ F = false ∧ A = true ∧ E = false := by
  unfold tickShape at h
  split at h <;> simp_all

theorem tickShape_idle (E A cl : Bool) (wc : List Event)
    (h : tickShape E A false false cl wc = true) (hE : E = true) : wc = [] := by
  unfold tickShape at h
  split at h <;> simp_all

/-- C13, a bug of the code: `Tick` calls `SwitchLODs` before it looks at `ModifyStatus`,
so an async LOD build starts while a modify pass is in flight. The actor
`asyncGameActor` (a game, LODs built on demand, not animated) is brought by `BeginPlay`,
a tick, the delivery of the build result, `ModifyMeshAsync` and one more tick into a
state with a modify pass in flight (`ModifyStatus.bStarted`). The next tick, with the
viewer at distance 1001, begins with that pass in flight and starts the async build of
tier 1: its one watched call is `BuildMeshAsync(1)`, `AsyncBuildingLODIndex` becomes 1
and the pass is still recorded as started. From then on the pass of tier 0 is polled with
the build result of the LOD being built, which is null; and when the poll reports the
pass completed, the tick runs `FinishBuildMeshAsync` on that LOD, whose result has not
been delivered, and stops at the null pointer. On the animated actor
`animatedTierOneBuilt`, which modifies synchronously, the tick with the viewer at the
actor starts the async build of tier 0 inside `RunSyncModifyMeshProcess` and goes on to
the modify of that same tick, which stops in `MakeModifyReady` at the null build result
of the new LOD. -/
theorem Tick_starts_build_during_pass :
    passInFlight.isOk = true
    ∧ passInFlight.state.ModifyStatus.bStarted = true
    ∧ buildDuringPass.isOk = true
    ∧ watchedCalls passInFlight.state buildDuringPass
        = [.BuildMeshAsync 1 { SubDivisions := 0, CuspAngle := 0, ForcedTextureWidth := 0 } ""]
    ∧ buildDuringPass.state.AsyncBuildingLODIndex = 1
    ∧ buildDuringPass.state.ModifyStatus.bStarted = true
    ∧ currentResult buildDuringPass.state = some none
    ∧ watchedCalls buildDuringPass.state pollDuringBuild
        = [.CheckModifyVerticesStatus none 0 { bStarted := true }]
    ∧ watchedCalls buildDuringPass.state completeDuringBuild
        = [.CheckModifyVerticesStatus none 0 { bStarted := true, bCompleted := true }]
    ∧ completeDuringBuild.isOk = false
    ∧ (FinishBuildMeshAsync completingAt1001 buildDuringPass.state).isOk = false
    ∧ animatedTierOneBuilt.isOk = true
    ∧ watchedCalls animatedTierOneBuilt.state (Tick (viewerAt 0) 0 animatedTierOneBuilt.state)
        = [.BuildMeshAsync 0 { SubDivisions := 0, CuspAngle := 0, ForcedTextureWidth := 0 } ""]
    ∧ (Tick (viewerAt 0) 0 animatedTierOneBuilt.state).isOk = false
    ∧ (MakeModifyReady (SwitchLODs (viewerAt 0) animatedTierOneBuilt.state).state).isOk
        = false := by
  refine ⟨?_, ?_, ?_, ?_, ?_, ?_, ?_, ?_, ?_, ?_, ?_, ?_, ?_, ?_, ?_⟩ <;> decide!

/-- What does hold of builds and passes in one tick, for every state and every
environment: (1) a `Tick` that starts an async
LOD build (calls `BuildMeshAsync`) makes no `StartModifyVertices` and no `ModifyVertices`
call in that tick, and its watched calls are either the `BuildMeshAsync` call alone or a
poll that reported the pass completed and not aborted, `UpdateMeshSection` and then the
`BuildMeshAsync` call; (2) a `Tick` that begins with a modify pass in flight
(`ModifyStatus.bStarted`), on an animated actor with a current LOD or in the editor,
starts an async LOD build only after its poll of the pass reported the pass completed and
not aborted; (3) in the editor no `Tick` starts an async LOD build. (Outside the editor, on
an actor that is not animated, the `SwitchLODs` call at the beginning of `Tick` can start
an async build while a pass is in flight.) -/
theorem Tick_build_and_pass (env : Env) (t : ℚ) (s : AOpenLandMeshActor) :
    ((∃ i o k, Event.BuildMeshAsync i o k ∈ newCalls s (Tick env t s)) →
      (∀ r o x, Event.StartModifyVertices r o x ∉ newCalls s (Tick env t s))
      ∧ (∀ r o, Event.ModifyVertices r o ∉ newCalls s (Tick env t s))
      ∧ ((∃ i o k, watchedCalls s (Tick env t s) = [.BuildMeshAsync i o k])
        ∨ (∃ r t' Polled j i o k, watchedCalls s (Tick env t s)
              = [.CheckModifyVerticesStatus r t' Polled, .UpdateMeshSection j,
                 .BuildMeshAsync i o k]
            ∧ Polled.bCompleted = true ∧ Polled.bAborted = false)))
    ∧ (s.ModifyStatus.bStarted = true →
        (env.bIsEditor = true ∨ (s.bAnimate = true ∧ s.CurrentLOD.isSome = true)) →
        (∃ i o k, Event.BuildMeshAsync i o k ∈ newCalls s (Tick env t s)) →
        ∃ r t' Polled j i o k, watchedCalls s (Tick env t s)
            = [.CheckModifyVerticesStatus r t' Polled, .UpdateMeshSection j,
               .BuildMeshAsync i o k]
          ∧ Polled.bCompleted = true ∧ Polled.bAborted = false)
    ∧ (env.bIsEditor = true → ∀ i o k, Event.BuildMeshAsync i o k ∉ newCalls s (Tick env t s)) := by
  obtain ⟨-, hsh⟩ := Tick_watchedCalls env t s
  have hex : (∃ i o k, Event.BuildMeshAsync i o k ∈ newCalls s (Tick env t s)) →
      ∃ i o k, Event.BuildMeshAsync i o k ∈ watchedCalls s (Tick env t s) := by
    rintro ⟨i, o, k, h⟩
    exact ⟨i, o, k, mem_watchedCalls h rfl⟩
  refine ⟨fun hb => ?_, fun hS hcl hb => ?_, fun hE i o k hmem => ?_⟩
  · obtain ⟨h1, h2, -, h4⟩ := tickShape_build _ _ _ _ _ _ hsh (hex hb)
    refine ⟨fun r o x hm => h1 r o x (mem_watchedCalls hm rfl),
      fun r o hm => h2 r o (mem_watchedCalls hm rfl), ?_⟩
    rcases h4 with ⟨i, o, k, h, -⟩ | ⟨r, t', P, j, i, o, k, h, -, hc, ha⟩
    · exact Or.inl ⟨i, o, k, h⟩
    · exact Or.inr ⟨r, t', P, j, i, o, k, h, hc, ha⟩
  · obtain ⟨-, -, hE, h4⟩ := tickShape_build _ _ _ _ _ _ hsh (hex hb)
    rcases h4 with ⟨i, o, k, -, h⟩ | ⟨r, t', P, j, i, o, k, h, -, hc, ha⟩
    · exfalso
      rcases hcl with hcl | ⟨hA, hC⟩
      · rw [hE] at hcl; cases hcl
      · rcases h with h | h | ⟨h, -⟩
        · rw [hA] at h; cases h
        · rw [hC] at h; cases h
        · rw [hS] at h; cases h
    · exact ⟨r, t', P, j, i, o, k, h, hc, ha⟩
  · obtain ⟨-, -, hE', -⟩ := tickShape_build _ _ _ _ _ _ hsh (hex ⟨i, o, k, hmem⟩)
    rw [hE] at hE'
    cases hE'

/-- C14, as stated, fails: in the editor, after `OnConstruction` has built the mesh, a
call of `ModifyMeshAsync` sets the deferred flag (the CPU vertex modifiers are off), and
the next `Tick` in the editor calls `StartModifyVertices`. -/
theorem Tick_in_editor_starts_pass :
    editorDeferred.isOk = true
    ∧ editorDeferred.state.bNeedToAsyncModifyMesh = true
    ∧ editorTick.isOk = true
    ∧ newCalls editorDeferred.state editorTick
        = [.UpdateTransforms, .OnAfterAnimations, .RegisterGpuVertexModifier {},
           .StartModifyVertices (some 0)
             { RealTimeSeconds := 0, CuspAngle := 0, DesiredFrameRate := 60, LastFrameTime := 0 }
             {}] := by
  decide!

/-- C14 (amended): in the editor world, for every actor state, (1) a `Tick` that begins with
the deferred flag `bNeedToAsyncModifyMesh` clear and no modify pass started makes no call
of the vertex-modifier pipeline, no `BuildMeshAsync` and no `UpdateMeshSection` call,
whatever `bAnimate` is; (2) a `Tick` calls `StartModifyVertices` only as its one pipeline
call when the deferred flag is set and no pass is started, or right after a poll that
reported the started pass aborted; (3) no `Tick` calls `ModifyVertices` and no `Tick`
starts an async LOD build. -/
theorem Tick_in_editor (env : Env) (t : ℚ) (s : AOpenLandMeshActor) (World : UWorld)
    (hworld : env.World = some World) (heditor : World.WorldType = .Editor) :
    (s.ModifyStatus.bStarted = false → s.bNeedToAsyncModifyMesh = false →
      watchedCalls s (Tick env t s) = []
      ∧ ∀ e ∈ newCalls s (Tick env t s), Event.isModifyCall e = false)
    ∧ (∀ r o x, Event.StartModifyVertices r o x ∈ newCalls s (Tick env t s) →
        (watchedCalls s (Tick env t s) = [.StartModifyVertices r o x]
          ∧ s.ModifyStatus.bStarted = false ∧ s.bNeedToAsyncModifyMesh = true)
        ∨ (∃ r' t' Polled, watchedCalls s (Tick env t s)
              = [.CheckModifyVerticesStatus r' t' Polled, .StartModifyVertices r o x]
            ∧ s.ModifyStatus.bStarted = true ∧ Polled.bAborted = true))
    ∧ (∀ r o, Event.ModifyVertices r o ∉ newCalls s (Tick env t s))
    ∧ (∀ i o k, Event.BuildMeshAsync i o k ∉ newCalls s (Tick env t s)) := by
  have hE : env.bIsEditor = true := by simp [Env.bIsEditor, hworld, heditor]
  obtain ⟨-, hsh⟩ := Tick_watchedCalls env t s
  refine ⟨fun hS hF => ?_, fun r o x hm => ?_, fun r o hm => ?_, fun i o k hm => ?_⟩
  · rw [hS, hF] at hsh
    have hnil := tickShape_idle _ _ _ _ hsh hE
    refine ⟨hnil, fun e he => ?_⟩
    cases hmc : Event.isModifyCall e with
    | false => rfl
    | true =>
      have hw : e.isWatched = true := by
        cases e <;> simp_all [Event.isModifyCall, Event.isWatched]
      have := mem_watchedCalls he hw
      rw [hnil] at this
      cases this
  · rcases tickShape_start _ _ _ _ _ _ hsh r o x (mem_watchedCalls hm rfl) with
      ⟨h1, h2, h3⟩ | ⟨r', t', P, h1, h2, h3⟩
    · refine Or.inl ⟨h1, h2, ?_⟩
      rcases h3 with h3 | ⟨-, h3⟩
      · exact h3
      · rw [hE] at h3; cases h3
    · exact Or.inr ⟨r', t', P, h1, h2, h3⟩
  · obtain ⟨-, -, -, h⟩ := tickShape_modify _ _ _ _ _ _ hsh r o
      (mem_watchedCalls hm rfl)
    rw [hE] at h; cases h
  · obtain ⟨-, -, h, -⟩ := tickShape_build _ _ _ _ _ _ hsh
      ⟨i, o, k, mem_watchedCalls hm rfl⟩
    rw [hE] at h; cases h

/-- Witness for C14 (amended): the built actor `threeTiers` in the editor with the viewer at
distance 5001: the tick switches to tier 2 and makes no watched call. -/
theorem Tick_in_editor_witness :
    watchedCalls threeTiers (Tick (editorViewerAt 5001) 0 threeTiers) = []
    ∧ (∀ e ∈ newCalls threeTiers (Tick (editorViewerAt 5001) 0 threeTiers),
        Event.isModifyCall e = false)
    ∧ (Tick (editorViewerAt 5001) 0 threeTiers).isOk = true
    ∧ (Tick (editorViewerAt 5001) 0 threeTiers).state.CurrentLODIndex = 2 := by
  obtain ⟨h1, h2⟩ := (Tick_in_editor (editorViewerAt 5001) 0 threeTiers
    { WorldType := .Editor, ViewDistances := [5001] } rfl rfl).1 rfl rfl
  exact ⟨h1, h2, by decide!, by decide!⟩

/-- An instance of `Tick_build_and_pass`: the animated actor `animatedPassInFlight` has a
pass in flight
and tier 1 unbuilt; the tick with the viewer at distance 1001 in which the poll reports
the pass completed starts the async build of tier 1 after the poll and the section
update, and makes no `StartModifyVertices` or `ModifyVertices` call. -/
theorem Tick_build_and_pass_witness :
    animatedPassInFlight.ModifyStatus.bStarted = true
    ∧ (∃ r t' Polled j i o k, watchedCalls animatedPassInFlight
          (Tick completingAt1001 0 animatedPassInFlight)
            = [.CheckModifyVerticesStatus r t' Polled, .UpdateMeshSection j,
               .BuildMeshAsync i o k]
          ∧ Polled.bCompleted = true ∧ Polled.bAborted = false)
    ∧ (∀ r o x, Event.StartModifyVertices r o x
        ∉ newCalls animatedPassInFlight (Tick completingAt1001 0 animatedPassInFlight))
    ∧ watchedCalls animatedPassInFlight (Tick completingAt1001 0 animatedPassInFlight)
        = [.CheckModifyVerticesStatus (some 0) 0 { bStarted := true, bCompleted := true },
           .UpdateMeshSection 0,
           .BuildMeshAsync 1 { SubDivisions := 0, CuspAngle := 0, ForcedTextureWidth := 0 } ""] := by
  have hS : animatedPassInFlight.ModifyStatus.bStarted = true := by decide!
  have hb : ∃ i o k, Event.BuildMeshAsync i o k
      ∈ newCalls animatedPassInFlight (Tick completingAt1001 0 animatedPassInFlight) :=
    ⟨1, { SubDivisions := 0, CuspAngle := 0, ForcedTextureWidth := 0 }, "", by decide!⟩
  obtain ⟨h1, h2, -⟩ := Tick_build_and_pass completingAt1001 0 animatedPassInFlight
  exact ⟨hS, h2 hS (Or.inr ⟨by decide!, by decide!⟩) hb, (h1 hb).1, by decide!⟩

/-! ## Theorems: a modify deferred while a pass is started -/

theorem targetLocked_unlocked (s : AOpenLandMeshActor) (q i : Nat) (lod : FLODInfo)
    (r : FOpenLandPolygonMeshBuildResult)
    (hcur : s.CurrentLOD = some q) (hlod : s.LODs[q]? = some lod)
    (hptr : lod.MeshBuildResult = some i) (hres : s.Results[i]? = some r)
    (hmesh : ∀ tg, r.Target = some tg → ∃ m, s.Meshes[tg]? = some m ∧ m.bLocked = false) :
    targetLocked s = .ok false s := by
  cases ht : r.Target with
  | none => simp [targetLocked, derefLOD, derefResult, hcur, hlod, hptr, hres, ht]
  | some tg =>
    obtain ⟨m, hm, hl⟩ := hmesh tg ht
    simp [targetLocked, derefLOD, derefResult, derefMesh, hcur, hlod, hptr, hres, ht, hm, hl]

/-- What `AOpenLandMeshActor::MakeModifyReady` does when the current LOD holds a build
result: it runs to its end; only the stores, the sections and the calls can differ
afterwards; the current LOD keeps its section and tier and holds the same build result
as before (LOD modify-ready already, or empty cache key) or a new one; and the one call
it can make is `ReplaceMeshSection`. -/
theorem MakeModifyReady_ok (s : AOpenLandMeshActor) (q i : Nat) (lod : FLODInfo)
    (r : FOpenLandPolygonMeshBuildResult)
    (hcur : s.CurrentLOD = some q) (hlod : s.LODs[q]? = some lod)
    (hptr : lod.MeshBuildResult = some i) (hres : s.Results[i]? = some r)
    (hmesh : ∀ tg, r.Target = some tg → tg < s.Meshes.length) :
    ∃ s2 lod2, MakeModifyReady s = .ok () s2
      ∧ { s2 with LODs := s.LODs, Results := s.Results, Meshes := s.Meshes,
                  Sections := s.Sections, Calls := s.Calls } = s
      ∧ s2.LODs[q]? = some lod2
      ∧ (lod2.MeshBuildResult = lod.MeshBuildResult
          ∨ (lod.bIsModifyReady = false ∧ r.CacheKey.isEmpty = false
              ∧ lod2.MeshBuildResult = some s.Results.length))
      ∧ (s2.Calls = s.Calls ∨ ∃ j tg, s2.Calls = s.Calls ++ [.ReplaceMeshSection j tg]) := by
  have hq : q < s.LODs.length := by
    rcases Nat.lt_or_ge q s.LODs.length with h | h
    · exact h
    · rw [List.getElem?_eq_none h] at hlod; cases hlod
  by_cases hno : lod.bIsModifyReady = true ∨ r.CacheKey.isEmpty = true
  · have h1 : FLODInfo.MakeModifyReady (some q) s = .ok false s := by
      rcases hno with h | h
      · exact FLODInfo.MakeModifyReady_ready s q lod hlod h
      · exact FLODInfo.MakeModifyReady_uncached s q i lod r hlod hptr hres h
    refine ⟨s, lod, ?_, rfl, hlod, Or.inl rfl, Or.inl rfl⟩
    simp [MakeModifyReady, hcur, h1, derefLOD, hlod]
  · have hready : lod.bIsModifyReady = false := by
      cases h : lod.bIsModifyReady with
      | false => rfl
      | true => exact absurd (Or.inl h) hno
    have hkey : r.CacheKey.isEmpty = false := by
      cases h : r.CacheKey.isEmpty with
      | false => rfl
      | true => exact absurd (Or.inr h) hno
    have hL : ∃ L : FLODInfo,
        L = FLODInfo.mk (some s.Results.length) lod.MeshSectionIndex lod.LODIndex true :=
      ⟨_, rfl⟩
    obtain ⟨L, hL⟩ := hL
    cases ht : r.Target with
    | none =>
      have h1 := FLODInfo.MakeModifyReady_untargeted s q i lod r hlod hptr hres hready hkey ht
      by_cases hidx : lod.MeshSectionIndex ≥ 0
      · refine ⟨{ s with LODs := s.LODs.set q L, Results := s.Results ++ [r], Sections := s.Sections.set lod.MeshSectionIndex.toNat none, Calls := s.Calls ++ [.ReplaceMeshSection lod.MeshSectionIndex none] }, L, ?_, rfl, ?_, ?_, ?_⟩
        · simp [MakeModifyReady, hcur, h1, derefLOD, derefResult, ReplaceMeshSection, hq, hidx,
            hL, ht]
        · simp [hq]
        · exact Or.inr ⟨hready, hkey, by rw [hL]⟩
        · exact Or.inr ⟨_, _, rfl⟩
      · refine ⟨{ s with LODs := s.LODs.set q L, Results := s.Results ++ [r] }, L, ?_, rfl, ?_, ?_, ?_⟩
        · simp [MakeModifyReady, hcur, h1, derefLOD, hq, hidx, hL]
        · simp [hq]
        · exact Or.inr ⟨hready, hkey, by rw [hL]⟩
        · exact Or.inl rfl
    | some tg =>
      have htg : tg < s.Meshes.length := hmesh tg ht
      have hm : s.Meshes[tg]? = some s.Meshes[tg] := List.getElem?_eq_getElem htg
      have h1 := FLODInfo.MakeModifyReady_clones s q i tg lod r _ hlod hptr hres hready hkey
        ht hm
      by_cases hidx : lod.MeshSectionIndex ≥ 0
      · refine ⟨{ s with LODs := s.LODs.set q L, Results := s.Results ++ [{ r with Target := some s.Meshes.length }], Meshes := s.Meshes ++ [s.Meshes[tg]], Sections := s.Sections.set lod.MeshSectionIndex.toNat (some s.Meshes.length), Calls := s.Calls ++ [.ReplaceMeshSection lod.MeshSectionIndex (some s.Meshes.length)] }, L, ?_, rfl, ?_, ?_, ?_⟩
        · simp [MakeModifyReady, hcur, h1, derefLOD, derefResult, ReplaceMeshSection, hq, hidx,
            hL]
        · simp [hq]
        · exact Or.inr ⟨hready, hkey, by rw [hL]⟩
        · exact Or.inr ⟨_, _, rfl⟩
      · refine ⟨{ s with LODs := s.LODs.set q L, Results := s.Results ++ [{ r with Target := some s.Meshes.length }], Meshes := s.Meshes ++ [s.Meshes[tg]] }, L, ?_, rfl, ?_, ?_, ?_⟩
        · simp [MakeModifyReady, hcur, h1, derefLOD, hq, hidx, hL]
        · simp [hq]
        · exact Or.inr ⟨hready, hkey, by rw [hL]⟩
        · exact Or.inl rfl

theorem modifyingLOD_run (s : AOpenLandMeshActor) (q : Nat)
    (h : modifyingLOD s = some (some q)) :
    (if s.AsyncBuildingLODIndex ≥ 0 then
      Op.need (elemAt s.LODList s.AsyncBuildingLODIndex) else pure s.CurrentLOD) s
      = .ok (some q) s := by
  unfold modifyingLOD at h
  by_cases ha : s.AsyncBuildingLODIndex ≥ 0
  · rw [if_pos ha] at h; simp [ha, h]
  · rw [if_neg ha] at h; simp [ha, Option.some.inj h]

theorem derefLOD_some (s : AOpenLandMeshActor) (p : Nat) (v : FLODInfo)
    (h : s.LODs[p]? = some v) : derefLOD (some p) s = .ok v s := by
  simp [derefLOD, h]

theorem ends_via_bind {β : Type} (e : Event) (f : Unit → Op β) (s : AOpenLandMeshActor)
    {Q : β → AOpenLandMeshActor → Prop} {X : AOpenLandMeshActor → Prop}
    (hX : s.PolygonMesh = none → X s)
    (h : ∀ s', s.PolygonMesh ≠ none → s' = { s with Calls := s.Calls ++ [e] } →
      Ends (f () s') Q X) :
    Ends ((viaPolygonMesh e >>= f) s) Q X :=
  ends_bind (ends_viaPolygonMesh e s hX fun hp => h _ hp rfl)

/-- The tick that runs a deferred modify: when `Tick` comes to the test of the deferred
flag with the flag set, no pass started, a current LOD that holds a build result with no
locked target, the proxy pointer and the world there, the part of `Tick` after its first
`if` statement runs to its end, clears the flag, calls `OnAfterAnimations` and
`RegisterGpuVertexModifier`, makes the LOD modify-ready (which may call
`ReplaceMeshSection`) and starts the pass on the build result the LOD then holds. -/
theorem TickRest_deferred (env : Env) (t : ℚ) (bIsEditor : Bool) (s : AOpenLandMeshActor)
    (World : UWorld) (q i pm : Nat) (lod : FLODInfo) (r : FOpenLandPolygonMeshBuildResult)
    (hflag : s.bNeedToAsyncModifyMesh = true) (hS : s.ModifyStatus.bStarted = false)
    (hcur : s.CurrentLOD = some q) (hlod : s.LODs[q]? = some lod)
    (hptr : lod.MeshBuildResult = some i) (hres : s.Results[i]? = some r)
    (hmesh : ∀ tg, r.Target = some tg → ∃ m, s.Meshes[tg]? = some m ∧ m.bLocked = false)
    (hmod : modifyingLOD s = some (some q)) (hpm : s.PolygonMesh = some pm)
    (hworld : env.World = some World) :
    Ends (TickRest env t bIsEditor s)
      (fun _ s' => s'.bNeedToAsyncModifyMesh = false ∧ s'.ModifyStatus = env.StartStatus
        ∧ ∃ es res, s'.Calls = s.Calls
              ++ [.OnAfterAnimations, .RegisterGpuVertexModifier s.GpuVertexModifier] ++ es
              ++ [.StartModifyVertices res (asyncModifyOptions World s t) env.StartStatus]
          ∧ (es = [] ∨ ∃ j tg, es = [.ReplaceMeshSection j tg])
          ∧ (res = some i ∨ (lod.bIsModifyReady = false ∧ r.CacheKey.isEmpty = false
              ∧ res = some s.Results.length))
          ∧ ∃ lod', s'.LODs[q]? = some lod' ∧ lod'.MeshBuildResult = res)
      (fun _ => False) := by
  unfold TickRest
  simp only [read_bind]
  rw [if_neg (by simp [hcur])]
  refine ends_bind ?_
  rw [targetLocked_unlocked s q i lod r hcur hlod hptr hres hmesh]
  refine ends_ok ?_
  rw [if_neg (by simp), if_pos ⟨by simp [hS], hflag⟩]
  refine ends_update_bind _ _ s fun s1 h1 => ?_
  refine ends_call_bind _ _ s1 fun s2 h2 => ?_
  have hpm2 : s2.PolygonMesh = some pm := by rw [h2, h1]; exact hpm
  refine ends_via_bind _ _ s2 (fun h => by rw [hpm2] at h; cases h) fun s3 _ h3 => ?_
  have e3 : s3 = { s with bNeedToAsyncModifyMesh := false
                          Calls := s.Calls ++ [.OnAfterAnimations,
                            .RegisterGpuVertexModifier s.GpuVertexModifier] } := by
    rw [h3, h2, h1]; simp
  clear h3 h2 h1 hpm2
  unfold RunAsyncModifyMeshProcess
  simp only [read_bind]
  refine ends_bind ?_
  rw [modifyingLOD_run s3 q (by rw [e3]; exact hmod)]
  refine ends_ok ?_
  rw [if_pos (by rw [e3]; simp [hS])]
  refine ends_need_bind _ _ s3 (fun h => by rw [hworld] at h; cases h) fun World' hw' => ?_
  have hW : World' = World := by rw [hworld] at hw'; exact (Option.some.inj hw').symm
  subst hW
  obtain ⟨s4, lod2, h4, f4, l4, r4, c4⟩ := MakeModifyReady_ok s3 q i lod r
    (by rw [e3]; exact hcur) (by rw [e3]; exact hlod) hptr (by rw [e3]; exact hres)
    (by
      intro tg htg
      obtain ⟨m, hm, -⟩ := hmesh tg htg
      rw [e3]
      rcases Nat.lt_or_ge tg s.Meshes.length with h | h
      · exact h
      · rw [List.getElem?_eq_none h] at hm; cases hm)
  refine ends_bind ?_
  rw [h4]
  refine ends_ok ?_
  refine ends_bind ?_
  rw [derefLOD_some s4 q lod2 l4]
  refine ends_ok ?_
  have hpm4 : s4.PolygonMesh = some pm := by
    have h := congrArg AOpenLandMeshActor.PolygonMesh f4
    rw [e3] at h
    exact h.trans hpm
  refine ends_start_bind env _ _ _ s4 (fun h => by rw [hpm4] at h; cases h) fun s5 _ f5 => ?_
  refine ends_update _ s5 fun s6 h6 => ?_
  have c5 : s5.Calls = s4.Calls ++ [.StartModifyVertices lod2.MeshBuildResult
      (asyncModifyOptions World' s3 t) env.StartStatus] := by
    have h := congrArg AOpenLandMeshActor.Calls f5
    exact h
  have b5 : s5.bNeedToAsyncModifyMesh = s4.bNeedToAsyncModifyMesh := by
    have h := congrArg AOpenLandMeshActor.bNeedToAsyncModifyMesh f5
    exact h
  have b4 : s4.bNeedToAsyncModifyMesh = s3.bNeedToAsyncModifyMesh := by
    have h := congrArg AOpenLandMeshActor.bNeedToAsyncModifyMesh f4
    exact h
  have l5 : s5.LODs = s4.LODs := by
    have h := congrArg AOpenLandMeshActor.LODs f5
    exact h
  have ho : asyncModifyOptions World' s3 t = asyncModifyOptions World' s t := by
    rw [e3]; rfl
  have c3 : s3.Calls = s.Calls ++ [.OnAfterAnimations,
      .RegisterGpuVertexModifier s.GpuVertexModifier] := by rw [e3]
  have rlen : s3.Results.length = s.Results.length := by rw [e3]
  refine ⟨by rw [h6]; show s5.bNeedToAsyncModifyMesh = false; rw [b5, b4, e3],
    by rw [h6], ?_⟩
  have hres' : lod2.MeshBuildResult = some i ∨ (lod.bIsModifyReady = false
      ∧ r.CacheKey.isEmpty = false ∧ lod2.MeshBuildResult = some s.Results.length) := by
    rcases r4 with h | ⟨a, b, c⟩
    · exact Or.inl (h.trans hptr)
    · exact Or.inr ⟨a, b, by rw [c, rlen]⟩
  have hl' : ∃ lod', s6.LODs[q]? = some lod' ∧ lod'.MeshBuildResult = lod2.MeshBuildResult :=
    ⟨lod2, by rw [h6]; show s5.LODs[q]? = some lod2; rw [l5]; exact l4, rfl⟩
  rcases c4 with c4 | ⟨j, tg, c4⟩
  · refine ⟨[], lod2.MeshBuildResult, ?_, Or.inl rfl, hres', hl'⟩
    rw [h6]
    show s5.Calls = _
    rw [c5, c4, c3, ho]
    simp
  · refine ⟨[.ReplaceMeshSection j tg], lod2.MeshBuildResult, ?_, Or.inr ⟨j, tg, rfl⟩, hres',
      hl'⟩
    rw [h6]
    show s5.Calls = _
    rw [c5, c4, c3, ho]

theorem ends_total {α : Type} {o : Outcome α} {Q : α → AOpenLandMeshActor → Prop}
    (h : Ends o Q (fun _ => False)) : ∃ x s', o = .ok x s' ∧ Q x s' := by
  cases o with
  | ok x s' => exact ⟨x, s', rfl, h⟩
  | crash s' => exact absurd h id

theorem ModifyMesh_started (env : Env) (s : AOpenLandMeshActor)
    (h : s.ModifyStatus.bStarted = true) :
    ModifyMesh env s = .ok () { s with bNeedToAsyncModifyMesh := true } := by
  simp [ModifyMesh, h]

/-- The absorbed call and the tick that reissues it: (1) for every environment and every
state with a modify pass started
(`ModifyStatus.bStarted`), `ModifyMesh` runs to its end, makes no call at all (no vertex
modification, no mesh-section update) and changes nothing but the deferred flag
`bNeedToAsyncModifyMesh`, which it sets. (2) When `Tick` then comes, after its first `if`
statement, to a state with the flag set, no pass started, a current LOD that holds a
build result whose target is not locked, the proxy pointer and the world there, it runs
to its end in that tick: it clears the flag, calls `OnAfterAnimations` and
`RegisterGpuVertexModifier`, makes the current LOD modify-ready (which may call
`ReplaceMeshSection`) and calls `StartModifyVertices` on the build result the LOD then
holds, and records the status that call returns. (3) For an animated actor outside the
editor that state is the state at the entry of `Tick`, and the calls of the tick are
`UpdateTransforms` followed by those of (2). -/
theorem ModifyMesh_absorbed_then_run_by_Tick (env : Env) (t : ℚ) (bIsEditor : Bool)
    (s : AOpenLandMeshActor) (World : UWorld) (q i pm : Nat) (lod : FLODInfo)
    (r : FOpenLandPolygonMeshBuildResult)
    (hflag : s.bNeedToAsyncModifyMesh = true) (hS : s.ModifyStatus.bStarted = false)
    (hcur : s.CurrentLOD = some q) (hlod : s.LODs[q]? = some lod)
    (hptr : lod.MeshBuildResult = some i) (hres : s.Results[i]? = some r)
    (hmesh : ∀ tg, r.Target = some tg → ∃ m, s.Meshes[tg]? = some m ∧ m.bLocked = false)
    (hmod : modifyingLOD s = some (some q)) (hpm : s.PolygonMesh = some pm)
    (hworld : env.World = some World) :
    (∀ (env' : Env) (s0 : AOpenLandMeshActor), s0.ModifyStatus.bStarted = true →
      ModifyMesh env' s0 = .ok () { s0 with bNeedToAsyncModifyMesh := true }
      ∧ (ModifyMesh env' s0).state.Calls = s0.Calls)
    ∧ (∃ s' es res, TickRest env t bIsEditor s = .ok () s'
        ∧ s'.bNeedToAsyncModifyMesh = false ∧ s'.ModifyStatus = env.StartStatus
        ∧ s'.Calls = s.Calls
            ++ [.OnAfterAnimations, .RegisterGpuVertexModifier s.GpuVertexModifier] ++ es
            ++ [.StartModifyVertices res (asyncModifyOptions World s t) env.StartStatus]
        ∧ (es = [] ∨ ∃ j tg, es = [.ReplaceMeshSection j tg])
        ∧ (res = some i ∨ (lod.bIsModifyReady = false ∧ r.CacheKey.isEmpty = false
            ∧ res = some s.Results.length))
        ∧ ∃ lod', s'.LODs[q]? = some lod' ∧ lod'.MeshBuildResult = res)
    ∧ (s.bAnimate = true → World.WorldType ≠ .Editor →
        ∃ s' es res, Tick env t s = .ok () s'
          ∧ s'.bNeedToAsyncModifyMesh = false ∧ s'.ModifyStatus = env.StartStatus
          ∧ s'.Calls = s.Calls
              ++ [.UpdateTransforms, .OnAfterAnimations,
                  .RegisterGpuVertexModifier s.GpuVertexModifier] ++ es
              ++ [.StartModifyVertices res (asyncModifyOptions World s t) env.StartStatus]
          ∧ (es = [] ∨ ∃ j tg, es = [.ReplaceMeshSection j tg])) := by
  refine ⟨fun env' s0 h => ?_, ?_, fun hA hne => ?_⟩
  · have := ModifyMesh_started env' s0 h
    exact ⟨this, by rw [this]; rfl⟩
  · obtain ⟨_, s', h1, h2, h3, es, res, h4, h5, h6, h7⟩ := ends_total
      (TickRest_deferred env t bIsEditor s World q i pm lod r hflag hS hcur hlod hptr hres
        hmesh hmod hpm hworld)
    exact ⟨s', es, res, h1, h2, h3, h4, h5, h6, h7⟩
  · have hT : Tick env t s
        = TickRest env t false { s with Calls := s.Calls ++ [.UpdateTransforms] } := by
      simp [Tick, hworld, hA, hne]
    obtain ⟨_, s', h1, h2, h3, es, res, h4, h5, -, -⟩ := ends_total
      (TickRest_deferred env t false { s with Calls := s.Calls ++ [.UpdateTransforms] } World
        q i pm lod r hflag hS hcur hlod hptr hres hmesh hmod hpm hworld)
    refine ⟨s', es, res, by rw [hT, h1], h2, h3, ?_, h5⟩
    rw [h4]
    simp [asyncModifyOptions]

/-- An instance of `ModifyMesh_absorbed_then_run_by_Tick`: `ModifyMesh` on
`threeTiersStarted` (a pass is started) is absorbed
and sets the flag; the next tick polls the pass, which has completed; in the state that
tick leaves (`absorbedRun`) the flag is still set and no pass is started, and the tick
after it clears the flag and calls `StartModifyVertices` on build result 0. -/
theorem ModifyMesh_absorbed_then_run_by_Tick_witness :
    ModifyMesh (pipelineAnswers {} {}) threeTiersStarted
      = .ok () { threeTiersStarted with bNeedToAsyncModifyMesh := true }
    ∧ absorbedRun.isOk = true
    ∧ absorbedRun.state.bNeedToAsyncModifyMesh = true
    ∧ absorbedRun.state.ModifyStatus.bStarted = false
    ∧ (∃ s' es res, TickRest (pipelineAnswers { bStarted := true } {}) (1 / 60) false
          absorbedRun.state = .ok () s'
        ∧ s'.bNeedToAsyncModifyMesh = false ∧ s'.ModifyStatus = { bStarted := true }
        ∧ s'.Calls = absorbedRun.state.Calls
            ++ [.OnAfterAnimations,
                .RegisterGpuVertexModifier absorbedRun.state.GpuVertexModifier] ++ es
            ++ [.StartModifyVertices res
                  (asyncModifyOptions { WorldType := .Game, ViewDistances := [0] }
                    absorbedRun.state (1 / 60))
                  { bStarted := true }])
    ∧ reissueTick.isOk = true
    ∧ reissueTick.state.bNeedToAsyncModifyMesh = false
    ∧ watchedCalls absorbedRun.state reissueTick
        = [.StartModifyVertices (some 0)
            { RealTimeSeconds := 0, CuspAngle := 0, DesiredFrameRate := 60,
              LastFrameTime := 1 / 60 }
            { bStarted := true }] := by
  obtain ⟨h1, ⟨s', es, res, h2, h3, h4, h5, -⟩, -⟩ := ModifyMesh_absorbed_then_run_by_Tick
    (pipelineAnswers { bStarted := true } {}) (1 / 60) false absorbedRun.state
    { WorldType := .Game, ViewDistances := [0] } 0 0 0
    { MeshBuildResult := some 0, MeshSectionIndex := 0, LODIndex := 0 }
    { Original := some 0, Target := some 1 }
    (by decide!) (by decide!) (by decide!) (by decide!) rfl (by decide!)
    (by
      intro tg htg
      cases htg
      exact ⟨{ bSectionVisible := true }, by decide!, rfl⟩)
    (by decide!) (by decide!) rfl
  exact ⟨(h1 _ _ rfl).1, by decide!, by decide!, by decide!, ⟨s', es, res, h2, h3, h4, h5⟩,
    by decide!, by decide!, by decide!⟩

/-! ## Theorems: collision flags after BuildMesh -/

theorem StoresKept.kept_refl (s : AOpenLandMeshActor) : StoresKept s s :=
  ⟨fun _ _ h => h, fun _ _ h => h, fun _ m h => ⟨m, h, rfl⟩⟩

theorem StoresKept.kept_trans {a b c : AOpenLandMeshActor} (h1 : StoresKept a b)
    (h2 : StoresKept b c) : StoresKept a c := by
  refine ⟨fun p v h => h2.1 p v (h1.1 p v h), fun i v h => h2.2.1 i v (h1.2.1 i v h),
    fun t m h => ?_⟩
  obtain ⟨m1, hm1, e1⟩ := h1.2.2 t m h
  obtain ⟨m2, hm2, e2⟩ := h2.2.2 t m1 hm1
  exact ⟨m2, hm2, e2.trans e1⟩

theorem StoresKept.of_eq {s s' : AOpenLandMeshActor} (hL : s'.LODs = s.LODs)
    (hR : s'.Results = s.Results) (hM : s'.Meshes = s.Meshes) : StoresKept s s' := by
  exact ⟨fun p v h => by rw [hL]; exact h, fun i v h => by rw [hR]; exact h,
    fun t m h => ⟨m, by rw [hM]; exact h, rfl⟩⟩

theorem carriesCollision_some {s : AOpenLandMeshActor} {LOD : Option Nat} {b : Bool}
    (h : carriesCollision s LOD = some b) :
    ∃ p lod i r t m, LOD = some p ∧ s.LODs[p]? = some lod ∧ lod.MeshBuildResult = some i
      ∧ s.Results[i]? = some r ∧ r.Target = some t ∧ s.Meshes[t]? = some m
      ∧ m.bEnableCollision = b := by
  unfold carriesCollision at h
  cases LOD with
  | none => simp at h
  | some p =>
    cases hl : s.LODs[p]? with
    | none => simp [hl] at h
    | some lod =>
      cases hi : lod.MeshBuildResult with
      | none => simp [hl, hi] at h
      | some i =>
        cases hr : s.Results[i]? with
        | none => simp [hl, hi, hr] at h
        | some r =>
          cases ht : r.Target with
          | none => simp [hl, hi, hr, ht] at h
          | some t =>
            cases hm : s.Meshes[t]? with
            | none => simp [hl, hi, hr, ht, hm] at h
            | some m =>
              simp [hl, hi, hr, ht, hm] at h
              exact ⟨p, lod, i, r, t, m, rfl, hl, hi, hr, ht, hm, h⟩

theorem carriesCollision_of {s : AOpenLandMeshActor} {p i t : Nat} {lod : FLODInfo}
    {r : FOpenLandPolygonMeshBuildResult} {m : FSimpleMeshInfo}
    (hl : s.LODs[p]? = some lod) (hi : lod.MeshBuildResult = some i)
    (hr : s.Results[i]? = some r) (ht : r.Target = some t) (hm : s.Meshes[t]? = some m) :
    carriesCollision s (some p) = some m.bEnableCollision := by
  simp [carriesCollision, hl, hi, hr, ht, hm]

theorem StoresKept.carries {s s' : AOpenLandMeshActor} (h : StoresKept s s')
    {LOD : Option Nat} {b : Bool} (hc : carriesCollision s LOD = some b) :
    carriesCollision s' LOD = some b := by
  obtain ⟨p, lod, i, r, t, m, rfl, hl, hi, hr, ht, hm, hb⟩ := carriesCollision_some hc
  obtain ⟨m', hm', e⟩ := h.2.2 t m hm
  rw [carriesCollision_of (h.1 p lod hl) hi (h.2.1 i r hr) ht hm', e, hb]

theorem StoresKept.setMesh (s : AOpenLandMeshActor) (t : Nat) (v : FSimpleMeshInfo)
    (hv : ∀ m, s.Meshes[t]? = some m → v.bEnableCollision = m.bEnableCollision)
    (s' : AOpenLandMeshActor) (hL : s'.LODs = s.LODs) (hR : s'.Results = s.Results)
    (hM : s'.Meshes = s.Meshes.set t v) : StoresKept s s' := by
  refine ⟨fun p v h => by rw [hL]; exact h, fun i v h => by rw [hR]; exact h,
    fun u m h => ?_⟩
  rw [hM, List.getElem?_set]
  by_cases htu : t = u
  · subst htu
    have hlt : t < s.Meshes.length := (List.getElem?_eq_some_iff.1 h).1
    simp [hlt]
    exact hv m h
  · simp [htu, h]

theorem getElem_append_pair {α : Type} (l : List α) (a b : α)
    (h : l.length + 1 < (l ++ [a, b]).length) : (l ++ [a, b])[l.length + 1] = b := by
  rw [List.getElem_append_right (by omega)]
  simp

theorem BuildMeshLoop_zero (env : Env) (w K : Int) (list : List (Option Nat))
    (S : AOpenLandMeshActor) : BuildMeshLoop env w 0 K list S = .ok list S := rfl

theorem BuildMeshLoop_succ (env : Env) (w : Int) (n : Nat) (K : Int)
    (list : List (Option Nat)) (S : AOpenLandMeshActor) (o t : FSimpleMeshInfo)
    (r : FOpenLandPolygonMeshBuildResult) (hpm : S.PolygonMesh ≠ none)
    (ha : env.BuildMeshAnswer K = .Fresh o (some t) r) :
    ∃ T : AOpenLandMeshActor,
      BuildMeshLoop env w (n + 1) K list S
        = BuildMeshLoop env w n (K + 1) (list ++ [some S.LODs.length]) T
      ∧ T.PolygonMesh = S.PolygonMesh ∧ T.bEnableCollision = S.bEnableCollision
      ∧ T.LODIndexForCollisions = S.LODIndexForCollisions
      ∧ T.CurrentLODIndex = S.CurrentLODIndex
      ∧ StoresKept S T
      ∧ carriesCollision T (some S.LODs.length)
          = some (S.bEnableCollision
              && decide (S.LODIndexForCollisions < 0 ∨ K = S.LODIndexForCollisions)) := by
  obtain ⟨pm, hpm⟩ := Option.ne_none_iff_exists'.1 hpm
  refine ⟨{ S with
      Calls := S.Calls ++ [.BuildMesh
        (FOpenLandPolygonMeshBuildOptions.mk (max (S.SubDivisions - K) 0) S.SmoothNormalAngle w)
        (MakeCacheKey env.GetCacheKey S.SubDivisions (max (S.SubDivisions - K) 0))]
      Meshes := S.Meshes ++ [o, { t with
        bSectionVisible := false
        bEnableCollision := S.bEnableCollision
          && decide (S.LODIndexForCollisions < 0 ∨ K = S.LODIndexForCollisions) }]
      Results := S.Results ++ [{ r with
        Original := some S.Meshes.length, Target := some (S.Meshes.length + 1) }]
      LODs := S.LODs ++ [FLODInfo.mk (some S.Results.length) K K false] }, ?_, rfl, rfl, rfl, rfl, ?_, ?_⟩
  · by_cases hc : S.LODIndexForCollisions ≥ 0 ∧ S.bEnableCollision = true
    · have h1 : ¬ S.LODIndexForCollisions < 0 := not_lt.2 hc.1
      simp [BuildMeshLoop, viaPolygonMesh, hpm, takeAnswer, ha, newMesh, newResult,
        derefResult, storeMesh, derefMesh, newLOD, hc, h1, getElem_append_pair]
    · have hX : (S.bEnableCollision && (decide (S.LODIndexForCollisions < 0)
          || decide (K = S.LODIndexForCollisions))) = S.bEnableCollision := by
        by_cases h0 : S.LODIndexForCollisions < 0
        · simp [h0]
        · cases hb : S.bEnableCollision with
          | false => simp
          | true => exact absurd ⟨not_lt.1 h0, hb⟩ hc
      simp [BuildMeshLoop, viaPolygonMesh, hpm, takeAnswer, ha, newMesh, newResult,
        derefResult, storeMesh, derefMesh, newLOD, hc, getElem_append_pair, hX]
  · refine ⟨fun p v h => ?_, fun i v h => ?_, fun u m h => ⟨m, ?_, rfl⟩⟩
    · have hlt : p < S.LODs.length := (List.getElem?_eq_some_iff.1 h).1
      simp only [List.getElem?_append_left hlt, h]
    · have hlt : i < S.Results.length := (List.getElem?_eq_some_iff.1 h).1
      simp only [List.getElem?_append_left hlt, h]
    · have hlt : u < S.Meshes.length := (List.getElem?_eq_some_iff.1 h).1
      simp only [List.getElem?_append_left hlt, h]
  · simp [carriesCollision, List.getElem?_append_right, getElem_append_pair]

theorem BuildMeshLoop_collision (env : Env) (w : Int) :
    ∀ (n : Nat) (K : Int) (list : List (Option Nat)) (S : AOpenLandMeshActor),
      S.PolygonMesh ≠ none →
      (∀ k : Int, K ≤ k → k < K + n →
        ∃ o t r, env.BuildMeshAnswer k = .Fresh o (some t) r) →
      ∃ (list' : List (Option Nat)) (S' : AOpenLandMeshActor),
        BuildMeshLoop env w n K list S = .ok (list ++ list') S'
        ∧ list'.length = n
        ∧ S'.CurrentLODIndex = S.CurrentLODIndex
        ∧ StoresKept S S'
        ∧ ∀ j : Nat, j < n → ∃ LOD, list'[j]? = some LOD
            ∧ carriesCollision S' LOD
              = some (S.bEnableCollision && decide (S.LODIndexForCollisions < 0
                  ∨ K + j = S.LODIndexForCollisions)) := by
  intro n
  induction n with
  | zero =>
    intro K list S _ _
    exact ⟨[], S, by simp [BuildMeshLoop_zero], rfl, rfl, StoresKept.kept_refl S,
      fun j hj => absurd hj (Nat.not_lt_zero j)⟩
  | succ n ih =>
    intro K list S hpm hans
    obtain ⟨o, t, r, ha⟩ := hans K le_rfl (by push_cast; omega)
    obtain ⟨T, hT, hTpm, hTc, hTi, hTcur, hTk, hTcar⟩ :=
      BuildMeshLoop_succ env w n K list S o t r hpm ha
    obtain ⟨list', S', h1, h2, h3, h4, h5⟩ := ih (K + 1) (list ++ [some S.LODs.length]) T
      (by rw [hTpm]; exact hpm)
      (fun k hk1 hk2 => hans k (by omega) (by push_cast; omega))
    refine ⟨some S.LODs.length :: list', S', ?_, by simp [h2], h3.trans hTcur,
      hTk.kept_trans h4, fun j hj => ?_⟩
    · rw [hT, h1]; simp
    · cases j with
      | zero =>
        exact ⟨some S.LODs.length, by simp, by simpa using h4.carries hTcar⟩
      | succ j =>
        obtain ⟨LOD, hl, hc⟩ := h5 j (by omega)
        refine ⟨LOD, by simpa using hl, ?_⟩
        rw [hc, hTc, hTi]
        have : K + 1 + (j : Int) = K + ((j + 1 : Nat) : Int) := by push_cast; ring
        rw [this]

theorem elemAt_mem {α : Type} {l : List α} {i : Int} {x : α} (h : elemAt l i = some x) :
    x ∈ l := by
  unfold elemAt at h
  split at h
  · obtain ⟨hlt, he⟩ := List.getElem?_eq_some_iff.1 h
    rw [← he]
    exact List.getElem_mem _
  · cases h

theorem RegisterSectionsLoop_cons (LOD : Option Nat) (rest : List (Option Nat))
    (S : AOpenLandMeshActor) (b : Bool) (h : carriesCollision S LOD = some b) :
    ∃ T : AOpenLandMeshActor,
      RegisterSectionsLoop (LOD :: rest) S = RegisterSectionsLoop rest T
      ∧ T.CurrentLODIndex = S.CurrentLODIndex ∧ StoresKept S T := by
  obtain ⟨p, lod, i, r, t, m, rfl, hl, hi, hr, ht, hm, -⟩ := carriesCollision_some h
  have hlt : t < S.Meshes.length := (List.getElem?_eq_some_iff.1 hm).1
  by_cases hs : NumMeshSections S > lod.MeshSectionIndex
  · refine ⟨{ S with
        Meshes := S.Meshes.set t
          { m with bSectionVisible := decide (lod.LODIndex = S.CurrentLODIndex) }
        Calls := S.Calls ++ [.ReplaceMeshSection lod.MeshSectionIndex (some t)]
        Sections := if 0 ≤ lod.MeshSectionIndex
          then S.Sections.set lod.MeshSectionIndex.toNat (some t) else S.Sections },
      ?_, rfl, StoresKept.setMesh S t _ (fun m' hm' => ?_) _ rfl rfl rfl⟩
    · simp [RegisterSectionsLoop, derefLOD, derefResult, storeMesh, derefMesh, hl, hi, hr, ht,
        hm, hs, ReplaceMeshSection]
    · rw [hm] at hm'
      cases hm'
      rfl
  · refine ⟨{ S with
        Meshes := S.Meshes.set t
          { m with bSectionVisible := decide (lod.LODIndex = S.CurrentLODIndex) }
        Calls := S.Calls ++ [.CreateMeshSection lod.MeshSectionIndex (some t)]
        Sections := S.Sections ++ [some t] },
      ?_, rfl, StoresKept.setMesh S t _ (fun m' hm' => ?_) _ rfl rfl rfl⟩
    · simp [RegisterSectionsLoop, derefLOD, derefResult, storeMesh, derefMesh, hl, hi, hr, ht,
        hm, hs, CreateMeshSection]
    · rw [hm] at hm'
      cases hm'
      rfl

theorem RegisterSectionsLoop_ok : ∀ (list : List (Option Nat)) (S : AOpenLandMeshActor),
    (∀ LOD ∈ list, ∃ b, carriesCollision S LOD = some b) →
    ∃ S' : AOpenLandMeshActor, RegisterSectionsLoop list S = .ok () S'
      ∧ S'.CurrentLODIndex = S.CurrentLODIndex ∧ StoresKept S S' := by
  intro list
  induction list with
  | nil => exact fun S _ => ⟨S, rfl, rfl, StoresKept.kept_refl S⟩
  | cons LOD rest ih =>
    intro S h
    obtain ⟨b, hb⟩ := h LOD (List.mem_cons_self _ _)
    obtain ⟨T, hT, hTc, hTk⟩ := RegisterSectionsLoop_cons LOD rest S b hb
    obtain ⟨S', h1, h2, h3⟩ := ih T fun L hL => by
      obtain ⟨b', hb'⟩ := h L (List.mem_cons_of_mem _ hL)
      exact ⟨b', hTk.carries hb'⟩
    exact ⟨S', by rw [hT, h1], h2.trans hTc, hTk.kept_trans h3⟩

theorem ApplyInstancesLoop_ok (S : AOpenLandMeshActor)
    (hlist : ∀ LOD, some LOD ∈ S.LODList → ∃ b, carriesCollision S (some LOD) = some b)
    (hcur : ∃ b, carriesCollision S S.CurrentLOD = some b) :
    ∀ l : List Int, ApplyInstancesLoop l S = .ok () S := by
  intro l
  induction l with
  | nil => rfl
  | cons d rest ih =>
    have key : ∀ LOD : Option Nat, (∃ b, carriesCollision S LOD = some b) →
        ((do
          let lod ← derefLOD LOD
          let r ← derefResult lod.MeshBuildResult
          let _ ← derefMesh r.Target
          ApplyInstancesLoop rest) : Op Unit) S = .ok () S := by
      intro LOD ⟨b, hb⟩
      obtain ⟨p, lod, i, r, t, m, rfl, hl, hi, hr, ht, hm, -⟩ := carriesCollision_some hb
      simp [derefLOD, derefResult, derefMesh, hl, hi, hr, ht, hm, ih]
    unfold ApplyInstancesLoop
    simp only [read_bind]
    apply key
    split
    · split
      · rename_i DesiredLOD hD
        apply hlist
        cases he : elemAt S.LODList d with
        | none => rw [he] at hD; cases hD
        | some x =>
          rw [he] at hD
          have hx : x = some DesiredLOD := hD
          rw [← hx]
          exact elemAt_mem he
      · exact hcur
    · exact hcur

theorem carriesCollision_congr {s s' : AOpenLandMeshActor} (hL : s'.LODs = s.LODs)
    (hR : s'.Results = s.Results) (hM : s'.Meshes = s.Meshes) (LOD : Option Nat) :
    carriesCollision s' LOD = carriesCollision s LOD := by
  unfold carriesCollision
  rw [hL, hR, hM]

theorem SetMaterialLoop_ok : ∀ (n : Nat) (i : Int) (S : AOpenLandMeshActor),
    ∃ S' : AOpenLandMeshActor, SetMaterialLoop n i S = .ok () S'
      ∧ { S' with Calls := S.Calls } = S := by
  intro n
  induction n with
  | zero => exact fun i S => ⟨S, rfl, rfl⟩
  | succ n ih =>
    intro i S
    obtain ⟨S', h1, h2⟩ := ih (i + 1) { S with Calls := S.Calls ++ [.SetSectionMaterial i] }
    refine ⟨S', h1, ?_⟩
    have := congrArg (fun x : AOpenLandMeshActor => { x with Calls := S.Calls }) h2
    exact this

theorem SetMaterial_ok (S : AOpenLandMeshActor) :
    ∃ S' : AOpenLandMeshActor, SetMaterial S = .ok () S' ∧ { S' with Calls := S.Calls } = S :=
  SetMaterialLoop_ok S.Sections.length 0 S

theorem ApplyInstances_ok (env : Env) (S : AOpenLandMeshActor) (World : UWorld)
    (hworld : env.World = some World)
    (hlist : ∀ LOD, some LOD ∈ S.LODList → ∃ b, carriesCollision S (some LOD) = some b)
    (hcur : ∃ b, carriesCollision S S.CurrentLOD = some b) :
    ∃ S' : AOpenLandMeshActor, ApplyInstances env S = .ok () S'
      ∧ { S' with Calls := S.Calls } = S := by
  unfold ApplyInstances
  rw [hworld, need_some_bind]
  by_cases h1 : World.WorldType = .EditorPreview
  · rw [if_pos h1]; exact ⟨S, rfl, rfl⟩
  · rw [if_neg h1]
    by_cases h2 : env.bTransient = true
    · rw [if_pos h2]; exact ⟨S, rfl, rfl⟩
    · rw [if_neg h2, read_bind]
      refine ⟨{ S with Calls := S.Calls ++ [.CreateInstances] }, ?_, rfl⟩
      simp only [Op.bind_apply, ApplyInstancesLoop_ok S hlist hcur]
      rfl

theorem ends_of_ok {α β : Type} {m : Op α} {f : α → Op β} {s : AOpenLandMeshActor}
    {Q : β → AOpenLandMeshActor → Prop} {X : AOpenLandMeshActor → Prop}
    {P : α → AOpenLandMeshActor → Prop} (hm : ∃ x s', m s = .ok x s' ∧ P x s')
    (h : ∀ x s', P x s' → Ends (f x s') Q X) : Ends ((m >>= f) s) Q X := by
  obtain ⟨x, s', e, hp⟩ := hm
  apply ends_bind
  rw [e]
  exact h x s' hp

theorem BuildMesh_tiers (env : Env) (s : AOpenLandMeshActor) (World : UWorld)
    (hworld : env.World = some World) (hN : 1 ≤ s.MaximumLODCount)
    (hcur : 0 ≤ s.CurrentLODIndex)
    (hans : ∀ k : Int, 0 ≤ k → k < s.MaximumLODCount →
      ∃ o t r, env.BuildMeshAnswer k = .Fresh o (some t) r) :
    Ends (BuildMesh env s)
      (fun _ s' => (s'.LODList.length : Int) = s.MaximumLODCount
        ∧ ∀ k : Nat, (k : Int) < s.MaximumLODCount →
            ∃ LOD, s'.LODList[k]? = some LOD
              ∧ carriesCollision s' LOD
                = some (s.bEnableCollision && decide (s.LODIndexForCollisions < 0
                    ∨ (k : Int) = s.LODIndexForCollisions)))
      (fun _ => False) := by
  unfold BuildMesh
  rw [hworld, need_some_bind, read_bind]
  have hpre : ∃ (x : Unit) (s1 : AOpenLandMeshActor),
      (if World.WorldType = .Editor ∧ s.PolygonMesh.isSome = true then (do
          Op.call (.RegisterGpuVertexModifier FComputeMaterial.empty)
          Op.call (.RegisterVertexModifier false) : Op Unit)
        else pure ()) s = .ok x s1
      ∧ { s1 with Calls := s.Calls } = s := by
    by_cases hc : World.WorldType = .Editor ∧ s.PolygonMesh.isSome = true
    · rw [if_pos hc]; exact ⟨(), _, rfl, rfl⟩
    · rw [if_neg hc]; exact ⟨(), _, rfl, rfl⟩
  refine ends_of_ok hpre fun _ s1 h1 => ?_
  refine ends_update_bind _ _ _ fun s2 h2 => ?_
  refine ends_via_bind _ _ _ (fun h => ?_) fun s3 _ h3 => ?_
  · subst h2; simp at h
  have hgpu : ∃ (x : Unit) (s4 : AOpenLandMeshActor), registerGpuIfEnabled s3 = .ok x s4
      ∧ { s4 with Calls := s3.Calls } = s3 := by
    unfold registerGpuIfEnabled
    rw [read_bind]
    have hp : s3.PolygonMesh = some (env.GetPolygonMesh.getD env.NewPolygonMesh) := by
      subst h3; subst h2; rfl
    by_cases hc : s3.bRunGpuVertexModifiers = true
    · rw [if_pos hc]
      exact ⟨(), { s3 with Calls := s3.Calls ++ [.RegisterGpuVertexModifier s3.GpuVertexModifier] },
        by simp [viaPolygonMesh, hp], rfl⟩
    · rw [if_neg hc]
      exact ⟨(), { s3 with Calls := s3.Calls ++ [.RegisterGpuVertexModifier FComputeMaterial.empty] },
        by simp [viaPolygonMesh, hp], rfl⟩
  refine ends_of_ok hgpu fun _ s4 h4 => ?_
  have e43 : ∀ {β : Type} (g : AOpenLandMeshActor → β),
      g { s4 with Calls := s3.Calls } = g s3 := fun g => congrArg g h4
  have e1 : ∀ {β : Type} (g : AOpenLandMeshActor → β),
      g { s1 with Calls := s.Calls } = g s := fun g => congrArg g h1
  have hpm4 : s4.PolygonMesh ≠ none := by
    have := e43 AOpenLandMeshActor.PolygonMesh
    subst h3; subst h2
    simp at this
    simp [this]
  have hcur4 : s4.CurrentLODIndex = s.CurrentLODIndex := by
    have := e43 AOpenLandMeshActor.CurrentLODIndex
    have := e1 AOpenLandMeshActor.CurrentLODIndex
    subst h3; subst h2
    simp_all
  have hcol4 : s4.bEnableCollision = s.bEnableCollision := by
    have := e43 AOpenLandMeshActor.bEnableCollision
    have := e1 AOpenLandMeshActor.bEnableCollision
    subst h3; subst h2
    simp_all
  have hidx4 : s4.LODIndexForCollisions = s.LODIndexForCollisions := by
    have := e43 AOpenLandMeshActor.LODIndexForCollisions
    have := e1 AOpenLandMeshActor.LODIndexForCollisions
    subst h3; subst h2
    simp_all
  clear e43 e1 h4 h3 h2 h1 hpre hgpu
  obtain ⟨list', s5, hloop, hlen, hcur5, -, hcar5⟩ :=
    BuildMeshLoop_collision env (CeilSqrt env (env.CalculateVerticesForSubdivision s.SubDivisions))
      s.MaximumLODCount.toNat 0 [] s4 hpm4
      (fun k hk1 hk2 => hans k hk1 (by omega))
  rw [hcol4, hidx4] at hcar5
  rw [List.nil_append] at hloop
  refine ends_of_ok (P := fun x s' => x = list' ∧ s' = s5) ⟨_, _, hloop, rfl, rfl⟩ ?_
  intro x5 s5' h5
  rw [h5.1, h5.2]
  clear h5 x5 s5'
  have hvalid : ∀ LOD ∈ list', ∃ b, carriesCollision s5 LOD = some b := by
    intro LOD hL
    obtain ⟨j, hj, rfl⟩ := List.getElem_of_mem hL
    obtain ⟨LOD', hl, hc⟩ := hcar5 j (by omega)
    rw [List.getElem?_eq_getElem hj] at hl
    cases hl
    exact ⟨_, hc⟩
  have hreg : ∃ (x : Unit) (s6 : AOpenLandMeshActor),
      (if CanRenderMesh env s = true then (do
          RegisterSectionsLoop list'
          Op.call (.SetupCollisions s.bUseAsyncCollisionCooking)
          Op.call .InvalidateRendering : Op Unit)
        else (do
          RemoveAllSections
          Op.call .InvalidateRendering : Op Unit)) s5 = .ok x s6
      ∧ s6.CurrentLODIndex = s5.CurrentLODIndex ∧ StoresKept s5 s6 := by
    by_cases hc : CanRenderMesh env s = true
    · rw [if_pos hc]
      obtain ⟨s6, h1, h2, h3⟩ := RegisterSectionsLoop_ok list' s5 hvalid
      refine ⟨(), { s6 with Calls := s6.Calls
          ++ [.SetupCollisions s.bUseAsyncCollisionCooking] ++ [.InvalidateRendering] }, ?_, h2,
        h3.kept_trans (StoresKept.of_eq rfl rfl rfl)⟩
      simp only [Op.bind_apply, h1]
      rfl
    · rw [if_neg hc]
      exact ⟨(), { s5 with Calls := s5.Calls ++ [.RemoveAllSections] ++ [.InvalidateRendering]
                           Sections := [] }, rfl, rfl, StoresKept.of_eq rfl rfl rfl⟩
  refine ends_of_ok hreg fun _ s6 ⟨hcur6, hk6⟩ => ?_
  refine ends_update_bind _ _ _ fun s7 h7 => ?_
  have hNn : ((s.MaximumLODCount.toNat : Nat) : Int) = s.MaximumLODCount :=
    Int.toNat_of_nonneg (by omega)
  have hidx : ∃ (x : Unit) (s8 : AOpenLandMeshActor),
      (if s.CurrentLODIndex ≥ (list'.length : Int) then
          Op.update fun x => { x with CurrentLODIndex := 0 }
        else pure ()) s7 = .ok x s8
      ∧ ∃ c : Int, s8 = { s7 with CurrentLODIndex := c } ∧ 0 ≤ c ∧ c < s.MaximumLODCount := by
    by_cases hc : s.CurrentLODIndex ≥ (list'.length : Int)
    · rw [if_pos hc]
      exact ⟨(), _, rfl, 0, rfl, le_rfl, by omega⟩
    · rw [if_neg hc]
      refine ⟨(), s7, rfl, s7.CurrentLODIndex, rfl, ?_, ?_⟩
      · subst h7
        show 0 ≤ s6.CurrentLODIndex
        rw [hcur6, hcur5, hcur4]
        exact hcur
      · subst h7
        show s6.CurrentLODIndex < _
        rw [hcur6, hcur5, hcur4]
        rw [hlen, hNn] at hc
        omega
  refine ends_of_ok hidx fun _ s8 ⟨c, h8, hc0, hcN⟩ => ?_
  rw [read_bind]
  have hL8 : s8.LODList = list' := by subst h8; subst h7; rfl
  have hC8 : s8.CurrentLODIndex = c := by subst h8; rfl
  have hclt : c.toNat < list'.length := by rw [hlen]; omega
  have hel : elemAt s8.LODList s8.CurrentLODIndex = some (list'.get ⟨c.toNat, hclt⟩) := by
    rw [hL8, hC8]
    unfold elemAt
    rw [if_pos hc0, List.getElem?_eq_getElem hclt]
    rfl
  rw [hel, need_some_bind]
  refine ends_update_bind _ _ _ fun s9 h9 => ?_
  have hmat : ∃ (x : Unit) (s10 : AOpenLandMeshActor), SetMaterial s9 = .ok x s10
      ∧ { s10 with Calls := s9.Calls } = s9 :=
    ⟨(), SetMaterial_ok s9⟩
  refine ends_of_ok hmat fun _ s10 h10 => ?_
  refine ends_update_bind _ _ _ fun s11 h11 => ?_
  have e10 : ∀ {β : Type} (g : AOpenLandMeshActor → β),
      g { s10 with Calls := s9.Calls } = g s9 := fun g => congrArg g h10
  have hL11 : s11.LODList = list' := by
    have := e10 AOpenLandMeshActor.LODList
    subst h11; subst h9
    simp at this
    simp [this, hL8]
  have hcur11 : s11.CurrentLOD = list'.get ⟨c.toNat, hclt⟩ := by
    have := e10 AOpenLandMeshActor.CurrentLOD
    subst h11; subst h9
    simp at this
    simp [this]
  have hk11 : StoresKept s6 s11 := by
    have a := e10 AOpenLandMeshActor.LODs
    have b := e10 AOpenLandMeshActor.Results
    have d := e10 AOpenLandMeshActor.Meshes
    subst h11; subst h9; subst h8; subst h7
    simp at a b d
    exact StoresKept.of_eq a b d
  clear e10 h11 h10 hmat h9 hel hC8 hL8 h8 hidx h7 hreg
  have hcar11 : ∀ j : Nat, (hj : j < list'.length) →
      carriesCollision s11 (list'.get ⟨j, hj⟩)
        = some (s.bEnableCollision && decide (s.LODIndexForCollisions < 0
            ∨ (j : Int) = s.LODIndexForCollisions)) := by
    intro j hj
    obtain ⟨LOD, hl, hc⟩ := hcar5 j (by omega)
    rw [List.getElem?_eq_getElem hj] at hl
    cases hl
    simpa using hk11.carries (hk6.carries hc)
  have hpost : ∀ S' : AOpenLandMeshActor, { S' with Calls := s11.Calls } = s11 →
      (S'.LODList.length : Int) = s.MaximumLODCount
      ∧ ∀ k : Nat, (k : Int) < s.MaximumLODCount →
          ∃ LOD, S'.LODList[k]? = some LOD
            ∧ carriesCollision S' LOD
              = some (s.bEnableCollision && decide (s.LODIndexForCollisions < 0
                  ∨ (k : Int) = s.LODIndexForCollisions)) := by
    intro S' hS
    have e : ∀ {β : Type} (g : AOpenLandMeshActor → β),
        g { S' with Calls := s11.Calls } = g s11 := fun g => congrArg g hS
    have hL : S'.LODList = list' := (e AOpenLandMeshActor.LODList).trans hL11
    have hcg : ∀ LOD, carriesCollision S' LOD = carriesCollision s11 LOD :=
      carriesCollision_congr (e AOpenLandMeshActor.LODs) (e AOpenLandMeshActor.Results)
        (e AOpenLandMeshActor.Meshes)
    refine ⟨by rw [hL, hlen, hNn], fun k hk => ?_⟩
    have hkl : k < list'.length := by rw [hlen]; omega
    exact ⟨list'.get ⟨k, hkl⟩, by rw [hL, List.getElem?_eq_getElem hkl]; rfl,
      by rw [hcg]; exact hcar11 k hkl⟩
  by_cases hrun : s.bRunInstancingAfterBuildMesh = true
  · rw [if_pos hrun]
    obtain ⟨S', hS1, hS2⟩ := ApplyInstances_ok env s11 World hworld
      (fun LOD hmem => by
        rw [hL11] at hmem
        obtain ⟨j, hj, he⟩ := List.getElem_of_mem hmem
        have := hcar11 j hj
        rw [List.get_eq_getElem, he] at this
        exact ⟨_, this⟩)
      (by rw [hcur11]; exact ⟨_, hcar11 _ hclt⟩)
    rw [hS1]
    exact hpost S' hS2
  · rw [if_neg hrun]
    exact hpost s11 rfl

/-- C11, a bug of the code: `BuildMesh` does not apply the collision rule to the tier
that `SwitchLODs` takes for the collision tier, and writes the flag on a target that
tiers share. (1) The three-tier actor with collision enabled and
`LODIndexForCollisions = 5` (a tier is designated, `5 >= 0`) is built by `BuildMesh`,
which runs to its end and builds the three tiers; the target of none of them carries
collision, the tier that `SwitchLODs` forces as the collision tier of the unbuilt actor
(2, the last) included: `BuildMesh` compares the tier index with `LODIndexForCollisions`
itself, without the clamp to `MaximumLODCount - 1` that `SwitchLODs` applies. (2) In
`sharedDepthWorld` the three tiers have one depth and one cache key, so the proxy hands
back one build result for the three: with tier 0 designated no tier carries collision
after `BuildMesh` (the flag written for tier 2 is the one all end with), and with
tier 2 designated all three tiers carry it. -/
theorem BuildMesh_designated_tier_beyond_count :
    ((collisionTier 5).bEnableCollision = true
      ∧ (collisionTier 5).LODIndexForCollisions ≥ 0
      ∧ (BuildMesh (viewerAt 0) (collisionTier 5)).isOk = true
      ∧ (BuildMesh (viewerAt 0) (collisionTier 5)).state.LODList.length = 3
      ∧ tierCollisions (BuildMesh (viewerAt 0) (collisionTier 5))
          = [some false, some false, some false]
      ∧ desiredLOD (viewerAt 0) (collisionTier 5) 0 = 2)
    ∧ ((BuildMesh sharedDepthWorld (collisionTier 0)).isOk = true
      ∧ (BuildMesh sharedDepthWorld (collisionTier 0)).state.Calls.filter Event.isBuildMesh
          = [.BuildMesh (FOpenLandPolygonMeshBuildOptions.mk 0 0 0) "terrain::0::0",
             .BuildMesh (FOpenLandPolygonMeshBuildOptions.mk 0 0 0) "terrain::0::0",
             .BuildMesh (FOpenLandPolygonMeshBuildOptions.mk 0 0 0) "terrain::0::0"]
      ∧ (BuildMesh sharedDepthWorld (collisionTier 0)).state.LODs
          = [FLODInfo.mk (some 0) 0 0 false, FLODInfo.mk (some 0) 1 1 false,
             FLODInfo.mk (some 0) 2 2 false]
      ∧ tierCollisions (BuildMesh sharedDepthWorld (collisionTier 0))
          = [some false, some false, some false]
      ∧ (BuildMesh sharedDepthWorld (collisionTier 2)).isOk = true
      ∧ tierCollisions (BuildMesh sharedDepthWorld (collisionTier 2))
          = [some true, some true, some true]) := by
  refine ⟨⟨?_, ?_, ?_, ?_, ?_, ?_⟩, ⟨?_, ?_, ?_, ?_, ?_, ?_⟩⟩ <;> decide!

/-- The collision flags `BuildMesh` leaves when no two tiers share a target: in a world,
with `MaximumLODCount >= 1`, `CurrentLODIndex >= 0` and a proxy whose `BuildMesh` hands
back for every tier a new build result with a target mesh
of its own, `BuildMesh` runs to its end, the LOD list it leaves has `MaximumLODCount`
tiers, and the target of tier `k` carries collision exactly when collision is enabled and
`LODIndexForCollisions < 0` or `k = LODIndexForCollisions`. So with collision enabled:
with `LODIndexForCollisions < 0` every built tier carries collision; with
`0 <= LODIndexForCollisions < MaximumLODCount` that tier and only that tier does; with
`LODIndexForCollisions >= MaximumLODCount` no built tier does. -/
theorem BuildMesh_collision_flags (env : Env) (s : AOpenLandMeshActor) (World : UWorld)
    (hworld : env.World = some World) (hN : 1 ≤ s.MaximumLODCount)
    (hcur : 0 ≤ s.CurrentLODIndex)
    (hans : ∀ k : Int, 0 ≤ k → k < s.MaximumLODCount →
      ∃ o t r, env.BuildMeshAnswer k = .Fresh o (some t) r) :
    ∃ s' : AOpenLandMeshActor, BuildMesh env s = .ok () s'
      ∧ (s'.LODList.length : Int) = s.MaximumLODCount
      ∧ ∀ k : Nat, (k : Int) < s.MaximumLODCount →
          ∃ LOD, s'.LODList[k]? = some LOD
            ∧ carriesCollision s' LOD
              = some (s.bEnableCollision && decide (s.LODIndexForCollisions < 0
                  ∨ (k : Int) = s.LODIndexForCollisions)) := by
  obtain ⟨_, s', h1, h2, h3⟩ := ends_total (BuildMesh_tiers env s World hworld hN hcur hans)
  exact ⟨s', h1, h2, h3⟩

/-- An instance of `BuildMesh_collision_flags`: the three-tier actor with collision
enabled and tier 1 designated;
after `BuildMesh` tier 1, and only tier 1, carries collision; with no tier designated
(`LODIndexForCollisions = -1`) the three tiers carry collision. -/
theorem BuildMesh_collision_flags_witness :
    (∃ s' : AOpenLandMeshActor, BuildMesh (viewerAt 0) (collisionTier 1) = .ok () s'
      ∧ (s'.LODList.length : Int) = 3
      ∧ ∀ k : Nat, (k : Int) < 3 →
          ∃ LOD, s'.LODList[k]? = some LOD
            ∧ carriesCollision s' LOD = some (true && decide ((1 : Int) < 0 ∨ (k : Int) = 1)))
    ∧ tierCollisions (BuildMesh (viewerAt 0) (collisionTier 1))
        = [some false, some true, some false]
    ∧ tierCollisions (BuildMesh (viewerAt 0) (collisionTier (-1)))
        = [some true, some true, some true] :=
  ⟨BuildMesh_collision_flags (viewerAt 0) (collisionTier 1)
      { WorldType := .Game, ViewDistances := [0] } rfl (by decide) (by decide)
      (fun _ _ _ => ⟨{}, {}, {}, rfl⟩),
    by decide!, by decide!⟩

/-! ## Theorems: the poll of a started pass in a tick -/

theorem assignFirst_none_iff (assign : FComputeMaterialParameter → FComputeMaterialParameter)
    (Name : FName) : ∀ l : List FComputeMaterialParameter,
      assignFirst assign Name l = none ↔ firstNamed Name l = none := by
  intro l
  induction l with
  | nil => simp [assignFirst, firstNamed]
  | cons q rest ih =>
    by_cases hq : q.Name = Name
    · simp [assignFirst, firstNamed, hq]
    · simp [assignFirst, firstNamed, hq, ih]

theorem firstNamed_none_iff (Name : FName) : ∀ l : List FComputeMaterialParameter,
    firstNamed Name l = none ↔ Name ∉ l.map fun Param => Param.Name := by
  intro l
  induction l with
  | nil => simp [firstNamed]
  | cons q rest ih =>
    by_cases hq : q.Name = Name
    · simp [firstNamed, hq]
    · have hq' : ¬ Name = q.Name := fun h => hq h.symm
      simp [firstNamed, hq, hq', ih]

theorem assignFirst_some (assign : FComputeMaterialParameter → FComputeMaterialParameter)
    (hname : ∀ p, (assign p).Name = p.Name) (Name : FName) :
    ∀ (l l' : List FComputeMaterialParameter), assignFirst assign Name l = some l' →
      l'.length = l.length
      ∧ (l'.map fun Param => Param.Name) = (l.map fun Param => Param.Name)
      ∧ ∀ Other, Other ≠ Name → firstNamed Other l' = firstNamed Other l := by
  intro l
  induction l with
  | nil => intro l' h; simp [assignFirst] at h
  | cons q rest ih =>
    intro l' h
    by_cases hq : q.Name = Name
    · simp only [assignFirst, if_pos hq, Option.some.injEq] at h
      subst h
      refine ⟨rfl, by simp [hname], fun Other hO => ?_⟩
      have h1 : ¬ q.Name = Other := fun e => hO (e.symm.trans hq)
      simp [firstNamed, hname, h1]
    · simp only [assignFirst, if_neg hq, Option.map_eq_some'] at h
      obtain ⟨rest', hr, rfl⟩ := h
      obtain ⟨h1, h2, h3⟩ := ih rest' hr
      refine ⟨by simp [h1], by simp [h2], fun Other hO => ?_⟩
      by_cases hqo : q.Name = Other
      · simp [firstNamed, hqo]
      · simp [firstNamed, hqo, h3 Other hO]

theorem firstNamed_append_other (Name Other : FName) (q : FComputeMaterialParameter)
    (hq : q.Name = Name) (hO : Other ≠ Name) : ∀ l : List FComputeMaterialParameter,
    firstNamed Other (l ++ [q]) = firstNamed Other l := by
  intro l
  induction l with
  | nil =>
    have : ¬ q.Name = Other := fun e => hO (e.symm.trans hq)
    simp [firstNamed, this]
  | cons r rest ih =>
    by_cases hr : r.Name = Other
    · simp [firstNamed, hr]
    · simp [firstNamed, hr, ih]

/-- What a setter does to the list, for the three setters at once: `assign` is the
assignment to the entry found, `fresh` the entry pushed when none is found. -/
theorem setter_list_frame (assign : FComputeMaterialParameter → FComputeMaterialParameter)
    (hname : ∀ p, (assign p).Name = p.Name) (Name : FName)
    (fresh : FComputeMaterialParameter) (hfresh : fresh.Name = Name)
    (l : List FComputeMaterialParameter) :
    ∃ l', (match assignFirst assign Name l with
            | some updated => updated
            | none => l ++ [fresh]) = l'
      ∧ (∀ Other, Other ≠ Name → firstNamed Other l' = firstNamed Other l)
      ∧ l'.length = l.length + (if (firstNamed Name l).isSome then 0 else 1)
      ∧ ((l.map fun Param => Param.Name).Nodup → (l'.map fun Param => Param.Name).Nodup)
      ∧ ((firstNamed Name l).isSome = false → l' = l ++ [fresh])
      ∧ ((firstNamed Name l).isSome = true →
          (l'.map fun Param => Param.Name) = (l.map fun Param => Param.Name)) := by
  cases h : assignFirst assign Name l with
  | some updated =>
    obtain ⟨h1, h2, h3⟩ := assignFirst_some assign hname Name l updated h
    have hs : (firstNamed Name l).isSome = true := by
      cases hf : firstNamed Name l with
      | none => rw [(assignFirst_none_iff assign Name l).2 hf] at h; cases h
      | some _ => rfl
    exact ⟨updated, rfl, h3, by simp [h1, hs], fun hn => (by rw [h2]; exact hn),
      fun hc => (by rw [hs] at hc; cases hc), fun _ => h2⟩
  | none =>
    have hf : firstNamed Name l = none := (assignFirst_none_iff assign Name l).1 h
    refine ⟨l ++ [fresh], rfl, fun Other hO => firstNamed_append_other Name Other fresh hfresh hO l,
      by simp [hf], fun hn => ?_, fun _ => rfl, fun hc => (by rw [hf] at hc; cases hc)⟩
    rw [List.map_append, List.nodup_append]
    refine ⟨hn, by simp, ?_⟩
    intro a ha hb
    simp only [List.map_cons, List.map_nil, List.mem_singleton] at hb
    rw [hb, hfresh] at ha
    exact (firstNamed_none_iff Name l).1 hf ha

theorem valuesAt_congr (m m' : FComputeMaterial) (Other : FName)
    (h : firstNamed Other m'.Parameters = firstNamed Other m.Parameters) :
    m'.valuesAt Other = m.valuesAt Other := by
  simp [FComputeMaterial.valuesAt, FComputeMaterial.GetGPUScalarParameter,
    FComputeMaterial.GetGPUVectorParameter, FComputeMaterial.GetGPUTextureParameter, h]

theorem setter_frame_of_list (m m' : FComputeMaterial) (Name : FName)
    (assign : FComputeMaterialParameter → FComputeMaterialParameter)
    (fresh : FComputeMaterialParameter)
    (hm : m'.Parameters = (match assignFirst assign Name m.Parameters with
            | some updated => updated
            | none => m.Parameters ++ [fresh]))
    (hname : ∀ p, (assign p).Name = p.Name) (hfresh : fresh.Name = Name) :
    (∀ Other, Other ≠ Name → m'.valuesAt Other = m.valuesAt Other)
    ∧ m'.Parameters.length = m.Parameters.length + (if m.hasName Name then 0 else 1)
    ∧ (m.names.Nodup → m'.names.Nodup)
    ∧ (m.hasName Name = false →
        ∃ e : FComputeMaterialParameter, e.Name = Name ∧ m'.Parameters = m.Parameters ++ [e])
    ∧ (m.hasName Name = true → m'.names = m.names) := by
  obtain ⟨l', h0, h1, h2, h3, h4, h5⟩ :=
    setter_list_frame assign hname Name fresh hfresh m.Parameters
  rw [h0] at hm
  refine ⟨fun Other hO => valuesAt_congr m m' Other (by rw [hm]; exact h1 Other hO), ?_, ?_,
    fun hc => ⟨fresh, hfresh, by rw [hm]; exact h4 hc⟩, fun hc => ?_⟩
  · rw [hm, h2]; rfl
  · intro hn
    unfold FComputeMaterial.names
    rw [hm]
    exact h3 hn
  · unfold FComputeMaterial.names
    rw [hm]
    exact h5 hc

namespace FComputeMaterial

theorem SetGPUScalarParameter_list (m : FComputeMaterial) (Name : FName) (Value : ℚ) :
    (m.SetGPUScalarParameter Name Value).Parameters
      = (match assignFirst (fun Param => { Param with ScalarValue := Value }) Name
            m.Parameters with
          | some updated => updated
          | none => m.Parameters ++
              [{ Name := Name, ValueType := .CMPT_SCALAR, ScalarValue := Value }]) := by
  unfold SetGPUScalarParameter
  split <;> simp_all

theorem SetGPUVectorParameter_list (m : FComputeMaterial) (Name : FName) (Value : FVector) :
    (m.SetGPUVectorParameter Name Value).Parameters
      = (match assignFirst (fun Param => { Param with VectorValue := Value }) Name
            m.Parameters with
          | some updated => updated
          | none => m.Parameters ++
              [{ Name := Name, ValueType := .CMPT_VECTOR, ScalarValue := 0,
                 VectorValue := Value }]) := by
  unfold SetGPUVectorParameter
  split <;> simp_all

theorem SetGPUTextureParameter_list (m : FComputeMaterial) (Name : FName)
    (Value : Option Nat) :
    (m.SetGPUTextureParameter Name Value).Parameters
      = (match assignFirst (fun Param => { Param with TextureValue := Value }) Name
            m.Parameters with
          | some updated => updated
          | none => m.Parameters ++
              [{ Name := Name, ValueType := .CMPT_VECTOR, ScalarValue := 0,
                 VectorValue := FVector.ZeroVector, TextureValue := Value }]) := by
  unfold SetGPUTextureParameter
  split <;> simp_all

/-- C29: for every GPU parameter list `m` and all names `n`, `k` with `n ≠ k`, each of
the three setters called on `n` (with any value) leaves what the three getters return
for `k` unchanged; the list grows by exactly one entry when `n` was absent and keeps its
length when `n` was present; and a list whose names are pairwise distinct keeps
pairwise distinct names. -/
theorem setter_frame (m : FComputeMaterial) (n k : FName) (h : n ≠ k) :
    (∀ v : ℚ,
      (m.SetGPUScalarParameter n v).valuesAt k = m.valuesAt k
      ∧ (m.SetGPUScalarParameter n v).Parameters.length
          = m.Parameters.length + (if m.hasName n then 0 else 1)
      ∧ (m.names.Nodup → (m.SetGPUScalarParameter n v).names.Nodup)
      ∧ (m.hasName n = false → ∃ e : FComputeMaterialParameter,
          e.Name = n ∧ (m.SetGPUScalarParameter n v).Parameters = m.Parameters ++ [e])
      ∧ (m.hasName n = true → (m.SetGPUScalarParameter n v).names = m.names))
    ∧ (∀ v : FVector,
      (m.SetGPUVectorParameter n v).valuesAt k = m.valuesAt k
      ∧ (m.SetGPUVectorParameter n v).Parameters.length
          = m.Parameters.length + (if m.hasName n then 0 else 1)
      ∧ (m.names.Nodup → (m.SetGPUVectorParameter n v).names.Nodup)
      ∧ (m.hasName n = false → ∃ e : FComputeMaterialParameter,
          e.Name = n ∧ (m.SetGPUVectorParameter n v).Parameters = m.Parameters ++ [e])
      ∧ (m.hasName n = true → (m.SetGPUVectorParameter n v).names = m.names))
    ∧ (∀ v : Option Nat,
      (m.SetGPUTextureParameter n v).valuesAt k = m.valuesAt k
      ∧ (m.SetGPUTextureParameter n v).Parameters.length
          = m.Parameters.length + (if m.hasName n then 0 else 1)
      ∧ (m.names.Nodup → (m.SetGPUTextureParameter n v).names.Nodup)
      ∧ (m.hasName n = false → ∃ e : FComputeMaterialParameter,
          e.Name = n ∧ (m.SetGPUTextureParameter n v).Parameters = m.Parameters ++ [e])
      ∧ (m.hasName n = true → (m.SetGPUTextureParameter n v).names = m.names)) := by
  refine ⟨fun v => ?_, fun v => ?_, fun v => ?_⟩
  · obtain ⟨h1, h2, h3, h4, h5⟩ := setter_frame_of_list m (m.SetGPUScalarParameter n v) n _ _
      (SetGPUScalarParameter_list m n v) (fun _ => rfl) rfl
    exact ⟨h1 k (Ne.symm h), h2, h3, h4, h5⟩
  · obtain ⟨h1, h2, h3, h4, h5⟩ := setter_frame_of_list m (m.SetGPUVectorParameter n v) n _ _
      (SetGPUVectorParameter_list m n v) (fun _ => rfl) rfl
    exact ⟨h1 k (Ne.symm h), h2, h3, h4, h5⟩
  · obtain ⟨h1, h2, h3, h4, h5⟩ := setter_frame_of_list m (m.SetGPUTextureParameter n v) n _ _
      (SetGPUTextureParameter_list m n v) (fun _ => rfl) rfl
    exact ⟨h1 k (Ne.symm h), h2, h3, h4, h5⟩

/-- Witness for C29: a list with the scalar `wind` (name 1) and the texture `noise`
(name 2); setting the absent name 3 appends one entry, setting the present name 1 appends
none, and in both cases what the getters return for name 2 stays. -/
theorem setter_frame_witness :
    ((⟨3⟩ : FName) ≠ ⟨2⟩ ∧ (⟨1⟩ : FName) ≠ ⟨2⟩)
    ∧ (∀ v : ℚ,
        ((empty.SetGPUScalarParameter ⟨1⟩ 5).SetGPUTextureParameter ⟨2⟩ (some 7)
            |>.SetGPUScalarParameter ⟨3⟩ v).valuesAt ⟨2⟩ = (0, FVector.ZeroVector, some 7)
        ∧ ((empty.SetGPUScalarParameter ⟨1⟩ 5).SetGPUTextureParameter ⟨2⟩ (some 7)
            |>.SetGPUScalarParameter ⟨3⟩ v).Parameters.length = 3)
    ∧ (∀ v : FVector,
        ((empty.SetGPUScalarParameter ⟨1⟩ 5).SetGPUTextureParameter ⟨2⟩ (some 7)
            |>.SetGPUVectorParameter ⟨1⟩ v).valuesAt ⟨2⟩ = (0, FVector.ZeroVector, some 7)
        ∧ ((empty.SetGPUScalarParameter ⟨1⟩ 5).SetGPUTextureParameter ⟨2⟩ (some 7)
            |>.SetGPUVectorParameter ⟨1⟩ v).Parameters.length = 2) := by
  have a := setter_frame ((empty.SetGPUScalarParameter ⟨1⟩ 5).SetGPUTextureParameter ⟨2⟩ (some 7))
    ⟨3⟩ ⟨2⟩ (by decide)
  have b := setter_frame ((empty.SetGPUScalarParameter ⟨1⟩ 5).SetGPUTextureParameter ⟨2⟩ (some 7))
    ⟨1⟩ ⟨2⟩ (by decide)
  refine ⟨⟨by decide, by decide⟩, fun v => ?_, fun v => ?_⟩
  · obtain ⟨h1, h2, -, -, -⟩ := a.1 v
    exact ⟨h1.trans (by decide!), h2.trans (by decide!)⟩
  · obtain ⟨h1, h2, -, -, -⟩ := b.2.1 v
    exact ⟨h1.trans (by decide!), h2.trans (by decide!)⟩

/-- C26, the divergence: for every parameter list and every name not yet in the list,
the entry that `SetGPUScalarParameter` creates is of scalar kind and the entry that
`SetGPUVectorParameter` creates is of vector kind, but the entry that
`SetGPUTextureParameter` creates carries the kind `CMPT_VECTOR` too, not the texture
kind (its vector value is zero and its texture value is the value set). -/
theorem SetGPUTextureParameter_creates_vector_kind (m : FComputeMaterial) (Name : FName)
    (h : m.hasName Name = false) :
    (∀ v : ℚ, (m.SetGPUScalarParameter Name v).kindAt Name = some .CMPT_SCALAR)
    ∧ (∀ v : FVector, (m.SetGPUVectorParameter Name v).kindAt Name = some .CMPT_VECTOR)
    ∧ (∀ v : Option Nat,
        (m.SetGPUTextureParameter Name v).kindAt Name = some .CMPT_VECTOR
        ∧ (m.SetGPUTextureParameter Name v).kindAt Name ≠ some .CMPT_TEXTURE
        ∧ (m.SetGPUTextureParameter Name v).kindAt Name
            = (m.SetGPUVectorParameter Name FVector.ZeroVector).kindAt Name
        ∧ (m.SetGPUTextureParameter Name v).valuesAt Name = (0, FVector.ZeroVector, v)) := by
  have hf : firstNamed Name m.Parameters = none := by
    unfold hasName at h
    cases hx : firstNamed Name m.Parameters with
    | none => rfl
    | some _ => rw [hx] at h; cases h
  have key : ∀ (assign : FComputeMaterialParameter → FComputeMaterialParameter)
      (fresh : FComputeMaterialParameter), fresh.Name = Name →
      firstNamed Name (match assignFirst assign Name m.Parameters with
            | some updated => updated
            | none => m.Parameters ++ [fresh]) = some fresh := by
    intro assign fresh hfr
    have hn := (assignFirst_none_iff assign Name m.Parameters).2 hf
    rw [hn]
    exact firstNamed_append_of_none assign Name _ hn fresh hfr
  refine ⟨fun v => ?_, fun v => ?_, fun v => ?_⟩
  · unfold kindAt
    rw [SetGPUScalarParameter_list, key _ _ rfl]
    rfl
  · unfold kindAt
    rw [SetGPUVectorParameter_list, key _ _ rfl]
    rfl
  · have e1 : (m.SetGPUTextureParameter Name v).kindAt Name = some .CMPT_VECTOR := by
      unfold kindAt
      rw [SetGPUTextureParameter_list, key _ _ rfl]
      rfl
    have e2 : (m.SetGPUVectorParameter Name FVector.ZeroVector).kindAt Name
        = some .CMPT_VECTOR := by
      unfold kindAt
      rw [SetGPUVectorParameter_list, key _ _ rfl]
      rfl
    refine ⟨e1, by rw [e1]; decide, e1.trans e2.symm, ?_⟩
    unfold valuesAt GetGPUScalarParameter GetGPUVectorParameter GetGPUTextureParameter
    rw [SetGPUTextureParameter_list, key _ _ rfl]

/-- Witness for C26: on the empty list, `SetGPUTextureParameter(noise, texture 7)` creates
an entry of kind `CMPT_VECTOR`. -/
theorem SetGPUTextureParameter_creates_vector_kind_witness :
    empty.hasName ⟨2⟩ = false
    ∧ (empty.SetGPUTextureParameter ⟨2⟩ (some 7)).Parameters
        = [{ Name := ⟨2⟩, ValueType := .CMPT_VECTOR, ScalarValue := 0,
             VectorValue := FVector.ZeroVector, TextureValue := some 7 }]
    ∧ (empty.SetGPUTextureParameter ⟨2⟩ (some 7)).kindAt ⟨2⟩ ≠ some .CMPT_TEXTURE :=
  ⟨rfl, by decide!,
    ((SetGPUTextureParameter_creates_vector_kind empty ⟨2⟩ rfl).2.2 (some 7)).2.1⟩

end FComputeMaterial

/-! ## Theorems: cache keys are injective -/

theorem digitChar_value (k : Nat) (h : k < 10) : (Nat.digitChar k).toNat - 48 = k := by
  interval_cases k <;> rfl

theorem digitChar_plain (k : Nat) (h : k < 10) :
    Nat.digitChar k ≠ ':' ∧ Nat.digitChar k ≠ '-' := by
  interval_cases k <;> decide

theorem toDigitsCore_value : ∀ (fuel n : Nat) (ds : List Char), n < fuel →
    decimalValue 0 (Nat.toDigitsCore 10 fuel n ds) = decimalValue n ds := by
  intro fuel
  induction fuel with
  | zero => intro n ds h; exact absurd h (Nat.not_lt_zero n)
  | succ fuel ih =>
    intro n ds h
    unfold Nat.toDigitsCore
    by_cases h0 : n / 10 = 0
    · simp only [h0, if_true]
      have hn : n < 10 := by omega
      rw [Nat.mod_eq_of_lt hn]
      simp [decimalValue, digitChar_value n hn]
    · simp only [h0, if_false]
      rw [ih (n / 10) _ (by omega)]
      simp only [decimalValue, List.foldl_cons,
        digitChar_value (n % 10) (Nat.mod_lt _ (by decide))]
      congr 1
      omega

theorem toDigitsCore_plain : ∀ (fuel n : Nat) (ds : List Char),
    (∀ c ∈ ds, c ≠ ':' ∧ c ≠ '-') →
    ∀ c ∈ Nat.toDigitsCore 10 fuel n ds, c ≠ ':' ∧ c ≠ '-' := by
  intro fuel
  induction fuel with
  | zero => intro n ds h; simpa [Nat.toDigitsCore] using h
  | succ fuel ih =>
    intro n ds h
    have hd : ∀ c ∈ Nat.digitChar (n % 10) :: ds, c ≠ ':' ∧ c ≠ '-' := by
      intro c hc
      rcases List.mem_cons.1 hc with rfl | hc
      · exact digitChar_plain _ (Nat.mod_lt _ (by decide))
      · exact h c hc
    unfold Nat.toDigitsCore
    by_cases h0 : n / 10 = 0
    · simpa only [h0, if_true] using hd
    · simp only [h0, if_false]
      exact ih _ _ hd

theorem toDigits_injective (n m : Nat) (h : Nat.toDigits 10 n = Nat.toDigits 10 m) : n = m := by
  have h1 := toDigitsCore_value (n + 1) n [] (Nat.lt_succ_self n)
  have h2 := toDigitsCore_value (m + 1) m [] (Nat.lt_succ_self m)
  unfold Nat.toDigits at h
  rw [h, h2] at h1
  simpa [decimalValue] using h1.symm

theorem toDigits_plain (n : Nat) : ∀ c ∈ Nat.toDigits 10 n, c ≠ ':' ∧ c ≠ '-' :=
  toDigitsCore_plain (n + 1) n [] (by simp)

theorem FromInt_data (n : Int) :
    (FromInt n).data
      = if n < 0 then '-' :: Nat.toDigits 10 n.natAbs else Nat.toDigits 10 n.toNat := by
  unfold FromInt
  split
  · rfl
  · rfl

theorem FromInt_no_colon (n : Int) : ':' ∉ (FromInt n).data := by
  rw [FromInt_data]
  split
  · intro h
    rcases List.mem_cons.1 h with h | h
    · exact absurd h (by decide)
    · exact (toDigits_plain _ _ h).1 rfl
  · intro h
    exact (toDigits_plain _ _ h).1 rfl

theorem FromInt_injective (a b : Int) (h : FromInt a = FromInt b) : a = b := by
  have hd := congrArg String.data h
  rw [FromInt_data, FromInt_data] at hd
  by_cases ha : a < 0 <;> by_cases hb : b < 0
  · rw [if_pos ha, if_pos hb] at hd
    have := toDigits_injective _ _ (List.cons.inj hd).2
    omega
  · rw [if_pos ha, if_neg hb] at hd
    have hm : '-' ∈ Nat.toDigits 10 b.toNat := by rw [← hd]; exact List.mem_cons_self _ _
    exact absurd rfl (toDigits_plain _ _ hm).2
  · rw [if_neg ha, if_pos hb] at hd
    have hm : '-' ∈ Nat.toDigits 10 a.toNat := by rw [hd]; exact List.mem_cons_self _ _
    exact absurd rfl (toDigits_plain _ _ hm).2
  · rw [if_neg ha, if_neg hb] at hd
    have := toDigits_injective _ _ hd
    omega

theorem append_colon_inj : ∀ (x y u v : List Char), ':' ∉ u → ':' ∉ v →
    x ++ ':' :: u = y ++ ':' :: v → x = y ∧ u = v := by
  intro x y u v hu hv h
  rcases List.append_eq_append_iff.1 h with ⟨a, hy, ha⟩ | ⟨c, hx, hc⟩
  · cases a with
    | nil =>
      simp only [List.nil_append, List.cons.injEq, true_and] at ha
      simp only [List.append_nil] at hy
      exact ⟨hy.symm, ha⟩
    | cons d a' =>
      simp only [List.cons_append, List.cons.injEq] at ha
      exact absurd (by rw [ha.2]; simp) hu
  · cases c with
    | nil =>
      simp only [List.nil_append, List.cons.injEq, true_and] at hc
      simp only [List.append_nil] at hx
      exact ⟨hx, hc.symm⟩
    | cons d c' =>
      simp only [List.cons_append, List.cons.injEq] at hc
      exact absurd (by rw [hc.2]; simp) hv

theorem MakeCacheKey_data (s : String) (a b : Int) (h : s ≠ "") :
    (MakeCacheKey s a b).data
      = (s.data ++ [':']) ++ ':' :: ((FromInt a).data ++ [':'] ++ ':' :: (FromInt b).data) := by
  rw [MakeCacheKey_nonempty s a b h]
  simp [String.data_append]

/-- C27: `MakeCacheKey` is injective on cacheable inputs: for all non-empty source keys
`s1`, `s2` (any characters, colons included) and all integers `a1`, `b1`, `a2`, `b2`, if
the key made from `s1` with `SubDivisions = a1` at depth `b1` equals the key made from
`s2` with `a2` at depth `b2`, then `s1 = s2`, `a1 = a2` and `b1 = b2`. -/
theorem MakeCacheKey_injective (s1 s2 : String) (a1 b1 a2 b2 : Int)
    (h1 : s1 ≠ "") (h2 : s2 ≠ "")
    (h : MakeCacheKey s1 a1 b1 = MakeCacheKey s2 a2 b2) :
    s1 = s2 ∧ a1 = a2 ∧ b1 = b2 := by
  have hd := congrArg String.data h
  rw [MakeCacheKey_data s1 a1 b1 h1, MakeCacheKey_data s2 a2 b2 h2] at hd
  have e : ∀ (s : String) (a b : Int),
      (s.data ++ [':']) ++ ':' :: ((FromInt a).data ++ [':'] ++ ':' :: (FromInt b).data)
        = ((s.data ++ [':']) ++ ':' :: (FromInt a).data ++ [':']) ++ ':' :: (FromInt b).data := by
    intro s a b
    simp
  rw [e, e] at hd
  obtain ⟨hx, hb⟩ := append_colon_inj _ _ _ _ (FromInt_no_colon b1) (FromInt_no_colon b2) hd
  have hx' := List.append_cancel_right hx
  obtain ⟨hs, ha⟩ := append_colon_inj _ _ _ _ (FromInt_no_colon a1) (FromInt_no_colon a2) hx'
  have hs' := List.append_cancel_right hs
  exact ⟨String.ext hs', FromInt_injective _ _ (String.ext ha),
    FromInt_injective _ _ (String.ext hb)⟩

/-- Witness for C27: the source key `"rock:"`, which ends in a colon, with
`SubDivisions = 3` at depth 1; and the keys of `"rock:"` and of `"rock"` differ. -/
theorem MakeCacheKey_injective_witness :
    (("rock:" : String) ≠ "" ∧ MakeCacheKey "rock:" 3 1 = "rock:::3::1"
      ∧ ("rock:" : String) = "rock:" ∧ (3 : Int) = 3 ∧ (1 : Int) = 1)
    ∧ MakeCacheKey "rock:" 3 1 ≠ MakeCacheKey "rock" 3 1
    ∧ MakeCacheKey "a" 1 (-11) ≠ MakeCacheKey "a" (-1) 11 :=
  ⟨⟨by decide, by decide,
      MakeCacheKey_injective "rock:" "rock:" 3 1 3 1 (by decide) (by decide) rfl⟩,
    by decide, by decide⟩

/-! ## Theorems: the desired tier and the accesses of SwitchLODs -/

theorem distanceLOD_le (Pow : Float32 → Float32 → Float32)
    (MaximumLODCount LODStepUnits : Int) (LODStepPower d : ℚ) :
    distanceLOD Pow MaximumLODCount LODStepUnits LODStepPower d
      ≤ max (MaximumLODCount - 1) 0 := by
  by_cases h : 1 ≤ MaximumLODCount
  · obtain ⟨k, e, hk, -, -⟩ :=
      distanceLOD_first Pow MaximumLODCount LODStepUnits LODStepPower d h
    rw [e]
    exact le_max_of_le_left (by omega)
  · have h0 : MaximumLODCount.toNat = 0 := by omega
    simp [distanceLOD, h0, distanceWalk]

theorem desiredLOD_le (env : Env) (s : AOpenLandMeshActor) (d : ℚ) :
    desiredLOD env s d ≤ max (s.MaximumLODCount - 1) 0 := by
  have hw := distanceLOD_le env.Pow s.MaximumLODCount s.LODStepUnits s.LODStepPower d
  simp only [desiredLOD]
  split
  · split
    · exact min_le_right _ _
    · exact hw
  · exact hw

theorem hasLOD_lt (s : AOpenLandMeshActor) (i : Int) (h : hasLOD s i = true) :
    i < (s.LODList.length : Int) := by
  simp only [hasLOD, Bool.and_eq_true, decide_eq_true_eq] at h
  exact h.1

theorem markedForAsyncBuild_length (s : AOpenLandMeshActor) (D : Int) :
    D < ((markedForAsyncBuild s D).LODList.length : Int) := by
  simp only [markedForAsyncBuild]
  split
  · simp only [List.length_append, List.length_replicate]; omega
  · omega

/-- C30: for every actor state and every viewer distance (any `MaximumLODCount`, any
`LODIndexForCollisions`), the tier `SwitchLODs` desires after the distance walk and the
collision-tier override lies in `0 .. max(MaximumLODCount - 1, 0)`; a slot test
`LODList.Num() > i && LODList[i] != nullptr` that succeeds has `i` below the length of
the list and finds a non-null slot there, so the switch
`CurrentLOD = LODList[CurrentLODIndex]`, reached only after that test, is within the list;
`BuildMeshAsync(desired)` is called on a list grown beyond the desired tier, so its write
`LODList[LODIndex] = LOD` is within the list and it runs to its end; and in every
environment `SwitchLODs` runs to its end, that is, none of its array accesses (nor those
of the `BuildMeshAsync` it calls) is out of bounds. -/
theorem SwitchLODs_accesses_inRange (env : Env) (s : AOpenLandMeshActor) :
    (∀ d : ℚ, 0 ≤ desiredLOD env s d ∧ desiredLOD env s d ≤ max (s.MaximumLODCount - 1) 0)
    ∧ (∀ i : Int, hasLOD s i = true →
        i < (s.LODList.length : Int) ∧ ∃ p : Nat, elemAt s.LODList i = some (some p))
    ∧ (∀ d : ℚ, (elemAt (markedForAsyncBuild s (desiredLOD env s d)).LODList (desiredLOD env s d)).isSome
        = true
      ∧ (BuildMeshAsync env (desiredLOD env s d) (markedForAsyncBuild s (desiredLOD env s d))).isOk
        = true)
    ∧ (SwitchLODs env s).isOk = true := by
  refine ⟨fun d => ⟨desiredLOD_nonneg env s d, desiredLOD_le env s d⟩,
    fun i h => ⟨hasLOD_lt s i h, elemAt_of_hasLOD s i h⟩, fun d => ?_, SwitchLODs_isOk env s⟩
  have h0 := desiredLOD_nonneg env s d
  have hl := markedForAsyncBuild_length s (desiredLOD env s d)
  refine ⟨?_, ?_⟩
  · have hlt : (desiredLOD env s d).toNat < (markedForAsyncBuild s (desiredLOD env s d)).LODList.length := by
      omega
    simp [elemAt, h0, List.getElem?_eq_getElem hlt]
  · rw [BuildMeshAsync_inRange env _ _ h0 hl]
    rfl

/-! ## Theorems: relations kept by the rendering code, and the mark of the async build -/

theorem keeps_pure {R : StateRel} (F : RenderFrame R) {α : Type} (x : α) : Keeps R (pure x : Op α) :=
  ⟨fun s => F.same s⟩

theorem keeps_bind {R : StateRel} (F : RenderFrame R) {α β : Type} {m : Op α} {f : α → Op β}
    (hm : Keeps R m) (hf : ∀ x, Keeps R (f x)) : Keeps R (m >>= f) := by
  constructor
  intro s
  have h1 := hm.rel s
  simp only [Op.bind_apply]
  cases e : m s with
  | ok x s' =>
    rw [e] at h1
    exact F.chain _ _ _ h1 ((hf x).rel s')
  | crash s' =>
    rw [e] at h1
    exact h1

theorem keeps_read {R : StateRel} (F : RenderFrame R) : Keeps R Op.read := ⟨fun s => F.same s⟩

theorem keeps_stop {R : StateRel} (F : RenderFrame R) {α : Type} : Keeps R (Op.stop : Op α) :=
  ⟨fun s => F.same s⟩

theorem keeps_need {R : StateRel} (F : RenderFrame R) {α : Type} (o : Option α) : Keeps R (Op.need o) := by
  cases o
  · exact keeps_stop F
  · exact keeps_pure F _

theorem keeps_update {R : StateRel} (g : AOpenLandMeshActor → AOpenLandMeshActor) (h : ∀ s, R s (g s)) :
    Keeps R (Op.update g) := ⟨fun s => h s⟩

theorem keeps_call {R : StateRel} (F : RenderFrame R) (e : Event) (h : e.isBuildMesh = false) :
    Keeps R (Op.call e) := ⟨fun s => F.called e s h⟩

theorem keeps_derefLOD {R : StateRel} (F : RenderFrame R) (p : Option Nat) : Keeps R (derefLOD p) :=
  keeps_bind F (keeps_read F) fun _ => keeps_need F _

theorem keeps_derefResult {R : StateRel} (F : RenderFrame R) (p : Option Nat) : Keeps R (derefResult p) :=
  keeps_bind F (keeps_read F) fun _ => keeps_need F _

theorem keeps_derefMesh {R : StateRel} (F : RenderFrame R) (p : Option Nat) : Keeps R (derefMesh p) :=
  keeps_bind F (keeps_read F) fun _ => keeps_need F _

theorem keeps_storeVisible {R : StateRel} (F : RenderFrame R) (p : Option Nat) (b : Bool) :
    Keeps R (storeMesh p fun m => { m with bSectionVisible := b }) := by
  constructor
  intro s
  cases p with
  | none => simpa [storeMesh, derefMesh, Outcome.state] using F.same s
  | some t =>
    cases h : s.Meshes[t]? with
    | none => simpa [storeMesh, derefMesh, h, Outcome.state] using F.same s
    | some v => simpa [storeMesh, derefMesh, h, Outcome.state] using F.visible t v b s h

theorem keeps_CreateMeshSection {R : StateRel} (F : RenderFrame R) (i : Int) (t : Option Nat) :
    Keeps R (CreateMeshSection i t) :=
  keeps_bind F (keeps_call F _ rfl) fun _ => keeps_update _ fun s => F.sections _ s

theorem keeps_ReplaceMeshSection {R : StateRel} (F : RenderFrame R) (i : Int) (t : Option Nat) :
    Keeps R (ReplaceMeshSection i t) :=
  keeps_bind F (keeps_call F _ rfl) fun _ => keeps_update _ fun s => F.sections _ s

theorem keeps_RemoveAllSections {R : StateRel} (F : RenderFrame R) : Keeps R RemoveAllSections :=
  keeps_bind F (keeps_call F _ rfl) fun _ => keeps_update _ fun s => F.sections _ s

theorem keeps_SetMaterialLoop {R : StateRel} (F : RenderFrame R) (n : Nat) :
    ∀ i : Int, Keeps R (SetMaterialLoop n i) := by
  induction n with
  | zero => exact fun _ => keeps_pure F _
  | succ n ih =>
    intro i
    exact keeps_bind F (keeps_call F _ rfl) fun _ => ih _

theorem keeps_SetMaterial {R : StateRel} (F : RenderFrame R) : Keeps R SetMaterial :=
  keeps_bind F (keeps_read F) fun _ => keeps_SetMaterialLoop F _ _

theorem keeps_EnsureLODVisibilityLoop {R : StateRel} (F : RenderFrame R) (l : List (Option Nat)) :
    Keeps R (EnsureLODVisibilityLoop l) := by
  induction l with
  | nil => exact keeps_pure F _
  | cons LOD rest ih =>
    unfold EnsureLODVisibilityLoop
    repeat (first
      | exact ih
      | exact keeps_pure F _
      | exact keeps_read F
      | exact keeps_derefLOD F _
      | exact keeps_derefResult F _
      | exact keeps_storeVisible F _ _
      | exact keeps_call F _ rfl
      | apply keeps_bind F
      | intro _
      | dsimp only
      | split)

theorem keeps_EnsureLODVisibility {R : StateRel} (F : RenderFrame R) : Keeps R EnsureLODVisibility :=
  keeps_bind F (keeps_read F) fun _ => keeps_EnsureLODVisibilityLoop F _

theorem keeps_ApplyInstancesLoop {R : StateRel} (F : RenderFrame R) (l : List Int) :
    Keeps R (ApplyInstancesLoop l) := by
  induction l with
  | nil => exact keeps_pure F _
  | cons d rest ih =>
    unfold ApplyInstancesLoop
    repeat (first
      | exact ih
      | exact keeps_read F
      | exact keeps_derefLOD F _
      | exact keeps_derefResult F _
      | exact keeps_derefMesh F _
      | apply keeps_bind F
      | intro _
      | dsimp only)

theorem keeps_ApplyInstances {R : StateRel} (F : RenderFrame R) (env : Env) : Keeps R (ApplyInstances env) := by
  unfold ApplyInstances
  repeat (first
    | exact keeps_pure F _
    | exact keeps_read F
    | exact keeps_need F _
    | exact keeps_ApplyInstancesLoop F _
    | exact keeps_call F _ rfl
    | apply keeps_bind F
    | intro _
    | dsimp only
    | split)

theorem keeps_RegisterSectionsLoop {R : StateRel} (F : RenderFrame R) (l : List (Option Nat)) :
    Keeps R (RegisterSectionsLoop l) := by
  induction l with
  | nil => exact keeps_pure F _
  | cons LOD rest ih =>
    unfold RegisterSectionsLoop
    repeat (first
      | exact ih
      | exact keeps_pure F _
      | exact keeps_read F
      | exact keeps_derefLOD F _
      | exact keeps_derefResult F _
      | exact keeps_storeVisible F _ _
      | exact keeps_ReplaceMeshSection F _ _
      | exact keeps_CreateMeshSection F _ _
      | apply keeps_bind F
      | intro _
      | dsimp only
      | split)

theorem ends_keeps {R : StateRel} {α : Type} {m : Op α} (hm : Keeps R m) (s : AOpenLandMeshActor) :
    Ends (m s) (fun _ s' => R s s') (fun s' => R s s') := by
  have h := hm.rel s
  cases e : m s with
  | ok x s' => rw [e] at h; exact h
  | crash s' => rw [e] at h; exact h

theorem markKept_frame : RenderFrame MarkKept :=
  ⟨fun _ => rfl, fun _ _ _ h1 h2 => Eq.trans h2 h1, fun _ _ _ => rfl, fun _ _ => rfl,
    fun _ _ _ _ _ => rfl⟩

theorem outcome_eq_ok (o : Outcome Unit) (h : o.isOk = true) : o = .ok () o.state := by
  cases o with
  | ok x s => rfl
  | crash s => cases h

theorem ends_any_bind {α β : Type} {m : Op α} {f : α → Op β} {s : AOpenLandMeshActor}
    {Q : β → AOpenLandMeshActor → Prop}
    (h : ∀ x s', Ends (f x s') Q (fun _ => True)) : Ends ((m >>= f) s) Q (fun _ => True) := by
  apply ends_bind
  cases m s with
  | ok x s' => exact h x s'
  | crash s' => exact trivial

theorem FinishBuildMeshAsync_rendered (env : Env) (s : AOpenLandMeshActor)
    (hcan : CanRenderMesh env s = true) :
    Ends (FinishBuildMeshAsync env s) (fun _ s' => s'.AsyncBuildingLODIndex = -1)
      (fun _ => True) := by
  unfold FinishBuildMeshAsync
  rw [read_bind]
  simp only [hcan, if_true]
  apply ends_bind
  have hin : Ends
      ((do
        storeLOD s.CurrentLOD fun l => { l with MeshSectionIndex := NumMeshSections s }
        let lod ← derefLOD s.CurrentLOD
        let r ← derefResult lod.MeshBuildResult
        CreateMeshSection lod.MeshSectionIndex r.Target
        Op.call .InvalidateRendering
        storeMesh r.Target fun m => { m with bSectionVisible := true }
        storeMesh r.Target fun m => { m with bEnableCollision := s.bEnableCollision }
        (if s.LODIndexForCollisions ≥ 0 ∧ s.bEnableCollision then
          storeMesh r.Target fun m =>
            { m with bEnableCollision := decide (lod.LODIndex = s.LODIndexForCollisions) }
        else
          pure ())
        let t ← derefMesh r.Target
        (if t.bEnableCollision then
          Op.call (.SetupCollisions true)
        else
          pure ())
        Op.update fun x => { x with AsyncBuildingLODIndex := -1 }
        SetMaterial
        EnsureLODVisibility : Op Unit) s)
      (fun _ s' => s'.AsyncBuildingLODIndex = -1) (fun _ => True) := by
    refine ends_any_bind fun _ _ => ?_
    refine ends_any_bind fun lod _ => ?_
    refine ends_any_bind fun r _ => ?_
    refine ends_any_bind fun _ _ => ?_
    refine ends_any_bind fun _ _ => ?_
    refine ends_any_bind fun _ _ => ?_
    refine ends_any_bind fun _ _ => ?_
    refine ends_any_bind fun _ _ => ?_
    refine ends_any_bind fun t _ => ?_
    refine ends_any_bind fun _ s1 => ?_
    refine ends_update_bind _ _ _ fun s2 h2 => ?_
    have hk : Keeps MarkKept (SetMaterial >>= fun _ => EnsureLODVisibility) :=
      keeps_bind markKept_frame (keeps_SetMaterial markKept_frame)
        fun _ => keeps_EnsureLODVisibility markKept_frame
    refine (ends_keeps hk s2).mono (fun _ s3 h3 => ?_) (fun _ _ => trivial)
    have h3' : s3.AsyncBuildingLODIndex = s2.AsyncBuildingLODIndex := h3
    rw [h3', h2]
  refine hin.mono (fun _ s1 h1 => ?_) (fun _ h => h)
  have hk : Keeps MarkKept
      (if s.bRunInstancingAfterBuildMesh = true then ApplyInstances env else pure ()) := by
    split
    · exact keeps_ApplyInstances markKept_frame env
    · exact keeps_pure markKept_frame _
  refine (ends_keeps hk s1).mono (fun _ s2 h2 => ?_) (fun _ _ => trivial)
  have h2' : s2.AsyncBuildingLODIndex = s1.AsyncBuildingLODIndex := h2
  rw [h2', h1]

theorem FinishBuildMeshAsync_hidden (env : Env) (s : AOpenLandMeshActor)
    (hcan : CanRenderMesh env s = false) :
    (FinishBuildMeshAsync env s).state.AsyncBuildingLODIndex = s.AsyncBuildingLODIndex := by
  have hk : Keeps MarkKept
      ((do
          RemoveAllSections
          Op.call .InvalidateRendering : Op Unit) >>= fun _ =>
        if s.bRunInstancingAfterBuildMesh = true then ApplyInstances env else pure ()) := by
    refine keeps_bind markKept_frame
      (keeps_bind markKept_frame (keeps_RemoveAllSections markKept_frame)
        fun _ => keeps_call markKept_frame _ rfl) fun _ => ?_
    split
    · exact keeps_ApplyInstances markKept_frame env
    · exact keeps_pure markKept_frame _
  have h := hk.rel s
  unfold FinishBuildMeshAsync
  rw [read_bind]
  simp only [hcan, Bool.false_eq_true, if_false]
  exact h

/-- C24, a bug of the code: `FinishBuildMeshAsync` clears the mark of the async build
only inside its `if (CanRenderMesh())` block. With the mesh always hidden
(`MV_HIDE_ALWAYS`), a game tick starts the async build of tier 1 and the build result is
delivered; `FinishBuildMeshAsync` returns (inside the delivery, and again when called on
the state reached) and the mark `AsyncBuildingLODIndex` is still 1, so that a later
`SwitchLODs`, with the viewer back at the actor, is still suppressed. Nothing clears the
mark afterwards: once the mesh is set to be shown (`shownAgain`), a tick makes no call
but `UpdateTransforms`, `BuildMesh` runs to its end with the mark still 1, and a tick
with the viewer at distance 5001, where tier 2 is desired, leaves `CurrentLODIndex`
at 0. -/
theorem FinishBuildMeshAsync_leaves_mark_when_hidden :
    hiddenBuilt.isOk = true
    ∧ hiddenBuilt.state.AsyncBuildingLODIndex = 1
    ∧ CanRenderMesh (viewerAt 1001) hiddenBuilt.state = false
    ∧ (FinishBuildMeshAsync (viewerAt 1001) hiddenBuilt.state).isOk = true
    ∧ (FinishBuildMeshAsync (viewerAt 1001) hiddenBuilt.state).state.AsyncBuildingLODIndex = 1
    ∧ SwitchLODs (viewerAt 0)
        (FinishBuildMeshAsync (viewerAt 1001) hiddenBuilt.state).state
      = .ok {} (FinishBuildMeshAsync (viewerAt 1001) hiddenBuilt.state).state
    ∧ CanRenderMesh (viewerAt 0) shownAgain = true
    ∧ (Tick (viewerAt 0) 0 shownAgain).isOk = true
    ∧ newCalls shownAgain (Tick (viewerAt 0) 0 shownAgain) = [.UpdateTransforms]
    ∧ (Tick (viewerAt 0) 0 shownAgain).state.AsyncBuildingLODIndex = 1
    ∧ (BuildMesh (viewerAt 0) shownAgain).isOk = true
    ∧ (BuildMesh (viewerAt 0) shownAgain).state.AsyncBuildingLODIndex = 1
    ∧ desiredLOD (viewerAt 5001) (BuildMesh (viewerAt 0) shownAgain).state 5001 = 2
    ∧ hasLOD (BuildMesh (viewerAt 0) shownAgain).state 2 = true
    ∧ (Tick (viewerAt 5001) 0 (BuildMesh (viewerAt 0) shownAgain).state).isOk = true
    ∧ (Tick (viewerAt 5001) 0 (BuildMesh (viewerAt 0) shownAgain).state).state.CurrentLODIndex
        = 0 :=
  ⟨by decide!, by decide!, by decide!, by decide!, by decide!,
    SwitchLODs_suppressed _ _ (by decide!), by decide!, by decide!, by decide!, by decide!,
    by decide!, by decide!, by decide!, by decide!, by decide!, by decide!⟩

/-- Where the mark is cleared: for every actor state in which the mesh can be rendered
(`CanRenderMesh`), if `FinishBuildMeshAsync` returns, the mark of the async build in
progress is cleared (`AsyncBuildingLODIndex = -1`), so that `SwitchLODs` is no longer
suppressed by it. For every state in which the mesh cannot be rendered,
`FinishBuildMeshAsync` leaves `AsyncBuildingLODIndex` as it was. -/
theorem FinishBuildMeshAsync_clears_mark (env : Env) (s s' : AOpenLandMeshActor)
    (hret : FinishBuildMeshAsync env s = .ok () s') :
    (CanRenderMesh env s = true → s'.AsyncBuildingLODIndex = -1)
    ∧ (CanRenderMesh env s = false → s'.AsyncBuildingLODIndex = s.AsyncBuildingLODIndex) := by
  refine ⟨fun hcan => ?_, fun hcan => ?_⟩
  · have h := FinishBuildMeshAsync_rendered env s hcan
    rw [hret] at h
    exact h
  · have h := FinishBuildMeshAsync_hidden env s hcan
    rw [hret] at h
    exact h

/-- An instance of `FinishBuildMeshAsync_clears_mark`: the state `asyncStarted` (async
build of tier 1 started, mesh shown)
after the delivery of the build result into the LOD being built (`asyncFinished`):
`FinishBuildMeshAsync` returns and the mark is cleared, also when it is called on the
state reached. -/
theorem FinishBuildMeshAsync_clears_mark_witness :
    asyncStarted.state.AsyncBuildingLODIndex = 1
    ∧ CanRenderMesh (viewerAt 1001) asyncStarted.state = true
    ∧ asyncFinished.isOk = true
    ∧ asyncFinished.state.AsyncBuildingLODIndex = -1
    ∧ (FinishBuildMeshAsync (viewerAt 1001) asyncFinished.state).isOk = true
    ∧ (FinishBuildMeshAsync (viewerAt 1001) asyncFinished.state).state.AsyncBuildingLODIndex
        = -1 := by
  refine ⟨by decide!, by decide!, by decide!, by decide!, by decide!, ?_⟩
  exact (FinishBuildMeshAsync_clears_mark (viewerAt 1001) asyncFinished.state
    (FinishBuildMeshAsync (viewerAt 1001) asyncFinished.state).state
    (outcome_eq_ok _ (by decide!))).1 (by decide!)

/-! ## Theorems: the synchronous build of all tiers and its build requests -/

theorem BuildMeshLoop_step (env : Env) (s0 : AOpenLandMeshActor) (n : Nat) (K : Int)
    (list : List (Option Nat)) (S : AOpenLandMeshActor) (o t : FSimpleMeshInfo)
    (r : FOpenLandPolygonMeshBuildResult)
    (hS : S.SubDivisions = s0.SubDivisions) (hA : S.SmoothNormalAngle = s0.SmoothNormalAngle)
    (hpm : S.PolygonMesh ≠ none)
    (ha : env.BuildMeshAnswer K = .Fresh o (some t) r) :
    BuildMeshLoop env (CeilSqrt env (env.CalculateVerticesForSubdivision s0.SubDivisions))
        (n + 1) K list S
      = BuildMeshLoop env (CeilSqrt env (env.CalculateVerticesForSubdivision s0.SubDivisions))
          n (K + 1) (list ++ [some S.LODs.length]) (afterBuildTier env s0 K o t r S) := by
  obtain ⟨pm, hpm⟩ := Option.ne_none_iff_exists'.1 hpm
  by_cases hc : S.LODIndexForCollisions ≥ 0 ∧ S.bEnableCollision = true
  · have h1 : ¬ S.LODIndexForCollisions < 0 := not_lt.2 hc.1
    simp [BuildMeshLoop, viaPolygonMesh, hpm, takeAnswer, ha, newMesh, newResult,
      derefResult, storeMesh, derefMesh, newLOD, hc, h1, getElem_append_pair,
      afterBuildTier, syncBuildCall, syncBuildOptions, hS, hA]
  · have hX : (S.bEnableCollision && (decide (S.LODIndexForCollisions < 0)
        || decide (K = S.LODIndexForCollisions))) = S.bEnableCollision := by
      by_cases h0 : S.LODIndexForCollisions < 0
      · simp [h0]
      · cases hb : S.bEnableCollision with
        | false => simp
        | true => exact absurd ⟨not_lt.1 h0, hb⟩ hc
    simp [BuildMeshLoop, viaPolygonMesh, hpm, takeAnswer, ha, newMesh, newResult,
      derefResult, storeMesh, derefMesh, newLOD, hc, getElem_append_pair, hX,
      afterBuildTier, syncBuildCall, syncBuildOptions, hS, hA]

theorem tierCalls_succ (env : Env) (s : AOpenLandMeshActor) (K : Int) (n : Nat) :
    tierCalls env s K (n + 1) = syncBuildCall env s K :: tierCalls env s (K + 1) n := by
  simp only [tierCalls, List.range_succ_eq_map, List.map_cons, List.map_map]
  refine congrArg₂ _ (by simp) (List.map_congr_left fun j _ => ?_)
  simp only [Function.comp, Nat.succ_eq_add_one]
  have e2 : K + ((j + 1 : Nat) : Int) = K + 1 + (j : Int) := by push_cast; ring
  rw [e2]

theorem tierPointers_succ (L : Nat) (n : Nat) :
    tierPointers L (n + 1) = some L :: tierPointers (L + 1) n := by
  simp only [tierPointers, List.range_succ_eq_map, List.map_cons, List.map_map]
  refine congrArg₂ _ (by simp) (List.map_congr_left fun j _ => ?_)
  simp only [Function.comp, Nat.succ_eq_add_one]
  have e1 : L + (j + 1) = L + 1 + j := by omega
  rw [e1]

theorem hasTarget_iff (s : AOpenLandMeshActor) (r : Nat) :
    hasTarget s r = true
      ↔ ∃ v t, s.Results[r]? = some v ∧ v.Target = some t ∧ t < s.Meshes.length := by
  unfold hasTarget
  constructor
  · intro h
    split at h
    · rename_i v hv
      split at h
      · rename_i t ht
        exact ⟨v, t, hv, ht, of_decide_eq_true h⟩
      · cases h
    · cases h
  · rintro ⟨v, t, hv, ht, hlt⟩
    simp [hv, ht, hlt]

theorem Grown.target_kept {s s' : AOpenLandMeshActor} (h : Grown s s') {r : Nat}
    (hr : hasTarget s r = true) : hasTarget s' r = true := by
  obtain ⟨v, t, hv, ht, hlt⟩ := (hasTarget_iff s r).1 hr
  exact (hasTarget_iff s' r).2 ⟨v, t, h.2.1 r v hv, ht, lt_of_lt_of_le hlt h.2.2⟩

theorem grown_of_eq {s s' : AOpenLandMeshActor} (hL : s'.LODs = s.LODs)
    (hR : s'.Results = s.Results) (hM : s'.Meshes.length = s.Meshes.length) : Grown s s' :=
  ⟨fun _ _ h => by rw [hL]; exact h, fun _ _ h => by rw [hR]; exact h, by rw [hM]⟩

theorem grown_frame : RenderFrame Grown :=
  ⟨fun _ => grown_of_eq rfl rfl rfl,
    fun _ _ _ h1 h2 => ⟨fun p v h => h2.1 p v (h1.1 p v h),
      fun i v h => h2.2.1 i v (h1.2.1 i v h), le_trans h1.2.2 h2.2.2⟩,
    fun _ _ _ => grown_of_eq rfl rfl rfl, fun _ _ => grown_of_eq rfl rfl rfl,
    fun _ _ _ _ _ => grown_of_eq rfl rfl (by simp)⟩

theorem ready_of_slot {s : AOpenLandMeshActor} {p r : Nat} {lod : FLODInfo}
    (hl : s.LODs[p]? = some lod) (hr : lod.MeshBuildResult = some r)
    (ht : hasTarget s r = true) : ∃ b, carriesCollision s (some p) = some b := by
  obtain ⟨v, t, hv, hvt, hlt⟩ := (hasTarget_iff s r).1 ht
  refine ⟨(s.Meshes.get ⟨t, hlt⟩).bEnableCollision, ?_⟩
  simp [carriesCollision, hl, hr, hv, hvt, List.getElem?_eq_getElem hlt]

theorem Grown.ready {s s' : AOpenLandMeshActor} (h : Grown s s') {LOD : Option Nat}
    (hr : ∃ b, carriesCollision s LOD = some b) : ∃ b, carriesCollision s' LOD = some b := by
  obtain ⟨b, hb⟩ := hr
  obtain ⟨p, lod, i, r, t, m, rfl, hl, hi, hr, ht, hm, -⟩ := carriesCollision_some hb
  exact ready_of_slot (h.1 p lod hl) hi ((hasTarget_iff s' i).2
    ⟨r, t, h.2.1 i r hr, ht, lt_of_lt_of_le (List.getElem?_eq_some_iff.1 hm).1 h.2.2⟩)

theorem BuildMeshLoop_step_shared (env : Env) (s0 : AOpenLandMeshActor) (n : Nat) (K : Int)
    (list : List (Option Nat)) (S : AOpenLandMeshActor) (r t : Nat)
    (v : FOpenLandPolygonMeshBuildResult) (m : FSimpleMeshInfo)
    (hS : S.SubDivisions = s0.SubDivisions) (hA : S.SmoothNormalAngle = s0.SmoothNormalAngle)
    (hpm : S.PolygonMesh ≠ none)
    (ha : env.BuildMeshAnswer K = .Shared r)
    (hr : S.Results[r]? = some v) (ht : v.Target = some t) (hm : S.Meshes[t]? = some m) :
    BuildMeshLoop env (CeilSqrt env (env.CalculateVerticesForSubdivision s0.SubDivisions))
        (n + 1) K list S
      = BuildMeshLoop env (CeilSqrt env (env.CalculateVerticesForSubdivision s0.SubDivisions))
          n (K + 1) (list ++ [some S.LODs.length])
          { S with
            Calls := S.Calls ++ [syncBuildCall env s0 K]
            Meshes := S.Meshes.set t { m with
              bSectionVisible := false
              bEnableCollision := S.bEnableCollision
                && decide (S.LODIndexForCollisions < 0 ∨ K = S.LODIndexForCollisions) }
            LODs := S.LODs ++ [FLODInfo.mk (some r) K K false] } := by
  obtain ⟨pm, hpm⟩ := Option.ne_none_iff_exists'.1 hpm
  have hlt : t < S.Meshes.length := (List.getElem?_eq_some_iff.1 hm).1
  by_cases hc : S.LODIndexForCollisions ≥ 0 ∧ S.bEnableCollision = true
  · have h1 : ¬ S.LODIndexForCollisions < 0 := not_lt.2 hc.1
    simp [BuildMeshLoop, viaPolygonMesh, hpm, takeAnswer, ha, derefResult, storeMesh,
      derefMesh, newLOD, hc, h1, hr, ht, hm, hlt, syncBuildCall, syncBuildOptions, hS, hA]
  · have hX : (S.bEnableCollision && (decide (S.LODIndexForCollisions < 0)
        || decide (K = S.LODIndexForCollisions))) = S.bEnableCollision := by
      by_cases h0 : S.LODIndexForCollisions < 0
      · simp [h0]
      · cases hb : S.bEnableCollision with
        | false => simp
        | true => exact absurd ⟨not_lt.1 h0, hb⟩ hc
    simp [BuildMeshLoop, viaPolygonMesh, hpm, takeAnswer, ha, derefResult, storeMesh,
      derefMesh, newLOD, hc, hr, ht, hm, hlt, hX, syncBuildCall, syncBuildOptions, hS, hA]

theorem BuildMeshLoop_step_any (env : Env) (s0 : AOpenLandMeshActor) (n : Nat) (K : Int)
    (list : List (Option Nat)) (S : AOpenLandMeshActor)
    (hS : S.SubDivisions = s0.SubDivisions) (hA : S.SmoothNormalAngle = s0.SmoothNormalAngle)
    (hpm : S.PolygonMesh ≠ none)
    (hu : usableAnswer S (env.BuildMeshAnswer K) = true) :
    ∃ (T : AOpenLandMeshActor) (r : Nat),
      BuildMeshLoop env (CeilSqrt env (env.CalculateVerticesForSubdivision s0.SubDivisions))
          (n + 1) K list S
        = BuildMeshLoop env (CeilSqrt env (env.CalculateVerticesForSubdivision s0.SubDivisions))
            n (K + 1) (list ++ [some S.LODs.length]) T
      ∧ T.LODs = S.LODs ++ [FLODInfo.mk (some r) K K false]
      ∧ T.Calls = S.Calls ++ [syncBuildCall env s0 K]
      ∧ { T with LODs := S.LODs, Results := S.Results, Meshes := S.Meshes,
                 Calls := S.Calls } = S
      ∧ Grown S T ∧ hasTarget T r = true
      ∧ T.Results = (takeAnswer (env.BuildMeshAnswer K) S).state.Results
      ∧ T.Meshes.length = (takeAnswer (env.BuildMeshAnswer K) S).state.Meshes.length := by
  cases ha : env.BuildMeshAnswer K with
  | Shared r =>
    rw [ha] at hu
    obtain ⟨v, t, hv, ht, hlt⟩ := (hasTarget_iff S r).1 hu
    refine ⟨_, r, BuildMeshLoop_step_shared env s0 n K list S r t v _ hS hA hpm ha hv ht
      (List.getElem?_eq_getElem hlt), rfl, rfl, rfl, ⟨fun p x h => ?_, fun _ _ h => h, ?_⟩, ?_,
      rfl, by simp [takeAnswer, Outcome.state]⟩
    · have hp : p < S.LODs.length := (List.getElem?_eq_some_iff.1 h).1
      simp only [List.getElem?_append_left hp, h]
    · simp
    · exact (hasTarget_iff _ r).2 ⟨v, t, hv, ht, by simpa using hlt⟩
  | Fresh o t r =>
    rw [ha] at hu
    obtain ⟨t, rfl⟩ := Option.isSome_iff_exists.1 hu
    refine ⟨_, S.Results.length, BuildMeshLoop_step env s0 n K list S o t r hS hA hpm ha,
      rfl, rfl, rfl, ⟨fun p x h => ?_, fun i x h => ?_, ?_⟩, ?_,
      by simp [takeAnswer, newMesh, newResult, Outcome.state, afterBuildTier],
      by simp [takeAnswer, newMesh, newResult, Outcome.state, afterBuildTier]⟩
    · have hp : p < S.LODs.length := (List.getElem?_eq_some_iff.1 h).1
      simp only [afterBuildTier, List.getElem?_append_left hp, h]
    · have hp : i < S.Results.length := (List.getElem?_eq_some_iff.1 h).1
      simp only [afterBuildTier, List.getElem?_append_left hp, h]
    · simp [afterBuildTier]
    · exact (hasTarget_iff _ _).2
        ⟨{ r with Original := some S.Meshes.length, Target := some (S.Meshes.length + 1) },
          S.Meshes.length + 1, by simp [afterBuildTier], rfl, by simp [afterBuildTier]⟩

theorem hasTarget_congr {S T : AOpenLandMeshActor} (hR : T.Results = S.Results)
    (hM : T.Meshes.length = S.Meshes.length) (r : Nat) : hasTarget T r = hasTarget S r := by
  unfold hasTarget
  rw [hR, hM]

theorem usableAnswer_congr {S T : AOpenLandMeshActor} (hR : T.Results = S.Results)
    (hM : T.Meshes.length = S.Meshes.length) (a : FBuildAnswer) :
    usableAnswer T a = usableAnswer S a := by
  cases a with
  | Shared r => exact hasTarget_congr hR hM r
  | Fresh o t r => rfl

theorem takeAnswer_stores {S T : AOpenLandMeshActor} (hR : T.Results = S.Results)
    (hM : T.Meshes.length = S.Meshes.length) (a : FBuildAnswer) :
    (takeAnswer a T).state.Results = (takeAnswer a S).state.Results
      ∧ (takeAnswer a T).state.Meshes.length = (takeAnswer a S).state.Meshes.length := by
  cases a with
  | Shared r => exact ⟨hR, hM⟩
  | Fresh o t r =>
    cases t with
    | none => simp [takeAnswer, newMesh, newResult, Outcome.state, hR, hM]
    | some t => simp [takeAnswer, newMesh, newResult, Outcome.state, hR, hM]

theorem answersUsable_congr (env : Env) : ∀ (n : Nat) (K : Int) (S T : AOpenLandMeshActor),
    T.Results = S.Results → T.Meshes.length = S.Meshes.length →
    answersUsable env n K T = answersUsable env n K S := by
  intro n
  induction n with
  | zero => intro K S T _ _; rfl
  | succ n ih =>
    intro K S T hR hM
    obtain ⟨h1, h2⟩ := takeAnswer_stores hR hM (env.BuildMeshAnswer K)
    simp only [answersUsable, usableAnswer_congr hR hM, ih (K + 1) _ _ h1 h2]

theorem BuildMeshLoop_built (env : Env) (s0 : AOpenLandMeshActor) :
    ∀ (n : Nat) (K : Int) (list : List (Option Nat)) (S : AOpenLandMeshActor),
      S.SubDivisions = s0.SubDivisions → S.SmoothNormalAngle = s0.SmoothNormalAngle →
      S.PolygonMesh ≠ none →
      answersUsable env n K S = true →
      ∃ (S' : AOpenLandMeshActor) (rs : List Nat),
        BuildMeshLoop env (CeilSqrt env (env.CalculateVerticesForSubdivision s0.SubDivisions))
            n K list S
          = .ok (list ++ tierPointers S.LODs.length n) S'
        ∧ rs.length = n
        ∧ S'.LODs = S.LODs ++ slotsOf K rs
        ∧ (∀ r ∈ rs, hasTarget S' r = true)
        ∧ S'.Calls = S.Calls ++ tierCalls env s0 K n
        ∧ { S' with LODs := S.LODs, Results := S.Results, Meshes := S.Meshes,
                    Calls := S.Calls } = S
        ∧ Grown S S' := by
  intro n
  induction n with
  | zero =>
    intro K list S _ _ _ _
    exact ⟨S, [], by simp [BuildMeshLoop_zero, tierPointers], rfl, by simp [slotsOf],
      fun _ h => absurd h (List.not_mem_nil _), by simp [tierCalls], rfl, grown_frame.same S⟩
  | succ n ih =>
    intro K list S hS hA hpm hans
    simp only [answersUsable, Bool.and_eq_true] at hans
    obtain ⟨T, r, hT, hTL, hTC, hTf, hTg, hTr, hTR, hTM⟩ :=
      BuildMeshLoop_step_any env s0 n K list S hS hA hpm hans.1
    have fT := fun {β : Type} (g : AOpenLandMeshActor → β) => congrArg g hTf
    obtain ⟨S', rs, h1, h2, h3, h4, h5, h6, h7⟩ := ih (K + 1) (list ++ [some S.LODs.length])
      T ((fT AOpenLandMeshActor.SubDivisions).trans hS)
      ((fT AOpenLandMeshActor.SmoothNormalAngle).trans hA)
      (by rw [show T.PolygonMesh = S.PolygonMesh from fT AOpenLandMeshActor.PolygonMesh]
          exact hpm)
      (by rw [answersUsable_congr env n (K + 1) _ T hTR hTM]; exact hans.2)
    refine ⟨S', r :: rs, ?_, by simp [h2], ?_, ?_, ?_, ?_, grown_frame.chain _ _ _ hTg h7⟩
    · rw [hT, h1, tierPointers_succ, hTL]
      simp
    · rw [h3, hTL]
      simp [slotsOf]
    · intro x hx
      rcases List.mem_cons.1 hx with rfl | hx
      · exact h7.target_kept hTr
      · exact h4 x hx
    · rw [h5, tierCalls_succ, hTC]
      simp
    · have a := congrArg (fun x : AOpenLandMeshActor =>
        { x with LODs := S.LODs, Results := S.Results, Meshes := S.Meshes,
                 Calls := S.Calls }) h6
      exact a.trans hTf

theorem slotsOf_at : ∀ (rs : List Nat) (K : Int) (j : Nat) (h : j < rs.length),
    (slotsOf K rs)[j]? = some (FLODInfo.mk (some (rs.get ⟨j, h⟩)) (K + j) (K + j) false) := by
  intro rs
  induction rs with
  | nil => intro K j h; cases h
  | cons r rest ih =>
    intro K j h
    cases j with
    | zero => simp [slotsOf]
    | succ j =>
      have := ih (K + 1) j (by simpa using h)
      simp only [slotsOf, List.getElem?_cons_succ, this, List.get_eq_getElem,
        List.getElem_cons_succ]
      have e : K + 1 + (j : Int) = K + ((j + 1 : Nat) : Int) := by push_cast; ring
      rw [e]

theorem rendered_frame : RenderFrame Rendered := by
  refine ⟨fun s => ⟨rfl, [], by simp, rfl⟩, fun a b c h1 h2 => ?_,
    fun e s h => ⟨rfl, [e], rfl, by simp [h]⟩, fun x s => ⟨rfl, [], by simp, rfl⟩,
    fun t v b s _ => ⟨rfl, [], by simp, rfl⟩⟩
  obtain ⟨e1, es1, c1, f1⟩ := h1
  obtain ⟨e2, es2, c2, f2⟩ := h2
  refine ⟨?_, es1 ++ es2, by rw [c2, c1, List.append_assoc], by simp [f1, f2]⟩
  have := congrArg (fun x : AOpenLandMeshActor =>
    { x with Meshes := a.Meshes, Sections := a.Sections, Calls := a.Calls }) e2
  exact this.trans e1

theorem Rendered.field {s s' : AOpenLandMeshActor} (h : Rendered s s') {β : Type}
    (g : AOpenLandMeshActor → β) :
    g { s' with Meshes := s.Meshes, Sections := s.Sections, Calls := s.Calls } = g s :=
  congrArg g h.1

theorem keeps_viaPolygonMesh {R : StateRel} (F : RenderFrame R) (e : Event)
    (h : e.isBuildMesh = false) : Keeps R (viaPolygonMesh e) :=
  keeps_bind F (keeps_read F) fun _ => keeps_bind F (keeps_need F _) fun _ => keeps_call F e h

theorem keeps_registerGpuIfEnabled {R : StateRel} (F : RenderFrame R) :
    Keeps R registerGpuIfEnabled := by
  unfold registerGpuIfEnabled
  refine keeps_bind F (keeps_read F) fun _ => ?_
  split
  · exact keeps_viaPolygonMesh F _ rfl
  · exact keeps_viaPolygonMesh F _ rfl

theorem filter_tierCalls (env : Env) (s : AOpenLandMeshActor) (K : Int) (n : Nat) :
    (tierCalls env s K n).filter Event.isBuildMesh = tierCalls env s K n := by
  apply List.filter_eq_self.2
  intro e he
  simp only [tierCalls, List.mem_map] at he
  obtain ⟨j, -, rfl⟩ := he
  rfl

theorem settled_frame : RenderFrame Settled :=
  ⟨fun s => ⟨rendered_frame.same s, rfl⟩,
    fun _ _ _ h1 h2 => ⟨rendered_frame.chain _ _ _ h1.1 h2.1, h2.2.trans h1.2⟩,
    fun e s h => ⟨rendered_frame.called e s h, rfl⟩,
    fun x s => ⟨rendered_frame.sections x s, rfl⟩,
    fun t v b s h => ⟨rendered_frame.visible t v b s h, by simp⟩⟩

theorem Settled.grown {s s' : AOpenLandMeshActor} (h : Settled s s') : Grown s s' :=
  grown_of_eq (h.1.field AOpenLandMeshActor.LODs) (h.1.field AOpenLandMeshActor.Results) h.2

theorem ends_ok_keeps {R : StateRel} {α : Type} {m : Op α} {s : AOpenLandMeshActor}
    {X : AOpenLandMeshActor → Prop} (hm : Keeps R m) (hok : (m s).isOk = true) :
    Ends (m s) (fun _ s' => R s s') X := by
  have hr := hm.rel s
  cases e : m s with
  | ok x s' => rw [e] at hr; exact hr
  | crash s' => rw [e] at hok; cases hok

theorem ends_ok_keeps_bind {R : StateRel} {α β : Type} {m : Op α} {f : α → Op β}
    {s : AOpenLandMeshActor} {Q : β → AOpenLandMeshActor → Prop}
    {X : AOpenLandMeshActor → Prop} (hm : Keeps R m) (hok : (m s).isOk = true)
    (h : ∀ x s', R s s' → Ends (f x s') Q X) : Ends ((m >>= f) s) Q X := by
  apply ends_bind
  have hr := hm.rel s
  cases e : m s with
  | ok x s' => rw [e] at hr; exact h x s' hr
  | crash s' => rw [e] at hok; cases hok

theorem viaPolygonMesh_isOk (e : Event) (s : AOpenLandMeshActor) (h : s.PolygonMesh ≠ none) :
    (viaPolygonMesh e s).isOk = true := by
  obtain ⟨pm, hpm⟩ := Option.ne_none_iff_exists'.1 h
  simp [viaPolygonMesh, hpm, Outcome.isOk]

theorem registerGpuIfEnabled_isOk (s : AOpenLandMeshActor) (h : s.PolygonMesh ≠ none) :
    (registerGpuIfEnabled s).isOk = true := by
  unfold registerGpuIfEnabled
  rw [read_bind]
  split
  · exact viaPolygonMesh_isOk _ s h
  · exact viaPolygonMesh_isOk _ s h

theorem elemAt_tierPointers (L n : Nat) (c : Int) (h0 : 0 ≤ c) (h1 : c.toNat < n) :
    elemAt (tierPointers L n) c = some (some (L + c.toNat)) := by
  simp [elemAt, h0, tierPointers, h1]

theorem mem_tierPointers {L n : Nat} {LOD : Option Nat} (h : LOD ∈ tierPointers L n) :
    ∃ j : Nat, j < n ∧ LOD = some (L + j) := by
  simp only [tierPointers, List.mem_map, List.mem_range] at h
  obtain ⟨j, hj, rfl⟩ := h
  exact ⟨j, hj, rfl⟩

theorem tierPointers_ready {S S' : AOpenLandMeshActor} {rs : List Nat} {K : Int}
    (hL : S'.LODs = S.LODs ++ slotsOf K rs) (hT : ∀ r ∈ rs, hasTarget S' r = true)
    {LOD : Option Nat} (h : LOD ∈ tierPointers S.LODs.length rs.length) :
    ∃ b, carriesCollision S' LOD = some b := by
  obtain ⟨j, hj, rfl⟩ := mem_tierPointers h
  have hl : S'.LODs[S.LODs.length + j]?
      = some (FLODInfo.mk (some (rs.get ⟨j, hj⟩)) (K + j) (K + j) false) := by
    rw [hL, List.getElem?_append_right (Nat.le_add_right _ _), Nat.add_sub_cancel_left]
    exact slotsOf_at rs K j hj
  exact ready_of_slot hl rfl (hT _ (List.get_mem _ _ _))

theorem BuildMesh_built (env : Env) (s : AOpenLandMeshActor) (World : UWorld)
    (hworld : env.World = some World) (hN : 1 ≤ s.MaximumLODCount)
    (hcur : 0 ≤ s.CurrentLODIndex)
    (hans : answersUsable env s.MaximumLODCount.toNat 0 s = true) :
    Ends (BuildMesh env s)
      (fun _ s' => s'.LODList = tierPointers s.LODs.length s.MaximumLODCount.toNat
        ∧ (∃ rs : List Nat, rs.length = s.MaximumLODCount.toNat
            ∧ s'.LODs = s.LODs ++ slotsOf 0 rs ∧ ∀ r ∈ rs, hasTarget s' r = true)
        ∧ s'.CurrentLODIndex
            = (if s.CurrentLODIndex ≥ s.MaximumLODCount then 0 else s.CurrentLODIndex)
        ∧ s'.CurrentLOD = some (s.LODs.length + s'.CurrentLODIndex.toNat)
        ∧ s'.bMeshGenerated = true
        ∧ ∃ es, s'.Calls = s.Calls ++ es
            ∧ es.filter Event.isBuildMesh = tierCalls env s 0 s.MaximumLODCount.toNat)
      (fun _ => False) := by
  unfold BuildMesh
  rw [hworld, need_some_bind, read_bind]
  have F := settled_frame
  have hNn : ((s.MaximumLODCount.toNat : Nat) : Int) = s.MaximumLODCount :=
    Int.toNat_of_nonneg (by omega)
  have hpre : Keeps Settled
      (if World.WorldType = .Editor ∧ s.PolygonMesh.isSome = true then (do
          Op.call (.RegisterGpuVertexModifier FComputeMaterial.empty)
          Op.call (.RegisterVertexModifier false) : Op Unit)
        else pure ()) := by
    split
    · exact keeps_bind F (keeps_call F _ rfl) fun _ => keeps_call F _ rfl
    · exact keeps_pure F _
  refine ends_ok_keeps_bind hpre (by split <;> rfl) fun _ s1 h1 => ?_
  refine ends_update_bind _ _ _ fun s2 h2 => ?_
  have hpm2 : s2.PolygonMesh ≠ none := by rw [h2]; exact Option.some_ne_none _
  refine ends_ok_keeps_bind (keeps_viaPolygonMesh F _ rfl) (viaPolygonMesh_isOk _ _ hpm2)
    fun _ s3 h3 => ?_
  have hpm3 : s3.PolygonMesh ≠ none := by
    rw [show s3.PolygonMesh = s2.PolygonMesh from h3.1.field AOpenLandMeshActor.PolygonMesh]
    exact hpm2
  refine ends_ok_keeps_bind (keeps_registerGpuIfEnabled F) (registerGpuIfEnabled_isOk _ hpm3)
    fun _ s4 h4 => ?_
  have hpm4 : s4.PolygonMesh ≠ none := by
    rw [show s4.PolygonMesh = s3.PolygonMesh from h4.1.field AOpenLandMeshActor.PolygonMesh]
    exact hpm3
  have fld : ∀ {β : Type} (g : AOpenLandMeshActor → β),
      (∀ x p, g { x with PolygonMesh := p } = g x) →
      (∀ x (M : List FSimpleMeshInfo) (S : List (Option Nat)) (C : List Event),
        g { x with Meshes := M, Sections := S, Calls := C } = g x) → g s4 = g s := by
    intro β g hp hr
    have a := h4.1.field g
    have b := h3.1.field g
    have c := h1.1.field g
    rw [hr] at a b c
    rw [a, b, h2, hp, c]
  have hSub4 : s4.SubDivisions = s.SubDivisions :=
    fld AOpenLandMeshActor.SubDivisions (fun _ _ => rfl) (fun _ _ _ _ => rfl)
  have hAng4 : s4.SmoothNormalAngle = s.SmoothNormalAngle :=
    fld AOpenLandMeshActor.SmoothNormalAngle (fun _ _ => rfl) (fun _ _ _ _ => rfl)
  have hLODs4 : s4.LODs = s.LODs :=
    fld AOpenLandMeshActor.LODs (fun _ _ => rfl) (fun _ _ _ _ => rfl)
  have hCur4 : s4.CurrentLODIndex = s.CurrentLODIndex :=
    fld AOpenLandMeshActor.CurrentLODIndex (fun _ _ => rfl) (fun _ _ _ _ => rfl)
  have hRes4 : s4.Results = s.Results :=
    fld AOpenLandMeshActor.Results (fun _ _ => rfl) (fun _ _ _ _ => rfl)
  have hM4 : s4.Meshes.length = s.Meshes.length := by
    rw [h4.2, h3.2, h2]
    exact h1.2
  have hC4 : ∃ es, s4.Calls = s.Calls ++ es ∧ es.filter Event.isBuildMesh = [] := by
    obtain ⟨⟨-, e1, c1, f1⟩, -⟩ := h1
    obtain ⟨⟨-, e3, c3, f3⟩, -⟩ := h3
    obtain ⟨⟨-, e4, c4, f4⟩, -⟩ := h4
    refine ⟨e1 ++ e3 ++ e4, ?_, by simp [f1, f3, f4]⟩
    rw [c4, c3, h2]
    simp [c1]
  clear fld h4 h3 h2 h1 hpre hpm2 hpm3
  obtain ⟨s5, rs, hloop, hlen, hL5, hT5, hC5, hf5, -⟩ := BuildMeshLoop_built env s
    s.MaximumLODCount.toNat 0 [] s4 hSub4 hAng4 hpm4
    (by rw [answersUsable_congr env _ 0 s s4 hRes4 hM4]; exact hans)
  rw [List.nil_append, hLODs4] at hloop
  rw [hLODs4] at hL5
  have hCur5 : s5.CurrentLODIndex = s.CurrentLODIndex :=
    (congrArg AOpenLandMeshActor.CurrentLODIndex hf5).trans hCur4
  have hC5' : ∃ es, s5.Calls = s.Calls ++ es
      ∧ es.filter Event.isBuildMesh = tierCalls env s 0 s.MaximumLODCount.toNat := by
    obtain ⟨e4, c4, f4⟩ := hC4
    refine ⟨e4 ++ tierCalls env s 0 s.MaximumLODCount.toNat, ?_, ?_⟩
    · rw [hC5, c4, List.append_assoc]
    · rw [List.filter_append, f4, filter_tierCalls, List.nil_append]
  have hvalid : ∀ LOD ∈ tierPointers s.LODs.length s.MaximumLODCount.toNat,
      ∃ b, carriesCollision s5 LOD = some b := by
    intro LOD hLOD
    rw [← hlen] at hLOD
    exact tierPointers_ready hL5 hT5 hLOD
  clear hC5 hC4 hf5 hpm4 hCur4 hLODs4 hSub4 hAng4 hRes4 hM4
  refine ends_of_ok
    (P := fun x s' => x = tierPointers s.LODs.length s.MaximumLODCount.toNat ∧ s' = s5)
    ⟨_, _, hloop, rfl, rfl⟩ ?_
  intro x5 s5' h5
  rw [h5.1, h5.2]
  clear h5 x5 s5' hloop
  have hreg : Keeps Settled
      (if CanRenderMesh env s = true then (do
          RegisterSectionsLoop (tierPointers s.LODs.length s.MaximumLODCount.toNat)
          Op.call (.SetupCollisions s.bUseAsyncCollisionCooking)
          Op.call .InvalidateRendering : Op Unit)
        else (do
          RemoveAllSections
          Op.call .InvalidateRendering : Op Unit)) := by
    split
    · exact keeps_bind F (keeps_RegisterSectionsLoop F _) fun _ =>
        keeps_bind F (keeps_call F _ rfl) fun _ => keeps_call F _ rfl
    · exact keeps_bind F (keeps_RemoveAllSections F) fun _ => keeps_call F _ rfl
  have hregok : ((if CanRenderMesh env s = true then (do
          RegisterSectionsLoop (tierPointers s.LODs.length s.MaximumLODCount.toNat)
          Op.call (.SetupCollisions s.bUseAsyncCollisionCooking)
          Op.call .InvalidateRendering : Op Unit)
        else (do
          RemoveAllSections
          Op.call .InvalidateRendering : Op Unit)) s5).isOk = true := by
    by_cases hc : CanRenderMesh env s = true
    · rw [if_pos hc]
      obtain ⟨s6, h1, -, -⟩ := RegisterSectionsLoop_ok _ s5 hvalid
      simp only [Op.bind_apply, h1]
      rfl
    · rw [if_neg hc]
      rfl
  refine ends_ok_keeps_bind hreg hregok fun _ s6 h6 => ?_
  refine ends_update_bind _ _ _ fun s7 h7 => ?_
  have hidx : Ends
      ((if s.CurrentLODIndex ≥
            ((tierPointers s.LODs.length s.MaximumLODCount.toNat).length : Int) then
          Op.update fun x => { x with CurrentLODIndex := 0 }
        else pure () : Op Unit) s7)
      (fun _ s8 => s8 = { s7 with CurrentLODIndex :=
          (if s.CurrentLODIndex ≥ s.MaximumLODCount then 0 else s.CurrentLODIndex) })
      (fun _ => False) := by
    have hl : (tierPointers s.LODs.length s.MaximumLODCount.toNat).length
        = s.MaximumLODCount.toNat := by simp [tierPointers]
    rw [hl, hNn]
    have h67 : s7.CurrentLODIndex = s.CurrentLODIndex := by
      have a := h6.1.field AOpenLandMeshActor.CurrentLODIndex
      subst h7
      exact a.trans hCur5
    by_cases hc : s.CurrentLODIndex ≥ s.MaximumLODCount
    · rw [if_pos hc, if_pos hc]
      exact rfl
    · rw [if_neg hc, if_neg hc]
      show s7 = { s7 with CurrentLODIndex := s.CurrentLODIndex }
      rw [← h67]
  refine ends_bind (hidx.mono (fun _ s8 h8 => ?_) fun _ h => h)
  rw [read_bind]
  have hc0 : 0 ≤ (if s.CurrentLODIndex ≥ s.MaximumLODCount then 0 else s.CurrentLODIndex) := by
    split <;> omega
  have hc1 : (if s.CurrentLODIndex ≥ s.MaximumLODCount then 0 else s.CurrentLODIndex).toNat
      < s.MaximumLODCount.toNat := by
    split <;> omega
  have hL8 : s8.LODList = tierPointers s.LODs.length s.MaximumLODCount.toNat := by
    rw [h8, h7]
  have hC8 : s8.CurrentLODIndex
      = (if s.CurrentLODIndex ≥ s.MaximumLODCount then 0 else s.CurrentLODIndex) := by
    rw [h8]
  rw [hL8, hC8, elemAt_tierPointers _ _ _ hc0 hc1, need_some_bind]
  refine ends_update_bind _ _ _ fun s9 h9 => ?_
  have hmat : (SetMaterial s9).isOk = true := by
    obtain ⟨s10, h, -⟩ := SetMaterial_ok s9
    rw [h]
    rfl
  refine ends_ok_keeps_bind (keeps_SetMaterial F) hmat fun _ s10 h10 => ?_
  refine ends_update_bind _ _ _ fun s11 h11 => ?_
  have hG11 : Grown s5 s11 :=
    grown_frame.chain _ _ _ h6.grown (grown_frame.chain _ _ _
      (grown_of_eq (by rw [h9, h8, h7]) (by rw [h9, h8, h7]) (by rw [h9, h8, h7]))
      (grown_frame.chain _ _ _ h10.grown
        (grown_of_eq (by rw [h11]) (by rw [h11]) (by rw [h11]))))
  have g10 := fun {β : Type} (g : AOpenLandMeshActor → β) => h10.1.field g
  have g6 := fun {β : Type} (g : AOpenLandMeshActor → β) => h6.1.field g
  have hLL11 : s11.LODList = tierPointers s.LODs.length s.MaximumLODCount.toNat := by
    have b := g10 AOpenLandMeshActor.LODList
    rw [h11]
    exact b.trans (by rw [h9]; exact hL8)
  have hCC11 : s11.CurrentLODIndex
      = (if s.CurrentLODIndex ≥ s.MaximumLODCount then 0 else s.CurrentLODIndex) := by
    have b := g10 AOpenLandMeshActor.CurrentLODIndex
    rw [h11]
    exact b.trans (by rw [h9]; exact hC8)
  have hCL11 : s11.CurrentLOD = some (s.LODs.length
      + (if s.CurrentLODIndex ≥ s.MaximumLODCount then 0 else s.CurrentLODIndex).toNat) := by
    have b := g10 AOpenLandMeshActor.CurrentLOD
    rw [h11]
    exact b.trans (by rw [h9])
  have hLD11 : s11.LODs = s.LODs ++ slotsOf 0 rs := by
    have b := g10 AOpenLandMeshActor.LODs
    have c := g6 AOpenLandMeshActor.LODs
    rw [h11]
    exact b.trans (by rw [h9, h8, h7]; exact c.trans hL5)
  have hvalid11 : ∀ LOD ∈ tierPointers s.LODs.length s.MaximumLODCount.toNat,
      ∃ b, carriesCollision s11 LOD = some b := fun LOD h => hG11.ready (hvalid LOD h)
  have hfin : Keeps Settled
      (if s.bRunInstancingAfterBuildMesh = true then ApplyInstances env else pure ()) := by
    split
    · exact keeps_ApplyInstances F env
    · exact keeps_pure F _
  have hfinok : ((if s.bRunInstancingAfterBuildMesh = true then ApplyInstances env
      else pure ()) s11).isOk = true := by
    split
    · obtain ⟨s12, h, -⟩ := ApplyInstances_ok env s11 World hworld
        (fun LOD hL => hvalid11 _ (by rw [← hLL11]; exact hL))
        (by
          rw [hCL11]
          exact hvalid11 _ (elemAt_mem (elemAt_tierPointers _ _ _ hc0 hc1)))
      rw [h]
      rfl
    · rfl
  refine (ends_ok_keeps hfin hfinok).mono (fun _ s12 h12 => ?_) fun _ h => h
  have g12 := fun {β : Type} (g : AOpenLandMeshActor → β) => h12.1.field g
  have hCC12 : s12.CurrentLODIndex
      = (if s.CurrentLODIndex ≥ s.MaximumLODCount then 0 else s.CurrentLODIndex) :=
    (g12 AOpenLandMeshActor.CurrentLODIndex).trans hCC11
  refine ⟨(g12 AOpenLandMeshActor.LODList).trans hLL11,
    ⟨rs, hlen, (g12 AOpenLandMeshActor.LODs).trans hLD11,
      fun r hr => (grown_frame.chain _ _ _ hG11 h12.grown).target_kept (hT5 r hr)⟩,
    hCC12, ?_, ?_, ?_⟩
  · rw [hCC12]
    exact (g12 AOpenLandMeshActor.CurrentLOD).trans hCL11
  · have a := g12 AOpenLandMeshActor.bMeshGenerated
    rw [h11] at a
    exact a
  · obtain ⟨e5, c5, f5⟩ := hC5'
    obtain ⟨⟨-, e6, c6, f6⟩, -⟩ := h6
    obtain ⟨⟨-, e10, c10, f10⟩, -⟩ := h10
    obtain ⟨⟨-, e12, c12, f12⟩, -⟩ := h12
    refine ⟨e5 ++ e6 ++ e10 ++ e12, ?_, by simp [f5, f6, f10, f12]⟩
    rw [c12, h11]
    simp only []
    rw [c10, h9, h8, h7]
    simp only []
    rw [c6, c5]
    simp

theorem tierCalls_at (env : Env) (s : AOpenLandMeshActor) (n i : Nat) (h : i < n) :
    (tierCalls env s 0 n)[i]? = some (syncBuildCall env s i) := by
  simp [tierCalls, List.getElem?_range h]

/-- The requests of the two build paths agree: let `BuildMesh` run on the actor `s` with
usable answers of the proxy, let `i` be one of its tiers, and
let `BuildMeshAsync(i)` run on an actor `a` with the same `SubDivisions` and
`SmoothNormalAngle` whose `LODList` reaches to slot `i`. Then both runs reach their end,
and the `i`-th call `PolygonMesh->BuildMesh` of the first and the call
`PolygonMesh->BuildMeshAsync` of the second carry the same build options `o` and the same
cache key: the subdivision depth is `max(SubDivisions - i, 0)`, the cusp angle is
`SmoothNormalAngle`, the forced texture width is `CeilToInt(Sqrt(n))`, computed in
`float`, of `n = CalculateVerticesForSubdivision(SubDivisions)`, in which `i` does not
occur, and the key is `MakeCacheKey` of `SubDivisions` and that depth. -/
theorem BuildMesh_BuildMeshAsync_same_request (env : Env) (s : AOpenLandMeshActor)
    (World : UWorld) (hworld : env.World = some World) (hN : 1 ≤ s.MaximumLODCount)
    (hcur : 0 ≤ s.CurrentLODIndex)
    (hans : answersUsable env s.MaximumLODCount.toNat 0 s = true)
    (a : AOpenLandMeshActor) (i : Nat) (hi : (i : Int) < s.MaximumLODCount)
    (hSub : a.SubDivisions = s.SubDivisions)
    (hAng : a.SmoothNormalAngle = s.SmoothNormalAngle)
    (hin : (i : Int) < (a.LODList.length : Int)) :
    ∃ (o : FOpenLandPolygonMeshBuildOptions) (key : String) (s' a' : AOpenLandMeshActor)
      (es : List Event),
      o = FOpenLandPolygonMeshBuildOptions.mk (max (s.SubDivisions - i) 0)
            s.SmoothNormalAngle (CeilSqrt env (env.CalculateVerticesForSubdivision s.SubDivisions))
      ∧ key = MakeCacheKey env.GetCacheKey s.SubDivisions (max (s.SubDivisions - i) 0)
      ∧ BuildMesh env s = .ok () s' ∧ s'.Calls = s.Calls ++ es
      ∧ (es.filter Event.isBuildMesh)[i]? = some (.BuildMesh o key)
      ∧ BuildMeshAsync env i a = .ok () a'
      ∧ a'.Calls = a.Calls ++
          [.RegisterVertexModifier a.bRunCpuVertexModifiers,
           .RegisterGpuVertexModifier
              (if a.bRunGpuVertexModifiers then a.GpuVertexModifier else FComputeMaterial.empty),
           .BuildMeshAsync i o key] := by
  obtain ⟨_, s', hrun, -, -, -, -, -, es, hes, hfilter⟩ :=
    ends_total (BuildMesh_built env s World hworld hN hcur hans)
  have hi' : i < s.MaximumLODCount.toNat := by omega
  refine ⟨_, _, s', _, es, rfl, rfl, hrun, hes, ?_,
    BuildMeshAsync_inRange env a i (Int.natCast_nonneg i) hin, ?_⟩
  · rw [hfilter, tierCalls_at env s _ i hi']
    rfl
  · simp [afterBuildMeshAsync, asyncBuildCalls, asyncBuildOptions, hSub, hAng, max_comm]

/-- An instance of `BuildMesh_BuildMeshAsync_same_request`: `BuildMesh` on the unbuilt
three-tier actor in `cachedWorld` and
`BuildMeshAsync(1)` on the same actor once `SwitchLODs` has marked tier 1 for an async
build (the list then reaches to slot 1). -/
theorem BuildMesh_BuildMeshAsync_same_request_witness :
    ∃ (o : FOpenLandPolygonMeshBuildOptions) (key : String) (s' a' : AOpenLandMeshActor)
      (es : List Event),
      o = FOpenLandPolygonMeshBuildOptions.mk (max (unbuiltThreeTiers.SubDivisions - (1 : Nat)) 0)
            unbuiltThreeTiers.SmoothNormalAngle
            (CeilSqrt cachedWorld (cachedWorld.CalculateVerticesForSubdivision unbuiltThreeTiers.SubDivisions))
      ∧ key = MakeCacheKey cachedWorld.GetCacheKey unbuiltThreeTiers.SubDivisions
                (max (unbuiltThreeTiers.SubDivisions - (1 : Nat)) 0)
      ∧ BuildMesh cachedWorld unbuiltThreeTiers = .ok () s'
      ∧ s'.Calls = unbuiltThreeTiers.Calls ++ es
      ∧ (es.filter Event.isBuildMesh)[1]? = some (.BuildMesh o key)
      ∧ BuildMeshAsync cachedWorld (1 : Nat) (markedForAsyncBuild unbuiltThreeTiers 1) = .ok () a'
      ∧ a'.Calls = (markedForAsyncBuild unbuiltThreeTiers 1).Calls ++
          [.RegisterVertexModifier (markedForAsyncBuild unbuiltThreeTiers 1).bRunCpuVertexModifiers,
           .RegisterGpuVertexModifier
              (if (markedForAsyncBuild unbuiltThreeTiers 1).bRunGpuVertexModifiers
               then (markedForAsyncBuild unbuiltThreeTiers 1).GpuVertexModifier
               else FComputeMaterial.empty),
           .BuildMeshAsync (1 : Nat) o key] :=
  BuildMesh_BuildMeshAsync_same_request cachedWorld unbuiltThreeTiers
    { WorldType := .Game, ViewDistances := [0] } rfl (by decide) (by decide) (by decide!)
    (markedForAsyncBuild unbuiltThreeTiers 1) 1 (by decide) rfl rfl (by decide)

/-- Up to `2 ^ 24` vertices the forced texture width is the ceiling of the square root of
the vertex count. -/
theorem CeilSqrt_exact_to_two_pow_24 (env : Env) (n : Int) (h0 : 0 ≤ n) (h1 : n ≤ 16777216) :
    CeilSqrt env n = ceilSqrtExact n :=
  ceilToInt_sqrt_exact env.CeilToIntOfNaN n h0 h1

/-- C23, a bug of the code: the forced texture width is computed in `float`,
`CeilToInt(Sqrt(n))` with the `int32` count `n` converted to `float`, and falls short of
the ceiling of the square root. With 16777217 vertices at the configured depth
(`manyVerticesWorld`) the count is rounded to the float 16777216, whose root is 4096: the
three requests of `BuildMesh` and the request of `BuildMeshAsync(1)` carry the width
4096, while the ceiling of the square root of 16777217 is 4097; a texture of width 4096
has 16777216 texels, one less than there are vertices. -/
theorem BuildMesh_width_below_root_ceiling :
    manyVerticesWorld.CalculateVerticesForSubdivision unbuiltThreeTiers.SubDivisions
      = 16777217
    ∧ Float32.ofInt 16777217 = .finite 16777216
    ∧ Float32.sqrt (.finite 16777216) = .finite 4096
    ∧ CeilSqrt manyVerticesWorld 16777217 = 4096
    ∧ ceilSqrtExact 16777217 = 4097
    ∧ (4096 : Int) * 4096 < 16777217
    ∧ (BuildMesh manyVerticesWorld unbuiltThreeTiers).isOk = true
    ∧ (BuildMesh manyVerticesWorld unbuiltThreeTiers).state.Calls.filter Event.isBuildMesh
        = [.BuildMesh (FOpenLandPolygonMeshBuildOptions.mk 0 0 4096) "",
           .BuildMesh (FOpenLandPolygonMeshBuildOptions.mk 0 0 4096) "",
           .BuildMesh (FOpenLandPolygonMeshBuildOptions.mk 0 0 4096) ""]
    ∧ (BuildMeshAsync manyVerticesWorld 1 (markedForAsyncBuild unbuiltThreeTiers 1)).isOk = true
    ∧ (BuildMeshAsync manyVerticesWorld 1
          (markedForAsyncBuild unbuiltThreeTiers 1)).state.Calls.getLast?
        = some (.BuildMeshAsync 1 (FOpenLandPolygonMeshBuildOptions.mk 0 0 4096) "") := by
  have hq : Nat.sqrt 16777216 = 4096 := (Nat.eq_sqrt.2 ⟨by norm_num, by norm_num⟩).symm
  refine ⟨by decide!, by decide!, by decide!, by decide!, by simp [ceilSqrtExact, hq],
    by decide, by decide!, by decide!, by decide!, by decide!⟩

/-! ## Theorems: the section a synchronous modify updates, and a modify on an undelivered LOD -/

/-- C25, a bug of the code: the synchronous modify updates the section numbered
`CurrentLODIndex`, not `CurrentLOD->MeshSectionIndex`. On the actor `asyncGameActor` the
run `tierOneCurrent` (all its steps reach their end) leaves tier 1 current
(`CurrentLODIndex = 1`) with `CurrentLOD->MeshSectionIndex = 0`, the one section the
component has. There `ModifyMesh` reaches its end and its last call is
`UpdateMeshSection(1)`; it never calls `UpdateMeshSection(0)`. The async path from the
same state (`tierOneAsyncModify`) calls `UpdateMeshSection(0)`. The per-frame
`RunSyncModifyMeshProcess` does the same: the tick on `animatedTierOneBuilt` (viewer at
1001) makes tier 1 current, whose section is 0, and calls `UpdateMeshSection(1)`, not
`UpdateMeshSection(0)`. -/
theorem sync_modify_updates_section_of_CurrentLODIndex :
    tierOneCurrent.isOk = true
    ∧ tierOneCurrent.state.CurrentLODIndex = 1
    ∧ currentSection tierOneCurrent.state = some 0
    ∧ tierOneCurrent.state.Sections.length = 1
    ∧ (ModifyMesh (viewerAt 1001) tierOneCurrent.state).isOk = true
    ∧ (ModifyMesh (viewerAt 1001) tierOneCurrent.state).state.Calls.getLast?
        = some (.UpdateMeshSection 1)
    ∧ Event.UpdateMeshSection 0
        ∉ (ModifyMesh (viewerAt 1001) tierOneCurrent.state).state.Calls.drop
            tierOneCurrent.state.Calls.length
    ∧ currentSection (ModifyMesh (viewerAt 1001) tierOneCurrent.state).state = some 0
    ∧ tierOneAsyncModify.isOk = true
    ∧ tierOneAsyncModify.state.Calls.getLast? = some (.UpdateMeshSection 0)
    ∧ animatedTierOneBuilt.isOk = true
    ∧ (Tick (viewerAt 1001) 0 animatedTierOneBuilt.state).isOk = true
    ∧ (Tick (viewerAt 1001) 0 animatedTierOneBuilt.state).state
        = (RunSyncModifyMeshProcess (viewerAt 1001)
            { animatedTierOneBuilt.state with
              Calls := animatedTierOneBuilt.state.Calls ++ [.UpdateTransforms] }).state
    ∧ (Tick (viewerAt 1001) 0 animatedTierOneBuilt.state).state.CurrentLODIndex = 1
    ∧ currentSection (Tick (viewerAt 1001) 0 animatedTierOneBuilt.state).state = some 0
    ∧ Event.UpdateMeshSection 1
        ∈ (Tick (viewerAt 1001) 0 animatedTierOneBuilt.state).state.Calls.drop
            animatedTierOneBuilt.state.Calls.length
    ∧ Event.UpdateMeshSection 0
        ∉ (Tick (viewerAt 1001) 0 animatedTierOneBuilt.state).state.Calls.drop
            animatedTierOneBuilt.state.Calls.length := by
  refine ⟨by decide!, by decide!, by decide!, by decide!, by decide!, by decide!, by decide!,
    by decide!, by decide!, by decide!, by decide!, by decide!, by decide!, by decide!, by decide!,
    by decide!, by decide!⟩

/-- C28, a bug of the code: `RunSyncModifyMeshProcess` ignores `bAsyncBuildStarted`. On
`animatedTierOneBuilt` (tier 1 built, `CurrentLOD` its slot, all steps reached their end)
a tick with the viewer at the actor ends in the state in which `RunSyncModifyMeshProcess`
ends after the call `UpdateTransforms`; its `SwitchLODs` reaches its end, marks the async
build of tier 0 and leaves as `CurrentLOD` the new slot of tier 0, whose
`MeshBuildResult` is null (the result has not been delivered); `MakeModifyReady` then
reads `CurrentLOD->MeshBuildResult->CacheKey` and stops at the null pointer, and so does
the tick, with the async build of tier 0 still marked. -/
theorem RunSyncModifyMeshProcess_modifies_undelivered_LOD :
    animatedTierOneBuilt.isOk = true
    ∧ (currentResult animatedTierOneBuilt.state).bind id ≠ none
    ∧ (Tick (viewerAt 0) 0 animatedTierOneBuilt.state).state
        = (RunSyncModifyMeshProcess (viewerAt 0)
            { animatedTierOneBuilt.state with
              Calls := animatedTierOneBuilt.state.Calls ++ [.UpdateTransforms] }).state
    ∧ (SwitchLODs (viewerAt 0) animatedTierOneBuilt.state).isOk = true
    ∧ currentResult (SwitchLODs (viewerAt 0) animatedTierOneBuilt.state).state = some none
    ∧ (SwitchLODs (viewerAt 0) animatedTierOneBuilt.state).state.AsyncBuildingLODIndex = 0
    ∧ (MakeModifyReady (SwitchLODs (viewerAt 0) animatedTierOneBuilt.state).state).isOk = false
    ∧ (RunSyncModifyMeshProcess (viewerAt 0) animatedTierOneBuilt.state).isOk = false
    ∧ (Tick (viewerAt 0) 0 animatedTierOneBuilt.state).isOk = false
    ∧ currentResult (Tick (viewerAt 0) 0 animatedTierOneBuilt.state).state = some none
    ∧ (Tick (viewerAt 0) 0 animatedTierOneBuilt.state).state.AsyncBuildingLODIndex = 0
    ∧ (Tick (viewerAt 0) 0 animatedTierOneBuilt.state).state.Calls.getLast?
        = some (.BuildMeshAsync 0 {} "") := by
  refine ⟨by decide!, by decide!, by decide!, by decide!, by decide!, by decide!, by decide!,
    by decide!, by decide!, by decide!, by decide!, by decide!⟩

/-! ## Theorems: the flags written on a fetched target -/

theorem sameButFlags_trans {a b c : FSimpleMeshInfo} (h1 : sameButFlags a b)
    (h2 : sameButFlags b c) : sameButFlags a c := by
  unfold sameButFlags at *
  cases a; cases b; cases c
  simp only [FSimpleMeshInfo.mk.injEq] at *
  exact ⟨trivial, trivial, h2.2.2.1.trans h1.2.2.1, h2.2.2.2.trans h1.2.2.2⟩

theorem flagsOnly_of_eq {s s' : AOpenLandMeshActor} (hR : s'.Results = s.Results)
    (hM : s'.Meshes = s.Meshes) : FlagsOnly s s' :=
  ⟨fun _ _ h => by rw [hR]; exact h, fun _ m h => ⟨m, by rw [hM]; exact h, rfl⟩⟩

theorem flagsOnly_set (s : AOpenLandMeshActor) (t : Nat) (v w : FSimpleMeshInfo)
    (hv : s.Meshes[t]? = some v) (hw : sameButFlags v w) :
    FlagsOnly s { s with Meshes := s.Meshes.set t w } := by
  refine ⟨fun _ _ h => h, fun u m h => ?_⟩
  by_cases hu : t = u
  · subst hu
    rw [hv] at h
    cases h
    have hlt : t < s.Meshes.length := (List.getElem?_eq_some_iff.1 hv).1
    exact ⟨w, by simp [hlt], hw⟩
  · exact ⟨m, by simp [List.getElem?_set_ne hu, h], rfl⟩

theorem flagsOnly_frame : RenderFrame FlagsOnly := by
  refine ⟨fun _ => flagsOnly_of_eq rfl rfl, fun a b c h1 h2 => ⟨fun i v h => ?_, fun t m h => ?_⟩,
    fun _ _ _ => flagsOnly_of_eq rfl rfl, fun _ _ => flagsOnly_of_eq rfl rfl,
    fun t v b s h => flagsOnly_set s t v _ h rfl⟩
  · exact h2.1 i v (h1.1 i v h)
  · obtain ⟨m1, e1, f1⟩ := h1.2 t m h
    obtain ⟨m2, e2, f2⟩ := h2.2 t m1 e1
    exact ⟨m2, e2, sameButFlags_trans f1 f2⟩

theorem flags_update (g : AOpenLandMeshActor → AOpenLandMeshActor)
    (hR : ∀ s, (g s).Results = s.Results) (hM : ∀ s, (g s).Meshes = s.Meshes) :
    Keeps FlagsOnly (Op.update g) :=
  keeps_update g fun s => flagsOnly_of_eq (hR s) (hM s)

theorem flags_call (e : Event) : Keeps FlagsOnly (Op.call e) :=
  ⟨fun _ => flagsOnly_of_eq rfl rfl⟩

theorem flags_viaPolygonMesh (e : Event) : Keeps FlagsOnly (viaPolygonMesh e) :=
  keeps_bind flagsOnly_frame (keeps_read flagsOnly_frame) fun _ =>
    keeps_bind flagsOnly_frame (keeps_need flagsOnly_frame _) fun _ => flags_call e

theorem flags_storeCollision (p : Option Nat) (b : Bool) :
    Keeps FlagsOnly (storeMesh p fun m => { m with bEnableCollision := b }) := by
  constructor
  intro s
  cases p with
  | none => simpa [storeMesh, derefMesh, Outcome.state] using flagsOnly_frame.same s
  | some t =>
    cases h : s.Meshes[t]? with
    | none => simpa [storeMesh, derefMesh, h, Outcome.state] using flagsOnly_frame.same s
    | some v =>
      simpa [storeMesh, derefMesh, h, Outcome.state] using
        flagsOnly_set s t v { v with bEnableCollision := b } h rfl

theorem flags_storeLOD (p : Option Nat) (f : FLODInfo → FLODInfo) :
    Keeps FlagsOnly (storeLOD p f) :=
  keeps_bind flagsOnly_frame (keeps_derefLOD flagsOnly_frame p) fun _ =>
    flags_update _ (fun _ => rfl) (fun _ => rfl)

theorem flags_newLOD (v : FLODInfo) : Keeps FlagsOnly (newLOD v) :=
  ⟨fun _ => flagsOnly_of_eq rfl rfl⟩

theorem flags_newMesh (v : FSimpleMeshInfo) : Keeps FlagsOnly (newMesh v) := by
  refine ⟨fun s => ⟨fun _ _ h => h, fun t m h => ⟨m, ?_, rfl⟩⟩⟩
  have hlt : t < s.Meshes.length := (List.getElem?_eq_some_iff.1 h).1
  simp only [newMesh, Outcome.state, List.getElem?_append_left hlt, h]

theorem flags_newResult (v : FOpenLandPolygonMeshBuildResult) :
    Keeps FlagsOnly (newResult v) := by
  refine ⟨fun s => ⟨fun i x h => ?_, fun t m h => ⟨m, h, rfl⟩⟩⟩
  have hlt : i < s.Results.length := (List.getElem?_eq_some_iff.1 h).1
  simp only [newResult, Outcome.state, List.getElem?_append_left hlt, h]

theorem flags_takeAnswer (a : FBuildAnswer) : Keeps FlagsOnly (takeAnswer a) := by
  have F := flagsOnly_frame
  cases a with
  | Shared r => exact keeps_pure F _
  | Fresh o t r =>
    unfold takeAnswer
    refine keeps_bind F (flags_newMesh _) fun _ => keeps_bind F ?_ fun _ => flags_newResult _
    cases t with
    | none => exact keeps_pure F _
    | some m => exact flags_newMesh m

theorem flags_BuildMeshLoop (env : Env) (w : Int) :
    ∀ (n : Nat) (K : Int) (list : List (Option Nat)),
      Keeps FlagsOnly (BuildMeshLoop env w n K list) := by
  have F := flagsOnly_frame
  intro n
  induction n with
  | zero => exact fun _ _ => keeps_pure F _
  | succ n ih =>
    intro K list
    unfold BuildMeshLoop
    repeat (first
      | exact ih _ _
      | exact keeps_pure F _
      | exact keeps_read F
      | exact keeps_derefResult F _
      | exact keeps_storeVisible F _ _
      | exact flags_storeCollision _ _
      | exact flags_viaPolygonMesh _
      | exact flags_takeAnswer _
      | exact flags_newLOD _
      | apply keeps_bind F
      | intro _
      | dsimp only
      | split)

theorem flags_BuildMesh (env : Env) : Keeps FlagsOnly (BuildMesh env) := by
  have F := flagsOnly_frame
  unfold BuildMesh obtainPolygonMesh
  repeat (first
    | exact keeps_pure F _
    | exact keeps_read F
    | exact keeps_need F _
    | exact flags_call _
    | exact flags_viaPolygonMesh _
    | exact keeps_registerGpuIfEnabled F
    | exact flags_BuildMeshLoop env _ _ _ _
    | exact keeps_RegisterSectionsLoop F _
    | exact keeps_RemoveAllSections F
    | exact keeps_SetMaterial F
    | exact keeps_ApplyInstances F env
    | exact flags_update _ (fun _ => rfl) (fun _ => rfl)
    | apply keeps_bind F
    | intro _
    | dsimp only
    | split)

theorem flags_FinishBuildMeshAsync (env : Env) : Keeps FlagsOnly (FinishBuildMeshAsync env) := by
  have F := flagsOnly_frame
  unfold FinishBuildMeshAsync
  repeat (first
    | exact keeps_pure F _
    | exact keeps_read F
    | exact keeps_derefLOD F _
    | exact keeps_derefResult F _
    | exact keeps_derefMesh F _
    | exact flags_call _
    | exact flags_storeLOD _ _
    | exact keeps_storeVisible F _ _
    | exact flags_storeCollision _ _
    | exact keeps_CreateMeshSection F _ _
    | exact keeps_RemoveAllSections F
    | exact keeps_SetMaterial F
    | exact keeps_EnsureLODVisibility F
    | exact keeps_ApplyInstances F env
    | exact flags_update _ (fun _ => rfl) (fun _ => rfl)
    | apply keeps_bind F
    | intro _
    | dsimp only
    | split)

/-- C21, a bug of the code: the flags are written on the fetched target itself, with no
`MakeModifyReady` before, so that tiers which share a cached result overwrite the flags
of each other. (1) `BuildMesh` on `cachedLOD` in `cacheHitWorld` fetches with the key
`k::0::0` the build result 0 of the store, a cached result (its own `CacheKey` is `k`,
not empty); its target, mesh 1, had `bEnableCollision` clear and has it set afterwards,
while the new `FLODInfo` holds the fetched result 0 itself with `bIsModifyReady` clear,
and no result and no mesh was added to the stores (no shallow clone, no clone of the
target). (2) `EnsureLODVisibility` on `cachedLOD` with tier 1 current clears
`bSectionVisible` of that same target, the LOD being not modify-ready. (3) On the
delivery of the cached result 0 to `cacheHolder`, `FinishBuildMeshAsync` sets
`bEnableCollision` of its target, mesh 1, again with the LOD not modify-ready and nothing
added to the stores. (4) In `sharedDepthWorld` the three tiers of the actor have one
depth and one key, and `BuildMesh` gives them one build result and one target, the mesh
of the three sections: the flags written for tier 2 are the ones all tiers end with, so
the current tier 0 is not flagged visible and, with collision enabled and tier 0
designated, no tier carries collision. -/
theorem flags_written_on_fetched_target :
    (BuildMesh cacheHitWorld cachedLOD).isOk = true
    ∧ Event.BuildMesh (FOpenLandPolygonMeshBuildOptions.mk 0 0 0) "k::0::0"
        ∈ (BuildMesh cacheHitWorld cachedLOD).state.Calls
    ∧ cachedLOD.Meshes[1]? = some (FSimpleMeshInfo.mk true false false 4)
    ∧ (BuildMesh cacheHitWorld cachedLOD).state.Meshes[1]?
        = some (FSimpleMeshInfo.mk true true false 4)
    ∧ (BuildMesh cacheHitWorld cachedLOD).state.LODs
        = [FLODInfo.mk (some 0) 0 0 false, FLODInfo.mk (some 0) 0 0 false]
    ∧ (BuildMesh cacheHitWorld cachedLOD).state.CurrentLOD = some 1
    ∧ (BuildMesh cacheHitWorld cachedLOD).state.Results = cachedLOD.Results
    ∧ (BuildMesh cacheHitWorld cachedLOD).state.Meshes.length = cachedLOD.Meshes.length
    ∧ (EnsureLODVisibility { cachedLOD with CurrentLODIndex := 1 }).isOk = true
    ∧ (EnsureLODVisibility { cachedLOD with CurrentLODIndex := 1 }).state.Meshes[1]?
        = some (FSimpleMeshInfo.mk false false false 4)
    ∧ (EnsureLODVisibility { cachedLOD with CurrentLODIndex := 1 }).state.LODs
        = [FLODInfo.mk (some 0) 0 0 false]
    ∧ (EnsureLODVisibility { cachedLOD with CurrentLODIndex := 1 }).state.Results
        = cachedLOD.Results
    ∧ hitDelivered.isOk = true
    ∧ cacheHolder.Meshes[1]? = some (FSimpleMeshInfo.mk true false false 0)
    ∧ hitDelivered.state.Meshes[1]? = some (FSimpleMeshInfo.mk true true false 0)
    ∧ hitDelivered.state.LODs = [FLODInfo.mk (some 0) 0 0 false]
    ∧ hitDelivered.state.Results = cacheHolder.Results
    ∧ hitDelivered.state.Meshes.length = cacheHolder.Meshes.length
    ∧ (BuildMesh sharedDepthWorld (collisionTier 0)).isOk = true
    ∧ (BuildMesh sharedDepthWorld (collisionTier 0)).state.Calls.filter Event.isBuildMesh
        = [.BuildMesh (FOpenLandPolygonMeshBuildOptions.mk 0 0 0) "terrain::0::0",
           .BuildMesh (FOpenLandPolygonMeshBuildOptions.mk 0 0 0) "terrain::0::0",
           .BuildMesh (FOpenLandPolygonMeshBuildOptions.mk 0 0 0) "terrain::0::0"]
    ∧ (BuildMesh sharedDepthWorld (collisionTier 0)).state.Results
        = [{ Original := some 0, Target := some 1, CacheKey := "terrain::0::0" }]
    ∧ (BuildMesh sharedDepthWorld (collisionTier 0)).state.LODs
        = [FLODInfo.mk (some 0) 0 0 false, FLODInfo.mk (some 0) 1 1 false,
           FLODInfo.mk (some 0) 2 2 false]
    ∧ (BuildMesh sharedDepthWorld (collisionTier 0)).state.Sections = [some 1, some 1, some 1]
    ∧ (BuildMesh sharedDepthWorld (collisionTier 0)).state.CurrentLODIndex = 0
    ∧ tierVisibilities (BuildMesh sharedDepthWorld (collisionTier 0))
        = [some false, some false, some false]
    ∧ tierCollisions (BuildMesh sharedDepthWorld (collisionTier 0))
        = [some false, some false, some false] := by
  refine ⟨by decide!, by decide!, by decide!, by decide!, by decide!, by decide!, by decide!,
    by decide!, by decide!, by decide!, by decide!, by decide!, by decide!, by decide!,
    by decide!, by decide!, by decide!, by decide!, by decide!, by decide!, by decide!,
    by decide!, by decide!, by decide!, by decide!, by decide!⟩

/-- What the three functions leave alone: in every environment and from every state,
`BuildMesh`,
`EnsureLODVisibility` and `FinishBuildMeshAsync` (run to their end or stopped on the way)
leave every build result of the store as it was (a fetched result is never written: not
its `Original`, `Target`, sizes, data textures or key), and leave every mesh of the store
as it was but for the flags `bSectionVisible` and `bEnableCollision`: the geometry and the
lock of a fetched target are never written by them. The two flags are written in place. -/
theorem flag_writes_keep_results_and_geometry (env : Env) (s : AOpenLandMeshActor) :
    FlagsOnly s (BuildMesh env s).state
    ∧ FlagsOnly s (EnsureLODVisibility s).state
    ∧ FlagsOnly s (FinishBuildMeshAsync env s).state :=
  ⟨(flags_BuildMesh env).rel s, (keeps_EnsureLODVisibility flagsOnly_frame).rel s,
    (flags_FinishBuildMeshAsync env).rel s⟩

/-! ## Theorems: a deferred modify and an async build -/

/-- C17, a bug of the code: the tick after an absorbed `ModifyMesh` can drop the deferred
modify. `ModifyMesh` on the state of `passInFlight` (a pass is started) runs to its end,
makes no call and sets `bNeedToAsyncModifyMesh`; the next tick polls the pass, which has
completed. The state then reached (`deferredAfterPass`) has the flag set, no pass
started and a current LOD whose target is not locked. The tick that finds it, with the
viewer now at distance 1001, starts the async build of tier 1 in its `SwitchLODs` and
returns: the flag is still set and no modify is run or started. The tick after that
clears the flag, calls `OnAfterAnimations` and `RegisterGpuVertexModifier`, and stops in
`MakeModifyReady` at the null build result of the LOD being built: no
`StartModifyVertices` call is made, in neither tick. With the viewer still at the actor
the tick that finds `deferredAfterPass` does start the modify. -/
theorem deferred_modify_dropped_by_async_build :
    passInFlight.isOk = true
    ∧ passInFlight.state.ModifyStatus.bStarted = true
    ∧ passInFlight.state.bNeedToAsyncModifyMesh = false
    ∧ (ModifyMesh (pipelineAnswers {} {}) passInFlight.state).isOk = true
    ∧ newCalls passInFlight.state (ModifyMesh (pipelineAnswers {} {}) passInFlight.state) = []
    ∧ (ModifyMesh (pipelineAnswers {} {}) passInFlight.state).state.bNeedToAsyncModifyMesh
        = true
    ∧ deferredAfterPass.isOk = true
    ∧ deferredAfterPass.state.bNeedToAsyncModifyMesh = true
    ∧ deferredAfterPass.state.ModifyStatus.bStarted = false
    ∧ deferredAfterPass.state.CurrentLOD = some 0
    ∧ currentResult deferredAfterPass.state = some (some 0)
    ∧ deferredAfterPass.state.Results.map (fun r => r.Target) = [some 1]
    ∧ deferredAfterPass.state.Meshes.map (fun m => m.bLocked) = [false, false]
    ∧ deferredBuildTick.isOk = true
    ∧ watchedCalls deferredAfterPass.state deferredBuildTick
        = [.BuildMeshAsync 1 { SubDivisions := 0, CuspAngle := 0, ForcedTextureWidth := 0 } ""]
    ∧ deferredBuildTick.state.bNeedToAsyncModifyMesh = true
    ∧ deferredBuildTick.state.ModifyStatus.bStarted = false
    ∧ currentResult deferredBuildTick.state = some none
    ∧ deferredLostTick.isOk = false
    ∧ newCalls deferredBuildTick.state deferredLostTick
        = [.UpdateTransforms, .OnAfterAnimations,
           .RegisterGpuVertexModifier FComputeMaterial.empty]
    ∧ deferredLostTick.state.bNeedToAsyncModifyMesh = false
    ∧ deferredLostTick.state.ModifyStatus.bStarted = false
    ∧ (MakeModifyReady deferredBuildTick.state).isOk = false
    ∧ watchedCalls deferredAfterPass.state
          (Tick (pipelineAnswers { bStarted := true } {}) 0 deferredAfterPass.state)
        = [.StartModifyVertices (some 0)
            { RealTimeSeconds := 0, CuspAngle := 0, DesiredFrameRate := 60, LastFrameTime := 0 }
            { bStarted := true }] := by
  refine ⟨?_, ?_, ?_, ?_, ?_, ?_, ?_, ?_, ?_, ?_, ?_, ?_, ?_, ?_, ?_, ?_, ?_, ?_, ?_, ?_, ?_,
    ?_, ?_, ?_⟩ <;> decide!

end OpenLandMesh
